import Mathlib

/-!
# NGINX Gateway Fabric: graph construction, backend references and gateway classes

A shallow embedding of `internal/mode/static/state/graph` (backend_refs.go,
backend_tls_policy.go, gatewayclass.go, graph.go), of the condition
constructors of `internal/mode/static/state/conditions` and of
`internal/mode/static/status` (status_setters.go, prepare_requests.go).

Conventions of the embedding.

* Go `int32` values are `Int`; none of the embedded code does arithmetic on them.
* A Go pointer that is only tested for nil and dereferenced is an `Option`.
  A pointer that the code compares with another pointer carries its address
  (`Ptr`).
* A Go map is an association list (`GoMap`); the order of the list is the order
  in which a `range` loop visits the entries.  A map that the code leaves nil
  until the first insertion is an `Option (GoMap V)`.
* A Go panic (index out of range) is `none`.
* Objects reached through shared pointers and mutated in place (the processed
  BackendTLSPolicies) live in an explicit store that is threaded through the
  functions that mutate them.
* A status setter is a closure over the status to write; one application of a
  freshly built setter is a function of the object that returns `wasSet` and
  the object afterwards. Slices are values: two slices never share storage.
  In an update request the setter is kept as the function that built it and the
  variables it captured.
* The packages `framework/conditions` and `framework/status` are not among the
  sources. The functions of status_setters.go and prepare_requests.go take
  `ConditionsEqual`, `DeduplicateConditions` and `ConvertConditions` as
  parameters; what the properties need of them is stated as a contract.
* `isNamespaceReferenced` and `index.GetServiceNameFromEndpointSlice` are not
  among the sources either; `Graph.IsReferenced` takes them as parameters.
-/

namespace NGF

/-! ## Kubernetes and Gateway API data -/

namespace types

/-- The key of a namespaced object, `k8s.io/apimachinery/pkg/types.NamespacedName`. -/
structure NamespacedName where
  Namespace : String := ""
  Name : String := ""
deriving DecidableEq, Repr

/-- The text of a key, `NamespacedName.String`: namespace, a slash, name. -/
def NamespacedName.String (n : NamespacedName) : String :=
  n.Namespace ++ "/" ++ n.Name

end types

/-- A Go map keyed by `types.NamespacedName`; list order is iteration order. -/
abbrev GoMap (V : Type) := List (types.NamespacedName × V)

/-- Map lookup `m[k]`: the value and `ok`, as an `Option`. -/
def mapLookup {V : Type} (m : GoMap V) (k : types.NamespacedName) : Option V :=
  match m.find? (fun e => decide (e.1 = k)) with
  | some e => some e.2
  | none => none

/-- Map assignment `m[k] = v`: an entry with the same key is replaced. -/
def mapInsert {V : Type} (m : GoMap V) (k : types.NamespacedName) (v : V) : GoMap V :=
  m.filter (fun e => decide (e.1 ≠ k)) ++ [(k, v)]

/-- A pointer whose identity matters: the address and the value it points to. -/
structure Ptr (T : Type) where
  addr : Nat
  val : T
deriving DecidableEq, Repr

/-- Go `p1 == p2` on two possibly nil pointers: both nil, or the same address. -/
def ptrEq {T : Type} (p1 p2 : Option (Ptr T)) : Bool :=
  match p1, p2 with
  | none, none => true
  | some a, some b => decide (a.addr = b.addr)
  | _, _ => false

namespace metav1

/-- The part of `metav1.ObjectMeta` the controller reads. The creation
timestamp is a number of seconds. -/
structure ObjectMeta where
  Namespace : String := ""
  Name : String := ""
  Generation : Int := 0
  CreationTimestamp : Int := 0
deriving DecidableEq, Repr

/-- Metadata of an object without its content, `metav1.PartialObjectMetadata`. -/
structure PartialObjectMetadata extends ObjectMeta where
  Annotations : List (String × String) := []
deriving DecidableEq, Repr

/-- A condition as the API stores it, `metav1.Condition`. -/
structure Condition where
  Type_ : String := ""
  Status : String := ""
  ObservedGeneration : Int := 0
  LastTransitionTime : Int := 0
  Reason : String := ""
  Message : String := ""
deriving DecidableEq, Repr

/-- Status of a condition: `metav1.ConditionTrue`. -/
def ConditionTrue : String := "True"

/-- Status of a condition: `metav1.ConditionFalse`. -/
def ConditionFalse : String := "False"

end metav1

/-- The key of an object, `client.ObjectKeyFromObject`. -/
def ObjectKeyFromObject (m : metav1.ObjectMeta) : types.NamespacedName :=
  { Namespace := m.Namespace, Name := m.Name }

namespace corev1

/-- A port of a Service, `k8s.io/api/core/v1.ServicePort`. -/
structure ServicePort where
  Name : String := ""
  Protocol : String := ""
  Port : Int := 0
  TargetPort : Int := 0
  NodePort : Int := 0
deriving DecidableEq, Repr

/-- The part of `v1.ServiceSpec` the controller reads. -/
structure ServiceSpec where
  Ports : List ServicePort := []
deriving DecidableEq, Repr

/-- A Service, `k8s.io/api/core/v1.Service`. -/
structure Service extends metav1.ObjectMeta where
  Spec : ServiceSpec := {}
deriving DecidableEq, Repr

/-- The part of a Secret resource read by the embedded code. -/
structure Secret extends metav1.ObjectMeta where
  Type_ : String := ""
  Data : List (String × String) := []
deriving DecidableEq, Repr

/-- The part of a ConfigMap resource read by the embedded code. -/
structure ConfigMap extends metav1.ObjectMeta where
  Data : List (String × String) := []
deriving DecidableEq, Repr

/-- The part of a Namespace resource read by the embedded code. -/
structure Namespace extends metav1.ObjectMeta where
  Labels : List (String × String) := []
deriving DecidableEq, Repr

end corev1

namespace gatewayv1

/-- A filter of a route rule or of a backendRef; only its presence is read. -/
structure HTTPRouteFilter where
  Type_ : String := ""
deriving DecidableEq, Repr

/-- Type `gatewayv1.BackendRef`: the embedded BackendObjectReference and the weight. -/
structure BackendRef where
  Group : Option String := none
  Kind : Option String := none
  Name : String := ""
  Namespace : Option String := none
  Port : Option Int := none
  Weight : Option Int := none
deriving DecidableEq, Repr

/-- Type `gatewayv1.HTTPBackendRef`: a BackendRef with filters. -/
structure HTTPBackendRef extends BackendRef where
  Filters : List HTTPRouteFilter := []
deriving DecidableEq, Repr

/-- Type `gatewayv1.ParentReference`. -/
structure ParentReference where
  Namespace : Option String := none
  Name : String := ""
  SectionName : Option String := none
deriving DecidableEq, Repr

/-- Type `gatewayv1.RouteParentStatus`: the status of a route with respect to
one parent, written by one controller. -/
structure RouteParentStatus where
  ParentRef : ParentReference := {}
  ControllerName : String := ""
  Conditions : List metav1.Condition := []
deriving DecidableEq, Repr

/-- Type `gatewayv1.HTTPRouteStatus`, with the embedded `RouteStatus`. -/
structure HTTPRouteStatus where
  Parents : List RouteParentStatus := []
deriving DecidableEq, Repr

/-- The part of `gatewayv1.HTTPRouteRule` read when backend refs are attached. -/
structure HTTPRouteRule where
  BackendRefs : List HTTPBackendRef := []
deriving DecidableEq, Repr

/-- The part of `gatewayv1.HTTPRouteSpec` read when backend refs are attached. -/
structure HTTPRouteSpec where
  ParentRefs : List ParentReference := []
  Rules : List HTTPRouteRule := []
deriving DecidableEq, Repr

/-- An HTTPRoute resource. -/
structure HTTPRoute extends metav1.ObjectMeta where
  Spec : HTTPRouteSpec := {}
  Status : HTTPRouteStatus := {}
deriving DecidableEq, Repr

/-- Type `gatewayv1.ParametersReference`; only its presence is read. -/
structure ParametersReference where
  Group : String := ""
  Kind : String := ""
  Name : String := ""
deriving DecidableEq, Repr

/-- Type `gatewayv1.GatewayClassSpec`. -/
structure GatewayClassSpec where
  ControllerName : String := ""
  ParametersRef : Option ParametersReference := none
deriving DecidableEq, Repr

/-- A GatewayClass resource. -/
structure GatewayClass extends metav1.ObjectMeta where
  Spec : GatewayClassSpec := {}
deriving DecidableEq, Repr

/-- Type `gatewayv1.RouteGroupKind`. -/
structure RouteGroupKind where
  Group : Option String := none
  Kind : String := ""
deriving DecidableEq, Repr

/-- The part of a ReferenceGrant resource (`v1beta1.ReferenceGrant`) that is
kept; its content is read only by the resolver. -/
structure ReferenceGrant extends metav1.ObjectMeta where
  From : List (String × String × String) := []
  To : List (String × String × Option String) := []
deriving DecidableEq, Repr

/-- Type `gatewayv1.GatewayStatusAddress`; the type is a pointer. -/
structure GatewayStatusAddress where
  Type_ : Option String := none
  Value : String := ""
deriving DecidableEq, Repr

/-- Type `gatewayv1.ListenerStatus`. -/
structure ListenerStatus where
  Name : String := ""
  SupportedKinds : List RouteGroupKind := []
  AttachedRoutes : Int := 0
  Conditions : List metav1.Condition := []
deriving DecidableEq, Repr

/-- Type `gatewayv1.GatewayStatus`. -/
structure GatewayStatus where
  Addresses : List GatewayStatusAddress := []
  Conditions : List metav1.Condition := []
  Listeners : List ListenerStatus := []
deriving DecidableEq, Repr

/-- The part of a Gateway resource read by the embedded code. -/
structure Gateway extends metav1.ObjectMeta where
  GatewayClassName : String := ""
  Status : GatewayStatus := {}
deriving DecidableEq, Repr

end gatewayv1

namespace v1alpha2

/-- A reference to a local object, `v1beta1.LocalObjectReference`. -/
structure LocalObjectReference where
  Group : String := ""
  Kind : String := ""
  Name : String := ""
deriving DecidableEq, Repr

/-- The target of a policy, `PolicyTargetReferenceWithSectionName`. -/
structure PolicyTargetReference where
  Group : String := ""
  Kind : String := ""
  Name : String := ""
  Namespace : Option String := none
deriving DecidableEq, Repr

/-- Type `v1alpha2.BackendTLSPolicyConfig`. `CACertRefs` is a slice that may be nil;
`WellKnownCACerts` is a pointer. -/
structure BackendTLSPolicyConfig where
  CACertRefs : Option (List LocalObjectReference) := none
  WellKnownCACerts : Option (Ptr String) := none
  Hostname : String := ""
deriving DecidableEq, Repr

/-- Type `v1alpha2.BackendTLSPolicySpec`. -/
structure BackendTLSPolicySpec where
  TargetRef : PolicyTargetReference := {}
  TLS : BackendTLSPolicyConfig := {}
deriving DecidableEq, Repr

/-- Type `v1alpha2.PolicyAncestorStatus`. -/
structure PolicyAncestorStatus where
  AncestorRef : gatewayv1.ParentReference := {}
  ControllerName : String := ""
  Conditions : List metav1.Condition := []
deriving DecidableEq, Repr

/-- Type `v1alpha2.PolicyStatus`. -/
structure PolicyStatus where
  Ancestors : List PolicyAncestorStatus := []
deriving DecidableEq, Repr

/-- A BackendTLSPolicy resource. -/
structure BackendTLSPolicy extends metav1.ObjectMeta where
  Spec : BackendTLSPolicySpec := {}
  Status : PolicyStatus := {}
deriving DecidableEq, Repr

end v1alpha2

/-! ## Endpoint slices and the watched kinds -/

namespace discoveryV1

/-- The part of an EndpointSlice resource (`k8s.io/api/discovery/v1`) read by the
embedded code. -/
structure EndpointSlice extends metav1.ObjectMeta where
  Labels : List (String × String) := []
deriving DecidableEq, Repr

end discoveryV1

namespace client

/-- A resource handed to the controller, `client.Object`: one of the kinds that
the controller watches. -/
inductive Object where
  | GatewayClass (obj : gatewayv1.GatewayClass)
  | Gateway (obj : gatewayv1.Gateway)
  | HTTPRoute (obj : gatewayv1.HTTPRoute)
  | ReferenceGrant (obj : gatewayv1.ReferenceGrant)
  | BackendTLSPolicy (obj : v1alpha2.BackendTLSPolicy)
  | Service (obj : corev1.Service)
  | EndpointSlice (obj : discoveryV1.EndpointSlice)
  | Secret (obj : corev1.Secret)
  | ConfigMap (obj : corev1.ConfigMap)
  | Namespace (obj : corev1.Namespace)
  | PartialObjectMetadata (obj : metav1.PartialObjectMetadata)
deriving DecidableEq, Repr

end client

namespace index

/-- The label of an EndpointSlice that names its Service,
`index.KubernetesServiceNameLabel`. -/
def KubernetesServiceNameLabel : String := "kubernetes.io/service-name"

/-- Modelled from the spec: `index.GetServiceNameFromEndpointSlice` (package
`framework/controller/index`, not among the sources): the value of the
service-name label of the slice, and the empty name when the slice has none
("A slice without the service-name label is ignored"). `Graph.IsReferenced`
takes the function as a parameter; this model is the instance used at concrete
inputs. -/
def GetServiceNameFromEndpointSlice (obj : discoveryV1.EndpointSlice) : String :=
  match obj.Labels.find? (fun e => e.1 == KubernetesServiceNameLabel) with
  | some e => e.2
  | none => ""

end index

/-! ## Conditions -/

namespace conditions

/-- The controller's own condition record, `framework/conditions.Condition`. -/
structure Condition where
  Type_ : String := ""
  Status : String := ""
  Reason : String := ""
  Message : String := ""
deriving DecidableEq, Repr

end conditions

namespace staticConds

open conditions

/-- Constant `v1.RouteConditionResolvedRefs`. -/
def RouteConditionResolvedRefs : String := "ResolvedRefs"

/-- Constant `v1.RouteReasonInvalidKind`. -/
def RouteReasonInvalidKind : String := "InvalidKind"

/-- Constant `v1.RouteReasonRefNotPermitted`. -/
def RouteReasonRefNotPermitted : String := "RefNotPermitted"

/-- Constant `v1.RouteReasonBackendNotFound`. -/
def RouteReasonBackendNotFound : String := "BackendNotFound"

/-- Reason used with ResolvedRefs when a backendRef has an unsupported value. -/
def RouteReasonBackendRefUnsupportedValue : String := "UnsupportedValue"

/-- The Route has a backendRef with an invalid kind. -/
def NewRouteBackendRefInvalidKind (msg : String) : Condition :=
  { Type_ := RouteConditionResolvedRefs, Status := metav1.ConditionFalse,
    Reason := RouteReasonInvalidKind, Message := msg }

/-- The Route has a backendRef that is not permitted. -/
def NewRouteBackendRefRefNotPermitted (msg : String) : Condition :=
  { Type_ := RouteConditionResolvedRefs, Status := metav1.ConditionFalse,
    Reason := RouteReasonRefNotPermitted, Message := msg }

/-- The Route has a backendRef that points to a non-existing backend. -/
def NewRouteBackendRefRefBackendNotFound (msg : String) : Condition :=
  { Type_ := RouteConditionResolvedRefs, Status := metav1.ConditionFalse,
    Reason := RouteReasonBackendNotFound, Message := msg }

/-- The Route has a backendRef with an unsupported value. -/
def NewRouteBackendRefUnsupportedValue (msg : String) : Condition :=
  { Type_ := RouteConditionResolvedRefs, Status := metav1.ConditionFalse,
    Reason := RouteReasonBackendRefUnsupportedValue, Message := msg }

/-- The BackendTLSPolicy config is valid and accepted by the Gateway. -/
def NewBackendTLSPolicyAccepted : Condition :=
  { Type_ := "Accepted", Status := metav1.ConditionTrue,
    Reason := "Accepted", Message := "BackendTLSPolicy is accepted by the Gateway" }

/-- The BackendTLSPolicy config is invalid. -/
def NewBackendTLSPolicyInvalid (msg : String) : Condition :=
  { Type_ := "Accepted", Status := metav1.ConditionFalse,
    Reason := "Invalid", Message := msg }

/-- The GatewayClass has unsupported parameters. -/
def NewGatewayClassInvalidParameters (msg : String) : Condition :=
  { Type_ := "Accepted", Status := metav1.ConditionFalse,
    Reason := "InvalidParameters", Message := msg }

/-- Message used with the Programmed (false) condition of a listener when nginx
fails to reload. -/
def ListenerMessageFailedNginxReload : String :=
  "The Listener is not programmed due to a failure to " ++
    "reload nginx with the configuration. Please see the nginx container logs for any possible configuration issues."

/-- Reason used with Accepted (false) when the associated Gateway is not
programmed. -/
def RouteReasonGatewayNotProgrammed : String := "GatewayNotProgrammed"

/-- Reason used with Accepted (false) for a Gateway that lost against another
Gateway. -/
def GatewayReasonGatewayConflict : String := "GatewayConflict"

/-- Message that describes `GatewayReasonGatewayConflict`. -/
def GatewayMessageGatewayConflict : String :=
  "The resource is ignored due to a conflicting Gateway resource"

/-- Reason used with Accepted (false) when a value of a field of a Gateway is
invalid or not supported. -/
def GatewayReasonUnsupportedValue : String := "UnsupportedValue"

/-- Reason used with Accepted when a value of a field of a Listener is invalid
or not supported. -/
def ListenerReasonUnsupportedValue : String := "UnsupportedValue"

/-- Message used with the Programmed (false) condition of a Gateway when nginx
fails to reload. -/
def GatewayMessageFailedNginxReload : String :=
  "The Gateway is not programmed due to a failure to " ++
    "reload nginx with the configuration. Please see the nginx container logs for any possible configuration issues"

/-- Message used with `RouteReasonGatewayNotProgrammed` when nginx fails to
reload. -/
def RouteMessageFailedNginxReload : String :=
  GatewayMessageFailedNginxReload ++ ". NGINX may still be configured " ++
    "for this HTTPRoute. However, future updates to this resource will not be configured until the Gateway " ++
    "is programmed again"

/-- The HTTPRoute is accepted. -/
def NewRouteAccepted : Condition :=
  { Type_ := "Accepted", Status := metav1.ConditionTrue,
    Reason := "Accepted", Message := "The route is accepted" }

/-- All the references on the Route are resolved. -/
def NewRouteResolvedRefs : Condition :=
  { Type_ := RouteConditionResolvedRefs, Status := metav1.ConditionTrue,
    Reason := "ResolvedRefs", Message := "All references are resolved" }

/-- The default conditions that must be present in the status of an HTTPRoute. -/
def NewDefaultRouteConditions : List Condition :=
  [NewRouteAccepted, NewRouteResolvedRefs]

/-- The Gateway the Route references is not programmed. -/
def NewRouteGatewayNotProgrammed (msg : String) : Condition :=
  { Type_ := "Accepted", Status := metav1.ConditionFalse,
    Reason := RouteReasonGatewayNotProgrammed, Message := msg }

/-- The Listener is accepted. -/
def NewListenerAccepted : Condition :=
  { Type_ := "Accepted", Status := metav1.ConditionTrue,
    Reason := "Accepted", Message := "Listener is accepted" }

/-- The Listener is programmed. -/
def NewListenerProgrammed : Condition :=
  { Type_ := "Programmed", Status := metav1.ConditionTrue,
    Reason := "Programmed", Message := "Listener is programmed" }

/-- All references in a Listener are resolved. -/
def NewListenerResolvedRefs : Condition :=
  { Type_ := "ResolvedRefs", Status := metav1.ConditionTrue,
    Reason := "ResolvedRefs", Message := "All references are resolved" }

/-- There are no conflicts in a Listener. -/
def NewListenerNoConflicts : Condition :=
  { Type_ := "Conflicted", Status := metav1.ConditionFalse,
    Reason := "NoConflicts", Message := "No conflicts" }

/-- The default conditions that must be present in the status of a Listener. -/
def NewDefaultListenerConditions : List Condition :=
  [NewListenerAccepted, NewListenerProgrammed, NewListenerResolvedRefs, NewListenerNoConflicts]

/-- The Listener is not programmed because it is invalid. -/
def NewListenerNotProgrammedInvalid (msg : String) : Condition :=
  { Type_ := "Programmed", Status := metav1.ConditionFalse,
    Reason := "Invalid", Message := msg }

/-- A field of a Listener has an unsupported value. -/
def NewListenerUnsupportedValue (msg : String) : List Condition :=
  [{ Type_ := "Accepted", Status := metav1.ConditionFalse,
     Reason := ListenerReasonUnsupportedValue, Message := msg },
   NewListenerNotProgrammedInvalid msg]

/-- The Gateway is accepted. -/
def NewGatewayAccepted : Condition :=
  { Type_ := "Accepted", Status := metav1.ConditionTrue,
    Reason := "Accepted", Message := "Gateway is accepted" }

/-- The Gateway is programmed. -/
def NewGatewayProgrammed : Condition :=
  { Type_ := "Programmed", Status := metav1.ConditionTrue,
    Reason := "Programmed", Message := "Gateway is programmed" }

/-- The default conditions that must be present in the status of a Gateway. -/
def NewDefaultGatewayConditions : List Condition :=
  [NewGatewayAccepted, NewGatewayProgrammed]

/-- The Gateway is not programmed because it is invalid. -/
def NewGatewayNotProgrammedInvalid (msg : String) : Condition :=
  { Type_ := "Programmed", Status := metav1.ConditionFalse,
    Reason := "Invalid", Message := msg }

/-- A custom Programmed condition: the Gateway has a conflict with another
Gateway. -/
def NewGatewayConflictNotProgrammed : Condition :=
  { Type_ := "Programmed", Status := metav1.ConditionFalse,
    Reason := GatewayReasonGatewayConflict, Message := GatewayMessageGatewayConflict }

/-- The Gateway has a conflict with another Gateway. -/
def NewGatewayConflict : List Condition :=
  [{ Type_ := "Accepted", Status := metav1.ConditionFalse,
     Reason := GatewayReasonGatewayConflict, Message := GatewayMessageGatewayConflict },
   NewGatewayConflictNotProgrammed]

/-- The Gateway is accepted, but has at least one listener that is invalid. -/
def NewGatewayAcceptedListenersNotValid : Condition :=
  { Type_ := "Accepted", Status := metav1.ConditionTrue,
    Reason := "ListenersNotValid", Message := "Gateway has at least one valid listener" }

/-- The Gateway is not accepted, because all listeners are invalid. -/
def NewGatewayNotAcceptedListenersNotValid : List Condition :=
  let msg := "Gateway has no valid listeners"
  [{ Type_ := "Accepted", Status := metav1.ConditionFalse,
     Reason := "ListenersNotValid", Message := msg },
   NewGatewayNotProgrammedInvalid msg]

/-- A field of the Gateway has an unsupported value. -/
def NewGatewayUnsupportedValue (msg : String) : List Condition :=
  [{ Type_ := "Accepted", Status := metav1.ConditionFalse,
     Reason := GatewayReasonUnsupportedValue, Message := msg },
   { Type_ := "Programmed", Status := metav1.ConditionFalse,
     Reason := GatewayReasonUnsupportedValue, Message := msg }]

/-- The HTTPRoute is not accepted because of an invalid listener. -/
def NewRouteInvalidListener : Condition :=
  { Type_ := "Accepted", Status := metav1.ConditionFalse,
    Reason := "InvalidListener", Message := "Listener is invalid for this parent ref" }

end staticConds

/-! ## Field paths and error texts of the Kubernetes validation library -/

namespace field

/-- The double quote character, used where the library prints a quoted value. -/
def quote (s : String) : String :=
  String.singleton (Char.ofNat 34) ++ s ++ String.singleton (Char.ofNat 34)

/-- Path step `path.Child(name)`. -/
def Child (path name : String) : String := path ++ "." ++ name

/-- Path step `path.Index(i)`. -/
def Index (path : String) (i : Nat) : String := path ++ "[" ++ toString i ++ "]"

/-- Text of `field.TooMany(path, actual, max).Error()`. -/
def TooMany (path : String) (actual max : Nat) : String :=
  path ++ ": Too many: " ++ toString actual ++ ": must have at most " ++ toString max ++ " items"

/-- Text of `field.NotSupported(path, value, validValues).Error()`. -/
def NotSupported (path value : String) (validValues : List String) : String :=
  path ++ ": Unsupported value: " ++ quote value ++ ": supported values: " ++
    ", ".intercalate (validValues.map quote)

/-- Text of `field.Required(path, detail).Error()`. -/
def Required (path detail : String) : String :=
  path ++ ": Required value: " ++ detail

/-- Text of `field.Invalid(path, value, detail).Error()`. -/
def Invalid (path value detail : String) : String :=
  path ++ ": Invalid value: " ++ value ++ ": " ++ detail

/-- Text of `field.Forbidden(path, detail).Error()`. -/
def Forbidden (path detail : String) : String :=
  path ++ ": Forbidden: " ++ detail

/-- Text of `field.NotFound(path, value).Error()`. -/
def NotFound (path value : String) : String :=
  path ++ ": Not found: " ++ quote value

end field

/-! ## Ordering of objects -/

namespace sort

/-- Modelled from the spec: `sort.LessObjectMeta` (package
`internal/mode/static/sort`, not among the sources). The spec orders objects
as "the oldest by creation timestamp wins; ties break by namespace/name
lexicographically". -/
def LessObjectMeta (meta1 meta2 : metav1.ObjectMeta) : Bool :=
  if meta1.CreationTimestamp = meta2.CreationTimestamp then
    if meta1.Namespace = meta2.Namespace then
      decide (meta1.Name < meta2.Name)
    else
      decide (meta1.Namespace < meta2.Namespace)
  else
    decide (meta1.CreationTimestamp < meta2.CreationTimestamp)

end sort

/-! ## The graph: data -/

namespace graph

open conditions

/-- Modelled from the spec: the target of a cross-namespace reference
(reference_grant.go is not among the sources): "to is (kind, namespace, name)". -/
structure toResource where
  kind : String := ""
  namespace_ : String := ""
  name : String := ""
deriving DecidableEq, Repr

/-- Modelled from the spec: the origin of a cross-namespace reference
(reference_grant.go is not among the sources): "from is (kind, namespace)". -/
structure fromResource where
  kind : String := ""
  namespace_ : String := ""
deriving DecidableEq, Repr

/-- Modelled from the spec: the Service named by a key, as the target of a
reference (reference_grant.go is not among the sources). -/
def toService (nsname : types.NamespacedName) : toResource :=
  { kind := "Service", namespace_ := nsname.Namespace, name := nsname.Name }

/-- Modelled from the spec: the HTTPRoutes of a namespace, as the origin of a
reference (reference_grant.go is not among the sources). -/
def fromHTTPRoute (ns : String) : fromResource :=
  { kind := "HTTPRoute", namespace_ := ns }

/-- The ReferenceGrant resolver. Its implementation is not among the sources;
the answer of `refAllowed(to, from)` is a parameter of the embedding. -/
structure referenceGrantResolver where
  refAllowed : toResource → fromResource → Bool

/-- The processed BackendTLSPolicy, `graph.BackendTLSPolicy`. -/
structure BackendTLSPolicy where
  Source : v1alpha2.BackendTLSPolicy := {}
  CaCertRef : types.NamespacedName := {}
  Gateway : types.NamespacedName := {}
  Conditions : List Condition := []
  Valid : Bool := false
  IsReferenced : Bool := false
  Ignored : Bool := false
deriving DecidableEq, Repr

/-- The internal representation of a backendRef of an HTTPRoute,
`graph.BackendRef`. The policy pointer is the policy as it is when the
pointer is stored; the fields read through it later (`Source`) never change. -/
structure BackendRef where
  BackendTLSPolicy : Option BackendTLSPolicy := none
  SvcNsName : types.NamespacedName := {}
  ServicePort : corev1.ServicePort := {}
  Weight : Int := 0
  Valid : Bool := false
deriving DecidableEq, Repr

/-- The attachment of a route to one of its parents. -/
structure ParentRefAttachmentStatus where
  AcceptedHostnames : List (String × List String) := []
  FailedCondition : Condition := {}
  Attached : Bool := false
deriving DecidableEq, Repr

/-- A parent reference of a route, `graph.ParentRef`. -/
structure ParentRef where
  Attachment : Option ParentRefAttachmentStatus := none
  Gateway : types.NamespacedName := {}
  Idx : Nat := 0
deriving DecidableEq, Repr

/-- A rule of a route, `graph.Rule`. -/
structure Rule where
  BackendRefs : List BackendRef := []
  ValidMatches : Bool := false
  ValidFilters : Bool := false
deriving DecidableEq, Repr

/-- A route, `graph.Route`. -/
structure Route where
  Source : gatewayv1.HTTPRoute := {}
  ParentRefs : List ParentRef := []
  Conditions : List Condition := []
  Rules : List Rule := []
  Valid : Bool := false
  Attachable : Bool := false
deriving DecidableEq, Repr

/-- The processed policies, shared by pointer between the graph and the
backend refs: the explicit store of the objects mutated in place. -/
abbrev PolicyStore := GoMap BackendTLSPolicy

/-! ## backend_refs.go -/

/-- Lower bound of a weight. -/
def minWeight : Int := 0

/-- Upper bound of a weight. -/
def maxWeight : Int := 1000000

/-- Source `validateWeight`: an error (its text) or nil. -/
def validateWeight (weight : Int) : Option String :=
  if weight < minWeight ∨ weight > maxWeight then
    some ("must be in the range [" ++ toString minWeight ++ ", " ++ toString maxWeight ++ "]")
  else
    none

/-- Source `getServicePort`: the first port of the Service whose number is
`port`, or the zero ServicePort and an error. -/
def getServicePort (svc : corev1.Service) (port : Int) : corev1.ServicePort × Option String :=
  match svc.Spec.Ports.find? (fun p => decide (p.Port = port)) with
  | some p => (p, none)
  | none =>
    ({}, some ("no matching port for Service " ++ svc.Name ++ " and port " ++ toString port))

/-- Source `getServiceAndPortFromRef`. The result is `none` when the port
pointer is nil and is dereferenced. -/
def getServiceAndPortFromRef (ref : gatewayv1.BackendRef) (routeNamespace : String)
    (services : GoMap corev1.Service) (refPath : String) :
    Option (types.NamespacedName × corev1.ServicePort × Option String) :=
  let ns := match ref.Namespace with
    | some n => n
    | none => routeNamespace
  let svcNsName : types.NamespacedName := { Name := ref.Name, Namespace := ns }
  match mapLookup services svcNsName with
  | none => some (svcNsName, {}, some (field.NotFound (field.Child refPath "name") ref.Name))
  | some svc =>
    match ref.Port with
    | none => none
    | some port =>
      match getServicePort svc port with
      | (_, some err) => some (svcNsName, {}, some err)
      | (svcPort, none) => some (svcNsName, svcPort, none)

/-- Source `validateBackendRef`: the checks in order, returning at the first
failure. A dereference `*p` guarded by `p != nil` reads `p.getD` of the zero
value. -/
def validateBackendRef (ref : gatewayv1.BackendRef) (routeNs : String)
    (refGrantResolver : referenceGrantResolver) (path : String) : Bool × Condition :=
  if ref.Group.isSome && !(ref.Group.getD "" == "core" || ref.Group.getD "" == "") then
    (false, staticConds.NewRouteBackendRefInvalidKind
      (field.NotSupported (field.Child path "group") (ref.Group.getD "") ["core", ""]))
  else if ref.Kind.isSome && ref.Kind.getD "" != "Service" then
    (false, staticConds.NewRouteBackendRefInvalidKind
      (field.NotSupported (field.Child path "kind") (ref.Kind.getD "") ["Service"]))
  else if ref.Namespace.isSome && ref.Namespace.getD "" != routeNs &&
      !(refGrantResolver.refAllowed
          (toService { Namespace := ref.Namespace.getD "", Name := ref.Name })
          (fromHTTPRoute routeNs)) then
    (false, staticConds.NewRouteBackendRefRefNotPermitted
      ("Backend ref to Service " ++
        types.NamespacedName.String { Namespace := ref.Namespace.getD "", Name := ref.Name } ++
        " not permitted by any ReferenceGrant"))
  else if ref.Port.isNone then
    (false, staticConds.NewRouteBackendRefUnsupportedValue
      (field.Required (field.Child path "port") "port cannot be nil"))
  else if ref.Weight.isSome && (validateWeight (ref.Weight.getD 0)).isSome then
    (false, staticConds.NewRouteBackendRefUnsupportedValue
      (field.Invalid (field.Child path "weight") (toString (ref.Weight.getD 0))
        ((validateWeight (ref.Weight.getD 0)).getD "")))
  else
    (true, {})

/-- Source `validateHTTPBackendRef`. -/
def validateHTTPBackendRef (ref : gatewayv1.HTTPBackendRef) (routeNs : String)
    (refGrantResolver : referenceGrantResolver) (path : String) : Bool × Condition :=
  if ref.Filters.length > 0 then
    (false, staticConds.NewRouteBackendRefUnsupportedValue
      (field.TooMany (field.Child path "filters") ref.Filters.length 0))
  else
    validateBackendRef ref.toBackendRef routeNs refGrantResolver path

/-- The loop of `findBackendTLSPolicyForService`: visit one policy of the map.
`cur` is the policy selected so far, with its key. -/
def selectPolicyStep (refName refNs : String)
    (cur : Option (types.NamespacedName × BackendTLSPolicy))
    (entry : types.NamespacedName × BackendTLSPolicy) :
    Option (types.NamespacedName × BackendTLSPolicy) :=
  let btp := entry.2
  let btpNs := match btp.Source.Spec.TargetRef.Namespace with
    | some n => n
    | none => btp.Source.Namespace
  if btp.Source.Spec.TargetRef.Name == refName && btpNs == refNs then
    match cur with
    | some c =>
      if sort.LessObjectMeta btp.Source.toObjectMeta c.2.Source.toObjectMeta then some entry
      else cur
    | none => some entry
  else
    cur

/-- Write through the pointer of the policy stored under `key`. -/
def storeSet (store : PolicyStore) (key : types.NamespacedName) (p : BackendTLSPolicy) :
    PolicyStore :=
  store.map (fun e => if e.1 = key then (e.1, p) else e)

/-- Source `findBackendTLSPolicyForService`: the selected policy (nil when no
policy targets the Service), the error, and the store after the selected
policy was marked as referenced. `none` when `Conditions[0]` of an invalid
policy without conditions is read. -/
def findBackendTLSPolicyForService (backendTLSPolicies : PolicyStore)
    (ref : gatewayv1.HTTPBackendRef) (routeNamespace : String) :
    Option (Option BackendTLSPolicy × Option String × PolicyStore) :=
  let refNs := match ref.Namespace with
    | some n => n
    | none => routeNamespace
  match backendTLSPolicies.foldl (selectPolicyStep ref.Name refNs) none with
  | none => some (none, none, backendTLSPolicies)
  | some (key, p) =>
    if !p.Valid then
      match p.Conditions with
      | [] => none
      | c :: _ =>
        let p1 := { p with IsReferenced := true }
        some (some p1, some ("The backend TLS policy is invalid: " ++ c.Message),
          storeSet backendTLSPolicies key p1)
    else
      let p1 := { p with
        IsReferenced := true
        Conditions := p.Conditions ++ [staticConds.NewBackendTLSPolicyAccepted] }
      some (some p1, none, storeSet backendTLSPolicies key p1)

/-- The first statements of `createBackendRef`: the weight, computed whether
or not the ref is valid. -/
def backendRefWeight (ref : gatewayv1.HTTPBackendRef) : Int :=
  match ref.Weight with
  | some w => if (validateWeight w).isSome then 0 else w
  | none => 1

/-- Source `createBackendRef`: the BackendRef, the condition (nil when the ref
is valid) and the policy store afterwards. `none` when the function panics. -/
def createBackendRef (ref : gatewayv1.HTTPBackendRef) (sourceNamespace : String)
    (refGrantResolver : referenceGrantResolver) (services : GoMap corev1.Service)
    (refPath : String) (backendTLSPolicies : PolicyStore) :
    Option (BackendRef × Option Condition × PolicyStore) :=
  let weight : Int := backendRefWeight ref
  match validateHTTPBackendRef ref sourceNamespace refGrantResolver refPath with
  | (false, cond) =>
    some ({ Weight := weight, Valid := false }, some cond, backendTLSPolicies)
  | (true, _) =>
    match getServiceAndPortFromRef ref.toBackendRef sourceNamespace services refPath with
    | none => none
    | some (svcNsName, svcPort, some err) =>
      some ({ SvcNsName := svcNsName, ServicePort := svcPort, Weight := weight, Valid := false },
        some (staticConds.NewRouteBackendRefRefBackendNotFound err), backendTLSPolicies)
    | some (svcNsName, svcPort, none) =>
      match findBackendTLSPolicyForService backendTLSPolicies ref sourceNamespace with
      | none => none
      | some (_, some err, store) =>
        some ({ SvcNsName := svcNsName, ServicePort := svcPort, Weight := weight,
                Valid := false },
          some (staticConds.NewRouteBackendRefUnsupportedValue err), store)
      | some (backendTLSPolicy, none, store) =>
        some ({ SvcNsName := svcNsName, BackendTLSPolicy := backendTLSPolicy,
                ServicePort := svcPort, Valid := true, Weight := weight },
          none, store)

/-- The closure `checkPoliciesEqual` of
`validateBackendTLSPolicyMatchingAllBackends`: true when the two policies
differ. `slices.Equal` does not tell a nil slice from an empty one; the
`WellKnownCACerts` pointers are compared as pointers. -/
def checkPoliciesEqual (p1 p2 : v1alpha2.BackendTLSPolicy) : Bool :=
  !(p1.Spec.TLS.CACertRefs.getD [] == p2.Spec.TLS.CACertRefs.getD []) ||
    !(ptrEq p1.Spec.TLS.WellKnownCACerts p2.Spec.TLS.WellKnownCACerts) ||
    p1.Spec.TLS.Hostname != p2.Spec.TLS.Hostname

/-- The loop of `validateBackendTLSPolicyMatchingAllBackends`: the value of
`mismatch` when the loop ends, from the reference policy found so far. -/
def policyMismatch : List BackendRef → Option BackendTLSPolicy → Bool
  | [], _ => false
  | backendRef :: rest, referencePolicy =>
    match backendRef.BackendTLSPolicy with
    | none =>
      match referencePolicy with
      | some _ => true
      | none => policyMismatch rest referencePolicy
    | some p =>
      match referencePolicy with
      | none => policyMismatch rest (some p)
      | some r =>
        if checkPoliciesEqual p.Source r.Source then true
        else policyMismatch rest referencePolicy

/-- Source `validateBackendTLSPolicyMatchingAllBackends`: nil, or the condition
that reports a mismatch. -/
def validateBackendTLSPolicyMatchingAllBackends (backendRefs : List BackendRef) :
    Option Condition :=
  if policyMismatch backendRefs none then
    some (staticConds.NewRouteBackendRefUnsupportedValue
      "Backend TLS policies do not match for all backends")
  else
    none

/-- The inner loop of `addBackendRefsToRules`: one BackendRef per source ref,
the conditions to append to the route, and the policy store afterwards. -/
def createBackendRefs (sourceNamespace : String) (refGrantResolver : referenceGrantResolver)
    (services : GoMap corev1.Service) (idx : Nat) :
    List gatewayv1.HTTPBackendRef → Nat → PolicyStore →
      Option (List BackendRef × List Condition × PolicyStore)
  | [], _, store => some ([], [], store)
  | ref :: rest, refIdx, store =>
    let refPath :=
      field.Index (field.Child (field.Index (field.Child "spec" "rules") idx) "backendRefs") refIdx
    match createBackendRef ref sourceNamespace refGrantResolver services refPath store with
    | none => none
    | some (b, cond, store1) =>
      match createBackendRefs sourceNamespace refGrantResolver services idx rest
          (refIdx + 1) store1 with
      | none => none
      | some (bs, conds, store2) => some (b :: bs, cond.toList ++ conds, store2)

/-- The end of the body of the outer loop of `addBackendRefsToRules`: the check
of the policies of a rule with more than one backend. -/
def markMismatch (backendRefs : List BackendRef) : List BackendRef × List Condition :=
  if backendRefs.length > 1 then
    match validateBackendTLSPolicyMatchingAllBackends backendRefs with
    | some cond => (backendRefs.map (fun b => { b with Valid := false }), [cond])
    | none => (backendRefs, [])
  else
    (backendRefs, [])

/-- The outer loop of `addBackendRefsToRules` from rule `idx` on: `srcRules` are
the source rules not visited yet and `rules` the entries of `route.Rules` from
`idx` on. The result is the new entries, the conditions to append to the
route and the store; `none` when `route.Rules[idx]` is out of range. -/
def addBackendRefsLoop (sourceNamespace : String) (refGrantResolver : referenceGrantResolver)
    (services : GoMap corev1.Service) :
    List gatewayv1.HTTPRouteRule → Nat → List Rule → PolicyStore →
      Option (List Rule × List Condition × PolicyStore)
  | [], _, rules, store => some (rules, [], store)
  | _ :: _, _, [], _ => none
  | rule :: srcRest, idx, r :: rest, store =>
    if !r.ValidMatches then
      (addBackendRefsLoop sourceNamespace refGrantResolver services srcRest (idx + 1) rest
        store).map (fun res => (r :: res.1, res.2.1, res.2.2))
    else if !r.ValidFilters then
      (addBackendRefsLoop sourceNamespace refGrantResolver services srcRest (idx + 1) rest
        store).map (fun res => (r :: res.1, res.2.1, res.2.2))
    else if rule.BackendRefs.length == 0 then
      (addBackendRefsLoop sourceNamespace refGrantResolver services srcRest (idx + 1) rest
        store).map (fun res => (r :: res.1, res.2.1, res.2.2))
    else
      match createBackendRefs sourceNamespace refGrantResolver services idx rule.BackendRefs 0
          store with
      | none => none
      | some (backendRefs, conds, store1) =>
        (addBackendRefsLoop sourceNamespace refGrantResolver services srcRest (idx + 1) rest
          store1).map (fun res =>
            ({ r with BackendRefs := (markMismatch backendRefs).1 } :: res.1,
              conds ++ (markMismatch backendRefs).2 ++ res.2.1, res.2.2))

/-- Source `addBackendRefsToRules`: the route and the policy store afterwards. -/
def addBackendRefsToRules (route : Route) (refGrantResolver : referenceGrantResolver)
    (services : GoMap corev1.Service) (backendTLSPolicies : PolicyStore) :
    Option (Route × PolicyStore) :=
  if !route.Valid then
    some (route, backendTLSPolicies)
  else
    match addBackendRefsLoop route.Source.Namespace refGrantResolver services
        route.Source.Spec.Rules 0 route.Rules backendTLSPolicies with
    | none => none
    | some (rules, conds, store) =>
      some ({ route with Rules := rules, Conditions := route.Conditions ++ conds }, store)

/-- Source `addBackendRefsToRouteRules`: every route of the map in turn. -/
def addBackendRefsToRouteRules (routes : GoMap Route)
    (refGrantResolver : referenceGrantResolver) (services : GoMap corev1.Service)
    (backendTLSPolicies : PolicyStore) : Option (GoMap Route × PolicyStore) :=
  match routes with
  | [] => some ([], backendTLSPolicies)
  | (nsname, r) :: rest =>
    match addBackendRefsToRules r refGrantResolver services backendTLSPolicies with
    | none => none
    | some (r1, store1) =>
      (addBackendRefsToRouteRules rest refGrantResolver services store1).map
        (fun res => ((nsname, r1) :: res.1, res.2))

/-- Source `BackendRef.ServicePortReference`; `fmt.Sprintf` with the verbs
`%s_%s_%d` writes the two strings and the port in decimal. -/
def BackendRef.ServicePortReference (b : BackendRef) : String :=
  if !b.Valid then
    ""
  else
    b.SvcNsName.Namespace ++ "_" ++ b.SvcNsName.Name ++ "_" ++ toString b.ServicePort.Port

/-- The test of the loop of `findBackendTLSPolicyForService`: the policy targets
the Service `refName` of the namespace `refNs` (the target namespace defaults to
the namespace of the policy). -/
def policyTargets (refName refNs : String) (btp : BackendTLSPolicy) : Bool :=
  btp.Source.Spec.TargetRef.Name == refName &&
    btp.Source.Spec.TargetRef.Namespace.getD btp.Source.Namespace == refNs

/-! ## The graph: gateways, resolvers and the parts that are not among the sources -/

/-- A listener of the winning Gateway, `graph.Listener`. The attached routes
are kept by key. -/
structure Listener where
  Name : String := ""
  Routes : List types.NamespacedName := []
  ResolvedSecret : Option types.NamespacedName := none
  Conditions : List Condition := []
  SupportedKinds : List gatewayv1.RouteGroupKind := []
  Valid : Bool := false
  Attachable : Bool := false
deriving DecidableEq, Repr

/-- The winning Gateway, `graph.Gateway`. -/
structure Gateway where
  Source : gatewayv1.Gateway := {}
  Listeners : List Listener := []
  Conditions : List Condition := []
  Valid : Bool := false
deriving DecidableEq, Repr

/-- The GatewayClass of the graph, `graph.GatewayClass`. -/
structure GatewayClass where
  Source : gatewayv1.GatewayClass := {}
  Conditions : List Condition := []
  Valid : Bool := false
deriving DecidableEq, Repr

/-- A referenced Secret, `graph.Secret`; the source is nil when the Secret
does not exist. -/
structure Secret where
  Source : Option corev1.Secret := none
deriving DecidableEq, Repr

/-- A referenced CA certificate ConfigMap, `graph.CaCertConfigMap`. -/
structure CaCertConfigMap where
  Source : Option corev1.ConfigMap := none
  CACert : String := ""
deriving DecidableEq, Repr

/-- Modelled from the spec: the Secret resolver (its file is not among the
sources): it "wraps the snapshot's mapping" and "records the set of keys that
were ever asked about during the current graph build". -/
structure secretResolver where
  clusterSecrets : GoMap corev1.Secret := []
  resolvedSecrets : Option (GoMap Secret) := none
deriving DecidableEq, Repr

/-- Modelled from the spec: the ConfigMap resolver (its file is not among the
sources): it "wraps the snapshot's mapping" and "records the set of keys that
were ever asked about during the current graph build". -/
structure configMapResolver where
  clusterConfigMaps : GoMap corev1.ConfigMap := []
  resolvedCaCertConfigMaps : Option (GoMap CaCertConfigMap) := none
deriving DecidableEq, Repr

/-- The result of `processGateways`, whose file is not among the sources. -/
structure processedGateways where
  Winner : Option gatewayv1.Gateway := none
  Ignored : Option (GoMap gatewayv1.Gateway) := none
deriving DecidableEq, Repr

/-- Ports that a listener may not use, with the name of each,
`graph.ProtectedPorts`. -/
abbrev ProtectedPorts := List (Int × String)

/-- The validators handed to `BuildGraph`; their package is not among the
sources and the embedded code only passes them on. -/
structure Validators where
  HTTPFieldsValidator : String := ""
deriving DecidableEq, Repr

/-- The functions that `BuildGraph` and the policy validation call and whose
files are not among the sources. They are parameters of the embedding. -/
structure Externals where
  /-- Function `gatewayclass.ValidateCRDVersions`. -/
  ValidateCRDVersions : GoMap metav1.PartialObjectMetadata → List Condition × Bool
  /-- Function `validateHostname`. -/
  validateHostname : String → Option String
  /-- Method `configMapResolver.resolve`: the error and the resolver afterwards. -/
  resolveConfigMap : configMapResolver → types.NamespacedName → Option String × configMapResolver
  /-- Function `newSecretResolver`. -/
  newSecretResolver : GoMap corev1.Secret → secretResolver
  /-- Function `newConfigMapResolver`. -/
  newConfigMapResolver : GoMap corev1.ConfigMap → configMapResolver
  /-- Function `newReferenceGrantResolver`. -/
  newReferenceGrantResolver : GoMap gatewayv1.ReferenceGrant → referenceGrantResolver
  /-- Function `processGateways`. -/
  processGateways : GoMap gatewayv1.Gateway → String → processedGateways
  /-- Method `processedGateways.GetAllNsNames`. -/
  GetAllNsNames : processedGateways → List types.NamespacedName
  /-- Function `buildGateway`: the Gateway and the secret resolver afterwards. -/
  buildGateway : Option gatewayv1.Gateway → secretResolver → Option GatewayClass →
    referenceGrantResolver → ProtectedPorts → Option Gateway × secretResolver
  /-- Function `buildRoutesForGateways`. -/
  buildRoutesForGateways : Validators → GoMap gatewayv1.HTTPRoute →
    List types.NamespacedName → Option (GoMap Route)
  /-- Function `bindRoutesToListeners`: the routes and the Gateway afterwards. -/
  bindRoutesToListeners : Option (GoMap Route) → Option Gateway → GoMap corev1.Namespace →
    Option (GoMap Route) × Option Gateway
  /-- Function `buildReferencedNamespaces`. -/
  buildReferencedNamespaces : GoMap corev1.Namespace → Option Gateway →
    Option (GoMap corev1.Namespace)
  /-- Function `buildReferencedServices`. -/
  buildReferencedServices : Option (GoMap Route) → Option (GoMap Unit)
  /-- Method `secretResolver.getResolvedSecrets`. -/
  getResolvedSecrets : secretResolver → Option (GoMap Secret)
  /-- Method `configMapResolver.getResolvedConfigMaps`. -/
  getResolvedConfigMaps : configMapResolver → Option (GoMap CaCertConfigMap)

/-! ## backend_tls_policy.go -/

/-- Source `validateAncestorMaxCount`. -/
def validateAncestorMaxCount (backendTLSPolicy : v1alpha2.BackendTLSPolicy) (ctlrName : String)
    (gateway : Gateway) : Option String :=
  if backendTLSPolicy.Status.Ancestors.length ≥ 16 then
    let ancestorRef : gatewayv1.ParentReference :=
      { Namespace := some gateway.Source.Namespace, Name := gateway.Source.Name }
    let alreadyAncestor := backendTLSPolicy.Status.Ancestors.any (fun ancestor =>
      ancestor.ControllerName == ctlrName && ancestor.AncestorRef.Name == ancestorRef.Name &&
        ancestor.AncestorRef.Namespace.isSome &&
        ancestor.AncestorRef.Namespace.getD "" == ancestorRef.Namespace.getD "")
    if !alreadyAncestor then some "too many ancestors, cannot attach a new Gateway" else none
  else
    none

/-- Source `validateBackendTLSHostname`. -/
def validateBackendTLSHostname (ext : Externals) (btp : v1alpha2.BackendTLSPolicy) :
    Option String :=
  match ext.validateHostname btp.Spec.TLS.Hostname with
  | some err => some (field.Invalid "tls.hostname" btp.Spec.TLS.Hostname err)
  | none => none

/-- Source `validateBackendTLSCACertRef`: the error and the resolver afterwards.
`none` when `CACertRefs[0]` is out of range. -/
def validateBackendTLSCACertRef (ext : Externals) (btp : v1alpha2.BackendTLSPolicy)
    (resolver : configMapResolver) : Option (Option String × configMapResolver) :=
  let refs := btp.Spec.TLS.CACertRefs.getD []
  if refs.length != 1 then
    some (some (field.TooMany "tls.cacertrefs" refs.length 1), resolver)
  else
    match refs with
    | [] => none
    | ref0 :: _ =>
      if ref0.Kind != "ConfigMap" then
        some (some (field.NotSupported "tls.cacertrefs[0].kind" ref0.Kind ["ConfigMap"]),
          resolver)
      else if ref0.Group != "" && ref0.Group != "core" then
        some (some (field.NotSupported "tls.cacertrefs[0].group" ref0.Group ["", "core"]),
          resolver)
      else
        let nsName : types.NamespacedName := { Namespace := btp.Namespace, Name := ref0.Name }
        match ext.resolveConfigMap resolver nsName with
        | (some err, resolver1) =>
          some (some (field.Invalid "tls.cacertrefs[0]" ref0.Name err), resolver1)
        | (none, resolver1) => some (none, resolver1)

/-- The value of `v1alpha2.WellKnownCACertSystem`. -/
def WellKnownCACertSystem : String := "System"

/-- Source `validateBackendTLSWellKnownCACerts`. `none` when the pointer is nil. -/
def validateBackendTLSWellKnownCACerts (btp : v1alpha2.BackendTLSPolicy) :
    Option (Option String) :=
  match btp.Spec.TLS.WellKnownCACerts with
  | none => none
  | some p =>
    if p.val != WellKnownCACertSystem then
      some (some (field.NotSupported "tls.wellknowncacerts" p.val [WellKnownCACertSystem]))
    else
      some none

/-- Source `validateBackendTLSPolicy`: valid, ignored, the conditions, and the
ConfigMap resolver afterwards. -/
def validateBackendTLSPolicy (ext : Externals) (backendTLSPolicy : v1alpha2.BackendTLSPolicy)
    (resolver : configMapResolver) (ctlrName : String) (gateway : Gateway) :
    Option (Bool × Bool × List Condition × configMapResolver) :=
  let valid0 := true
  let ignored0 := false
  let (valid1, ignored) :=
    if (validateAncestorMaxCount backendTLSPolicy ctlrName gateway).isSome then (false, true)
    else (valid0, ignored0)
  let (valid2, conds2) : Bool × List Condition :=
    match validateBackendTLSHostname ext backendTLSPolicy with
    | some err => (false, [staticConds.NewBackendTLSPolicyInvalid ("invalid hostname: " ++ err)])
    | none => (valid1, [])
  if backendTLSPolicy.Spec.TLS.CACertRefs.isSome &&
      backendTLSPolicy.Spec.TLS.WellKnownCACerts.isSome then
    some (false, ignored,
      conds2 ++ [staticConds.NewBackendTLSPolicyInvalid
        "CACertRefs and WellKnownCACerts are mutually exclusive"], resolver)
  else if backendTLSPolicy.Spec.TLS.CACertRefs.isSome &&
      (backendTLSPolicy.Spec.TLS.CACertRefs.getD []).length > 0 then
    match validateBackendTLSCACertRef ext backendTLSPolicy resolver with
    | none => none
    | some (some err, resolver1) =>
      some (false, ignored,
        conds2 ++ [staticConds.NewBackendTLSPolicyInvalid ("invalid CACertRef: " ++ err)],
        resolver1)
    | some (none, resolver1) => some (valid2, ignored, conds2, resolver1)
  else if backendTLSPolicy.Spec.TLS.WellKnownCACerts.isSome then
    match validateBackendTLSWellKnownCACerts backendTLSPolicy with
    | none => none
    | some (some err) =>
      some (false, ignored,
        conds2 ++ [staticConds.NewBackendTLSPolicyInvalid ("invalid WellKnownCACerts: " ++ err)],
        resolver)
    | some none => some (valid2, ignored, conds2, resolver)
  else
    some (false, ignored,
      conds2 ++ [staticConds.NewBackendTLSPolicyInvalid
        "CACertRefs and WellKnownCACerts are both nil"], resolver)

/-- The loop of `processBackendTLSPolicies`: the processed policies in the
order of the visit, and the ConfigMap resolver afterwards. -/
def processBackendTLSPoliciesLoop (ext : Externals) (ctlrName : String) (gateway : Gateway) :
    GoMap v1alpha2.BackendTLSPolicy → configMapResolver →
      Option (GoMap BackendTLSPolicy × configMapResolver)
  | [], resolver => some ([], resolver)
  | (nsname, backendTLSPolicy) :: rest, resolver =>
    match validateBackendTLSPolicy ext backendTLSPolicy resolver ctlrName gateway with
    | none => none
    | some (valid, ignored, conds, resolver1) =>
      let caCertRef : Option types.NamespacedName :=
        if valid && !ignored && backendTLSPolicy.Spec.TLS.CACertRefs.isSome then
          match backendTLSPolicy.Spec.TLS.CACertRefs.getD [] with
          | [] => none
          | ref0 :: _ => some { Namespace := backendTLSPolicy.Namespace, Name := ref0.Name }
        else
          some {}
      match caCertRef with
      | none => none
      | some ref =>
        (processBackendTLSPoliciesLoop ext ctlrName gateway rest resolver1).map (fun res =>
          ((nsname,
            { Source := backendTLSPolicy, Valid := valid, Conditions := conds,
              Gateway := { Namespace := gateway.Source.Namespace, Name := gateway.Source.Name },
              CaCertRef := ref, Ignored := ignored }) :: res.1, res.2))

/-- Source `processBackendTLSPolicies`: nil when there is no policy or no
Gateway. -/
def processBackendTLSPolicies (ext : Externals)
    (backendTLSPolicies : GoMap v1alpha2.BackendTLSPolicy) (resolver : configMapResolver)
    (ctlrName : String) (gateway : Option Gateway) :
    Option (Option (GoMap BackendTLSPolicy) × configMapResolver) :=
  match gateway with
  | none => some (none, resolver)
  | some gw =>
    if backendTLSPolicies.length == 0 then some (none, resolver)
    else
      (processBackendTLSPoliciesLoop ext ctlrName gw backendTLSPolicies resolver).map
        (fun res => (some res.1, res.2))

/-- What `processBackendTLSPolicies` stores for the policy `p` under its key:
the source, the key of the winning Gateway, Ignored only with Valid=false and
the CaCertRef of a valid policy with CACertRefs. -/
def processedFrom (gateway : Gateway) (p : types.NamespacedName × v1alpha2.BackendTLSPolicy)
    (e : types.NamespacedName × BackendTLSPolicy) : Prop :=
  e.1 = p.1 ∧ e.2.Source = p.2 ∧
  e.2.Gateway = { Namespace := gateway.Source.Namespace, Name := gateway.Source.Name } ∧
  (e.2.Ignored = true → e.2.Valid = false) ∧
  (e.2.CaCertRef ≠ {} → e.2.Valid = true ∧ p.2.Spec.TLS.CACertRefs.isSome = true) ∧
  (e.2.Valid = true → p.2.Spec.TLS.CACertRefs.isSome = true →
    ∃ ref0 rest, p.2.Spec.TLS.CACertRefs = some (ref0 :: rest) ∧
      e.2.CaCertRef = { Namespace := p.2.Namespace, Name := ref0.Name })

/-! ## gatewayclass.go -/

/-- The resources that belong to this controller, `processedGatewayClasses`. -/
structure processedGatewayClasses where
  Winner : Option gatewayv1.GatewayClass := none
  Ignored : Option (GoMap gatewayv1.GatewayClass) := none
deriving DecidableEq, Repr

/-- The body of the loop of `processGatewayClasses`: visit one class. The
state is the result so far and `gcExists`. -/
def processGatewayClassesStep (gcName controllerName : String)
    (acc : processedGatewayClasses × Bool)
    (entry : types.NamespacedName × gatewayv1.GatewayClass) :
    processedGatewayClasses × Bool :=
  let gc := entry.2
  if gc.Name == gcName then
    if gc.Spec.ControllerName == controllerName then
      ({ acc.1 with Winner := some gc }, true)
    else
      (acc.1, true)
  else if gc.Spec.ControllerName == controllerName then
    ({ acc.1 with
        Ignored := some (mapInsert (acc.1.Ignored.getD []) (ObjectKeyFromObject gc.toObjectMeta) gc) },
      acc.2)
  else
    acc

/-- Source `processGatewayClasses`. -/
def processGatewayClasses (gcs : GoMap gatewayv1.GatewayClass) (gcName controllerName : String) :
    processedGatewayClasses × Bool :=
  gcs.foldl (processGatewayClassesStep gcName controllerName) ({}, false)

/-- Source `validateGatewayClass`. -/
def validateGatewayClass (ext : Externals) (gc : gatewayv1.GatewayClass)
    (crdVersions : GoMap metav1.PartialObjectMetadata) : List Condition × Bool :=
  let (conds, valid) : List Condition × Bool :=
    if gc.Spec.ParametersRef.isSome then
      ([staticConds.NewGatewayClassInvalidParameters
          (field.Forbidden (field.Child "spec" "parametersRef") "parametersRef is not supported")],
        false)
    else
      ([], true)
  let (supportedVersionConds, versionsValid) := ext.ValidateCRDVersions crdVersions
  (conds ++ supportedVersionConds, valid && versionsValid)

/-- Source `buildGatewayClass`. -/
def buildGatewayClass (ext : Externals) (gc : Option gatewayv1.GatewayClass)
    (crdVersions : GoMap metav1.PartialObjectMetadata) : Option GatewayClass :=
  match gc with
  | none => none
  | some gc =>
    let (conds, valid) := validateGatewayClass ext gc crdVersions
    some { Source := gc, Valid := valid, Conditions := conds }

/-! ## graph.go -/

/-- The cluster resources necessary to build the Graph, `graph.ClusterState`. -/
structure ClusterState where
  GatewayClasses : GoMap gatewayv1.GatewayClass := []
  Gateways : GoMap gatewayv1.Gateway := []
  HTTPRoutes : GoMap gatewayv1.HTTPRoute := []
  Services : GoMap corev1.Service := []
  Namespaces : GoMap corev1.Namespace := []
  ReferenceGrants : GoMap gatewayv1.ReferenceGrant := []
  Secrets : GoMap corev1.Secret := []
  CRDMetadata : GoMap metav1.PartialObjectMetadata := []
  BackendTLSPolicies : GoMap v1alpha2.BackendTLSPolicy := []
  ConfigMaps : GoMap corev1.ConfigMap := []
deriving DecidableEq, Repr

/-- The Graph, `graph.Graph`. A nil pointer or a nil map is `none`. -/
structure Graph where
  GatewayClass : Option GatewayClass := none
  Gateway : Option Gateway := none
  IgnoredGatewayClasses : Option (GoMap gatewayv1.GatewayClass) := none
  IgnoredGateways : Option (GoMap gatewayv1.Gateway) := none
  Routes : Option (GoMap Route) := none
  ReferencedSecrets : Option (GoMap Secret) := none
  ReferencedNamespaces : Option (GoMap corev1.Namespace) := none
  ReferencedServices : Option (GoMap Unit) := none
  ReferencedCaCertConfigMaps : Option (GoMap CaCertConfigMap) := none
  BackendTLSPolicies : Option (GoMap BackendTLSPolicy) := none
deriving DecidableEq, Repr

/-- Source `BuildGraph`. `none` when building the graph panics. -/
def BuildGraph (ext : Externals) (state : ClusterState) (controllerName gcName : String)
    (validators : Validators) (protectedPorts : ProtectedPorts) : Option Graph :=
  let (processedGwClasses, gcExists) :=
    processGatewayClasses state.GatewayClasses gcName controllerName
  if gcExists && processedGwClasses.Winner.isNone then
    some {}
  else
    let gc := buildGatewayClass ext processedGwClasses.Winner state.CRDMetadata
    let secretResolver0 := ext.newSecretResolver state.Secrets
    let configMapResolver0 := ext.newConfigMapResolver state.ConfigMaps
    let processedGws := ext.processGateways state.Gateways gcName
    let refGrantResolver := ext.newReferenceGrantResolver state.ReferenceGrants
    let (gw, secretResolver1) :=
      ext.buildGateway processedGws.Winner secretResolver0 gc refGrantResolver protectedPorts
    match processBackendTLSPolicies ext state.BackendTLSPolicies configMapResolver0
        controllerName gw with
    | none => none
    | some (processedBackendTLSPolicies, configMapResolver1) =>
      let routes := ext.buildRoutesForGateways validators state.HTTPRoutes
        (ext.GetAllNsNames processedGws)
      let (routes1, gw1) := ext.bindRoutesToListeners routes gw state.Namespaces
      match addBackendRefsToRouteRules (routes1.getD []) refGrantResolver state.Services
          (processedBackendTLSPolicies.getD []) with
      | none => none
      | some (routes2, policies2) =>
        let routes3 := routes1.map (fun _ => routes2)
        let referencedNamespaces := ext.buildReferencedNamespaces state.Namespaces gw1
        let referencedServices := ext.buildReferencedServices routes3
        some {
          GatewayClass := gc
          Gateway := gw1
          Routes := routes3
          IgnoredGatewayClasses := processedGwClasses.Ignored
          IgnoredGateways := processedGws.Ignored
          ReferencedSecrets := ext.getResolvedSecrets secretResolver1
          ReferencedNamespaces := referencedNamespaces
          ReferencedServices := referencedServices
          ReferencedCaCertConfigMaps := ext.getResolvedConfigMaps configMapResolver1
          BackendTLSPolicies := processedBackendTLSPolicies.map (fun _ => policies2) }

/-- The lookup `_, exists := m[k]` in a map that may be nil. -/
def mapExists {V : Type} (m : Option (GoMap V)) (k : types.NamespacedName) : Bool :=
  match m with
  | some entries => (mapLookup entries k).isSome
  | none => false

/-- Source `Graph.IsReferenced`. The functions `isNamespaceReferenced` and
`index.GetServiceNameFromEndpointSlice` are not among the sources and are
parameters. -/
def Graph.IsReferenced (isNamespaceReferenced : corev1.Namespace → Option graph.Gateway → Bool)
    (GetServiceNameFromEndpointSlice : discoveryV1.EndpointSlice → String)
    (g : Graph) (resourceType : client.Object) (nsname : types.NamespacedName) : Bool :=
  match resourceType with
  | client.Object.Secret _ => mapExists g.ReferencedSecrets nsname
  | client.Object.ConfigMap _ => mapExists g.ReferencedCaCertConfigMaps nsname
  | client.Object.Namespace obj =>
    let existed := mapExists g.ReferencedNamespaces nsname
    let matchesNow := isNamespaceReferenced obj g.Gateway
    existed || matchesNow
  | client.Object.Service _ => mapExists g.ReferencedServices nsname
  | client.Object.EndpointSlice obj =>
    let svcName := GetServiceNameFromEndpointSlice obj
    mapExists g.ReferencedServices { Namespace := nsname.Namespace, Name := svcName }
  | _ => false

end graph

/-! ## Go slices and the condition comparison of the framework -/

namespace slices

/-- Function `slices.EqualFunc(s1, s2, eq)` of the Go standard library: the
slices have the same length and `eq` holds position by position. -/
def EqualFunc {A B : Type} : List A → List B → (A → B → Bool) → Bool
  | [], [], _ => true
  | v1 :: s1, v2 :: s2, eq => if !eq v1 v2 then false else EqualFunc s1 s2 eq
  | _, _, _ => false

/-- Function `slices.ContainsFunc(s, f)` of the Go standard library: some
element of `s` satisfies `f`. -/
def ContainsFunc {A : Type} : List A → (A → Bool) → Bool
  | [], _ => false
  | v :: s, f => if f v then true else ContainsFunc s f

end slices

namespace frameworkStatus

/-- The fields of a condition that the comparison reads; the last transition
time is not among them. -/
def conditionKey (c : metav1.Condition) : String × String × String × String × Int :=
  (c.Type_, c.Status, c.Reason, c.Message, c.ObservedGeneration)

/-- Modelled from the spec: `frameworkStatus.ConditionsEqual` (package
`framework/status`, not among the sources). The spec compares conditions "by
Type/Status/Reason/Message/ObservedGeneration, order-independent". The
functions of status_setters.go take the comparison as a parameter; this model
is the instance used at concrete inputs. -/
def ConditionsEqual (prev cur : List metav1.Condition) : Bool :=
  decide ((prev.map conditionKey).Perm (cur.map conditionKey))

end frameworkStatus

/-! ## Conditions of the framework and update requests -/

namespace conditions

/-- Modelled from the spec: `conditions.DeduplicateConditions` (package
`framework/conditions`, not among the sources): "deduplication by Type keeps
the *last* entry". The functions of prepare_requests.go take the
deduplication as a parameter; this model is the instance used at concrete
inputs. -/
def DeduplicateConditions : List Condition → List Condition
  | [] => []
  | c :: rest =>
    if rest.any (fun d => d.Type_ == c.Type_) then DeduplicateConditions rest
    else c :: DeduplicateConditions rest

/-- The API condition for a condition of the controller, with the generation
observed and the time of the transition. -/
def toAPICondition (observedGeneration transitionTime : Int) (c : Condition) :
    metav1.Condition :=
  { Type_ := c.Type_, Status := c.Status, ObservedGeneration := observedGeneration,
    LastTransitionTime := transitionTime, Reason := c.Reason, Message := c.Message }

/-- Modelled from the spec: `conditions.ConvertConditions` (package
`framework/conditions`, not among the sources). The spec describes a condition
of a status as "a `{type, status, reason, message, observedGeneration,
lastTransitionTime}` record"; the conversion fills it from the controller's
condition, the generation and the transition time it is given. The functions
of prepare_requests.go take the conversion as a parameter; this model is the
instance used at concrete inputs. -/
def ConvertConditions (conds : List Condition) (observedGeneration transitionTime : Int) :
    List metav1.Condition :=
  conds.map (toAPICondition observedGeneration transitionTime)

/-- The contract of `DeduplicateConditions` that the status preparation relies
on, from the spec ("deduplication by Type keeps the *last* entry"): of every
condition type the result holds the last condition of that type of the
input, once, and nothing else. The order of the result is left open. -/
def KeepsLastOfEachType (dedup : List Condition → List Condition) : Prop :=
  ∀ (conds : List Condition) (t : String),
    (dedup conds).filter (fun c => c.Type_ == t) =
      ((conds.filter (fun c => c.Type_ == t)).getLast?).toList

/-- The contract of `ConvertConditions` that the status preparation relies
on: each condition is converted on its own, in place. -/
def ConvertsEachCondition
    (convert : List Condition → Int → Int → List metav1.Condition) : Prop :=
  ∀ (conds : List Condition) (observedGeneration transitionTime : Int),
    convert conds observedGeneration transitionTime =
      conds.map (toAPICondition observedGeneration transitionTime)

end conditions

namespace frameworkStatus

/-- The kind of resource an update request is for (`ResourceType`, an empty
object of the kind). -/
inductive ResourceType where
  | HTTPRoute
  | Gateway
  | BackendTLSPolicy
deriving DecidableEq, Repr

/-- A status setter (`frameworkStatus.Setter`) is a closure; it is given by the
function of status_setters.go that built it and the variables it captured. -/
inductive Setter where
  /-- The closure that `newHTTPRouteStatusSetter(status, gatewayCtlrName)` returns. -/
  | HTTPRouteStatusSetter (status : gatewayv1.HTTPRouteStatus) (gatewayCtlrName : String)
  /-- The closure that `newGatewayStatusSetter(status)` returns. -/
  | GatewayStatusSetter (status : gatewayv1.GatewayStatus)
  /-- The closure that `newBackendTLSPolicyStatusSetter(status, gatewayCtlrName)` returns. -/
  | BackendTLSPolicyStatusSetter (status : v1alpha2.PolicyStatus) (gatewayCtlrName : String)
deriving DecidableEq, Repr

/-- A request to update the status of a resource, `frameworkStatus.UpdateRequest`. -/
structure UpdateRequest where
  NsName : types.NamespacedName := {}
  ResourceType : ResourceType
  Setter : Setter
deriving DecidableEq, Repr

end frameworkStatus

/-! ## status_setters.go -/

namespace status

/-- Source `equalPointers`: the zero value of `T` is `default`. -/
def equalPointers {T : Type} [DecidableEq T] [Inhabited T] (p1 p2 : Option T) : Bool :=
  if p1.isNone && p2.isNone then
    true
  else
    let p1Val : T := match p1 with
      | some v => v
      | none => default
    let p2Val : T := match p2 with
      | some v => v
      | none => default
    decide (p1Val = p2Val)

/-- The closure that `gwStatusEqual` passes to `slices.EqualFunc` for the
addresses. -/
def addressEqual (a1 a2 : gatewayv1.GatewayStatusAddress) : Bool :=
  if !equalPointers a1.Type_ a2.Type_ then false
  else a1.Value == a2.Value

/-- The closure that `gwStatusEqual` passes to `slices.EqualFunc` for the
supported kinds of a listener status. -/
def routeGroupKindEqual (k1 k2 : gatewayv1.RouteGroupKind) : Bool :=
  if k1.Kind != k2.Kind then false
  else equalPointers k1.Group k2.Group

/-- The closure that `gwStatusEqual` passes to `slices.EqualFunc` for the
listener statuses. -/
def listenerStatusEqual (ConditionsEqual : List metav1.Condition → List metav1.Condition → Bool)
    (s1 s2 : gatewayv1.ListenerStatus) : Bool :=
  if s1.Name != s2.Name then false
  else if s1.AttachedRoutes != s2.AttachedRoutes then false
  else if !ConditionsEqual s1.Conditions s2.Conditions then false
  else slices.EqualFunc s1.SupportedKinds s2.SupportedKinds routeGroupKindEqual

/-- Source `gwStatusEqual`. -/
def gwStatusEqual (ConditionsEqual : List metav1.Condition → List metav1.Condition → Bool)
    (prev cur : gatewayv1.GatewayStatus) : Bool :=
  let addressesEqual := slices.EqualFunc prev.Addresses cur.Addresses addressEqual
  if !addressesEqual then false
  else if !ConditionsEqual prev.Conditions cur.Conditions then false
  else slices.EqualFunc prev.Listeners cur.Listeners (listenerStatusEqual ConditionsEqual)

/-- Source `newGatewayStatusSetter`: one application of the setter to a
Gateway: `wasSet` and the object afterwards. -/
def newGatewayStatusSetter
    (ConditionsEqual : List metav1.Condition → List metav1.Condition → Bool)
    (status : gatewayv1.GatewayStatus) (gw : gatewayv1.Gateway) : Bool × gatewayv1.Gateway :=
  if gwStatusEqual ConditionsEqual gw.Status status then
    (false, gw)
  else
    (true, { gw with Status := status })

/-- Source `routeParentStatusEqual`. -/
def routeParentStatusEqual
    (ConditionsEqual : List metav1.Condition → List metav1.Condition → Bool)
    (p1 p2 : gatewayv1.RouteParentStatus) : Bool :=
  if p1.ControllerName != p2.ControllerName then false
  else if p1.ParentRef.Name != p2.ParentRef.Name then false
  else if !equalPointers p1.ParentRef.Namespace p2.ParentRef.Namespace then false
  else if !equalPointers p1.ParentRef.SectionName p2.ParentRef.SectionName then false
  else ConditionsEqual p1.Conditions p2.Conditions

/-- The first loop of `hrStatusEqual`, over the previous parents not visited
yet: false as soon as a parent status of this controller has no equal in
`cur`. -/
def hrStatusEqualPrevLoop
    (ConditionsEqual : List metav1.Condition → List metav1.Condition → Bool)
    (gatewayCtlrName : String) (cur : gatewayv1.HTTPRouteStatus) :
    List gatewayv1.RouteParentStatus → Bool
  | [] => true
  | prevParent :: rest =>
    if prevParent.ControllerName != gatewayCtlrName then
      hrStatusEqualPrevLoop ConditionsEqual gatewayCtlrName cur rest
    else if !slices.ContainsFunc cur.Parents
        (fun curParent => routeParentStatusEqual ConditionsEqual prevParent curParent) then
      false
    else
      hrStatusEqualPrevLoop ConditionsEqual gatewayCtlrName cur rest

/-- The second loop of `hrStatusEqual`, over the current parents not visited
yet: false as soon as a parent status has no equal in `prev`. -/
def hrStatusEqualCurLoop
    (ConditionsEqual : List metav1.Condition → List metav1.Condition → Bool)
    (prev : gatewayv1.HTTPRouteStatus) : List gatewayv1.RouteParentStatus → Bool
  | [] => true
  | curParent :: rest =>
    if !slices.ContainsFunc prev.Parents
        (fun prevParent => routeParentStatusEqual ConditionsEqual curParent prevParent) then
      false
    else
      hrStatusEqualCurLoop ConditionsEqual prev rest

/-- Source `hrStatusEqual`. -/
def hrStatusEqual (ConditionsEqual : List metav1.Condition → List metav1.Condition → Bool)
    (gatewayCtlrName : String) (prev cur : gatewayv1.HTTPRouteStatus) : Bool :=
  if !hrStatusEqualPrevLoop ConditionsEqual gatewayCtlrName cur prev.Parents then false
  else hrStatusEqualCurLoop ConditionsEqual prev cur.Parents

/-- The loop of the setter of `newHTTPRouteStatusSetter`: the parent statuses
of other controllers, appended to `parents` in their order. -/
def keepOtherControllers (gatewayCtlrName : String) :
    List gatewayv1.RouteParentStatus → List gatewayv1.RouteParentStatus →
      List gatewayv1.RouteParentStatus
  | parents, [] => parents
  | parents, os :: rest =>
    if os.ControllerName != gatewayCtlrName then
      keepOtherControllers gatewayCtlrName (parents ++ [os]) rest
    else
      keepOtherControllers gatewayCtlrName parents rest

/-- Source `newHTTPRouteStatusSetter`: one application of a setter built from
`status` to an HTTPRoute: `wasSet`, the object afterwards, and the value of the
captured variable `status` afterwards (the setter appends to it). -/
def newHTTPRouteStatusSetter
    (ConditionsEqual : List metav1.Condition → List metav1.Condition → Bool)
    (status : gatewayv1.HTTPRouteStatus) (gatewayCtlrName : String) (hr : gatewayv1.HTTPRoute) :
    Bool × gatewayv1.HTTPRoute × gatewayv1.HTTPRouteStatus :=
  let status1 : gatewayv1.HTTPRouteStatus :=
    { status with Parents := keepOtherControllers gatewayCtlrName status.Parents hr.Status.Parents }
  if hrStatusEqual ConditionsEqual gatewayCtlrName hr.Status status1 then
    (false, hr, status1)
  else
    (true, { hr with Status := status1 }, status1)

/-- Source `btpAncestorStatusEqual`. -/
def btpAncestorStatusEqual
    (ConditionsEqual : List metav1.Condition → List metav1.Condition → Bool)
    (p1 p2 : v1alpha2.PolicyAncestorStatus) : Bool :=
  if p1.ControllerName != p2.ControllerName then false
  else if p1.AncestorRef.Name != p2.AncestorRef.Name then false
  else if !equalPointers p1.AncestorRef.Namespace p2.AncestorRef.Namespace then false
  else ConditionsEqual p1.Conditions p2.Conditions

/-- The first loop of `btpStatusEqual`, over the previous ancestors not visited
yet: false as soon as an ancestor status of this controller has no equal in
`cur`. -/
def btpStatusEqualPrevLoop
    (ConditionsEqual : List metav1.Condition → List metav1.Condition → Bool)
    (gatewayCtlrName : String) (cur : v1alpha2.PolicyStatus) :
    List v1alpha2.PolicyAncestorStatus → Bool
  | [] => true
  | prevAncestor :: rest =>
    if prevAncestor.ControllerName != gatewayCtlrName then
      btpStatusEqualPrevLoop ConditionsEqual gatewayCtlrName cur rest
    else if !slices.ContainsFunc cur.Ancestors
        (fun curAncestor => btpAncestorStatusEqual ConditionsEqual prevAncestor curAncestor) then
      false
    else
      btpStatusEqualPrevLoop ConditionsEqual gatewayCtlrName cur rest

/-- The second loop of `btpStatusEqual`, over the current ancestors not visited
yet: false as soon as an ancestor status has no equal in `prev`. -/
def btpStatusEqualCurLoop
    (ConditionsEqual : List metav1.Condition → List metav1.Condition → Bool)
    (prev : v1alpha2.PolicyStatus) : List v1alpha2.PolicyAncestorStatus → Bool
  | [] => true
  | curParent :: rest =>
    if !slices.ContainsFunc prev.Ancestors
        (fun prevAncestor => btpAncestorStatusEqual ConditionsEqual curParent prevAncestor) then
      false
    else
      btpStatusEqualCurLoop ConditionsEqual prev rest

/-- Source `btpStatusEqual`. -/
def btpStatusEqual (ConditionsEqual : List metav1.Condition → List metav1.Condition → Bool)
    (gatewayCtlrName : String) (prev cur : v1alpha2.PolicyStatus) : Bool :=
  if !btpStatusEqualPrevLoop ConditionsEqual gatewayCtlrName cur prev.Ancestors then false
  else btpStatusEqualCurLoop ConditionsEqual prev cur.Ancestors

/-- The loop of the setter of `newBackendTLSPolicyStatusSetter`: the ancestor
statuses of other controllers, appended to `ancestors` in their order. -/
def keepOtherAncestors (gatewayCtlrName : String) :
    List v1alpha2.PolicyAncestorStatus → List v1alpha2.PolicyAncestorStatus →
      List v1alpha2.PolicyAncestorStatus
  | ancestors, [] => ancestors
  | ancestors, os :: rest =>
    if os.ControllerName != gatewayCtlrName then
      keepOtherAncestors gatewayCtlrName (ancestors ++ [os]) rest
    else
      keepOtherAncestors gatewayCtlrName ancestors rest

/-- Source `newBackendTLSPolicyStatusSetter`: one application of a setter built
from `status` to a BackendTLSPolicy: `wasSet`, the object afterwards, and the
value of the captured variable `status` afterwards (the setter assigns to
it). -/
def newBackendTLSPolicyStatusSetter
    (ConditionsEqual : List metav1.Condition → List metav1.Condition → Bool)
    (status : v1alpha2.PolicyStatus) (gatewayCtlrName : String)
    (btp : v1alpha2.BackendTLSPolicy) :
    Bool × v1alpha2.BackendTLSPolicy × v1alpha2.PolicyStatus :=
  let ancestors0 := keepOtherAncestors gatewayCtlrName [] btp.Status.Ancestors
  let ancestors := ancestors0 ++ status.Ancestors
  let status1 : v1alpha2.PolicyStatus := { status with Ancestors := ancestors }
  if btpStatusEqual ConditionsEqual gatewayCtlrName btp.Status status1 then
    (false, btp, status1)
  else
    (true, { btp with Status := status1 }, status1)

/-! ## prepare_requests.go -/

/-- The result of an NGINX reload, `NginxReloadResult`: the error is nil or has
a text. -/
structure NginxReloadResult where
  Error : Option String := none
deriving DecidableEq, Repr

/-- The conversion `int32(n)` of a length: the value modulo 2^32, in the
range of a signed 32-bit integer. -/
def int32 (n : Int) : Int :=
  (n + 2147483648) % 4294967296 - 2147483648

/-- The conditions `allConds` that `PrepareRouteRequests` collects for one
parent ref of a route, before deduplication. -/
def routeAllConds (r : graph.Route) (nginxReloadRes : NginxReloadResult)
    (ref : graph.ParentRef) : List conditions.Condition :=
  let defaultConds := staticConds.NewDefaultRouteConditions
  let failedAttachmentCondCount : Nat :=
    match ref.Attachment with
    | some attachment => if !attachment.Attached then 1 else 0
    | none => 0
  let allConds0 : List conditions.Condition := []
  let allConds1 := allConds0 ++ defaultConds
  let allConds2 := allConds1 ++ r.Conditions
  let allConds3 :=
    if failedAttachmentCondCount == 1 then
      match ref.Attachment with
      | some attachment => allConds2 ++ [attachment.FailedCondition]
      | none => allConds2
    else allConds2
  if nginxReloadRes.Error.isSome then
    allConds3 ++ [staticConds.NewRouteGatewayNotProgrammed staticConds.RouteMessageFailedNginxReload]
  else
    allConds3

/-- The body of the inner loop of `PrepareRouteRequests`: the status of the
route for one parent ref. `none` when `ref.Idx` is out of the range of the
parent refs of the source. -/
def routeParentStatus
    (DeduplicateConditions : List conditions.Condition → List conditions.Condition)
    (ConvertConditions : List conditions.Condition → Int → Int → List metav1.Condition)
    (r : graph.Route) (transitionTime : Int) (nginxReloadRes : NginxReloadResult)
    (gatewayCtlrName : String) (ref : graph.ParentRef) : Option gatewayv1.RouteParentStatus :=
  let allConds := routeAllConds r nginxReloadRes ref
  match r.Source.Spec.ParentRefs[ref.Idx]? with
  | none => none
  | some routeRef =>
    let conds := DeduplicateConditions allConds
    let apiConds := ConvertConditions conds r.Source.Generation transitionTime
    some
      { ParentRef :=
          { Namespace := some ref.Gateway.Namespace, Name := ref.Gateway.Name,
            SectionName := routeRef.SectionName },
        ControllerName := gatewayCtlrName,
        Conditions := apiConds }

/-- The inner loop of `PrepareRouteRequests`, over the parent refs not visited
yet: the statuses appended to `parents`. -/
def routeParentStatuses
    (DeduplicateConditions : List conditions.Condition → List conditions.Condition)
    (ConvertConditions : List conditions.Condition → Int → Int → List metav1.Condition)
    (r : graph.Route) (transitionTime : Int) (nginxReloadRes : NginxReloadResult)
    (gatewayCtlrName : String) :
    List graph.ParentRef → List gatewayv1.RouteParentStatus →
      Option (List gatewayv1.RouteParentStatus)
  | [], parents => some parents
  | ref :: rest, parents =>
    match routeParentStatus DeduplicateConditions ConvertConditions r transitionTime
        nginxReloadRes gatewayCtlrName ref with
    | none => none
    | some ps =>
      routeParentStatuses DeduplicateConditions ConvertConditions r transitionTime
        nginxReloadRes gatewayCtlrName rest (parents ++ [ps])

/-- The outer loop of `PrepareRouteRequests`, over the routes not visited yet:
the requests appended to `reqs`. -/
def prepareRouteRequestsLoop
    (DeduplicateConditions : List conditions.Condition → List conditions.Condition)
    (ConvertConditions : List conditions.Condition → Int → Int → List metav1.Condition)
    (transitionTime : Int) (nginxReloadRes : NginxReloadResult) (gatewayCtlrName : String) :
    GoMap graph.Route → List frameworkStatus.UpdateRequest →
      Option (List frameworkStatus.UpdateRequest)
  | [], reqs => some reqs
  | (nsname, r) :: rest, reqs =>
    match routeParentStatuses DeduplicateConditions ConvertConditions r transitionTime
        nginxReloadRes gatewayCtlrName r.ParentRefs [] with
    | none => none
    | some parents =>
      let status : gatewayv1.HTTPRouteStatus := { Parents := parents }
      let req : frameworkStatus.UpdateRequest :=
        { NsName := nsname,
          ResourceType := frameworkStatus.ResourceType.HTTPRoute,
          Setter := frameworkStatus.Setter.HTTPRouteStatusSetter status gatewayCtlrName }
      prepareRouteRequestsLoop DeduplicateConditions ConvertConditions transitionTime
        nginxReloadRes gatewayCtlrName rest (reqs ++ [req])

/-- Source `PrepareRouteRequests`. `none` when the index of a parent ref is out
of range. -/
def PrepareRouteRequests
    (DeduplicateConditions : List conditions.Condition → List conditions.Condition)
    (ConvertConditions : List conditions.Condition → Int → Int → List metav1.Condition)
    (routes : GoMap graph.Route) (transitionTime : Int) (nginxReloadRes : NginxReloadResult)
    (gatewayCtlrName : String) : Option (List frameworkStatus.UpdateRequest) :=
  prepareRouteRequestsLoop DeduplicateConditions ConvertConditions transitionTime
    nginxReloadRes gatewayCtlrName routes []

/-- The conditions `conds` that `prepareGatewayRequest` collects for one
listener, before deduplication. -/
def listenerConds (nginxReloadRes : NginxReloadResult) (l : graph.Listener) :
    List conditions.Condition :=
  let conds := if l.Valid then staticConds.NewDefaultListenerConditions else l.Conditions
  if nginxReloadRes.Error.isSome then
    conds ++ [staticConds.NewListenerNotProgrammedInvalid
      staticConds.ListenerMessageFailedNginxReload]
  else
    conds

/-- The body of the loop of `prepareGatewayRequest`: the status of one
listener. -/
def listenerStatus
    (DeduplicateConditions : List conditions.Condition → List conditions.Condition)
    (ConvertConditions : List conditions.Condition → Int → Int → List metav1.Condition)
    (gateway : graph.Gateway) (transitionTime : Int) (nginxReloadRes : NginxReloadResult)
    (l : graph.Listener) : gatewayv1.ListenerStatus :=
  let conds := listenerConds nginxReloadRes l
  let apiConds := ConvertConditions (DeduplicateConditions conds)
    gateway.Source.Generation transitionTime
  { Name := l.Name, SupportedKinds := l.SupportedKinds,
    AttachedRoutes := int32 l.Routes.length, Conditions := apiConds }

/-- The loop of `prepareGatewayRequest`, over the listeners not visited yet:
the listener statuses and the count of valid listeners afterwards. -/
def prepareListenerStatuses
    (DeduplicateConditions : List conditions.Condition → List conditions.Condition)
    (ConvertConditions : List conditions.Condition → Int → Int → List metav1.Condition)
    (gateway : graph.Gateway) (transitionTime : Int) (nginxReloadRes : NginxReloadResult) :
    List graph.Listener → List gatewayv1.ListenerStatus → Nat →
      List gatewayv1.ListenerStatus × Nat
  | [], listenerStatuses, validListenerCount => (listenerStatuses, validListenerCount)
  | l :: rest, listenerStatuses, validListenerCount =>
    let validListenerCount1 := if l.Valid then validListenerCount + 1 else validListenerCount
    prepareListenerStatuses DeduplicateConditions ConvertConditions gateway transitionTime
      nginxReloadRes rest
      (listenerStatuses ++
        [listenerStatus DeduplicateConditions ConvertConditions gateway transitionTime
          nginxReloadRes l])
      validListenerCount1

/-- The conditions `gwConds` that `prepareGatewayRequest` collects for a valid
Gateway, before deduplication. -/
def gatewayConds (validListenerCount listenerCount : Nat) (nginxReloadRes : NginxReloadResult) :
    List conditions.Condition :=
  let gwConds0 := staticConds.NewDefaultGatewayConditions
  let gwConds1 :=
    if validListenerCount == 0 then
      gwConds0 ++ staticConds.NewGatewayNotAcceptedListenersNotValid
    else if validListenerCount < listenerCount then
      gwConds0 ++ [staticConds.NewGatewayAcceptedListenersNotValid]
    else gwConds0
  if nginxReloadRes.Error.isSome then
    gwConds1 ++ [staticConds.NewGatewayNotProgrammedInvalid
      staticConds.GatewayMessageFailedNginxReload]
  else
    gwConds1

/-- Source `prepareGatewayRequest`. -/
def prepareGatewayRequest
    (DeduplicateConditions : List conditions.Condition → List conditions.Condition)
    (ConvertConditions : List conditions.Condition → Int → Int → List metav1.Condition)
    (gateway : graph.Gateway) (transitionTime : Int)
    (gwAddresses : List gatewayv1.GatewayStatusAddress) (nginxReloadRes : NginxReloadResult) :
    frameworkStatus.UpdateRequest :=
  if !gateway.Valid then
    let conds := ConvertConditions (DeduplicateConditions gateway.Conditions)
      gateway.Source.Generation transitionTime
    { NsName := ObjectKeyFromObject gateway.Source.toObjectMeta,
      ResourceType := frameworkStatus.ResourceType.Gateway,
      Setter := frameworkStatus.Setter.GatewayStatusSetter { Conditions := conds } }
  else
    let (listenerStatuses, validListenerCount) :=
      prepareListenerStatuses DeduplicateConditions ConvertConditions gateway transitionTime
        nginxReloadRes gateway.Listeners [] 0
    let gwConds := gatewayConds validListenerCount gateway.Listeners.length nginxReloadRes
    let apiGwConds := ConvertConditions (DeduplicateConditions gwConds)
      gateway.Source.Generation transitionTime
    { NsName := ObjectKeyFromObject gateway.Source.toObjectMeta,
      ResourceType := frameworkStatus.ResourceType.Gateway,
      Setter := frameworkStatus.Setter.GatewayStatusSetter
        { Listeners := listenerStatuses, Conditions := apiGwConds, Addresses := gwAddresses } }

/-- The loop of `PrepareGatewayRequests` over the ignored Gateways not visited
yet: the requests appended to `reqs`. -/
def prepareIgnoredGatewayRequests
    (ConvertConditions : List conditions.Condition → Int → Int → List metav1.Condition)
    (transitionTime : Int) :
    GoMap gatewayv1.Gateway → List frameworkStatus.UpdateRequest →
      List frameworkStatus.UpdateRequest
  | [], reqs => reqs
  | (nsname, gw) :: rest, reqs =>
    let apiConds := ConvertConditions staticConds.NewGatewayConflict gw.Generation transitionTime
    prepareIgnoredGatewayRequests ConvertConditions transitionTime rest
      (reqs ++
        [{ NsName := nsname,
           ResourceType := frameworkStatus.ResourceType.Gateway,
           Setter := frameworkStatus.Setter.GatewayStatusSetter { Conditions := apiConds } }])

/-- Source `PrepareGatewayRequests`. -/
def PrepareGatewayRequests
    (DeduplicateConditions : List conditions.Condition → List conditions.Condition)
    (ConvertConditions : List conditions.Condition → Int → Int → List metav1.Condition)
    (gateway : Option graph.Gateway) (ignoredGateways : GoMap gatewayv1.Gateway)
    (transitionTime : Int) (gwAddresses : List gatewayv1.GatewayStatusAddress)
    (nginxReloadRes : NginxReloadResult) : List frameworkStatus.UpdateRequest :=
  let reqs0 : List frameworkStatus.UpdateRequest := []
  let reqs1 :=
    match gateway with
    | some gw =>
      reqs0 ++ [prepareGatewayRequest DeduplicateConditions ConvertConditions gw transitionTime
        gwAddresses nginxReloadRes]
    | none => reqs0
  prepareIgnoredGatewayRequests ConvertConditions transitionTime ignoredGateways reqs1

/-- The status `status` that `PrepareBackendTLSPolicyRequests` builds for a
policy that it does not skip. -/
def backendTLSPolicyStatus
    (DeduplicateConditions : List conditions.Condition → List conditions.Condition)
    (ConvertConditions : List conditions.Condition → Int → Int → List metav1.Condition)
    (transitionTime : Int) (gatewayCtlrName : String) (pol : graph.BackendTLSPolicy) :
    v1alpha2.PolicyStatus :=
  let conds := DeduplicateConditions pol.Conditions
  let apiConds := ConvertConditions conds pol.Source.Generation transitionTime
  { Ancestors :=
      [{ AncestorRef := { Namespace := some pol.Gateway.Namespace, Name := pol.Gateway.Name },
         ControllerName := gatewayCtlrName,
         Conditions := apiConds }] }

/-- The loop of `PrepareBackendTLSPolicyRequests`, over the policies not
visited yet: the requests appended to `reqs`. -/
def prepareBackendTLSPolicyRequestsLoop
    (DeduplicateConditions : List conditions.Condition → List conditions.Condition)
    (ConvertConditions : List conditions.Condition → Int → Int → List metav1.Condition)
    (transitionTime : Int) (gatewayCtlrName : String) :
    GoMap graph.BackendTLSPolicy → List frameworkStatus.UpdateRequest →
      List frameworkStatus.UpdateRequest
  | [], reqs => reqs
  | (nsname, pol) :: rest, reqs =>
    if !pol.IsReferenced || pol.Ignored then
      prepareBackendTLSPolicyRequestsLoop DeduplicateConditions ConvertConditions
        transitionTime gatewayCtlrName rest reqs
    else
      let status := backendTLSPolicyStatus DeduplicateConditions ConvertConditions
        transitionTime gatewayCtlrName pol
      prepareBackendTLSPolicyRequestsLoop DeduplicateConditions ConvertConditions
        transitionTime gatewayCtlrName rest
        (reqs ++
          [{ NsName := nsname,
             ResourceType := frameworkStatus.ResourceType.BackendTLSPolicy,
             Setter := frameworkStatus.Setter.BackendTLSPolicyStatusSetter status
               gatewayCtlrName }])

/-- Source `PrepareBackendTLSPolicyRequests`. -/
def PrepareBackendTLSPolicyRequests
    (DeduplicateConditions : List conditions.Condition → List conditions.Condition)
    (ConvertConditions : List conditions.Condition → Int → Int → List metav1.Condition)
    (policies : GoMap graph.BackendTLSPolicy) (transitionTime : Int)
    (gatewayCtlrName : String) : List frameworkStatus.UpdateRequest :=
  prepareBackendTLSPolicyRequestsLoop DeduplicateConditions ConvertConditions transitionTime
    gatewayCtlrName policies []

/-! ## Concrete inputs for the status setters -/

/-- A parent status written by the controller `ours`. -/
def oursParent : gatewayv1.RouteParentStatus :=
  { ParentRef := { Namespace := some "test", Name := "our-parent", SectionName := some "section1" },
    ControllerName := "ours", Conditions := [{ Type_ := "type" }] }

/-- An older parent status of the controller `ours` for the same parent. -/
def oursOldParent : gatewayv1.RouteParentStatus :=
  { oursParent with Conditions := [{ Type_ := "type", Message := "old condition" }] }

/-- A parent status written by another controller. -/
def notOursParent : gatewayv1.RouteParentStatus :=
  { ParentRef := { Namespace := some "test", Name := "not-our-parent",
                   SectionName := some "section1" },
    ControllerName := "not-ours", Conditions := [{ Type_ := "type" }] }

/-- The new status of an HTTPRoute: the one parent status of `ours`. -/
def oursStatus : gatewayv1.HTTPRouteStatus := { Parents := [oursParent] }

/-- An HTTPRoute whose status holds a status of another controller and an old
status of `ours`. -/
def routeWithOldStatus : gatewayv1.HTTPRoute :=
  { Namespace := "test", Name := "hr", Status := { Parents := [notOursParent, oursOldParent] } }

/-- A listener status with two supported kinds, HTTPRoute first. -/
def listenerHTTPFirst : gatewayv1.ListenerStatus :=
  { Name := "listener1", AttachedRoutes := 1,
    SupportedKinds := [{ Group := some "gateway.networking.k8s.io", Kind := "HTTPRoute" },
                       { Group := some "gateway.networking.k8s.io", Kind := "TCPRoute" }] }

/-- The listener status `listenerHTTPFirst` with its supported kinds in the
other order. -/
def listenerTCPFirst : gatewayv1.ListenerStatus :=
  { listenerHTTPFirst with
    SupportedKinds := [{ Group := some "gateway.networking.k8s.io", Kind := "TCPRoute" },
                       { Group := some "gateway.networking.k8s.io", Kind := "HTTPRoute" }] }

/-- The listener status `listenerHTTPFirst` with the group of its second kind
left nil and the first written as the empty group. -/
def listenerCoreGroups : gatewayv1.ListenerStatus :=
  { Name := "listener1", AttachedRoutes := 1,
    SupportedKinds := [{ Group := some "", Kind := "Service" }, { Group := none, Kind := "Pod" }] }

/-- A Gateway whose status has one address and no listener status yet. -/
def gatewayWithOldStatus : gatewayv1.Gateway :=
  { Namespace := "test", Name := "gateway",
    Status := { Addresses := [{ Type_ := some "IPAddress", Value := "10.0.0.0" }] } }

/-- The Gateway status to write: one address, one listener status. -/
def newGatewayStatus : gatewayv1.GatewayStatus :=
  { Addresses := [{ Type_ := some "IPAddress", Value := "10.0.0.0" }],
    Conditions := [{ Type_ := "Accepted", Status := "True" }],
    Listeners := [listenerHTTPFirst] }

/-! ## Concrete inputs for the status preparation -/

/-- A reload of NGINX that failed. -/
def failedReload : NginxReloadResult := { Error := some "reload failed" }

/-- A valid route `test/hr` attached to the listener `listener-80-1` of the
Gateway `test/gateway`. -/
def attachedRoute : graph.Route :=
  { Source := { Namespace := "test", Name := "hr", Generation := 3,
                Spec := { ParentRefs := [{ Name := "gateway",
                                           SectionName := some "listener-80-1" }] } },
    ParentRefs := [{ Idx := 0, Gateway := { Namespace := "test", Name := "gateway" },
                     Attachment := some { Attached := true } }],
    Valid := true, Attachable := true }

/-- A route `test/hr2` with a backend that was not found, whose attachment to
the Gateway failed because of an invalid listener. -/
def rejectedRoute : graph.Route :=
  { Source := { Namespace := "test", Name := "hr2", Generation := 5,
                Spec := { ParentRefs := [{ Name := "gateway",
                                           SectionName := some "listener-80-2" }] } },
    ParentRefs := [{ Idx := 0, Gateway := { Namespace := "test", Name := "gateway" },
                     Attachment := some { Attached := false,
                                          FailedCondition := staticConds.NewRouteInvalidListener } }],
    Conditions := [staticConds.NewRouteBackendRefRefBackendNotFound "backend not found"],
    Valid := true, Attachable := true }

/-- The routes `test/hr` and `test/hr2` of the graph. -/
def preparedRoutes : GoMap graph.Route :=
  [({ Namespace := "test", Name := "hr" }, attachedRoute),
   ({ Namespace := "test", Name := "hr2" }, rejectedRoute)]

/-- A valid listener with one attached route. -/
def validListener : graph.Listener :=
  { Name := "listener-80-1", Routes := [{ Namespace := "test", Name := "hr" }],
    SupportedKinds := [{ Kind := "HTTPRoute" }], Valid := true, Attachable := true }

/-- An invalid listener, with the conditions of an unsupported value. -/
def invalidListener : graph.Listener :=
  { Name := "listener-80-2",
    Conditions := staticConds.NewListenerUnsupportedValue "unsupported value",
    SupportedKinds := [{ Kind := "HTTPRoute" }] }

/-- The valid winning Gateway `test/gateway`, with a valid and an invalid
listener. -/
def preparedGateway : graph.Gateway :=
  { Source := { Namespace := "test", Name := "gateway", Generation := 2 },
    Listeners := [validListener, invalidListener], Valid := true }

/-- An invalid winning Gateway `test/gateway`: a field of its spec has an
unsupported value. -/
def invalidGateway : graph.Gateway :=
  { Source := { Namespace := "test", Name := "gateway", Generation := 2 },
    Listeners := [validListener],
    Conditions := staticConds.NewGatewayUnsupportedValue "unsupported value" }

/-- The ignored Gateway `test/gateway-2`. -/
def ignoredGateways : GoMap gatewayv1.Gateway :=
  [({ Namespace := "test", Name := "gateway-2" },
    { Namespace := "test", Name := "gateway-2", Generation := 1 })]

/-- An ancestor status written by another controller. -/
def theirAncestor : v1alpha2.PolicyAncestorStatus :=
  { AncestorRef := { Namespace := some "test", Name := "their-gateway" },
    ControllerName := "their.controller" }

/-- An old ancestor status of the controller `my.controller` for the Gateway
`test/gateway`. -/
def oursOldAncestor : v1alpha2.PolicyAncestorStatus :=
  { AncestorRef := { Namespace := some "test", Name := "gateway" },
    ControllerName := "my.controller",
    Conditions := [{ Type_ := "Accepted", Status := "False", Reason := "Invalid" }] }

/-- A BackendTLSPolicy whose status holds 16 ancestors: 15 of another
controller and an old one of `my.controller`. -/
def policyWithSixteenAncestors : v1alpha2.BackendTLSPolicy :=
  { Namespace := "test", Name := "btp", Generation := 4,
    Status := { Ancestors := List.replicate 15 theirAncestor ++ [oursOldAncestor] } }

/-- The processed policies: `test/btp`, referenced; `test/btp-ignored`,
referenced but ignored; `test/btp-unreferenced`, which no backendRef selected. -/
def processedPolicies : GoMap graph.BackendTLSPolicy :=
  [({ Namespace := "test", Name := "btp" },
    { Source := policyWithSixteenAncestors,
      Gateway := { Namespace := "test", Name := "gateway" },
      Conditions := [staticConds.NewBackendTLSPolicyAccepted],
      Valid := true, IsReferenced := true }),
   ({ Namespace := "test", Name := "btp-ignored" },
    { Source := { Namespace := "test", Name := "btp-ignored" },
      Gateway := { Namespace := "test", Name := "gateway" },
      IsReferenced := true, Ignored := true }),
   ({ Namespace := "test", Name := "btp-unreferenced" },
    { Source := { Namespace := "test", Name := "btp-unreferenced" },
      Gateway := { Namespace := "test", Name := "gateway" },
      Valid := true })]

/-- The new ancestor status of `my.controller` for the Gateway `test/gateway`. -/
def oursNewAncestor : v1alpha2.PolicyAncestorStatus :=
  { AncestorRef := { Namespace := some "test", Name := "gateway" },
    ControllerName := "my.controller",
    Conditions := [{ Type_ := "Accepted", Status := "True", Reason := "Accepted" }] }

/-- A BackendTLSPolicy whose status holds an old ancestor status of
`my.controller` and, after it, one of another controller. -/
def policyWithOldStatus : v1alpha2.BackendTLSPolicy :=
  { Namespace := "test", Name := "btp", Generation := 4,
    Status := { Ancestors := [oursOldAncestor, theirAncestor] } }

/-- An ancestor status of the controller `ctlr1`. -/
def ancestor1 : v1alpha2.PolicyAncestorStatus :=
  { AncestorRef := { Namespace := some "ns1", Name := "ancestor1" }, ControllerName := "ctlr1",
    Conditions := [{ Type_ := "otherType", Status := "otherStatus" }] }

/-- An ancestor status of the controller `ctlr2`. -/
def ancestor2 : v1alpha2.PolicyAncestorStatus :=
  { AncestorRef := { Namespace := some "ns2", Name := "ancestor2" }, ControllerName := "ctlr2",
    Conditions := [{ Type_ := "otherType", Status := "otherStatus" }] }

/-- Another ancestor status of the controller `ctlr2`. -/
def ancestor3 : v1alpha2.PolicyAncestorStatus :=
  { AncestorRef := { Namespace := some "ns3", Name := "ancestor3" }, ControllerName := "ctlr2",
    Conditions := [{ Type_ := "otherType", Status := "otherStatus" }] }

end status

namespace graph

open conditions

/-! ## Concrete inputs -/

/-- A resolver for a cluster without any ReferenceGrant: no reference is allowed. -/
def noGrants : referenceGrantResolver := ⟨fun _ _ => false⟩

/-- A backendRef to a Service of another namespace, with a group that is not
supported. -/
def crossNsRefBadGroup : gatewayv1.HTTPBackendRef :=
  { Name := "service", Namespace := some "service-ns", Group := some "apps", Port := some 80 }

/-- A backendRef to a Service of another namespace, with a weight out of range. -/
def crossNsRefBadWeight : gatewayv1.HTTPBackendRef :=
  { Name := "service", Namespace := some "service-ns", Port := some 80, Weight := some 5000000 }

/-- A Service `test/service` with port 80. -/
def testService : corev1.Service :=
  { Namespace := "test", Name := "service", Spec := { Ports := [{ Name := "http", Port := 80 }] } }

/-- A backendRef to `service` port 80 in the namespace of the route. -/
def sameNsRef : gatewayv1.HTTPBackendRef :=
  { Name := "service", Port := some 80, Weight := some 5 }

/-- The BackendRef that `createBackendRef` builds for `sameNsRef`. -/
def sameNsBackendRef : BackendRef :=
  { SvcNsName := { Namespace := "test", Name := "service" },
    ServicePort := { Name := "http", Port := 80 }, Weight := 5, Valid := true }

/-- The collaborators of `BuildGraph` in a cluster that has GatewayClasses and
nothing else: no Gateway wins, no route is built, nothing is resolved. -/
def emptyExternals : Externals where
  ValidateCRDVersions := fun _ => ([], true)
  validateHostname := fun _ => none
  resolveConfigMap := fun r _ => (none, r)
  newSecretResolver := fun s => { clusterSecrets := s }
  newConfigMapResolver := fun c => { clusterConfigMaps := c }
  newReferenceGrantResolver := fun _ => noGrants
  processGateways := fun _ _ => {}
  GetAllNsNames := fun _ => []
  buildGateway := fun _ s _ _ _ => (none, s)
  buildRoutesForGateways := fun _ _ _ => none
  bindRoutesToListeners := fun r g _ => (r, g)
  buildReferencedNamespaces := fun _ _ => none
  buildReferencedServices := fun _ => none
  getResolvedSecrets := fun s => s.resolvedSecrets
  getResolvedConfigMaps := fun c => c.resolvedCaCertConfigMaps

/-- A GatewayClass `other-class` that references the controller `my.controller`. -/
def otherClass : gatewayv1.GatewayClass :=
  { Name := "other-class", Spec := { ControllerName := "my.controller" } }

/-- A GatewayClass `test-class` that references another controller. -/
def foreignTestClass : gatewayv1.GatewayClass :=
  { Name := "test-class", Spec := { ControllerName := "their.controller" } }

/-- A cluster whose only GatewayClass is `other-class`: the configured class
`test-class` does not exist. -/
def stateWithoutConfiguredClass : ClusterState :=
  { GatewayClasses := [({ Name := "other-class" }, otherClass)] }

/-- A cluster in which the configured class `test-class` references another
controller and `other-class` references this one. -/
def stateWithForeignConfiguredClass : ClusterState :=
  { GatewayClasses :=
      [({ Name := "other-class" }, otherClass), ({ Name := "test-class" }, foreignTestClass)] }

/-- A processed, valid BackendTLSPolicy `test/btp` that targets the Service
`service`. -/
def testPolicy : BackendTLSPolicy :=
  { Source :=
      { Namespace := "test", Name := "btp",
        Spec := { TargetRef := { Kind := "Service", Name := "service" },
                  TLS := { Hostname := "example.com", WellKnownCACerts := some ⟨1, "System"⟩ } } },
    Valid := true }

/-- A second policy with the configuration of `testPolicy`; its
`WellKnownCACerts` is another pointer to an equal value. -/
def testPolicyCopy : BackendTLSPolicy :=
  { Source :=
      { Namespace := "test", Name := "btp2",
        Spec := { TargetRef := { Kind := "Service", Name := "service2" },
                  TLS := { Hostname := "example.com", WellKnownCACerts := some ⟨2, "System"⟩ } } },
    Valid := true }

/-- A valid BackendRef to `test/service2`, which no policy targets. -/
def refWithoutPolicy : BackendRef :=
  { SvcNsName := { Namespace := "test", Name := "service2" },
    ServicePort := { Name := "http", Port := 80 }, Weight := 1, Valid := true }

/-- A valid BackendRef to `test/service`, with the policy `testPolicy`. -/
def refWithPolicy : BackendRef :=
  { BackendTLSPolicy := some testPolicy,
    SvcNsName := { Namespace := "test", Name := "service" },
    ServicePort := { Name := "http", Port := 80 }, Weight := 1, Valid := true }

/-- A valid BackendRef to `test/service2`, with the policy `testPolicyCopy`. -/
def refWithPolicyCopy : BackendRef :=
  { BackendTLSPolicy := some testPolicyCopy,
    SvcNsName := { Namespace := "test", Name := "service2" },
    ServicePort := { Name := "http", Port := 80 }, Weight := 1, Valid := true }

/-- The Services `test/service` and `test/service2`, each with port 80. -/
def testServices : GoMap corev1.Service :=
  [({ Namespace := "test", Name := "service" }, testService),
   ({ Namespace := "test", Name := "service2" },
    { Namespace := "test", Name := "service2",
      Spec := { Ports := [{ Name := "http", Port := 80 }] } })]

/-- A valid route `test/hr` with one rule and one backendRef, `sameNsRef`. -/
def testRoute : Route :=
  { Source := { Namespace := "test", Name := "hr",
                Spec := { Rules := [{ BackendRefs := [sameNsRef] }] } },
    Rules := [{ ValidMatches := true, ValidFilters := true }],
    Valid := true, Attachable := true }

/-- A valid route `test/hr` with one rule and two backendRefs: to `service`,
which `testPolicy` targets, and to `service2`, which no policy targets. -/
def mismatchRoute : Route :=
  { Source := { Namespace := "test", Name := "hr",
                Spec := { Rules := [{ BackendRefs :=
                  [{ Name := "service", Port := some 80 },
                   { Name := "service2", Port := some 80 }] }] } },
    Rules := [{ ValidMatches := true, ValidFilters := true }],
    Valid := true, Attachable := true }
/-- The route `testRoute` after `addBackendRefsToRules`. -/
def testRouteResult : Route :=
  { testRoute with
    Rules := [{ BackendRefs := [sameNsBackendRef], ValidMatches := true, ValidFilters := true }] }

/-- The policy `testPolicy` after a backendRef selected it. -/
def referencedTestPolicy : BackendTLSPolicy :=
  { testPolicy with
    IsReferenced := true, Conditions := [staticConds.NewBackendTLSPolicyAccepted] }

/-- The policy store that holds `testPolicy`. -/
def testPolicyStore : PolicyStore := [({ Namespace := "test", Name := "btp" }, testPolicy)]

/-- The BackendRefs that `createBackendRef` computes for the rule of
`mismatchRoute`. -/
def mismatchBackendRefs : List BackendRef :=
  [{ refWithPolicy with BackendTLSPolicy := some referencedTestPolicy }, refWithoutPolicy]

/-- The route `mismatchRoute` after `addBackendRefsToRules`. -/
def mismatchRouteResult : Route :=
  { mismatchRoute with
    Rules := [{ BackendRefs := mismatchBackendRefs.map (fun b => { b with Valid := false }),
                ValidMatches := true, ValidFilters := true }],
    Conditions := [staticConds.NewRouteBackendRefUnsupportedValue
      "Backend TLS policies do not match for all backends"] }

/-- An ancestor status written by another controller for another Gateway. -/
def foreignAncestor : v1alpha2.PolicyAncestorStatus :=
  { AncestorRef := { Namespace := some "test", Name := "other-gateway" },
    ControllerName := "their.controller" }

/-- A policy whose status already holds 16 ancestors of another controller. -/
def overflowedPolicy : v1alpha2.BackendTLSPolicy :=
  { Namespace := "test", Name := "btp",
    Spec := { TargetRef := { Kind := "Service", Name := "service" },
              TLS := { Hostname := "example.com", WellKnownCACerts := some ⟨1, "System"⟩ } },
    Status := { Ancestors := List.replicate 16 foreignAncestor } }

/-- The winning Gateway `test/gateway`. -/
def testGateway : Gateway :=
  { Source := { Namespace := "test", Name := "gateway" }, Valid := true }

/-- A valid BackendRef to port 80 of the Service `test/foo`. -/
def fooBackendRef : BackendRef :=
  { SvcNsName := { Namespace := "test", Name := "foo" }, ServicePort := { Port := 80 },
    Weight := 1, Valid := true }

/-- A backendRef to the Service `service` of the namespace `service-ns`, port 80. -/
def crossNsRef : gatewayv1.HTTPBackendRef :=
  { Name := "service", Namespace := some "service-ns", Port := some 80 }

/-- A graph that references the Secret `test/secret`, the ConfigMap
`test/configmap`, the Service `test/service` and the Namespace `test`. -/
def referencingGraph : Graph :=
  { ReferencedSecrets := some [({ Namespace := "test", Name := "secret" }, {})],
    ReferencedCaCertConfigMaps := some [({ Namespace := "test", Name := "configmap" }, {})],
    ReferencedServices := some [({ Namespace := "test", Name := "service" }, ())],
    ReferencedNamespaces := some [({ Name := "test" }, { Name := "test" })] }

/-- An EndpointSlice of the Service `test/service`. -/
def serviceSlice : discoveryV1.EndpointSlice :=
  { Namespace := "test", Name := "service-abc",
    Labels := [("kubernetes.io/service-name", "service")] }

/-- An EndpointSlice without the service-name label. -/
def missingSvcNameSlice : discoveryV1.EndpointSlice :=
  { Namespace := "test", Name := "missing-svc-name" }

/-- The policy `overflowedPolicy` as `processBackendTLSPolicies` leaves it:
ignored, not valid, without a condition. -/
def processedOverflowedPolicy : BackendTLSPolicy :=
  { Source := overflowedPolicy, Gateway := { Namespace := "test", Name := "gateway" },
    Valid := false, Ignored := true }

/-- A valid processed policy `test/btp-old` that targets the Service `service`
and is older than `testPolicy`. -/
def olderPolicy : BackendTLSPolicy :=
  { Source :=
      { Namespace := "test", Name := "btp-old", CreationTimestamp := -10,
        Spec := { TargetRef := { Kind := "Service", Name := "service" },
                  TLS := { Hostname := "old.example.com",
                           WellKnownCACerts := some ⟨3, "System"⟩ } } },
    Valid := true }

/-- The policies `test/btp` and `test/btp-old`, in this order. -/
def twoPolicies : PolicyStore :=
  [({ Namespace := "test", Name := "btp" }, testPolicy),
   ({ Namespace := "test", Name := "btp-old" }, olderPolicy)]

/-- A BackendTLSPolicy `test/btp-ca` with the CA certificate in the ConfigMap
`ca`. -/
def caPolicy : v1alpha2.BackendTLSPolicy :=
  { Namespace := "test", Name := "btp-ca",
    Spec := { TargetRef := { Kind := "Service", Name := "service" },
              TLS := { Hostname := "example.com",
                       CACertRefs := some [{ Kind := "ConfigMap", Name := "ca" }] } } }

/-- A BackendTLSPolicy `test/btp-over` for the Service `service2` that names no
CA certificates and whose status already holds 16 ancestors of another
controller. -/
def cappedPolicy : v1alpha2.BackendTLSPolicy :=
  { Namespace := "test", Name := "btp-over",
    Spec := { TargetRef := { Kind := "Service", Name := "service2" },
              TLS := { Hostname := "example.com" } },
    Status := { Ancestors := List.replicate 16 foreignAncestor } }

/-- The BackendTLSPolicies of a cluster: `test/btp`, valid, and `test/btp-over`. -/
def cappedSources : GoMap v1alpha2.BackendTLSPolicy :=
  [({ Namespace := "test", Name := "btp" }, testPolicy.Source),
   ({ Namespace := "test", Name := "btp-over" }, cappedPolicy)]

/-- The policies `cappedSources` as `processBackendTLSPolicies` stores them for
the Gateway `test/gateway`: `test/btp-over` is over the ancestor cap, so it is
ignored, and it is invalid with the condition of the missing CA certificates. -/
def cappedProcessed : GoMap BackendTLSPolicy :=
  [({ Namespace := "test", Name := "btp" },
    { Source := testPolicy.Source, Gateway := { Namespace := "test", Name := "gateway" },
      Valid := true }),
   ({ Namespace := "test", Name := "btp-over" },
    { Source := cappedPolicy, Gateway := { Namespace := "test", Name := "gateway" },
      Conditions := [staticConds.NewBackendTLSPolicyInvalid
        "CACertRefs and WellKnownCACerts are both nil"],
      Valid := false, Ignored := true })]

/-- The routes of the cluster: `test/hr`, whose backendRefs name the Services
`service` and `service2`. -/
def cappedRoutes : GoMap Route := [({ Namespace := "test", Name := "hr" }, mismatchRoute)]

/-- The policies `cappedProcessed` after the backendRefs of `cappedRoutes`
selected both of them. -/
def cappedPolicies : GoMap BackendTLSPolicy :=
  [({ Namespace := "test", Name := "btp" },
    { Source := testPolicy.Source, Gateway := { Namespace := "test", Name := "gateway" },
      Conditions := [staticConds.NewBackendTLSPolicyAccepted],
      Valid := true, IsReferenced := true }),
   ({ Namespace := "test", Name := "btp-over" },
    { Source := cappedPolicy, Gateway := { Namespace := "test", Name := "gateway" },
      Conditions := [staticConds.NewBackendTLSPolicyInvalid
        "CACertRefs and WellKnownCACerts are both nil"],
      Valid := false, IsReferenced := true, Ignored := true })]

/-! ## Properties of backend_refs.go -/

theorem validateWeight_isSome_iff (w : Int) :
    (validateWeight w).isSome = true ↔ (w < 0 ∨ w > 1000000) := by
  unfold validateWeight minWeight maxWeight
  by_cases h : w < 0 ∨ w > 1000000
  · simp [h]
  · simp [h]

theorem validateWeight_eq_none_iff (w : Int) :
    validateWeight w = none ↔ (0 ≤ w ∧ w ≤ 1000000) := by
  unfold validateWeight minWeight maxWeight
  by_cases h : w < 0 ∨ w > 1000000
  · simp [h]; omega
  · simp [h]; omega

theorem getServicePort_ok (svc : corev1.Service) (port : Int) (p : corev1.ServicePort)
    (h : getServicePort svc port = (p, none)) : p ∈ svc.Spec.Ports ∧ p.Port = port := by
  unfold getServicePort at h
  split at h
  · rename_i q hq
    simp at h
    subst h
    have := List.find?_some hq
    exact ⟨List.mem_of_find?_eq_some hq, by simpa using this⟩
  · simp at h

theorem getServiceAndPortFromRef_ok (ref : gatewayv1.BackendRef) (ns : String)
    (services : GoMap corev1.Service) (path : String) (k : types.NamespacedName)
    (sp : corev1.ServicePort)
    (h : getServiceAndPortFromRef ref ns services path = some (k, sp, none)) :
    k = { Namespace := ref.Namespace.getD ns, Name := ref.Name } ∧
    ∃ svc, mapLookup services k = some svc ∧ sp ∈ svc.Spec.Ports ∧ ref.Port = some sp.Port := by
  unfold getServiceAndPortFromRef at h
  have hns : (match ref.Namespace with | some n => n | none => ns) = ref.Namespace.getD ns := by
    cases ref.Namespace <;> rfl
  simp only [hns] at h
  split at h
  · simp at h
  · rename_i svc hsvc
    split at h
    · simp at h
    · rename_i port hport
      split at h
      · simp at h
      · rename_i svcPort hsp
        simp at h
        obtain ⟨hk, hsp2⟩ := h
        subst hk hsp2
        have := getServicePort_ok svc port _ hsp
        exact ⟨rfl, svc, hsvc, this.1, by rw [hport, this.2]⟩


theorem createBackendRef_cases (ref : gatewayv1.HTTPBackendRef) (ns : String)
    (res : referenceGrantResolver) (svcs : GoMap corev1.Service) (path : String)
    (store : PolicyStore) (b : BackendRef) (cond : Option Condition) (st : PolicyStore)
    (h : createBackendRef ref ns res svcs path store = some (b, cond, st)) :
    (∃ c, validateHTTPBackendRef ref ns res path = (false, c) ∧
        b = { Weight := backendRefWeight ref, Valid := false } ∧ cond = some c ∧ st = store) ∨
    ((validateHTTPBackendRef ref ns res path).1 = true ∧
      ∃ k sp err, getServiceAndPortFromRef ref.toBackendRef ns svcs path = some (k, sp, some err) ∧
        b = { SvcNsName := k, ServicePort := sp, Weight := backendRefWeight ref, Valid := false } ∧
        cond = some (staticConds.NewRouteBackendRefRefBackendNotFound err) ∧ st = store) ∨
    ((validateHTTPBackendRef ref ns res path).1 = true ∧
      ∃ k sp pol err, getServiceAndPortFromRef ref.toBackendRef ns svcs path = some (k, sp, none) ∧
        findBackendTLSPolicyForService store ref ns = some (pol, some err, st) ∧
        b = { SvcNsName := k, ServicePort := sp, Weight := backendRefWeight ref, Valid := false } ∧
        cond = some (staticConds.NewRouteBackendRefUnsupportedValue err)) ∨
    ((validateHTTPBackendRef ref ns res path).1 = true ∧
      ∃ k sp pol, getServiceAndPortFromRef ref.toBackendRef ns svcs path = some (k, sp, none) ∧
        findBackendTLSPolicyForService store ref ns = some (pol, none, st) ∧
        b = { SvcNsName := k, BackendTLSPolicy := pol, ServicePort := sp,
              Weight := backendRefWeight ref, Valid := true } ∧
        cond = none) := by
  unfold createBackendRef at h
  simp only at h
  split at h
  · rename_i c hc
    simp at h
    obtain ⟨h1, h2, h3⟩ := h
    left
    exact ⟨c, hc, h1.symm, h2.symm, h3.symm⟩
  · rename_i c hc
    right
    have hv : (validateHTTPBackendRef ref ns res path).1 = true := by rw [hc]
    split at h
    · simp at h
    · rename_i k sp err hg
      simp at h
      obtain ⟨h1, h2, h3⟩ := h
      left
      exact ⟨hv, k, sp, err, hg, h1.symm, h2.symm, h3.symm⟩
    · rename_i k sp hg
      right
      split at h
      · simp at h
      · rename_i pol err store1 hf
        simp at h
        obtain ⟨h1, h2, h3⟩ := h
        left
        subst h3
        exact ⟨hv, k, sp, pol, err, hg, hf, h1.symm, h2.symm⟩
      · rename_i pol store1 hf
        simp at h
        obtain ⟨h1, h2, h3⟩ := h
        right
        subst h3
        exact ⟨hv, k, sp, pol, hg, hf, h1.symm, h2.symm⟩

theorem validateBackendRef_valid_iff (ref : gatewayv1.BackendRef) (routeNs : String)
    (res : referenceGrantResolver) (path : String) :
    (validateBackendRef ref routeNs res path).1 = true ↔
      ((ref.Group = none ∨ ref.Group = some "" ∨ ref.Group = some "core") ∧
       (ref.Kind = none ∨ ref.Kind = some "Service") ∧
       (ref.Namespace = none ∨ ref.Namespace = some routeNs ∨
          ∃ n, ref.Namespace = some n ∧
            res.refAllowed (toService { Namespace := n, Name := ref.Name })
              (fromHTTPRoute routeNs) = true) ∧
       ref.Port ≠ none ∧
       (ref.Weight = none ∨ ∃ w, ref.Weight = some w ∧ 0 ≤ w ∧ w ≤ 1000000)) := by
  obtain ⟨group, kind, name, nsp, port, weight⟩ := ref
  unfold validateBackendRef
  simp only
  split
  · rename_i h
    refine ⟨fun hh => by simp at hh, fun ⟨hg, _, _, _, _⟩ => ?_⟩
    exfalso
    rcases hg with hg | hg | hg <;> subst hg <;> simp at h
  · rename_i hgroup
    have hG : group = none ∨ group = some "" ∨ group = some "core" := by
      cases group with
      | none => simp
      | some g =>
        simp at hgroup
        simp
        by_cases h1 : g = "core"
        · right; exact h1
        · left; exact hgroup h1
    split
    · rename_i h
      refine ⟨fun hh => by simp at hh, fun ⟨_, hk, _, _, _⟩ => ?_⟩
      exfalso
      rcases hk with hk | hk <;> subst hk <;> simp at h
    · rename_i hkind
      have hK : kind = none ∨ kind = some "Service" := by
        cases kind with
        | none => simp
        | some k => simp at hkind; simp [hkind]
      split
      · rename_i h
        refine ⟨fun hh => by simp at hh, fun ⟨_, _, hn, _, _⟩ => ?_⟩
        exfalso
        rcases hn with hn | hn | ⟨n, hn, ha⟩
        · subst hn; simp at h
        · subst hn; simp at h
        · subst hn; simp at h; rw [h.2] at ha; simp at ha
      · rename_i hnsp
        have hN : nsp = none ∨ nsp = some routeNs ∨
            ∃ n, nsp = some n ∧ res.refAllowed (toService { Namespace := n, Name := name })
              (fromHTTPRoute routeNs) = true := by
          cases nsp with
          | none => simp
          | some n =>
            simp at hnsp
            by_cases h1 : n = routeNs
            · right; left; rw [h1]
            · right; right; exact ⟨n, rfl, hnsp h1⟩
        split
        · rename_i h
          refine ⟨fun hh => by simp at hh, fun ⟨_, _, _, hp, _⟩ => ?_⟩
          exfalso
          cases port <;> simp at h hp
        · rename_i hport
          have hP : port ≠ none := by
            cases port <;> simp at hport ⊢
          split
          · rename_i h
            refine ⟨fun hh => by simp at hh, fun ⟨_, _, _, _, hw⟩ => ?_⟩
            exfalso
            rcases hw with hw | ⟨w, hw, h0, h1⟩
            · subst hw; simp at h
            · subst hw
              have := (validateWeight_eq_none_iff w).2 ⟨h0, h1⟩
              simp [this] at h
          · rename_i hweight
            simp only [true_iff]
            refine ⟨hG, hK, hN, hP, ?_⟩
            cases weight with
            | none => simp
            | some w =>
              simp at hweight
              right
              exact ⟨w, rfl, (validateWeight_eq_none_iff w).1 hweight⟩

theorem validateBackendRef_invalid_cond (ref : gatewayv1.BackendRef) (routeNs : String)
    (res : referenceGrantResolver) (path : String)
    (h : (validateBackendRef ref routeNs res path).1 = false) :
    (validateBackendRef ref routeNs res path).2.Type_ = staticConds.RouteConditionResolvedRefs ∧
    (validateBackendRef ref routeNs res path).2.Status = metav1.ConditionFalse := by
  unfold validateBackendRef at h ⊢
  split
  · exact ⟨rfl, rfl⟩
  · split
    · exact ⟨rfl, rfl⟩
    · split
      · exact ⟨rfl, rfl⟩
      · split
        · exact ⟨rfl, rfl⟩
        · split
          · exact ⟨rfl, rfl⟩
          · rename_i h1 h2 h3 h4 h5
            rw [if_neg h1, if_neg h2, if_neg h3, if_neg h4, if_neg h5] at h
            cases h

theorem validateHTTPBackendRef_invalid_cond (ref : gatewayv1.HTTPBackendRef) (routeNs : String)
    (res : referenceGrantResolver) (path : String)
    (h : (validateHTTPBackendRef ref routeNs res path).1 = false) :
    (validateHTTPBackendRef ref routeNs res path).2.Type_ = staticConds.RouteConditionResolvedRefs ∧
    (validateHTTPBackendRef ref routeNs res path).2.Status = metav1.ConditionFalse := by
  unfold validateHTTPBackendRef at h ⊢
  split
  · exact ⟨rfl, rfl⟩
  · rename_i h1
    simp only [h1, if_false] at h
    exact validateBackendRef_invalid_cond _ _ _ _ h

/-- The reason reported by `validateBackendRef`, check by check. -/
theorem validateBackendRef_reason (ref : gatewayv1.BackendRef) (routeNs : String)
    (res : referenceGrantResolver) (path : String) (n : String)
    (hn : ref.Namespace = some n) (hne : n ≠ routeNs)
    (hna : res.refAllowed (toService { Namespace := n, Name := ref.Name })
      (fromHTTPRoute routeNs) = false) :
    (validateBackendRef ref routeNs res path).1 = false ∧
    (((ref.Group = none ∨ ref.Group = some "" ∨ ref.Group = some "core") ∧
        (ref.Kind = none ∨ ref.Kind = some "Service")) →
      (validateBackendRef ref routeNs res path).2.Reason = staticConds.RouteReasonRefNotPermitted) ∧
    (¬ ((ref.Group = none ∨ ref.Group = some "" ∨ ref.Group = some "core") ∧
        (ref.Kind = none ∨ ref.Kind = some "Service")) →
      (validateBackendRef ref routeNs res path).2.Reason = staticConds.RouteReasonInvalidKind) := by
  obtain ⟨group, kind, name, nsp, port, weight⟩ := ref
  simp only at hn hna
  subst hn
  unfold validateBackendRef
  simp only
  split
  · rename_i h
    refine ⟨rfl, fun ⟨hg, _⟩ => ?_, fun _ => rfl⟩
    exfalso
    rcases hg with hg | hg | hg <;> subst hg <;> simp at h
  · rename_i hgroup
    have hG : group = none ∨ group = some "" ∨ group = some "core" := by
      cases group with
      | none => simp
      | some g =>
        simp at hgroup
        simp
        by_cases h1 : g = "core"
        · right; exact h1
        · left; exact hgroup h1
    split
    · rename_i h
      refine ⟨rfl, fun ⟨_, hk⟩ => ?_, fun _ => rfl⟩
      exfalso
      rcases hk with hk | hk <;> subst hk <;> simp at h
    · rename_i hkind
      have hK : kind = none ∨ kind = some "Service" := by
        cases kind with
        | none => simp
        | some k => simp at hkind; simp [hkind]
      split
      · exact ⟨rfl, fun _ => rfl, fun hh => absurd ⟨hG, hK⟩ hh⟩
      · rename_i h
        exfalso
        apply h
        simp [hne, hna]

/-- The validity flag of `validateHTTPBackendRef`, check by check. -/
theorem validateHTTPBackendRef_fst_iff (ref : gatewayv1.HTTPBackendRef) (routeNs : String)
    (refGrantResolver : referenceGrantResolver) (path : String) :
    (validateHTTPBackendRef ref routeNs refGrantResolver path).1 = true ↔
      (ref.Filters = [] ∧
       (ref.Group = none ∨ ref.Group = some "" ∨ ref.Group = some "core") ∧
       (ref.Kind = none ∨ ref.Kind = some "Service") ∧
       (ref.Namespace = none ∨ ref.Namespace = some routeNs ∨
          ∃ n, ref.Namespace = some n ∧
            refGrantResolver.refAllowed (toService { Namespace := n, Name := ref.Name })
              (fromHTTPRoute routeNs) = true) ∧
       ref.Port ≠ none ∧
       (ref.Weight = none ∨ ∃ w, ref.Weight = some w ∧ 0 ≤ w ∧ w ≤ 1000000)) := by
  unfold validateHTTPBackendRef
  by_cases hf : ref.Filters.length > 0
  · rw [if_pos hf]
    refine ⟨fun hh => by simp at hh, fun ⟨h0, _⟩ => ?_⟩
    rw [h0] at hf
    simp at hf
  · rw [if_neg hf]
    have h0 : ref.Filters = [] := by
      cases hfl : ref.Filters with
      | nil => rfl
      | cons a l => rw [hfl] at hf; simp at hf
    rw [validateBackendRef_valid_iff]
    exact ⟨fun h => ⟨h0, h⟩, fun h => h.2⟩

/-- Claim C2: `validateHTTPBackendRef` returns valid=true if and only if the ref has
no filters, its group is nil, "" or "core", its kind is nil or "Service", its
namespace is nil, the route's namespace or allowed by
`refAllowed(toService(namespace/name), fromHTTPRoute(route namespace))`, its
port is not nil, and its weight is nil or within [0, 1_000_000]. -/
theorem validateHTTPBackendRef_valid_iff (ref : gatewayv1.HTTPBackendRef) (routeNs : String)
    (refGrantResolver : referenceGrantResolver) (path : String) :
    (validateHTTPBackendRef ref routeNs refGrantResolver path).1 = true ↔
      (ref.Filters = [] ∧
       (ref.Group = none ∨ ref.Group = some "" ∨ ref.Group = some "core") ∧
       (ref.Kind = none ∨ ref.Kind = some "Service") ∧
       (ref.Namespace = none ∨ ref.Namespace = some routeNs ∨
          ∃ n, ref.Namespace = some n ∧
            refGrantResolver.refAllowed (toService { Namespace := n, Name := ref.Name })
              (fromHTTPRoute routeNs) = true) ∧
       ref.Port ≠ none ∧
       (ref.Weight = none ∨ ∃ w, ref.Weight = some w ∧ 0 ≤ w ∧ w ≤ 1000000)) :=
  validateHTTPBackendRef_fst_iff ref routeNs refGrantResolver path

/-- Claim C3, counterexample: a backendRef to another namespace that no
ReferenceGrant permits, with an unsupported group, gets the reason InvalidKind
and not RefNotPermitted. -/
theorem createBackendRef_crossNs_counterexample :
    crossNsRefBadGroup.Namespace = some "service-ns" ∧ "service-ns" ≠ "test" ∧
    noGrants.refAllowed (toService { Namespace := "service-ns", Name := "service" })
      (fromHTTPRoute "test") = false ∧
    createBackendRef crossNsRefBadGroup "test" noGrants [] "spec.rules[0].backendRefs[0]" [] =
      some ({ Weight := 1, Valid := false },
        some (staticConds.NewRouteBackendRefInvalidKind
          (field.NotSupported "spec.rules[0].backendRefs[0].group" "apps" ["core", ""])), []) ∧
    (staticConds.NewRouteBackendRefInvalidKind
      (field.NotSupported "spec.rules[0].backendRefs[0].group" "apps" ["core", ""])).Reason ≠
        staticConds.RouteReasonRefNotPermitted := by
  refine ⟨rfl, by decide, rfl, by decide, by decide⟩

/-- Claim C3, amended: for a backendRef whose namespace is set and differs from the
route's namespace, either a ReferenceGrant permits the reference, or
`createBackendRef` returns Valid=false with a ResolvedRefs=False condition; the
reason of that condition is RefNotPermitted when the ref has no filters, a
group that is nil, "" or "core" and a kind that is nil or "Service", it is
UnsupportedValue when the ref has filters and InvalidKind when it has no
filters and an unsupported group or kind. -/
theorem createBackendRef_crossNs_gated (ref : gatewayv1.HTTPBackendRef) (sourceNamespace : String)
    (refGrantResolver : referenceGrantResolver) (services : GoMap corev1.Service)
    (refPath : String) (backendTLSPolicies : PolicyStore) (n : String)
    (hn : ref.Namespace = some n) (hne : n ≠ sourceNamespace) :
    refGrantResolver.refAllowed (toService { Namespace := n, Name := ref.Name })
        (fromHTTPRoute sourceNamespace) = true ∨
    ∃ b cond,
      createBackendRef ref sourceNamespace refGrantResolver services refPath backendTLSPolicies =
        some (b, some cond, backendTLSPolicies) ∧
      b.Valid = false ∧
      cond.Type_ = staticConds.RouteConditionResolvedRefs ∧
      cond.Status = metav1.ConditionFalse ∧
      (ref.Filters = [] →
        (ref.Group = none ∨ ref.Group = some "" ∨ ref.Group = some "core") →
        (ref.Kind = none ∨ ref.Kind = some "Service") →
        cond.Reason = staticConds.RouteReasonRefNotPermitted) ∧
      (ref.Filters ≠ [] → cond.Reason = staticConds.RouteReasonBackendRefUnsupportedValue) ∧
      (ref.Filters = [] →
        ¬ ((ref.Group = none ∨ ref.Group = some "" ∨ ref.Group = some "core") ∧
          (ref.Kind = none ∨ ref.Kind = some "Service")) →
        cond.Reason = staticConds.RouteReasonInvalidKind) := by
  by_cases ha : refGrantResolver.refAllowed (toService { Namespace := n, Name := ref.Name })
      (fromHTTPRoute sourceNamespace) = true
  · exact Or.inl ha
  · right
    have ha2 : refGrantResolver.refAllowed (toService { Namespace := n, Name := ref.Name })
        (fromHTTPRoute sourceNamespace) = false := by
      simpa using ha
    have hv : (validateHTTPBackendRef ref sourceNamespace refGrantResolver refPath).1 = false := by
      cases hvv : (validateHTTPBackendRef ref sourceNamespace refGrantResolver refPath).1 with
      | false => rfl
      | true =>
        exfalso
        have := (validateHTTPBackendRef_fst_iff ref sourceNamespace refGrantResolver refPath).1 hvv
        rcases this.2.2.2.1 with h | h | ⟨m, h, hm⟩
        · rw [hn] at h; cases h
        · rw [hn] at h; injection h with h; exact hne h
        · rw [hn] at h; injection h with h; subst h; exact ha hm
    have hc := validateHTTPBackendRef_invalid_cond ref sourceNamespace refGrantResolver refPath hv
    refine ⟨{ Weight := backendRefWeight ref, Valid := false },
      (validateHTTPBackendRef ref sourceNamespace refGrantResolver refPath).2, ?_, rfl,
      hc.1, hc.2, ?_, ?_, ?_⟩
    · unfold createBackendRef
      simp only
      have : validateHTTPBackendRef ref sourceNamespace refGrantResolver refPath =
          (false, (validateHTTPBackendRef ref sourceNamespace refGrantResolver refPath).2) := by
        rw [← hv]
      rw [this]
    · intro hf hg hk
      unfold validateHTTPBackendRef
      rw [hf]
      simp only [List.length_nil, gt_iff_lt, lt_self_iff_false, if_false]
      exact (validateBackendRef_reason ref.toBackendRef sourceNamespace refGrantResolver refPath n
        hn hne ha2).2.1 ⟨hg, hk⟩
    · intro hf
      unfold validateHTTPBackendRef
      have : ref.Filters.length > 0 := by
        cases hfl : ref.Filters with
        | nil => exact absurd hfl hf
        | cons a l => simp
      rw [if_pos this]
      rfl
    · intro hf hgk
      unfold validateHTTPBackendRef
      rw [hf]
      simp only [List.length_nil, gt_iff_lt, lt_self_iff_false, if_false]
      exact (validateBackendRef_reason ref.toBackendRef sourceNamespace refGrantResolver refPath n
        hn hne ha2).2.2 hgk

/-- Claim C3 as amended, witness: a ref to a Service of another namespace, in
a cluster without any ReferenceGrant. -/
theorem createBackendRef_crossNs_gated_witness :
    noGrants.refAllowed (toService { Namespace := "service-ns", Name := crossNsRefBadWeight.Name })
        (fromHTTPRoute "test") = true ∨
    ∃ b cond,
      createBackendRef crossNsRefBadWeight "test" noGrants [] "spec.rules[0].backendRefs[0]" [] =
        some (b, some cond, []) ∧
      b.Valid = false ∧
      cond.Type_ = staticConds.RouteConditionResolvedRefs ∧
      cond.Status = metav1.ConditionFalse ∧
      (crossNsRefBadWeight.Filters = [] →
        (crossNsRefBadWeight.Group = none ∨ crossNsRefBadWeight.Group = some "" ∨
          crossNsRefBadWeight.Group = some "core") →
        (crossNsRefBadWeight.Kind = none ∨ crossNsRefBadWeight.Kind = some "Service") →
        cond.Reason = staticConds.RouteReasonRefNotPermitted) ∧
      (crossNsRefBadWeight.Filters ≠ [] →
        cond.Reason = staticConds.RouteReasonBackendRefUnsupportedValue) ∧
      (crossNsRefBadWeight.Filters = [] →
        ¬ ((crossNsRefBadWeight.Group = none ∨ crossNsRefBadWeight.Group = some "" ∨
            crossNsRefBadWeight.Group = some "core") ∧
          (crossNsRefBadWeight.Kind = none ∨ crossNsRefBadWeight.Kind = some "Service")) →
        cond.Reason = staticConds.RouteReasonInvalidKind) :=
  createBackendRef_crossNs_gated crossNsRefBadWeight "test" noGrants []
    "spec.rules[0].backendRefs[0]" [] "service-ns" rfl (by decide)

theorem backendRefWeight_spec (ref : gatewayv1.HTTPBackendRef) :
    (ref.Weight = none → backendRefWeight ref = 1) ∧
    (∀ w, ref.Weight = some w → 0 ≤ w → w ≤ 1000000 → backendRefWeight ref = w) ∧
    (∀ w, ref.Weight = some w → (w < 0 ∨ 1000000 < w) → backendRefWeight ref = 0) ∧
    0 ≤ backendRefWeight ref ∧ backendRefWeight ref ≤ 1000000 := by
  unfold backendRefWeight
  cases hw : ref.Weight with
  | none =>
    refine ⟨?_, ?_, ?_, ?_, ?_⟩
    · intro _; rfl
    · intro v hv; cases hv
    · intro v hv; cases hv
    · decide
    · decide
  | some w =>
    by_cases hr : w < 0 ∨ w > 1000000
    · have hs : (validateWeight w).isSome = true := (validateWeight_isSome_iff w).2 hr
      refine ⟨?_, ?_, ?_, ?_, ?_⟩
      · intro h; cases h
      · intro v hv h0 h1
        injection hv with hv
        subst hv
        omega
      · intro v hv _
        simp only [hs, if_true]
      · simp only [hs, if_true]; exact le_refl _
      · simp only [hs, if_true]; decide
    · have hs : ¬ (validateWeight w).isSome = true :=
        fun h => hr ((validateWeight_isSome_iff w).1 h)
      refine ⟨?_, ?_, ?_, ?_, ?_⟩
      · intro h; cases h
      · intro v hv _ _
        injection hv with hv
        subst hv
        simp [hs]
      · intro v hv h
        injection hv with hv
        subst hv
        exact absurd h hr
      · simp [hs]; omega
      · simp [hs]; omega

theorem createBackendRef_weight_eq (ref : gatewayv1.HTTPBackendRef) (ns : String)
    (res : referenceGrantResolver) (svcs : GoMap corev1.Service) (path : String)
    (store : PolicyStore) (b : BackendRef) (cond : Option Condition) (st : PolicyStore)
    (h : createBackendRef ref ns res svcs path store = some (b, cond, st)) :
    b.Weight = backendRefWeight ref := by
  rcases createBackendRef_cases ref ns res svcs path store b cond st h with
    ⟨c, _, hb, _⟩ | ⟨_, k, sp, err, _, hb, _⟩ | ⟨_, k, sp, pol, err, _, _, hb, _⟩ |
    ⟨_, k, sp, pol, _, _, hb, _⟩ <;> rw [hb]

/-- Claim C6: the Weight of the BackendRef returned by `createBackendRef` is 1 when
`ref.Weight` is nil, the ref's weight when that lies in [0, 1_000_000], and 0
otherwise; it always lies in [0, 1_000_000], whether or not the ref is valid. -/
theorem createBackendRef_weight (ref : gatewayv1.HTTPBackendRef) (sourceNamespace : String)
    (refGrantResolver : referenceGrantResolver) (services : GoMap corev1.Service)
    (refPath : String) (backendTLSPolicies : PolicyStore)
    (b : BackendRef) (cond : Option Condition) (store : PolicyStore)
    (h : createBackendRef ref sourceNamespace refGrantResolver services refPath
      backendTLSPolicies = some (b, cond, store)) :
    (ref.Weight = none → b.Weight = 1) ∧
    (∀ w, ref.Weight = some w → 0 ≤ w → w ≤ 1000000 → b.Weight = w) ∧
    (∀ w, ref.Weight = some w → (w < 0 ∨ 1000000 < w) → b.Weight = 0) ∧
    0 ≤ b.Weight ∧ b.Weight ≤ 1000000 := by
  rw [createBackendRef_weight_eq ref sourceNamespace refGrantResolver services refPath
    backendTLSPolicies b cond store h]
  exact backendRefWeight_spec ref

/-- Claim C6, witness: a ref with weight 5 to an existing Service. -/
theorem createBackendRef_weight_witness :
    createBackendRef sameNsRef "test" noGrants
      [({ Namespace := "test", Name := "service" }, testService)]
      "spec.rules[0].backendRefs[0]" [] = some (sameNsBackendRef, none, []) ∧
    (sameNsRef.Weight = none → sameNsBackendRef.Weight = 1) ∧
    (∀ w, sameNsRef.Weight = some w → 0 ≤ w → w ≤ 1000000 → sameNsBackendRef.Weight = w) ∧
    (∀ w, sameNsRef.Weight = some w → (w < 0 ∨ 1000000 < w) → sameNsBackendRef.Weight = 0) ∧
    0 ≤ sameNsBackendRef.Weight ∧ sameNsBackendRef.Weight ≤ 1000000 :=
  ⟨by decide, createBackendRef_weight sameNsRef "test" noGrants
    [({ Namespace := "test", Name := "service" }, testService)]
    "spec.rules[0].backendRefs[0]" [] sameNsBackendRef none [] (by decide)⟩

/-- Claim C7: for a backendRef whose weight is set and lies outside [0, 1_000_000],
`createBackendRef` returns a BackendRef with Valid=false and Weight=0 together
with a condition of type ResolvedRefs and status False; `validateWeight`
returns an error exactly for the weights below 0 or above 1_000_000. -/
theorem createBackendRef_weight_out_of_range (ref : gatewayv1.HTTPBackendRef)
    (sourceNamespace : String) (refGrantResolver : referenceGrantResolver)
    (services : GoMap corev1.Service) (refPath : String) (backendTLSPolicies : PolicyStore)
    (w : Int) (hw : ref.Weight = some w) (hr : w < 0 ∨ 1000000 < w) :
    (∃ b cond store,
      createBackendRef ref sourceNamespace refGrantResolver services refPath
        backendTLSPolicies = some (b, some cond, store) ∧
      b.Valid = false ∧ b.Weight = 0 ∧
      cond.Type_ = staticConds.RouteConditionResolvedRefs ∧
      cond.Status = metav1.ConditionFalse) ∧
    (∀ v : Int, (validateWeight v).isSome = true ↔ (v < 0 ∨ 1000000 < v)) := by
  refine ⟨?_, fun v => validateWeight_isSome_iff v⟩
  have hv : (validateHTTPBackendRef ref sourceNamespace refGrantResolver refPath).1 = false := by
    cases hvv : (validateHTTPBackendRef ref sourceNamespace refGrantResolver refPath).1 with
    | false => rfl
    | true =>
      exfalso
      have := (validateHTTPBackendRef_fst_iff ref sourceNamespace refGrantResolver refPath).1 hvv
      rcases this.2.2.2.2.2 with h | ⟨v, h, h0, h1⟩
      · rw [hw] at h; cases h
      · rw [hw] at h; injection h with h; subst h; omega
  have hc := validateHTTPBackendRef_invalid_cond ref sourceNamespace refGrantResolver refPath hv
  refine ⟨{ Weight := backendRefWeight ref, Valid := false },
    (validateHTTPBackendRef ref sourceNamespace refGrantResolver refPath).2, backendTLSPolicies,
    ?_, rfl, ?_, hc.1, hc.2⟩
  · unfold createBackendRef
    simp only
    have : validateHTTPBackendRef ref sourceNamespace refGrantResolver refPath =
        (false, (validateHTTPBackendRef ref sourceNamespace refGrantResolver refPath).2) := by
      rw [← hv]
    rw [this]
  · exact (backendRefWeight_spec ref).2.2.1 w hw hr

/-- Claim C7, witness: weight 5_000_000. -/
theorem createBackendRef_weight_out_of_range_witness :
    (∃ b cond store,
      createBackendRef crossNsRefBadWeight "test" noGrants [] "spec.rules[0].backendRefs[0]"
        [] = some (b, some cond, store) ∧
      b.Valid = false ∧ b.Weight = 0 ∧
      cond.Type_ = staticConds.RouteConditionResolvedRefs ∧
      cond.Status = metav1.ConditionFalse) ∧
    (∀ v : Int, (validateWeight v).isSome = true ↔ (v < 0 ∨ 1000000 < v)) :=
  createBackendRef_weight_out_of_range crossNsRefBadWeight "test" noGrants []
    "spec.rules[0].backendRefs[0]" [] 5000000 rfl (by decide)

theorem option_map_eq_some_prod {α β : Type} (o : Option α) (f : α → β) (b : β)
    (h : o.map f = some b) : ∃ a, o = some a ∧ f a = b := by
  cases o with
  | none => simp at h
  | some a => exact ⟨a, rfl, by simpa using h⟩

theorem addBackendRefsLoop_spec (ns : String) (res : referenceGrantResolver)
    (svcs : GoMap corev1.Service) :
    ∀ (srcRules : List gatewayv1.HTTPRouteRule) (idx : Nat) (rules : List Rule)
      (store : PolicyStore) (rules' : List Rule) (cs : List Condition) (store' : PolicyStore),
      addBackendRefsLoop ns res svcs srcRules idx rules store = some (rules', cs, store') →
      rules'.length = rules.length ∧
      ∀ (i : Nat) (r : Rule), rules[i]? = some r →
        ∃ r', rules'[i]? = some r' ∧
          (srcRules[i]? = none → r' = r) ∧
          ∀ src, srcRules[i]? = some src →
            ((r.ValidMatches = false ∨ r.ValidFilters = false ∨ src.BackendRefs = [] → r' = r) ∧
             (r.ValidMatches = true → r.ValidFilters = true → src.BackendRefs ≠ [] →
               ∃ st0 bs conds st1 pre post,
                 createBackendRefs ns res svcs (idx + i) src.BackendRefs 0 st0 =
                   some (bs, conds, st1) ∧
                 r' = { r with BackendRefs := (markMismatch bs).1 } ∧
                 cs = pre ++ (conds ++ (markMismatch bs).2) ++ post)) := by
  intro srcRules
  induction srcRules with
  | nil =>
    intro idx rules store rules' cs store' h
    unfold addBackendRefsLoop at h
    simp at h
    obtain ⟨h1, h2, h3⟩ := h
    subst h1
    refine ⟨rfl, fun i r hr => ⟨r, hr, fun _ => rfl, fun src hsrc => ?_⟩⟩
    simp at hsrc
  | cons rule srcRest ih =>
    intro idx rules store rules' cs store' h
    cases rules with
    | nil => unfold addBackendRefsLoop at h; simp at h
    | cons r0 rs =>
      unfold addBackendRefsLoop at h
      -- the three branches that leave the rule untouched share one argument
      have skip : ∀ (hskip : r0.ValidMatches = false ∨ r0.ValidFilters = false ∨
            rule.BackendRefs = [])
          (hh : (addBackendRefsLoop ns res svcs srcRest (idx + 1) rs store).map
            (fun res => (r0 :: res.1, res.2.1, res.2.2)) = some (rules', cs, store')),
          rules'.length = (r0 :: rs).length ∧
          ∀ (i : Nat) (r : Rule), (r0 :: rs)[i]? = some r →
            ∃ r', rules'[i]? = some r' ∧
              ((rule :: srcRest)[i]? = none → r' = r) ∧
              ∀ src, (rule :: srcRest)[i]? = some src →
                ((r.ValidMatches = false ∨ r.ValidFilters = false ∨ src.BackendRefs = [] →
                    r' = r) ∧
                 (r.ValidMatches = true → r.ValidFilters = true → src.BackendRefs ≠ [] →
                   ∃ st0 bs conds st1 pre post,
                     createBackendRefs ns res svcs (idx + i) src.BackendRefs 0 st0 =
                       some (bs, conds, st1) ∧
                     r' = { r with BackendRefs := (markMismatch bs).1 } ∧
                     cs = pre ++ (conds ++ (markMismatch bs).2) ++ post)) := by
        intro hskip hh
        obtain ⟨⟨rs', cs', st'⟩, hloop, heq⟩ := option_map_eq_some_prod _ _ _ hh
        simp at heq
        obtain ⟨h1, h2, h3⟩ := heq
        subst h1 h2 h3
        have ihs := ih (idx + 1) rs store rs' cs' st' hloop
        refine ⟨by simp [ihs.1], fun i r hr => ?_⟩
        cases i with
        | zero =>
          simp at hr
          subst hr
          refine ⟨r0, by simp, fun _ => rfl, fun src hsrc => ?_⟩
          simp at hsrc
          subst hsrc
          refine ⟨fun _ => rfl, fun hm hf hb => ?_⟩
          exfalso
          rcases hskip with h | h | h
          · rw [hm] at h; cases h
          · rw [hf] at h; cases h
          · exact hb h
        | succ j =>
          simp at hr
          obtain ⟨r', hr', hnone, hsome⟩ := ihs.2 j r hr
          refine ⟨r', by simpa using hr', fun hn => hnone (by simpa using hn), fun src hsrc => ?_⟩
          have := hsome src (by simpa using hsrc)
          refine ⟨this.1, fun hm hf hb => ?_⟩
          obtain ⟨st0, bs, conds, st1, pre, post, hc, hre, hcs⟩ := this.2 hm hf hb
          refine ⟨st0, bs, conds, st1, pre, post, ?_, hre, hcs⟩
          rw [← hc]
          congr 1
          omega
      split at h
      · rename_i hvm
        exact skip (Or.inl (by simpa using hvm)) h
      · split at h
        · rename_i hvf
          exact skip (Or.inr (Or.inl (by simpa using hvf))) h
        · split at h
          · rename_i hbr
            refine skip (Or.inr (Or.inr ?_)) h
            have : rule.BackendRefs.length = 0 := by simpa using hbr
            exact List.length_eq_zero.mp this
          · rename_i hvm hvf hbr
            split at h
            · simp at h
            · rename_i bs0 conds0 store1 hcr
              obtain ⟨⟨rs', cs', st'⟩, hloop, heq⟩ := option_map_eq_some_prod _ _ _ h
              simp at heq
              obtain ⟨h1, h2, h3⟩ := heq
              subst h1 h2 h3
              have ihs := ih (idx + 1) rs store1 rs' cs' st' hloop
              refine ⟨by simp [ihs.1], fun i r hr => ?_⟩
              cases i with
              | zero =>
                simp at hr
                subst hr
                refine ⟨{ r0 with BackendRefs := (markMismatch bs0).1 }, by simp,
                  fun hn => by simp at hn, fun src hsrc => ?_⟩
                simp at hsrc
                subst hsrc
                refine ⟨fun hskip => ?_, fun _ _ _ => ?_⟩
                · exfalso
                  rcases hskip with h | h | h
                  · rw [h] at hvm; simp at hvm
                  · rw [h] at hvf; simp at hvf
                  · rw [h] at hbr; simp at hbr
                · exact ⟨store, bs0, conds0, store1, [], cs', hcr, rfl, by simp⟩
              | succ j =>
                simp at hr
                obtain ⟨r', hr', hnone, hsome⟩ := ihs.2 j r hr
                refine ⟨r', by simpa using hr', fun hn => hnone (by simpa using hn),
                  fun src hsrc => ?_⟩
                have := hsome src (by simpa using hsrc)
                refine ⟨this.1, fun hm hf hb => ?_⟩
                obtain ⟨st0, bs, conds, st1, pre, post, hc, hre, hcs⟩ := this.2 hm hf hb
                refine ⟨st0, bs, conds, st1, conds0 ++ (markMismatch bs0).2 ++ pre, post, ?_,
                  hre, ?_⟩
                · rw [← hc]
                  congr 1
                  omega
                · rw [hcs]
                  simp [List.append_assoc]

theorem createBackendRefs_spec (ns : String) (res : referenceGrantResolver)
    (svcs : GoMap corev1.Service) (idx : Nat) :
    ∀ (refs : List gatewayv1.HTTPBackendRef) (refIdx : Nat) (store : PolicyStore)
      (bs : List BackendRef) (conds : List Condition) (st : PolicyStore),
      createBackendRefs ns res svcs idx refs refIdx store = some (bs, conds, st) →
      bs.length = refs.length ∧
      ∀ (j : Nat) (ref : gatewayv1.HTTPBackendRef), refs[j]? = some ref →
        ∃ b path st0 cond st1, bs[j]? = some b ∧
          createBackendRef ref ns res svcs path st0 = some (b, cond, st1) ∧
          ∀ c, cond = some c → c ∈ conds := by
  intro refs
  induction refs with
  | nil =>
    intro refIdx store bs conds st h
    unfold createBackendRefs at h
    simp at h
    obtain ⟨h1, _, _⟩ := h
    subst h1
    exact ⟨rfl, fun j ref hj => by simp at hj⟩
  | cons ref0 rest ih =>
    intro refIdx store bs conds st h
    unfold createBackendRefs at h
    simp only at h
    split at h
    · simp at h
    · rename_i b0 cond0 store1 hc
      split at h
      · simp at h
      · rename_i bs1 conds1 store2 hrest
        simp at h
        obtain ⟨h1, h2, h3⟩ := h
        subst h1 h2 h3
        have ihs := ih (refIdx + 1) store1 bs1 conds1 store2 hrest
        refine ⟨by simp [ihs.1], fun j ref hj => ?_⟩
        cases j with
        | zero =>
          simp at hj
          subst hj
          refine ⟨b0, _, store, cond0, store1, by simp, hc, fun c hcc => ?_⟩
          subst hcc
          simp
        | succ k =>
          simp at hj
          obtain ⟨b, path, st0, cond, st1, hb, hcr, hmem⟩ := ihs.2 k ref hj
          exact ⟨b, path, st0, cond, st1, by simpa using hb, hcr,
            fun c hcc => List.mem_append_right _ (hmem c hcc)⟩

theorem markMismatch_length (bs : List BackendRef) : (markMismatch bs).1.length = bs.length := by
  unfold markMismatch
  split
  · split <;> simp
  · rfl

theorem markMismatch_getElem (bs : List BackendRef) (j : Nat) (b' : BackendRef)
    (h : (markMismatch bs).1[j]? = some b') :
    ∃ b, bs[j]? = some b ∧ (b' = b ∨ b' = { b with Valid := false }) := by
  unfold markMismatch at h
  split at h
  · split at h
    · simp at h
      obtain ⟨b, hb, hbb⟩ := h
      exact ⟨b, hb, Or.inr hbb.symm⟩
    · exact ⟨b', h, Or.inl rfl⟩
  · exact ⟨b', h, Or.inl rfl⟩

theorem createBackendRef_valid_resolves (ref : gatewayv1.HTTPBackendRef) (ns : String)
    (res : referenceGrantResolver) (svcs : GoMap corev1.Service) (path : String)
    (store : PolicyStore) (b : BackendRef) (cond : Option Condition) (st : PolicyStore)
    (h : createBackendRef ref ns res svcs path store = some (b, cond, st))
    (hv : b.Valid = true) :
    b.SvcNsName = { Namespace := ref.Namespace.getD ns, Name := ref.Name } ∧
    ∃ svc, mapLookup svcs b.SvcNsName = some svc ∧ b.ServicePort ∈ svc.Spec.Ports ∧
      ref.Port = some b.ServicePort.Port := by
  rcases createBackendRef_cases ref ns res svcs path store b cond st h with
    ⟨c, _, hb, _⟩ | ⟨_, k, sp, err, _, hb, _⟩ | ⟨_, k, sp, pol, err, _, _, hb, _⟩ |
    ⟨_, k, sp, pol, hg, _, hb, _⟩
  · rw [hb] at hv; cases hv
  · rw [hb] at hv; cases hv
  · rw [hb] at hv; cases hv
  · have := getServiceAndPortFromRef_ok ref.toBackendRef ns svcs path k sp hg
    rw [hb]
    exact this

/-- Claim C1: a BackendRef that `createBackendRef` returns with Valid=true has the
service key (the ref's namespace if set, otherwise the route's namespace; the
ref's name), that key is present in the Service map, and its ServicePort is
one of the ports of that Service, with the port number of the ref.
`addBackendRefsToRules` only lowers Valid, so the same holds for every valid
BackendRef in the rules of a route that had no BackendRefs before the call. -/
theorem valid_backendRef_resolves (refGrantResolver : referenceGrantResolver)
    (services : GoMap corev1.Service) :
    (∀ (ref : gatewayv1.HTTPBackendRef) (sourceNamespace refPath : String)
        (backendTLSPolicies : PolicyStore) (b : BackendRef) (cond : Option Condition)
        (store : PolicyStore),
      createBackendRef ref sourceNamespace refGrantResolver services refPath
        backendTLSPolicies = some (b, cond, store) →
      b.Valid = true →
      b.SvcNsName = { Namespace := ref.Namespace.getD sourceNamespace, Name := ref.Name } ∧
      ∃ svc, mapLookup services b.SvcNsName = some svc ∧ b.ServicePort ∈ svc.Spec.Ports ∧
        ref.Port = some b.ServicePort.Port) ∧
    (∀ (route route' : Route) (backendTLSPolicies store : PolicyStore),
      addBackendRefsToRules route refGrantResolver services backendTLSPolicies =
        some (route', store) →
      (∀ r ∈ route.Rules, r.BackendRefs = []) →
      ∀ (i j : Nat) (r' : Rule) (b : BackendRef),
        route'.Rules[i]? = some r' → r'.BackendRefs[j]? = some b → b.Valid = true →
        ∃ src ref, route.Source.Spec.Rules[i]? = some src ∧ src.BackendRefs[j]? = some ref ∧
          b.SvcNsName = { Namespace := ref.Namespace.getD route.Source.Namespace,
                          Name := ref.Name } ∧
          ∃ svc, mapLookup services b.SvcNsName = some svc ∧ b.ServicePort ∈ svc.Spec.Ports ∧
            ref.Port = some b.ServicePort.Port) := by
  refine ⟨fun ref ns path pols b cond store h hv =>
    createBackendRef_valid_resolves ref ns refGrantResolver services path pols b cond store h hv,
    ?_⟩
  intro route route' pols store h hempty i j r' b hr' hb hv
  unfold addBackendRefsToRules at h
  split at h
  · -- an invalid route is returned as it is
    simp at h
    obtain ⟨h1, _⟩ := h
    subst h1
    have := hempty r' (List.getElem?_mem hr')
    rw [this] at hb
    simp at hb
  · split at h
    · simp at h
    · rename_i rules conds store1 hloop
      simp at h
      obtain ⟨h1, _⟩ := h
      subst h1
      simp only at hr'
      have hspec := addBackendRefsLoop_spec route.Source.Namespace refGrantResolver services
        route.Source.Spec.Rules 0 route.Rules pols rules conds store1 hloop
      have hlt : i < route.Rules.length := by
        rw [← hspec.1]
        exact (List.getElem?_eq_some_iff.mp hr').1
      obtain ⟨r, hr⟩ : ∃ r, route.Rules[i]? = some r :=
        ⟨route.Rules[i], List.getElem?_eq_getElem hlt⟩
      obtain ⟨r2, hr2, hnone, hsome⟩ := hspec.2 i r hr
      rw [hr'] at hr2
      injection hr2 with hr2
      subst hr2
      have hre : r.BackendRefs = [] := hempty r (List.getElem?_mem hr)
      cases hsrc : route.Source.Spec.Rules[i]? with
      | none =>
        have := hnone hsrc
        rw [this, hre] at hb
        simp at hb
      | some src =>
        have hs := hsome src hsrc
        by_cases hskip : r.ValidMatches = false ∨ r.ValidFilters = false ∨ src.BackendRefs = []
        · have := hs.1 hskip
          rw [this, hre] at hb
          simp at hb
        · have hm : r.ValidMatches = true := by
            cases hh : r.ValidMatches with
            | true => rfl
            | false => exact absurd (Or.inl hh) hskip
          have hf : r.ValidFilters = true := by
            cases hh : r.ValidFilters with
            | true => rfl
            | false => exact absurd (Or.inr (Or.inl hh)) hskip
          have hbr : src.BackendRefs ≠ [] := fun hh => hskip (Or.inr (Or.inr hh))
          obtain ⟨st0, bs, conds0, st1, pre, post, hc, hre2, _⟩ := hs.2 hm hf hbr
          rw [hre2] at hb
          simp only at hb
          obtain ⟨b0, hb0, hbb⟩ := markMismatch_getElem bs j b hb
          have hcs := createBackendRefs_spec route.Source.Namespace refGrantResolver services
            (0 + i) src.BackendRefs 0 st0 bs conds0 st1 hc
          have hjlt : j < src.BackendRefs.length := by
            rw [← hcs.1]
            exact (List.getElem?_eq_some_iff.mp hb0).1
          obtain ⟨ref, href⟩ : ∃ ref, src.BackendRefs[j]? = some ref :=
            ⟨src.BackendRefs[j], List.getElem?_eq_getElem hjlt⟩
          obtain ⟨b1, path, st2, cond, st3, hb1, hcr, _⟩ := hcs.2 j ref href
          rw [hb0] at hb1
          injection hb1 with hb1
          subst hb1
          have hbeq : b = b0 := by
            rcases hbb with hbb | hbb
            · exact hbb
            · rw [hbb] at hv; cases hv
          subst hbeq
          exact ⟨src, ref, rfl, href,
            createBackendRef_valid_resolves ref route.Source.Namespace refGrantResolver services
              path st2 b cond st3 hcr hv⟩

theorem validateBackendTLSPolicyMatchingAllBackends_cond (bs : List BackendRef) (cond : Condition)
    (h : validateBackendTLSPolicyMatchingAllBackends bs = some cond) :
    cond = staticConds.NewRouteBackendRefUnsupportedValue
      "Backend TLS policies do not match for all backends" := by
  unfold validateBackendTLSPolicyMatchingAllBackends at h
  split at h
  · injection h with h; exact h.symm
  · cases h

/-- Claim C5: for a valid route and a rule with valid matches and filters and more
than one backendRef, let `backendRefs` be the BackendRefs that
`createBackendRef` computes for the refs of the rule. If
`validateBackendTLSPolicyMatchingAllBackends` reports a mismatch for them,
`addBackendRefsToRules` stores every one of them with Valid=false and appends
the ResolvedRefs=False/UnsupportedValue condition "Backend TLS policies do not
match for all backends" to the route, after the conditions of the refs of the
rule; if it reports none, the stored BackendRefs are `backendRefs` unchanged. -/
theorem addBackendRefsToRules_policy_mismatch (route route' : Route)
    (refGrantResolver : referenceGrantResolver) (services : GoMap corev1.Service)
    (backendTLSPolicies store : PolicyStore)
    (h : addBackendRefsToRules route refGrantResolver services backendTLSPolicies =
      some (route', store))
    (hvalid : route.Valid = true)
    (i : Nat) (src : gatewayv1.HTTPRouteRule) (r : Rule)
    (hsrc : route.Source.Spec.Rules[i]? = some src) (hr : route.Rules[i]? = some r)
    (hm : r.ValidMatches = true) (hf : r.ValidFilters = true)
    (hlen : 1 < src.BackendRefs.length) :
    ∃ (st0 st1 : PolicyStore) (backendRefs : List BackendRef) (conds : List Condition)
      (r' : Rule),
      createBackendRefs route.Source.Namespace refGrantResolver services i src.BackendRefs 0
        st0 = some (backendRefs, conds, st1) ∧
      (∀ (j : Nat) (ref : gatewayv1.HTTPBackendRef), src.BackendRefs[j]? = some ref →
        ∃ b path st2 cond st3, backendRefs[j]? = some b ∧
          createBackendRef ref route.Source.Namespace refGrantResolver services path st2 =
            some (b, cond, st3)) ∧
      route'.Rules[i]? = some r' ∧
      r'.BackendRefs.length = src.BackendRefs.length ∧
      (∀ cond, validateBackendTLSPolicyMatchingAllBackends backendRefs = some cond →
        r'.BackendRefs = backendRefs.map (fun b => { b with Valid := false }) ∧
        (∀ b ∈ r'.BackendRefs, b.Valid = false) ∧
        cond = staticConds.NewRouteBackendRefUnsupportedValue
          "Backend TLS policies do not match for all backends" ∧
        cond.Type_ = staticConds.RouteConditionResolvedRefs ∧
        cond.Status = metav1.ConditionFalse ∧
        cond.Reason = staticConds.RouteReasonBackendRefUnsupportedValue ∧
        ∃ pre post, route'.Conditions = route.Conditions ++ pre ++ conds ++ [cond] ++ post) ∧
      (validateBackendTLSPolicyMatchingAllBackends backendRefs = none →
        r'.BackendRefs = backendRefs) := by
  unfold addBackendRefsToRules at h
  rw [hvalid] at h
  simp only [Bool.not_true, Bool.false_eq_true, if_false] at h
  split at h
  · simp at h
  · rename_i rules cs store1 hloop
    simp at h
    obtain ⟨h1, _⟩ := h
    subst h1
    have hspec := addBackendRefsLoop_spec route.Source.Namespace refGrantResolver services
      route.Source.Spec.Rules 0 route.Rules backendTLSPolicies rules cs store1 hloop
    obtain ⟨r2, hr2, _, hsome⟩ := hspec.2 i r hr
    have hbr : src.BackendRefs ≠ [] := by
      intro hh
      rw [hh] at hlen
      simp at hlen
    obtain ⟨st0, bs, conds0, st1, pre, post, hc, hre2, hcs⟩ := (hsome src hsrc).2 hm hf hbr
    rw [Nat.zero_add] at hc
    have hcspec := createBackendRefs_spec route.Source.Namespace refGrantResolver services
      i src.BackendRefs 0 st0 bs conds0 st1 hc
    have hbl : 1 < bs.length := by rw [hcspec.1]; exact hlen
    refine ⟨st0, st1, bs, conds0, r2, hc, ?_, hr2, ?_, ?_, ?_⟩
    · intro j ref href
      obtain ⟨b, path, st2, cond, st3, hb, hcr, _⟩ := hcspec.2 j ref href
      exact ⟨b, path, st2, cond, st3, hb, hcr⟩
    · rw [hre2]
      simp only
      rw [markMismatch_length, hcspec.1]
    · intro cond hcond
      have hmm : markMismatch bs = (bs.map (fun b => { b with Valid := false }), [cond]) := by
        unfold markMismatch
        rw [if_pos hbl, hcond]
      have hce := validateBackendTLSPolicyMatchingAllBackends_cond bs cond hcond
      refine ⟨by rw [hre2, hmm], ?_, hce, by rw [hce]; rfl, by rw [hce]; rfl, by rw [hce]; rfl,
        pre, post, ?_⟩
      · intro b hb
        rw [hre2, hmm] at hb
        simp at hb
        obtain ⟨b0, _, hb0⟩ := hb
        rw [← hb0]
      · simp only
        rw [hcs, hmm]
        simp [List.append_assoc]
    · intro hnone
      have hmm : markMismatch bs = (bs, []) := by
        unfold markMismatch
        rw [if_pos hbl, hnone]
      rw [hre2, hmm]

/-- Claim C1, witness: the ref `sameNsRef` alone and as the only ref of the
route `testRoute`. -/
theorem valid_backendRef_resolves_witness :
    (sameNsBackendRef.SvcNsName =
        { Namespace := sameNsRef.Namespace.getD "test", Name := sameNsRef.Name } ∧
      ∃ svc, mapLookup testServices sameNsBackendRef.SvcNsName = some svc ∧
        sameNsBackendRef.ServicePort ∈ svc.Spec.Ports ∧
        sameNsRef.Port = some sameNsBackendRef.ServicePort.Port) ∧
    (∃ src ref, testRoute.Source.Spec.Rules[0]? = some src ∧ src.BackendRefs[0]? = some ref ∧
      sameNsBackendRef.SvcNsName =
        { Namespace := ref.Namespace.getD testRoute.Source.Namespace, Name := ref.Name } ∧
      ∃ svc, mapLookup testServices sameNsBackendRef.SvcNsName = some svc ∧
        sameNsBackendRef.ServicePort ∈ svc.Spec.Ports ∧
        ref.Port = some sameNsBackendRef.ServicePort.Port) :=
  ⟨(valid_backendRef_resolves noGrants testServices).1 sameNsRef "test"
      "spec.rules[0].backendRefs[0]" [] sameNsBackendRef none [] (by decide) rfl,
    (valid_backendRef_resolves noGrants testServices).2 testRoute testRouteResult [] []
      (by decide) (by decide) 0 0
      { BackendRefs := [sameNsBackendRef], ValidMatches := true, ValidFilters := true }
      sameNsBackendRef rfl rfl rfl⟩

/-- Claim C4, failing input: a backend without a policy followed by a backend with
one passes the check, the same two backends in the other order do not. -/
theorem validateBackendTLSPolicyMatchingAllBackends_order :
    validateBackendTLSPolicyMatchingAllBackends [refWithoutPolicy, refWithPolicy] = none ∧
    validateBackendTLSPolicyMatchingAllBackends [refWithPolicy, refWithoutPolicy] =
      some (staticConds.NewRouteBackendRefUnsupportedValue
        "Backend TLS policies do not match for all backends") := by
  refine ⟨by decide, by decide⟩

/-- Claim C4, second failing input: two policies with equal CACertRefs, equal
WellKnownCACerts values and equal Hostname are reported as a mismatch, because
their `WellKnownCACerts` pointers differ. -/
theorem validateBackendTLSPolicyMatchingAllBackends_pointers :
    testPolicy.Source.Spec.TLS.CACertRefs = testPolicyCopy.Source.Spec.TLS.CACertRefs ∧
    testPolicy.Source.Spec.TLS.WellKnownCACerts.map (fun p => p.val) =
      testPolicyCopy.Source.Spec.TLS.WellKnownCACerts.map (fun p => p.val) ∧
    testPolicy.Source.Spec.TLS.Hostname = testPolicyCopy.Source.Spec.TLS.Hostname ∧
    validateBackendTLSPolicyMatchingAllBackends [refWithPolicy, refWithPolicyCopy] =
      some (staticConds.NewRouteBackendRefUnsupportedValue
        "Backend TLS policies do not match for all backends") := by
  refine ⟨by decide, by decide, by decide, by decide⟩

/-- Claim C5, witness: the two backends of `mismatchRoute` do not match. -/
theorem addBackendRefsToRules_policy_mismatch_witness :
    ∃ (st0 st1 : PolicyStore) (backendRefs : List BackendRef) (conds : List Condition)
      (r' : Rule),
      createBackendRefs mismatchRoute.Source.Namespace noGrants testServices 0
        [{ Name := "service", Port := some 80 }, { Name := "service2", Port := some 80 }] 0
        st0 = some (backendRefs, conds, st1) ∧
      (∀ (j : Nat) (ref : gatewayv1.HTTPBackendRef),
        ([{ Name := "service", Port := some 80 }, { Name := "service2", Port := some 80 }]
          : List gatewayv1.HTTPBackendRef)[j]? = some ref →
        ∃ b path st2 cond st3, backendRefs[j]? = some b ∧
          createBackendRef ref mismatchRoute.Source.Namespace noGrants testServices path st2 =
            some (b, cond, st3)) ∧
      mismatchRouteResult.Rules[0]? = some r' ∧
      r'.BackendRefs.length =
        ([{ Name := "service", Port := some 80 }, { Name := "service2", Port := some 80 }]
          : List gatewayv1.HTTPBackendRef).length ∧
      (∀ cond, validateBackendTLSPolicyMatchingAllBackends backendRefs = some cond →
        r'.BackendRefs = backendRefs.map (fun b => { b with Valid := false }) ∧
        (∀ b ∈ r'.BackendRefs, b.Valid = false) ∧
        cond = staticConds.NewRouteBackendRefUnsupportedValue
          "Backend TLS policies do not match for all backends" ∧
        cond.Type_ = staticConds.RouteConditionResolvedRefs ∧
        cond.Status = metav1.ConditionFalse ∧
        cond.Reason = staticConds.RouteReasonBackendRefUnsupportedValue ∧
        ∃ pre post,
          mismatchRouteResult.Conditions =
            mismatchRoute.Conditions ++ pre ++ conds ++ [cond] ++ post) ∧
      (validateBackendTLSPolicyMatchingAllBackends backendRefs = none →
        r'.BackendRefs = backendRefs) :=
  addBackendRefsToRules_policy_mismatch mismatchRoute mismatchRouteResult noGrants testServices
    testPolicyStore [({ Namespace := "test", Name := "btp" }, referencedTestPolicy)]
    (by decide) rfl 0
    { BackendRefs := [{ Name := "service", Port := some 80 },
                      { Name := "service2", Port := some 80 }] }
    { ValidMatches := true, ValidFilters := true } rfl rfl rfl rfl (by decide)

/-! ## Properties of gatewayclass.go and graph.go -/

theorem mem_mapInsert {V : Type} (m : GoMap V) (k : types.NamespacedName) (v : V)
    (e : types.NamespacedName × V) :
    e ∈ mapInsert m k v ↔ (e ∈ m ∧ e.1 ≠ k) ∨ e = (k, v) := by
  unfold mapInsert
  simp [List.mem_filter]

theorem processGatewayClasses_exists_fold (gcName controllerName : String) :
    ∀ (l : GoMap gatewayv1.GatewayClass) (acc : processedGatewayClasses × Bool),
      (l.foldl (processGatewayClassesStep gcName controllerName) acc).2 = true ↔
        acc.2 = true ∨ ∃ e ∈ l, e.2.Name = gcName := by
  intro l
  induction l with
  | nil => intro acc; simp
  | cons e l ih =>
    intro acc
    rw [List.foldl_cons, ih]
    unfold processGatewayClassesStep
    by_cases h1 : e.2.Name = gcName
    · by_cases h2 : e.2.Spec.ControllerName = controllerName <;> simp [h1, h2]
    · by_cases h2 : e.2.Spec.ControllerName = controllerName <;> simp [h1, h2]

theorem processGatewayClasses_winner_fold (gcName controllerName : String) :
    ∀ (l : GoMap gatewayv1.GatewayClass) (acc : processedGatewayClasses × Bool),
      (l.map (fun e => e.2.Name)).Nodup →
      ∀ gc, (l.foldl (processGatewayClassesStep gcName controllerName) acc).1.Winner = some gc ↔
        ((∃ k, (k, gc) ∈ l) ∧ gc.Name = gcName ∧ gc.Spec.ControllerName = controllerName) ∨
        (acc.1.Winner = some gc ∧
          ∀ e ∈ l, ¬ (e.2.Name = gcName ∧ e.2.Spec.ControllerName = controllerName)) := by
  intro l
  induction l with
  | nil => intro acc _ gc; simp
  | cons e l ih =>
    intro acc hnd gc
    rw [List.map_cons, List.nodup_cons] at hnd
    rw [List.foldl_cons, ih _ hnd.2]
    unfold processGatewayClassesStep
    by_cases h1 : e.2.Name = gcName
    · have hnot : ∀ e' ∈ l, e'.2.Name ≠ gcName := by
        intro e' he' hn
        apply hnd.1
        rw [h1, ← hn]
        exact List.mem_map_of_mem _ he'
      by_cases h2 : e.2.Spec.ControllerName = controllerName
      · simp only [h1, h2, beq_self_eq_true, if_true]
        constructor
        · rintro (⟨⟨k, hk⟩, hn, _⟩ | ⟨hw, _⟩)
          · exact absurd hn (hnot _ hk)
          · injection hw with hw
            subst hw
            exact Or.inl ⟨⟨e.1, by simp⟩, h1, h2⟩
        · rintro (⟨⟨k, hk⟩, hn, hc⟩ | ⟨_, hall⟩)
          · rw [List.mem_cons] at hk
            rcases hk with hk | hk
            · right
              refine ⟨by rw [← hk], fun e' he' hh => hnot e' he' hh.1⟩
            · exact absurd hn (hnot _ hk)
          · exact absurd ⟨h1, h2⟩ (hall e (List.mem_cons_self _ _))
      · have hb : (e.2.Spec.ControllerName == controllerName) = false := by simpa using h2
        simp only [h1, hb, beq_self_eq_true, if_true, Bool.false_eq_true, if_false]
        constructor
        · rintro (⟨⟨k, hk⟩, hn, _⟩ | ⟨hw, hall⟩)
          · exact absurd hn (hnot _ hk)
          · right
            refine ⟨hw, fun e' he' => ?_⟩
            rw [List.mem_cons] at he'
            rcases he' with he' | he'
            · rw [he']; exact fun hh => h2 hh.2
            · exact hall e' he'
        · rintro (⟨⟨k, hk⟩, hn, hc⟩ | ⟨hw, hall⟩)
          · rw [List.mem_cons] at hk
            rcases hk with hk | hk
            · exfalso; apply h2; rw [← hc, ← hk]
            · exact absurd hn (hnot _ hk)
          · exact Or.inr ⟨hw, fun e' he' => hall e' (List.mem_cons_of_mem _ he')⟩
    · have hb1 : (e.2.Name == gcName) = false := by simpa using h1
      have hstep : ∀ (x : processedGatewayClasses × Bool),
          (if (e.2.Spec.ControllerName == controllerName) = true then
            (({ x.1 with Ignored := some (mapInsert (x.1.Ignored.getD [])
                (ObjectKeyFromObject e.2.toObjectMeta) e.2) } : processedGatewayClasses), x.2)
          else x).1.Winner = x.1.Winner := by
        intro x
        split <;> rfl
      simp only [hb1, Bool.false_eq_true, if_false, hstep]
      constructor
      · rintro (⟨⟨k, hk⟩, hn, hc⟩ | ⟨hw, hall⟩)
        · exact Or.inl ⟨⟨k, List.mem_cons_of_mem _ hk⟩, hn, hc⟩
        · right
          refine ⟨hw, fun e' he' => ?_⟩
          rw [List.mem_cons] at he'
          rcases he' with he' | he'
          · rw [he']; exact fun hh => h1 hh.1
          · exact hall e' he'
      · rintro (⟨⟨k, hk⟩, hn, hc⟩ | ⟨hw, hall⟩)
        · rw [List.mem_cons] at hk
          rcases hk with hk | hk
          · exfalso; apply h1; rw [← hn, ← hk]
          · exact Or.inl ⟨⟨k, hk⟩, hn, hc⟩
        · exact Or.inr ⟨hw, fun e' he' => hall e' (List.mem_cons_of_mem _ he')⟩

theorem objectKey_eq_name {a b : metav1.ObjectMeta}
    (h : ObjectKeyFromObject a = ObjectKeyFromObject b) : a.Name = b.Name := by
  unfold ObjectKeyFromObject at h
  injection h

theorem processGatewayClasses_ignored_fold (gcName controllerName : String) :
    ∀ (l : GoMap gatewayv1.GatewayClass) (acc : processedGatewayClasses × Bool),
      (l.map (fun e => e.2.Name)).Nodup →
      (∀ e0 ∈ acc.1.Ignored.getD [], ∀ e ∈ l, e0.1 ≠ ObjectKeyFromObject e.2.toObjectMeta) →
      ∀ k gc,
        (k, gc) ∈ (l.foldl (processGatewayClassesStep gcName controllerName) acc).1.Ignored.getD []
          ↔ (k, gc) ∈ acc.1.Ignored.getD [] ∨
            (k = ObjectKeyFromObject gc.toObjectMeta ∧ (∃ k0, (k0, gc) ∈ l) ∧
              gc.Spec.ControllerName = controllerName ∧ gc.Name ≠ gcName) := by
  intro l
  induction l with
  | nil => intro acc _ _ k gc; simp
  | cons e l ih =>
    intro acc hnd hacc k gc
    rw [List.map_cons, List.nodup_cons] at hnd
    have hkey : ∀ e' ∈ l, ObjectKeyFromObject e.2.toObjectMeta ≠
        ObjectKeyFromObject e'.2.toObjectMeta := by
      intro e' he' hh
      apply hnd.1
      rw [objectKey_eq_name hh]
      exact List.mem_map_of_mem (fun e => e.2.Name) he'
    rw [List.foldl_cons]
    by_cases hins : e.2.Name ≠ gcName ∧ e.2.Spec.ControllerName = controllerName
    · -- the class is inserted
      have hstep : processGatewayClassesStep gcName controllerName acc e =
          ({ acc.1 with Ignored := some (mapInsert (acc.1.Ignored.getD [])
              (ObjectKeyFromObject e.2.toObjectMeta) e.2) }, acc.2) := by
        unfold processGatewayClassesStep
        have hb1 : (e.2.Name == gcName) = false := by simpa using hins.1
        simp [hb1, hins.2]
      rw [hstep]
      rw [ih _ hnd.2]
      · simp only [Option.getD_some]
        rw [mem_mapInsert]
        constructor
        · rintro ((⟨hm, _⟩ | heq) | ⟨hk, ⟨k0, hk0⟩, hc, hn⟩)
          · exact Or.inl hm
          · right
            injection heq with hk hg
            subst hg
            exact ⟨hk, ⟨e.1, by simp⟩, hins.2, hins.1⟩
          · exact Or.inr ⟨hk, ⟨k0, List.mem_cons_of_mem _ hk0⟩, hc, hn⟩
        · rintro (hm | ⟨hk, ⟨k0, hk0⟩, hc, hn⟩)
          · left; left
            exact ⟨hm, hacc _ hm e (List.mem_cons_self _ _)⟩
          · rw [List.mem_cons] at hk0
            rcases hk0 with hk0 | hk0
            · left; right
              rw [hk, ← hk0]
            · exact Or.inr ⟨hk, ⟨k0, hk0⟩, hc, hn⟩
      · intro e0 he0 e' he'
        simp only [Option.getD_some] at he0
        rw [mem_mapInsert] at he0
        rcases he0 with ⟨hm, _⟩ | heq
        · exact hacc e0 hm e' (List.mem_cons_of_mem _ he')
        · rw [heq]
          exact hkey e' he'
    · -- the class is not inserted
      have hstep : (processGatewayClassesStep gcName controllerName acc e).1.Ignored =
          acc.1.Ignored := by
        unfold processGatewayClassesStep
        by_cases h1 : e.2.Name = gcName
        · simp only [h1, beq_self_eq_true, if_true]
          split <;> rfl
        · have h2 : ¬ e.2.Spec.ControllerName = controllerName := fun hh => hins ⟨h1, hh⟩
          have hb1 : (e.2.Name == gcName) = false := by simpa using h1
          have hb2 : (e.2.Spec.ControllerName == controllerName) = false := by simpa using h2
          simp [hb1, hb2]
      rw [ih _ hnd.2]
      · rw [hstep]
        constructor
        · rintro (hm | ⟨hk, ⟨k0, hk0⟩, hc, hn⟩)
          · exact Or.inl hm
          · exact Or.inr ⟨hk, ⟨k0, List.mem_cons_of_mem _ hk0⟩, hc, hn⟩
        · rintro (hm | ⟨hk, ⟨k0, hk0⟩, hc, hn⟩)
          · exact Or.inl hm
          · rw [List.mem_cons] at hk0
            rcases hk0 with hk0 | hk0
            · exfalso
              apply hins
              rw [← hk0]
              exact ⟨hn, hc⟩
            · exact Or.inr ⟨hk, ⟨k0, hk0⟩, hc, hn⟩
      · intro e0 he0 e' he'
        rw [hstep] at he0
        exact hacc e0 he0 e' (List.mem_cons_of_mem _ he')

/-- The three results of `processGatewayClasses` for classes with distinct names. -/
theorem processGatewayClasses_results (gcs : GoMap gatewayv1.GatewayClass)
    (gcName controllerName : String)
    (hnames : (gcs.map (fun e => e.2.Name)).Nodup) :
    (∀ gc, (processGatewayClasses gcs gcName controllerName).1.Winner = some gc ↔
      ((∃ k, (k, gc) ∈ gcs) ∧ gc.Name = gcName ∧ gc.Spec.ControllerName = controllerName)) ∧
    ((processGatewayClasses gcs gcName controllerName).1.Winner = none ↔
      ¬ ∃ e ∈ gcs, e.2.Name = gcName ∧ e.2.Spec.ControllerName = controllerName) ∧
    (∀ k gc, (k, gc) ∈ (processGatewayClasses gcs gcName controllerName).1.Ignored.getD [] ↔
      (k = ObjectKeyFromObject gc.toObjectMeta ∧ (∃ k0, (k0, gc) ∈ gcs) ∧
        gc.Spec.ControllerName = controllerName ∧ gc.Name ≠ gcName)) ∧
    (∀ k gc, (k, gc) ∈ (processGatewayClasses gcs gcName controllerName).1.Ignored.getD [] →
      (processGatewayClasses gcs gcName controllerName).1.Winner ≠ some gc) ∧
    ((processGatewayClasses gcs gcName controllerName).2 = true ↔
      ∃ e ∈ gcs, e.2.Name = gcName) := by
  have hw : ∀ gc, (processGatewayClasses gcs gcName controllerName).1.Winner = some gc ↔
      ((∃ k, (k, gc) ∈ gcs) ∧ gc.Name = gcName ∧ gc.Spec.ControllerName = controllerName) := by
    intro gc
    unfold processGatewayClasses
    rw [processGatewayClasses_winner_fold gcName controllerName gcs _ hnames gc]
    simp
  have hi : ∀ k gc,
      (k, gc) ∈ (processGatewayClasses gcs gcName controllerName).1.Ignored.getD [] ↔
      (k = ObjectKeyFromObject gc.toObjectMeta ∧ (∃ k0, (k0, gc) ∈ gcs) ∧
        gc.Spec.ControllerName = controllerName ∧ gc.Name ≠ gcName) := by
    intro k gc
    unfold processGatewayClasses
    rw [processGatewayClasses_ignored_fold gcName controllerName gcs _ hnames
      (by intro e0 he0; simp at he0) k gc]
    simp
  refine ⟨hw, ?_, hi, ?_, ?_⟩
  · constructor
    · rintro hnone ⟨e, he, hn, hc⟩
      have := (hw e.2).2 ⟨⟨e.1, he⟩, hn, hc⟩
      rw [hnone] at this
      cases this
    · intro hno
      cases hres : (processGatewayClasses gcs gcName controllerName).1.Winner with
      | none => rfl
      | some gc =>
        exfalso
        obtain ⟨⟨k, hk⟩, hn, hc⟩ := (hw gc).1 hres
        exact hno ⟨(k, gc), hk, hn, hc⟩
  · intro k gc hmem hwin
    exact ((hi k gc).1 hmem).2.2.2 ((hw gc).1 hwin).2.1
  · unfold processGatewayClasses
    rw [processGatewayClasses_exists_fold]
    simp

/-- Claim C8: `processGatewayClasses(gcs, gcName, controllerName)`, for classes with
distinct names (GatewayClass is cluster-scoped), returns: as Winner the class
named `gcName` if it exists and references `controllerName`, otherwise nil; as
Ignored exactly the classes that reference `controllerName` and whose name
differs from `gcName`, each under its own key, so never a class of another
controller and never the Winner; and the boolean is true if and only if some
class is named `gcName`, whatever controller it references. -/
theorem processGatewayClasses_spec (gcs : GoMap gatewayv1.GatewayClass)
    (gcName controllerName : String)
    (hnames : (gcs.map (fun e => e.2.Name)).Nodup) :
    (∀ gc, (processGatewayClasses gcs gcName controllerName).1.Winner = some gc ↔
      ((∃ k, (k, gc) ∈ gcs) ∧ gc.Name = gcName ∧ gc.Spec.ControllerName = controllerName)) ∧
    ((processGatewayClasses gcs gcName controllerName).1.Winner = none ↔
      ¬ ∃ e ∈ gcs, e.2.Name = gcName ∧ e.2.Spec.ControllerName = controllerName) ∧
    (∀ k gc, (k, gc) ∈ (processGatewayClasses gcs gcName controllerName).1.Ignored.getD [] ↔
      (k = ObjectKeyFromObject gc.toObjectMeta ∧ (∃ k0, (k0, gc) ∈ gcs) ∧
        gc.Spec.ControllerName = controllerName ∧ gc.Name ≠ gcName)) ∧
    (∀ k gc, (k, gc) ∈ (processGatewayClasses gcs gcName controllerName).1.Ignored.getD [] →
      (processGatewayClasses gcs gcName controllerName).1.Winner ≠ some gc) ∧
    ((processGatewayClasses gcs gcName controllerName).2 = true ↔
      ∃ e ∈ gcs, e.2.Name = gcName) :=
  processGatewayClasses_results gcs gcName controllerName hnames

/-- Claim C9, counterexample: with no GatewayClass named `test-class` in the
cluster, `BuildGraph` returns a Graph that reports `other-class` as ignored,
not the empty Graph. -/
theorem BuildGraph_missing_class_counterexample :
    (∀ e ∈ stateWithoutConfiguredClass.GatewayClasses, e.2.Name ≠ "test-class") ∧
    (BuildGraph emptyExternals stateWithoutConfiguredClass "my.controller" "test-class" {}
        []).map (fun g => g.IgnoredGatewayClasses) =
      some (some [({ Name := "other-class" }, otherClass)]) ∧
    BuildGraph emptyExternals stateWithoutConfiguredClass "my.controller" "test-class" {} [] ≠
      some {} := by
  refine ⟨by decide, by decide, by decide⟩

theorem BuildGraph_eq_of_continue (ext : Externals) (state : ClusterState)
    (controllerName gcName : String) (validators : Validators) (protectedPorts : ProtectedPorts)
    (g : Graph)
    (hcont : ¬ ((processGatewayClasses state.GatewayClasses gcName controllerName).2 = true ∧
      (processGatewayClasses state.GatewayClasses gcName controllerName).1.Winner = none))
    (h : BuildGraph ext state controllerName gcName validators protectedPorts = some g) :
    g.GatewayClass = buildGatewayClass ext
      (processGatewayClasses state.GatewayClasses gcName controllerName).1.Winner
      state.CRDMetadata ∧
    g.IgnoredGatewayClasses =
      (processGatewayClasses state.GatewayClasses gcName controllerName).1.Ignored ∧
    g.IgnoredGateways = (ext.processGateways state.Gateways gcName).Ignored := by
  unfold BuildGraph at h
  rcases hp : processGatewayClasses state.GatewayClasses gcName controllerName with ⟨p, ex⟩
  rw [hp] at h hcont
  simp only at h hcont
  have hc : ¬ ((ex && p.Winner.isNone) = true) := by
    intro hh
    apply hcont
    simp at hh
    exact ⟨hh.1, by simpa using hh.2⟩
  rw [if_neg hc] at h
  split at h
  · cases h
  · split at h
    · cases h
    · injection h with h
      subst h
      exact ⟨rfl, rfl, rfl⟩

/-- Claim C9, amended: if no GatewayClass named `gcName` exists (class names being
distinct), `BuildGraph` does not return early: the Graph it returns has no
GatewayClass, its IgnoredGatewayClasses are exactly the classes that reference
this controller, each under its own key, and its IgnoredGateways are those
that `processGateways` reports. -/
theorem BuildGraph_missing_class (ext : Externals) (state : ClusterState)
    (controllerName gcName : String) (validators : Validators) (protectedPorts : ProtectedPorts)
    (g : Graph)
    (hnames : (state.GatewayClasses.map (fun e => e.2.Name)).Nodup)
    (hno : ∀ e ∈ state.GatewayClasses, e.2.Name ≠ gcName)
    (h : BuildGraph ext state controllerName gcName validators protectedPorts = some g) :
    g.GatewayClass = none ∧
    (∀ k gc, (k, gc) ∈ g.IgnoredGatewayClasses.getD [] ↔
      (k = ObjectKeyFromObject gc.toObjectMeta ∧ (∃ k0, (k0, gc) ∈ state.GatewayClasses) ∧
        gc.Spec.ControllerName = controllerName)) ∧
    g.IgnoredGateways = (ext.processGateways state.Gateways gcName).Ignored := by
  have hspec := processGatewayClasses_results state.GatewayClasses gcName controllerName hnames
  have hex : ¬ (processGatewayClasses state.GatewayClasses gcName controllerName).2 = true := by
    intro hh
    obtain ⟨e, he, hn⟩ := hspec.2.2.2.2.1 hh
    exact hno e he hn
  have hwin : (processGatewayClasses state.GatewayClasses gcName controllerName).1.Winner =
      none := by
    rw [hspec.2.1]
    rintro ⟨e, he, hn, _⟩
    exact hno e he hn
  obtain ⟨h1, h2, h3⟩ := BuildGraph_eq_of_continue ext state controllerName gcName validators
    protectedPorts g (fun hh => hex hh.1) h
  refine ⟨?_, ?_, h3⟩
  · rw [h1, hwin]
    rfl
  · intro k gc
    rw [h2, hspec.2.2.1 k gc]
    constructor
    · rintro ⟨hk, hm, hc, _⟩
      exact ⟨hk, hm, hc⟩
    · rintro ⟨hk, ⟨k0, hm⟩, hc⟩
      exact ⟨hk, ⟨k0, hm⟩, hc, hno (k0, gc) hm⟩

/-- Claim C9 as amended, witness: `other-class` is reported as ignored. -/
theorem BuildGraph_missing_class_witness :
    ({ IgnoredGatewayClasses := some [({ Name := "other-class" }, otherClass)] } : Graph).GatewayClass
      = none ∧
    (∀ k gc, (k, gc) ∈ ({ IgnoredGatewayClasses := some [({ Name := "other-class" }, otherClass)] }
        : Graph).IgnoredGatewayClasses.getD [] ↔
      (k = ObjectKeyFromObject gc.toObjectMeta ∧
        (∃ k0, (k0, gc) ∈ stateWithoutConfiguredClass.GatewayClasses) ∧
        gc.Spec.ControllerName = "my.controller")) ∧
    ({ IgnoredGatewayClasses := some [({ Name := "other-class" }, otherClass)] }
        : Graph).IgnoredGateways =
      (emptyExternals.processGateways stateWithoutConfiguredClass.Gateways "test-class").Ignored :=
  BuildGraph_missing_class emptyExternals stateWithoutConfiguredClass "my.controller"
    "test-class" {} [] _ (by decide) (by decide) (by decide)

/-- Claim C10: if a GatewayClass named `gcName` exists (class names being distinct)
and its controllerName differs from `controllerName`, `BuildGraph` returns the
empty Graph, all fields nil, whatever else the state holds; in particular its
IgnoredGatewayClasses are nil even when other classes reference this
controller. -/
theorem BuildGraph_foreign_class (ext : Externals) (state : ClusterState)
    (controllerName gcName : String) (validators : Validators) (protectedPorts : ProtectedPorts)
    (hnames : (state.GatewayClasses.map (fun e => e.2.Name)).Nodup)
    (hex : ∃ e ∈ state.GatewayClasses,
      e.2.Name = gcName ∧ e.2.Spec.ControllerName ≠ controllerName) :
    BuildGraph ext state controllerName gcName validators protectedPorts = some {} ∧
    ∀ g, BuildGraph ext state controllerName gcName validators protectedPorts = some g →
      g.GatewayClass = none ∧ g.Gateway = none ∧ g.IgnoredGatewayClasses = none ∧
      g.IgnoredGateways = none ∧ g.Routes = none ∧ g.ReferencedSecrets = none ∧
      g.ReferencedNamespaces = none ∧ g.ReferencedServices = none ∧
      g.ReferencedCaCertConfigMaps = none ∧ g.BackendTLSPolicies = none := by
  have hspec := processGatewayClasses_results state.GatewayClasses gcName controllerName hnames
  obtain ⟨e, he, hn, hc⟩ := hex
  have hexists : (processGatewayClasses state.GatewayClasses gcName controllerName).2 = true :=
    hspec.2.2.2.2.2 ⟨e, he, hn⟩
  have hwin : (processGatewayClasses state.GatewayClasses gcName controllerName).1.Winner =
      none := by
    rw [hspec.2.1]
    rintro ⟨e', he', hn', hc'⟩
    -- names are distinct, so e' is e
    have : e' = e := by
      have hinj := List.inj_on_of_nodup_map hnames he' he
      exact hinj (by rw [hn', hn])
    rw [this] at hc'
    exact hc hc'
  have hb : BuildGraph ext state controllerName gcName validators protectedPorts = some {} := by
    unfold BuildGraph
    rcases hp : processGatewayClasses state.GatewayClasses gcName controllerName with ⟨p, ex⟩
    rw [hp] at hexists hwin
    simp only at hexists hwin
    simp only
    rw [hexists, hwin]
    rfl
  refine ⟨hb, fun g hg => ?_⟩
  rw [hb] at hg
  injection hg with hg
  subst hg
  exact ⟨rfl, rfl, rfl, rfl, rfl, rfl, rfl, rfl, rfl, rfl⟩

/-- Claim C10, witness: `test-class` references another controller and
`other-class` references this one. -/
theorem BuildGraph_foreign_class_witness :
    BuildGraph emptyExternals stateWithForeignConfiguredClass "my.controller" "test-class" {} []
      = some {} ∧
    ∀ g, BuildGraph emptyExternals stateWithForeignConfiguredClass "my.controller" "test-class"
        {} [] = some g →
      g.GatewayClass = none ∧ g.Gateway = none ∧ g.IgnoredGatewayClasses = none ∧
      g.IgnoredGateways = none ∧ g.Routes = none ∧ g.ReferencedSecrets = none ∧
      g.ReferencedNamespaces = none ∧ g.ReferencedServices = none ∧
      g.ReferencedCaCertConfigMaps = none ∧ g.BackendTLSPolicies = none :=
  BuildGraph_foreign_class emptyExternals stateWithForeignConfiguredClass "my.controller"
    "test-class" {} [] (by decide)
    ⟨({ Name := "test-class" }, foreignTestClass), by decide, rfl, by decide⟩

/-- Claim C8, witness: the two classes of `stateWithForeignConfiguredClass`. -/
theorem processGatewayClasses_spec_witness :
    processGatewayClasses stateWithForeignConfiguredClass.GatewayClasses "test-class"
      "my.controller" =
      ({ Winner := none, Ignored := some [({ Name := "other-class" }, otherClass)] }, true) ∧
    ((processGatewayClasses stateWithForeignConfiguredClass.GatewayClasses "test-class"
        "my.controller").2 = true ↔
      ∃ e ∈ stateWithForeignConfiguredClass.GatewayClasses, e.2.Name = "test-class") :=
  ⟨by decide,
    (processGatewayClasses_spec stateWithForeignConfiguredClass.GatewayClasses "test-class"
      "my.controller" (by decide)).2.2.2.2⟩

/-! ## Properties of backend_tls_policy.go -/

theorem validateBackendTLSCACertRef_single (ext : Externals) (btp : v1alpha2.BackendTLSPolicy)
    (resolver : configMapResolver) (ref : v1alpha2.LocalObjectReference)
    (h : btp.Spec.TLS.CACertRefs = some [ref]) :
    validateBackendTLSCACertRef ext btp resolver =
      if ref.Kind != "ConfigMap" then
        some (some (field.NotSupported "tls.cacertrefs[0].kind" ref.Kind ["ConfigMap"]), resolver)
      else if ref.Group != "" && ref.Group != "core" then
        some (some (field.NotSupported "tls.cacertrefs[0].group" ref.Group ["", "core"]),
          resolver)
      else
        match ext.resolveConfigMap resolver { Namespace := btp.Namespace, Name := ref.Name } with
        | (some err, resolver1) =>
          some (some (field.Invalid "tls.cacertrefs[0]" ref.Name err), resolver1)
        | (none, resolver1) => some (none, resolver1) := by
  unfold validateBackendTLSCACertRef
  simp [h]

theorem validateBackendTLSCACertRef_many (ext : Externals) (btp : v1alpha2.BackendTLSPolicy)
    (resolver : configMapResolver) (refs : List v1alpha2.LocalObjectReference)
    (h : btp.Spec.TLS.CACertRefs = some refs) (hl : refs.length ≠ 1) :
    validateBackendTLSCACertRef ext btp resolver =
      some (some (field.TooMany "tls.cacertrefs" refs.length 1), resolver) := by
  unfold validateBackendTLSCACertRef
  simp [h, hl]

/-- The result of `validateBackendTLSPolicy`, check by check. -/
theorem validateBackendTLSPolicy_result (ext : Externals) (btp : v1alpha2.BackendTLSPolicy)
    (resolver : configMapResolver) (ctlrName : String) (gateway : Gateway) :
    ∃ valid conds resolver1,
      validateBackendTLSPolicy ext btp resolver ctlrName gateway =
        some (valid, (validateAncestorMaxCount btp ctlrName gateway).isSome, conds, resolver1) ∧
      (valid = true ↔
        (validateAncestorMaxCount btp ctlrName gateway = none ∧
          ext.validateHostname btp.Spec.TLS.Hostname = none ∧
          ((btp.Spec.TLS.WellKnownCACerts = none ∧
              ∃ ref, btp.Spec.TLS.CACertRefs = some [ref] ∧ ref.Kind = "ConfigMap" ∧
                (ref.Group = "" ∨ ref.Group = "core") ∧
                (ext.resolveConfigMap resolver
                  { Namespace := btp.Namespace, Name := ref.Name }).1 = none) ∨
            (btp.Spec.TLS.CACertRefs = none ∧
              ∃ p, btp.Spec.TLS.WellKnownCACerts = some p ∧ p.val = "System")))) ∧
      (valid = true → conds = []) ∧
      ((validateAncestorMaxCount btp ctlrName gateway).isSome = true → valid = false) := by
  unfold validateBackendTLSPolicy validateBackendTLSHostname
  cases hanc : validateAncestorMaxCount btp ctlrName gateway with
  | some e =>
    cases hhost : ext.validateHostname btp.Spec.TLS.Hostname <;>
    cases hca : btp.Spec.TLS.CACertRefs with
    | none =>
      cases hwk : btp.Spec.TLS.WellKnownCACerts with
      | none => simp
      | some p =>
        simp [validateBackendTLSWellKnownCACerts, hwk]
        by_cases hp : p.val = WellKnownCACertSystem <;> simp [hp]
    | some refs =>
      cases hwk : btp.Spec.TLS.WellKnownCACerts with
      | some p => simp
      | none =>
        cases refs with
        | nil => simp
        | cons r rest =>
          cases rest with
          | nil =>
            simp [validateBackendTLSCACertRef_single ext btp resolver r hca]
            by_cases hk : r.Kind = "ConfigMap"
            · by_cases hg : r.Group = "" ∨ r.Group = "core"
              · rcases hres : ext.resolveConfigMap resolver
                  { Namespace := btp.Namespace, Name := r.Name } with ⟨err, r1⟩
                cases err <;> rcases hg with hg | hg <;> simp [hk, hg]
              · simp only [not_or] at hg
                simp [hk, hg.1, hg.2]
            · simp [hk]
          | cons r2 rest2 =>
            simp [validateBackendTLSCACertRef_many ext btp resolver (r :: r2 :: rest2) hca]
  | none =>
    cases hhost : ext.validateHostname btp.Spec.TLS.Hostname with
    | some herr =>
      cases hca : btp.Spec.TLS.CACertRefs with
      | none =>
        cases hwk : btp.Spec.TLS.WellKnownCACerts with
        | none => simp
        | some p =>
          simp [validateBackendTLSWellKnownCACerts, hwk]
          by_cases hp : p.val = WellKnownCACertSystem <;> simp [hp]
      | some refs =>
        cases hwk : btp.Spec.TLS.WellKnownCACerts with
        | some p => simp
        | none =>
          cases refs with
          | nil => simp
          | cons r rest =>
            cases rest with
            | nil =>
              simp [validateBackendTLSCACertRef_single ext btp resolver r hca]
              by_cases hk : r.Kind = "ConfigMap"
              · by_cases hg : r.Group = "" ∨ r.Group = "core"
                · rcases hres : ext.resolveConfigMap resolver
                    { Namespace := btp.Namespace, Name := r.Name } with ⟨err, r1⟩
                  cases err <;> rcases hg with hg | hg <;> simp [hk, hg]
                · simp only [not_or] at hg
                  simp [hk, hg.1, hg.2]
              · simp [hk]
            | cons r2 rest2 =>
              simp [validateBackendTLSCACertRef_many ext btp resolver (r :: r2 :: rest2) hca]
    | none =>
      cases hca : btp.Spec.TLS.CACertRefs with
      | none =>
        cases hwk : btp.Spec.TLS.WellKnownCACerts with
        | none => simp
        | some p =>
          simp [validateBackendTLSWellKnownCACerts, hwk]
          by_cases hp : p.val = "System"
          · simp [hp, WellKnownCACertSystem]
          · simp [hp, WellKnownCACertSystem]
      | some refs =>
        cases hwk : btp.Spec.TLS.WellKnownCACerts with
        | some p => simp
        | none =>
          cases refs with
          | nil => simp
          | cons r rest =>
            cases rest with
            | nil =>
              simp [validateBackendTLSCACertRef_single ext btp resolver r hca]
              by_cases hk : r.Kind = "ConfigMap"
              · by_cases hg : r.Group = "" ∨ r.Group = "core"
                · rcases hres : ext.resolveConfigMap resolver
                    { Namespace := btp.Namespace, Name := r.Name } with ⟨err, r1⟩
                  cases err <;> rcases hg with hg | hg <;> simp [hk, hg]
                · simp only [not_or] at hg
                  simp [hk, hg.1, hg.2]
              · simp [hk]
            | cons r2 rest2 =>
              simp [validateBackendTLSCACertRef_many ext btp resolver (r :: r2 :: rest2) hca]

theorem validateAncestorMaxCount_isSome_iff (btp : v1alpha2.BackendTLSPolicy) (ctlrName : String)
    (gateway : Gateway) :
    (validateAncestorMaxCount btp ctlrName gateway).isSome = true ↔
      (16 ≤ btp.Status.Ancestors.length ∧
        ¬ ∃ a ∈ btp.Status.Ancestors,
          a.ControllerName = ctlrName ∧ a.AncestorRef.Name = gateway.Source.Name ∧
            a.AncestorRef.Namespace = some gateway.Source.Namespace) := by
  unfold validateAncestorMaxCount
  by_cases hlen : btp.Status.Ancestors.length ≥ 16
  · rw [if_pos hlen]
    simp only
    by_cases hany : (btp.Status.Ancestors.any fun ancestor =>
        ancestor.ControllerName == ctlrName && ancestor.AncestorRef.Name == gateway.Source.Name &&
          ancestor.AncestorRef.Namespace.isSome &&
          ancestor.AncestorRef.Namespace.getD "" ==
            (some gateway.Source.Namespace : Option String).getD "") = true
    · rw [hany]
      simp only [Bool.not_true, Bool.false_eq_true, if_false, Option.isSome_none, false_iff,
        not_and, not_not]
      intro _
      rw [List.any_eq_true] at hany
      obtain ⟨a, ha, hcond⟩ := hany
      simp only [Bool.and_eq_true, beq_iff_eq, Option.getD_some] at hcond
      obtain ⟨⟨⟨h1, h2⟩, h3⟩, h4⟩ := hcond
      refine ⟨a, ha, h1, h2, ?_⟩
      cases hn : a.AncestorRef.Namespace with
      | none => rw [hn] at h3; cases h3
      | some n => rw [hn] at h4; simp at h4; rw [h4]
    · have hf : (btp.Status.Ancestors.any fun ancestor =>
          ancestor.ControllerName == ctlrName &&
            ancestor.AncestorRef.Name == gateway.Source.Name &&
            ancestor.AncestorRef.Namespace.isSome &&
            ancestor.AncestorRef.Namespace.getD "" ==
              (some gateway.Source.Namespace : Option String).getD "") = false := by
        simpa using hany
      rw [hf]
      simp only [Bool.not_false, if_true, Option.isSome_some, true_iff]
      refine ⟨hlen, ?_⟩
      rintro ⟨a, ha, h1, h2, h3⟩
      apply hany
      rw [List.any_eq_true]
      refine ⟨a, ha, ?_⟩
      simp [h1, h2, h3]
  · rw [if_neg hlen]
    simp only [Option.isSome_none, Bool.false_eq_true, false_iff, not_and]
    intro h
    exact absurd h hlen

/-- Claim C11: `validateBackendTLSPolicy` returns, and it returns valid=true if
and only if `validateAncestorMaxCount` succeeds, the TLS hostname passes
`validateHostname`, and exactly one certificate source is usable: either
WellKnownCACerts is unset and CACertRefs has exactly one entry, of kind
"ConfigMap" and group "" or "core", that the ConfigMap resolver resolves in the
namespace of the policy, or CACertRefs is unset and WellKnownCACerts is
"System". When valid=true the returned condition list is empty. -/
theorem validateBackendTLSPolicy_valid_iff (ext : Externals)
    (backendTLSPolicy : v1alpha2.BackendTLSPolicy) (resolver : configMapResolver)
    (ctlrName : String) (gateway : Gateway) :
    ∃ valid ignored conds resolver1,
      validateBackendTLSPolicy ext backendTLSPolicy resolver ctlrName gateway =
        some (valid, ignored, conds, resolver1) ∧
      (valid = true ↔
        (validateAncestorMaxCount backendTLSPolicy ctlrName gateway = none ∧
          ext.validateHostname backendTLSPolicy.Spec.TLS.Hostname = none ∧
          ((backendTLSPolicy.Spec.TLS.WellKnownCACerts = none ∧
              ∃ ref, backendTLSPolicy.Spec.TLS.CACertRefs = some [ref] ∧
                ref.Kind = "ConfigMap" ∧ (ref.Group = "" ∨ ref.Group = "core") ∧
                (ext.resolveConfigMap resolver
                  { Namespace := backendTLSPolicy.Namespace, Name := ref.Name }).1 = none) ∨
            (backendTLSPolicy.Spec.TLS.CACertRefs = none ∧
              ∃ p, backendTLSPolicy.Spec.TLS.WellKnownCACerts = some p ∧ p.val = "System")))) ∧
      (valid = true → conds = []) := by
  obtain ⟨valid, conds, resolver1, h, hiff, hconds, _⟩ :=
    validateBackendTLSPolicy_result ext backendTLSPolicy resolver ctlrName gateway
  exact ⟨valid, _, conds, resolver1, h, hiff, hconds⟩

/-- Claim C12: `validateAncestorMaxCount` returns an error if and only if the
status of the policy already has 16 or more ancestors and none of them has
this controller's name together with an AncestorRef whose name and non-nil
namespace equal those of the winning Gateway; whenever it returns an error,
`validateBackendTLSPolicy` returns ignored=true and valid=false. -/
theorem validateAncestorMaxCount_spec (ext : Externals)
    (backendTLSPolicy : v1alpha2.BackendTLSPolicy) (resolver : configMapResolver)
    (ctlrName : String) (gateway : Gateway) :
    ((validateAncestorMaxCount backendTLSPolicy ctlrName gateway).isSome = true ↔
      (16 ≤ backendTLSPolicy.Status.Ancestors.length ∧
        ¬ ∃ a ∈ backendTLSPolicy.Status.Ancestors,
          a.ControllerName = ctlrName ∧ a.AncestorRef.Name = gateway.Source.Name ∧
            a.AncestorRef.Namespace = some gateway.Source.Namespace)) ∧
    ((validateAncestorMaxCount backendTLSPolicy ctlrName gateway).isSome = true →
      ∃ conds resolver1,
        validateBackendTLSPolicy ext backendTLSPolicy resolver ctlrName gateway =
          some (false, true, conds, resolver1)) := by
  refine ⟨validateAncestorMaxCount_isSome_iff backendTLSPolicy ctlrName gateway, fun herr => ?_⟩
  obtain ⟨valid, conds, resolver1, h, _, _, hinv⟩ :=
    validateBackendTLSPolicy_result ext backendTLSPolicy resolver ctlrName gateway
  rw [hinv herr, herr] at h
  exact ⟨conds, resolver1, h⟩

/-- Claim C12, witness: a policy with 16 ancestors of another controller. -/
theorem validateAncestorMaxCount_spec_witness :
    (validateAncestorMaxCount overflowedPolicy "my.controller" testGateway).isSome = true ∧
    ∃ conds resolver1,
      validateBackendTLSPolicy emptyExternals overflowedPolicy {} "my.controller" testGateway =
        some (false, true, conds, resolver1) :=
  ⟨by decide,
    (validateAncestorMaxCount_spec emptyExternals overflowedPolicy {} "my.controller"
      testGateway).2 (by decide)⟩

/-- Every policy that `processBackendTLSPolicies` processes is marked Ignored
exactly when `validateAncestorMaxCount` fails for its source. -/
theorem processBackendTLSPoliciesLoop_ignored (ext : Externals) (ctlrName : String)
    (gateway : Gateway) :
    ∀ (policies : GoMap v1alpha2.BackendTLSPolicy) (resolver : configMapResolver)
      (processed : GoMap BackendTLSPolicy) (resolver1 : configMapResolver),
      processBackendTLSPoliciesLoop ext ctlrName gateway policies resolver =
        some (processed, resolver1) →
      ∀ e ∈ processed,
        e.2.Ignored = (validateAncestorMaxCount e.2.Source ctlrName gateway).isSome := by
  intro policies
  induction policies with
  | nil =>
    intro resolver processed resolver1 h e he
    simp only [processBackendTLSPoliciesLoop, Option.some.injEq, Prod.mk.injEq] at h
    rw [← h.1] at he
    cases he
  | cons p rest ih =>
    intro resolver processed resolver1 h e he
    obtain ⟨nsname, btp⟩ := p
    obtain ⟨valid, conds, r1, hval, _⟩ :=
      validateBackendTLSPolicy_result ext btp resolver ctlrName gateway
    unfold processBackendTLSPoliciesLoop at h
    rw [hval] at h
    simp only at h
    split at h
    · cases h
    · rename_i ref _
      cases hrest : processBackendTLSPoliciesLoop ext ctlrName gateway rest r1 with
      | none => rw [hrest] at h; cases h
      | some res =>
        rw [hrest] at h
        simp only [Option.map_some', Option.some.injEq, Prod.mk.injEq] at h
        rw [← h.1] at he
        rw [List.mem_cons] at he
        rcases he with he | he
        · rw [he]
        · exact ih r1 res.1 res.2 hrest e he

end graph

/-! ## Decimal printing of integers -/

theorem toDigitsCore_append (fuel : Nat) :
    ∀ (n : Nat) (ds : List Char),
      Nat.toDigitsCore 10 fuel n ds = Nat.toDigitsCore 10 fuel n [] ++ ds := by
  induction fuel with
  | zero => intro n ds; simp [Nat.toDigitsCore]
  | succ fuel ih =>
    intro n ds
    simp only [Nat.toDigitsCore]
    by_cases h : n / 10 = 0
    · simp [h]
    · rw [if_neg h, if_neg h, ih (n / 10) (Nat.digitChar (n % 10) :: ds),
        ih (n / 10) [Nat.digitChar (n % 10)]]
      simp

theorem toDigitsCore_fuel (fuel1 : Nat) :
    ∀ (fuel2 n : Nat), n < fuel1 → n < fuel2 →
      Nat.toDigitsCore 10 fuel1 n [] = Nat.toDigitsCore 10 fuel2 n [] := by
  induction fuel1 with
  | zero => intro fuel2 n h; omega
  | succ fuel1 ih =>
    intro fuel2 n h1 h2
    cases fuel2 with
    | zero => omega
    | succ fuel2 =>
      simp only [Nat.toDigitsCore]
      by_cases h : n / 10 = 0
      · simp [h]
      · rw [if_neg h, if_neg h, toDigitsCore_append fuel1, toDigitsCore_append fuel2,
          ih fuel2 (n / 10) (by omega) (by omega)]

/-- The decimal digits of a number below ten. -/
theorem toDigits_lt_ten (n : Nat) (h : n < 10) : Nat.toDigits 10 n = [Nat.digitChar n] := by
  have h0 : n / 10 = 0 := by omega
  have hm : n % 10 = n := by omega
  simp [Nat.toDigits, Nat.toDigitsCore, h0, hm]

/-- The decimal digits of a number from ten on: those of the tenth part, then
the last digit. -/
theorem toDigits_ge_ten (n : Nat) (h : 10 ≤ n) :
    Nat.toDigits 10 n = Nat.toDigits 10 (n / 10) ++ [Nat.digitChar (n % 10)] := by
  have h0 : ¬ n / 10 = 0 := by omega
  have hstep : Nat.toDigitsCore 10 (n + 1) n [] =
      Nat.toDigitsCore 10 n (n / 10) [Nat.digitChar (n % 10)] := by
    rw [Nat.toDigitsCore]
    exact if_neg h0
  unfold Nat.toDigits
  rw [hstep, toDigitsCore_append n,
    toDigitsCore_fuel n (n / 10 + 1) (n / 10) (by omega) (by omega)]

theorem toDigits_ne_nil (n : Nat) : Nat.toDigits 10 n ≠ [] := by
  by_cases h : n < 10
  · rw [toDigits_lt_ten n h]; simp
  · rw [toDigits_ge_ten n (by omega)]; simp

theorem digitChar_injective (a b : Nat) (ha : a < 10) (hb : b < 10)
    (h : Nat.digitChar a = Nat.digitChar b) : a = b := by
  interval_cases a <;> interval_cases b <;> first | rfl | (exact absurd h (by decide))

theorem digitChar_ne_minus (a : Nat) (ha : a < 10) : Nat.digitChar a ≠ '-' := by
  interval_cases a <;> decide

theorem toDigits_injective : ∀ (n m : Nat), Nat.toDigits 10 n = Nat.toDigits 10 m → n = m := by
  intro n
  induction n using Nat.strong_induction_on with
  | _ n ih =>
    intro m h
    by_cases hn : n < 10
    · by_cases hm : m < 10
      · rw [toDigits_lt_ten n hn, toDigits_lt_ten m hm] at h
        exact digitChar_injective n m hn hm (List.singleton_inj.mp h)
      · rw [toDigits_lt_ten n hn, toDigits_ge_ten m (by omega)] at h
        have hlen := congrArg List.length h
        have hne := toDigits_ne_nil (m / 10)
        have hpos : 0 < (Nat.toDigits 10 (m / 10)).length := List.length_pos.mpr hne
        rw [List.length_append] at hlen
        simp only [List.length_singleton] at hlen
        omega
    · by_cases hm : m < 10
      · rw [toDigits_ge_ten n (by omega), toDigits_lt_ten m hm] at h
        have hlen := congrArg List.length h
        have hne := toDigits_ne_nil (n / 10)
        have hpos : 0 < (Nat.toDigits 10 (n / 10)).length := List.length_pos.mpr hne
        rw [List.length_append] at hlen
        simp only [List.length_singleton] at hlen
        omega
      · rw [toDigits_ge_ten n (by omega), toDigits_ge_ten m (by omega)] at h
        have hsplit := List.append_inj' h rfl
        have h1 := ih (n / 10) (by omega) (m / 10) hsplit.1
        have h2 := digitChar_injective (n % 10) (m % 10) (by omega) (by omega)
          (List.singleton_inj.mp hsplit.2)
        omega

theorem toDigits_head_ne_minus (n : Nat) :
    ∀ rest, Nat.toDigits 10 n ≠ '-' :: rest := by
  induction n using Nat.strong_induction_on with
  | _ n ih =>
    intro rest h
    by_cases hn : n < 10
    · rw [toDigits_lt_ten n hn] at h
      have := (List.cons.inj h).1
      exact digitChar_ne_minus n hn this
    · rw [toDigits_ge_ten n (by omega)] at h
      cases hd : Nat.toDigits 10 (n / 10) with
      | nil => exact toDigits_ne_nil _ hd
      | cons c cs =>
        rw [hd] at h
        have hc := (List.cons.inj h).1
        rw [hc] at hd
        exact ih (n / 10) (by omega) cs hd

theorem toString_ofNat (n : Nat) : toString (Int.ofNat n) = String.mk (Nat.toDigits 10 n) := rfl

theorem toString_negSucc (n : Nat) :
    toString (Int.negSucc n) = String.mk ('-' :: Nat.toDigits 10 (n + 1)) := rfl

/-- Two integers with the same decimal text are equal. -/
theorem toString_int_injective (a b : Int) (h : toString a = toString b) : a = b := by
  cases a with
  | ofNat n =>
    cases b with
    | ofNat m =>
      rw [toString_ofNat, toString_ofNat] at h
      rw [toDigits_injective n m (congrArg String.data h)]
    | negSucc m =>
      rw [toString_ofNat, toString_negSucc] at h
      exact absurd (congrArg String.data h) (toDigits_head_ne_minus n _)
  | negSucc n =>
    cases b with
    | ofNat m =>
      rw [toString_ofNat, toString_negSucc] at h
      exact absurd (congrArg String.data h).symm (toDigits_head_ne_minus m _)
    | negSucc m =>
      rw [toString_negSucc, toString_negSucc] at h
      have h1 := (List.cons.inj (congrArg String.data h)).2
      have h2 := toDigits_injective (n + 1) (m + 1) h1
      have h3 : n = m := by omega
      rw [h3]

/-! ## Properties of the order of objects -/

namespace sort

theorem LessObjectMeta_trans (a b c : metav1.ObjectMeta)
    (hab : LessObjectMeta a b = true) (hbc : LessObjectMeta b c = true) :
    LessObjectMeta a c = true := by
  unfold LessObjectMeta at *
  by_cases h1 : a.CreationTimestamp = b.CreationTimestamp
  · by_cases h2 : b.CreationTimestamp = c.CreationTimestamp
    · have h3 : a.CreationTimestamp = c.CreationTimestamp := h1.trans h2
      rw [if_pos h1] at hab
      rw [if_pos h2] at hbc
      rw [if_pos h3]
      by_cases n1 : a.Namespace = b.Namespace
      · by_cases n2 : b.Namespace = c.Namespace
        · rw [if_pos n1] at hab
          rw [if_pos n2] at hbc
          rw [if_pos (n1.trans n2)]
          simp only [decide_eq_true_eq] at *
          exact lt_trans hab hbc
        · rw [if_pos n1] at hab
          rw [if_neg n2] at hbc
          rw [if_neg (by rw [n1]; exact n2)]
          simp only [decide_eq_true_eq] at *
          rw [n1]; exact hbc
      · by_cases n2 : b.Namespace = c.Namespace
        · rw [if_neg n1] at hab
          rw [if_pos n2] at hbc
          rw [if_neg (by rw [← n2]; exact n1)]
          simp only [decide_eq_true_eq] at *
          rw [← n2]; exact hab
        · rw [if_neg n1] at hab
          rw [if_neg n2] at hbc
          simp only [decide_eq_true_eq] at hab hbc
          have hlt := lt_trans hab hbc
          rw [if_neg (ne_of_lt hlt)]
          simpa using hlt
    · rw [if_pos h1] at hab
      rw [if_neg h2] at hbc
      rw [if_neg (by rw [h1]; exact h2)]
      simp only [decide_eq_true_eq] at hbc ⊢
      omega
  · by_cases h2 : b.CreationTimestamp = c.CreationTimestamp
    · rw [if_neg h1] at hab
      rw [if_pos h2] at hbc
      rw [if_neg (by rw [← h2]; exact h1)]
      simp only [decide_eq_true_eq] at hab ⊢
      omega
    · rw [if_neg h1] at hab
      rw [if_neg h2] at hbc
      simp only [decide_eq_true_eq] at hab hbc
      rw [if_neg (by omega)]
      simp only [decide_eq_true_eq]
      omega

theorem LessObjectMeta_asymm (a b : metav1.ObjectMeta) (hab : LessObjectMeta a b = true) :
    LessObjectMeta b a = false := by
  unfold LessObjectMeta at *
  by_cases h1 : a.CreationTimestamp = b.CreationTimestamp
  · rw [if_pos h1] at hab
    rw [if_pos h1.symm]
    by_cases n1 : a.Namespace = b.Namespace
    · rw [if_pos n1] at hab
      rw [if_pos n1.symm]
      simp only [decide_eq_true_eq, decide_eq_false_iff_not] at *
      exact lt_asymm hab
    · rw [if_neg n1] at hab
      rw [if_neg (Ne.symm n1)]
      simp only [decide_eq_true_eq, decide_eq_false_iff_not] at *
      exact lt_asymm hab
  · rw [if_neg h1] at hab
    rw [if_neg (Ne.symm h1)]
    simp only [decide_eq_true_eq, decide_eq_false_iff_not] at *
    omega

theorem LessObjectMeta_total (a b : metav1.ObjectMeta)
    (h : ¬(a.Namespace = b.Namespace ∧ a.Name = b.Name)) :
    LessObjectMeta a b = true ∨ LessObjectMeta b a = true := by
  unfold LessObjectMeta
  by_cases h1 : a.CreationTimestamp = b.CreationTimestamp
  · rw [if_pos h1, if_pos h1.symm]
    by_cases n1 : a.Namespace = b.Namespace
    · rw [if_pos n1, if_pos n1.symm]
      simp only [decide_eq_true_eq]
      have hne : a.Name ≠ b.Name := fun hh => h ⟨n1, hh⟩
      exact lt_or_gt_of_ne hne
    · rw [if_neg n1, if_neg (Ne.symm n1)]
      simp only [decide_eq_true_eq]
      exact lt_or_gt_of_ne n1
  · rw [if_neg h1, if_neg (Ne.symm h1)]
    simp only [decide_eq_true_eq]
    omega

end sort

namespace graph

open conditions

/-! ## Properties of Graph.IsReferenced and ServicePortReference -/

/-- Claim C31: `Graph.IsReferenced` returns: for a Secret, whether its key is in
ReferencedSecrets; for a ConfigMap, whether its key is in
ReferencedCaCertConfigMaps; for a Service, whether its key is in
ReferencedServices; for an EndpointSlice, whether the key made of the given
namespace and the service name read from the slice is in ReferencedServices;
for a Namespace, whether its key is in ReferencedNamespaces or
`isNamespaceReferenced` holds for it now, so it is true whenever the key is in
ReferencedNamespaces; and false for every other resource type. -/
theorem Graph_IsReferenced_spec
    (isNamespaceReferenced : corev1.Namespace → Option Gateway → Bool)
    (GetServiceNameFromEndpointSlice : discoveryV1.EndpointSlice → String)
    (g : Graph) (nsname : types.NamespacedName) :
    (∀ obj, Graph.IsReferenced isNamespaceReferenced GetServiceNameFromEndpointSlice g
        (client.Object.Secret obj) nsname = mapExists g.ReferencedSecrets nsname) ∧
    (∀ obj, Graph.IsReferenced isNamespaceReferenced GetServiceNameFromEndpointSlice g
        (client.Object.ConfigMap obj) nsname = mapExists g.ReferencedCaCertConfigMaps nsname) ∧
    (∀ obj, Graph.IsReferenced isNamespaceReferenced GetServiceNameFromEndpointSlice g
        (client.Object.Service obj) nsname = mapExists g.ReferencedServices nsname) ∧
    (∀ obj, Graph.IsReferenced isNamespaceReferenced GetServiceNameFromEndpointSlice g
        (client.Object.EndpointSlice obj) nsname =
      mapExists g.ReferencedServices
        { Namespace := nsname.Namespace, Name := GetServiceNameFromEndpointSlice obj }) ∧
    (∀ obj, Graph.IsReferenced isNamespaceReferenced GetServiceNameFromEndpointSlice g
        (client.Object.Namespace obj) nsname =
      (mapExists g.ReferencedNamespaces nsname || isNamespaceReferenced obj g.Gateway)) ∧
    (∀ obj, mapExists g.ReferencedNamespaces nsname = true →
      Graph.IsReferenced isNamespaceReferenced GetServiceNameFromEndpointSlice g
        (client.Object.Namespace obj) nsname = true) ∧
    (∀ resourceType : client.Object,
      (∀ obj, resourceType ≠ client.Object.Secret obj) →
      (∀ obj, resourceType ≠ client.Object.ConfigMap obj) →
      (∀ obj, resourceType ≠ client.Object.Service obj) →
      (∀ obj, resourceType ≠ client.Object.EndpointSlice obj) →
      (∀ obj, resourceType ≠ client.Object.Namespace obj) →
      Graph.IsReferenced isNamespaceReferenced GetServiceNameFromEndpointSlice g
        resourceType nsname = false) ∧
    (∀ (V : Type) (m : Option (GoMap V)),
      mapExists m nsname = true ↔ ∃ entries v, m = some entries ∧ (nsname, v) ∈ entries) := by
  refine ⟨fun _ => rfl, fun _ => rfl, fun _ => rfl, fun _ => rfl, fun _ => rfl, ?_, ?_, ?_⟩
  · intro obj h
    simp [Graph.IsReferenced, h]
  · intro resourceType h1 h2 h3 h4 h5
    cases resourceType with
    | Secret obj => exact absurd rfl (h1 obj)
    | ConfigMap obj => exact absurd rfl (h2 obj)
    | Service obj => exact absurd rfl (h3 obj)
    | EndpointSlice obj => exact absurd rfl (h4 obj)
    | Namespace obj => exact absurd rfl (h5 obj)
    | _ => rfl
  · intro V m
    cases m with
    | none => simp [mapExists]
    | some entries =>
      simp only [mapExists, mapLookup]
      constructor
      · intro h
        cases hf : entries.find? (fun e => decide (e.1 = nsname)) with
        | none => rw [hf] at h; cases h
        | some e =>
          have hmem := List.mem_of_find?_eq_some hf
          have hp := List.find?_some hf
          simp only [decide_eq_true_eq] at hp
          refine ⟨entries, e.2, rfl, ?_⟩
          rw [← hp]
          exact hmem
      · rintro ⟨entries1, v, heq, hv⟩
        cases heq
        cases hf : entries.find? (fun e => decide (e.1 = nsname)) with
        | none =>
          rw [List.find?_eq_none] at hf
          have := hf (nsname, v) hv
          simp at this
        | some e => rfl

/-- Claim C31, witness: the Service `test/service` is referenced; its slice is
referenced through the service-name label; a slice without the label and a
slice of another namespace are not. -/
theorem Graph_IsReferenced_spec_witness :
    Graph.IsReferenced (fun _ _ => false) index.GetServiceNameFromEndpointSlice
      referencingGraph (client.Object.EndpointSlice serviceSlice)
      { Namespace := "test", Name := "service-abc" } = true ∧
    Graph.IsReferenced (fun _ _ => false) index.GetServiceNameFromEndpointSlice
      referencingGraph (client.Object.EndpointSlice missingSvcNameSlice)
      { Namespace := "test", Name := "missing-svc-name" } = false ∧
    Graph.IsReferenced (fun _ _ => false) index.GetServiceNameFromEndpointSlice
      referencingGraph (client.Object.Namespace { Name := "test" }) { Name := "test" } = true ∧
    Graph.IsReferenced (fun _ _ => false) index.GetServiceNameFromEndpointSlice
      referencingGraph (client.Object.HTTPRoute {}) { Namespace := "test", Name := "service" } =
        false :=
  ⟨by decide, by decide,
    (Graph_IsReferenced_spec (fun _ _ => false) index.GetServiceNameFromEndpointSlice
      referencingGraph { Name := "test" }).2.2.2.2.2.1 { Name := "test" } (by decide),
    by decide⟩

/-- Claim C32: `BackendRef.ServicePortReference` returns the empty string for an
invalid BackendRef and otherwise the namespace and the name of `SvcNsName` and
the port of `ServicePort`, joined by underscores, the port written in decimal:
its decimal digits, after a minus sign when it is negative. For `test/foo`
and port 80 it is `test_foo_80`. -/
theorem ServicePortReference_spec (b : BackendRef) :
    (b.Valid = false → b.ServicePortReference = "") ∧
    (b.Valid = true →
      b.ServicePortReference =
        b.SvcNsName.Namespace ++ "_" ++ b.SvcNsName.Name ++ "_" ++ toString b.ServicePort.Port) ∧
    (∀ n : Nat, b.ServicePort.Port = Int.ofNat n →
      toString b.ServicePort.Port = String.mk (Nat.toDigits 10 n)) ∧
    (∀ n : Nat, b.ServicePort.Port = Int.negSucc n →
      toString b.ServicePort.Port = String.mk ('-' :: Nat.toDigits 10 (n + 1))) ∧
    fooBackendRef.ServicePortReference = "test_foo_80" := by
  refine ⟨?_, ?_, ?_, ?_, by decide⟩
  · intro h
    simp [BackendRef.ServicePortReference, h]
  · intro h
    simp [BackendRef.ServicePortReference, h]
  · intro n h
    rw [h]
    rfl
  · intro n h
    rw [h]
    rfl

/-- A text without underscore, an underscore and a rest: the two parts are
determined by the whole. -/
theorem split_at_underscore (a1 a2 r1 r2 : List Char) (h1 : '_' ∉ a1) (h2 : '_' ∉ a2)
    (h : a1 ++ '_' :: r1 = a2 ++ '_' :: r2) : a1 = a2 ∧ r1 = r2 := by
  induction a1 generalizing a2 with
  | nil =>
    cases a2 with
    | nil => exact ⟨rfl, (List.cons.inj h).2⟩
    | cons c cs =>
      have hc := (List.cons.inj h).1
      exact absurd (by rw [← hc]; exact List.mem_cons_self _ _) h2
  | cons c cs ih =>
    cases a2 with
    | nil =>
      have hc := (List.cons.inj h).1
      exact absurd (by rw [hc]; exact List.mem_cons_self _ _) h1
    | cons d ds =>
      have hcd := List.cons.inj h
      have hrec := ih ds (fun hm => h1 (List.mem_cons_of_mem _ hm))
        (fun hm => h2 (List.mem_cons_of_mem _ hm)) hcd.2
      exact ⟨by rw [hcd.1, hrec.1], hrec.2⟩

/-- Claim C40: `ServicePortReference` is injective on valid BackendRefs with
underscore-free names: for two valid BackendRefs whose namespaces and Service
names contain no underscore, equal `ServicePortReference` strings imply equal
namespace, Service name and port. -/
theorem ServicePortReference_injective (b1 b2 : BackendRef)
    (hv1 : b1.Valid = true) (hv2 : b2.Valid = true)
    (hns1 : '_' ∉ b1.SvcNsName.Namespace.toList) (hname1 : '_' ∉ b1.SvcNsName.Name.toList)
    (hns2 : '_' ∉ b2.SvcNsName.Namespace.toList) (hname2 : '_' ∉ b2.SvcNsName.Name.toList)
    (h : b1.ServicePortReference = b2.ServicePortReference) :
    b1.SvcNsName.Namespace = b2.SvcNsName.Namespace ∧
    b1.SvcNsName.Name = b2.SvcNsName.Name ∧
    b1.ServicePort.Port = b2.ServicePort.Port := by
  simp only [BackendRef.ServicePortReference, hv1, hv2, Bool.not_true, Bool.false_eq_true,
    if_false] at h
  have hd := congrArg String.data h
  simp only [String.data_append] at hd
  simp only [List.append_assoc, List.singleton_append] at hd
  obtain ⟨hns, hrest⟩ := split_at_underscore _ _ _ _ hns1 hns2 hd
  obtain ⟨hname, hport⟩ := split_at_underscore _ _ _ _ hname1 hname2 hrest
  refine ⟨String.ext hns, String.ext hname, ?_⟩
  exact toString_int_injective _ _ (String.ext hport)

/-- Claim C40, witness: two valid BackendRefs of `test/foo` port 80. -/
theorem ServicePortReference_injective_witness :
    fooBackendRef.ServicePortReference =
      ({ fooBackendRef with Weight := 5 } : BackendRef).ServicePortReference ∧
    fooBackendRef.ServicePort.Port = ({ fooBackendRef with Weight := 5 } : BackendRef).ServicePort.Port :=
  ⟨rfl,
    (ServicePortReference_injective fooBackendRef { fooBackendRef with Weight := 5 } rfl rfl
      (by decide) (by decide) (by decide) (by decide) rfl).2.2⟩

/-! ## Rejected references and policies without a condition -/

/-- Claim C33, amended: a cross-namespace backendRef that is rejected because no
ReferenceGrant permits it (no filters, a supported group and kind, a namespace
that differs from the route's) is not looked up: `createBackendRef` returns a
BackendRef with Valid=false whose SvcNsName is the zero key, whose ServicePort
is zero and whose policy is nil, together with the RefNotPermitted condition
that names the Service, and it leaves the policies untouched. -/
theorem createBackendRef_not_permitted (ref : gatewayv1.HTTPBackendRef)
    (sourceNamespace : String) (refGrantResolver : referenceGrantResolver)
    (services : GoMap corev1.Service) (refPath : String) (backendTLSPolicies : PolicyStore)
    (n : String) (hn : ref.Namespace = some n) (hne : n ≠ sourceNamespace)
    (hna : refGrantResolver.refAllowed (toService { Namespace := n, Name := ref.Name })
      (fromHTTPRoute sourceNamespace) = false)
    (hf : ref.Filters = [])
    (hg : ref.Group = none ∨ ref.Group = some "" ∨ ref.Group = some "core")
    (hk : ref.Kind = none ∨ ref.Kind = some "Service") :
    ∃ b cond,
      createBackendRef ref sourceNamespace refGrantResolver services refPath backendTLSPolicies =
        some (b, some cond, backendTLSPolicies) ∧
      b.Valid = false ∧ b.SvcNsName = { Namespace := "", Name := "" } ∧
      b.ServicePort = {} ∧ b.BackendTLSPolicy = none ∧
      cond = staticConds.NewRouteBackendRefRefNotPermitted
        ("Backend ref to Service " ++
          types.NamespacedName.String { Namespace := n, Name := ref.Name } ++
          " not permitted by any ReferenceGrant") ∧
      cond.Type_ = "ResolvedRefs" ∧ cond.Status = "False" ∧ cond.Reason = "RefNotPermitted" := by
  have hval : validateHTTPBackendRef ref sourceNamespace refGrantResolver refPath =
      (false, staticConds.NewRouteBackendRefRefNotPermitted
        ("Backend ref to Service " ++
          types.NamespacedName.String { Namespace := n, Name := ref.Name } ++
          " not permitted by any ReferenceGrant")) := by
    unfold validateHTTPBackendRef
    rw [hf]
    simp only [List.length_nil, gt_iff_lt, lt_self_iff_false, if_false]
    unfold validateBackendRef
    have hn1 : ref.toBackendRef.Namespace = some n := hn
    have hg1 : ref.toBackendRef.Group = none ∨ ref.toBackendRef.Group = some "" ∨
        ref.toBackendRef.Group = some "core" := hg
    have hk1 : ref.toBackendRef.Kind = none ∨ ref.toBackendRef.Kind = some "Service" := hk
    have hname : ref.toBackendRef.Name = ref.Name := rfl
    rcases hg1 with hg1 | hg1 | hg1 <;> rcases hk1 with hk1 | hk1 <;>
      simp [hg1, hk1, hn1, hne, hname, hna]
  refine ⟨{ Weight := backendRefWeight ref, Valid := false }, _, ?_, rfl, rfl, rfl, rfl, rfl,
    rfl, rfl, rfl⟩
  unfold createBackendRef
  simp only
  rw [hval]

/-- Claim C33, counterexample: the Service `service-ns/service` exists and no
ReferenceGrant permits the reference of the route in `test`; the BackendRef
returned has the zero key, not the key of the Service. -/
theorem createBackendRef_not_permitted_counterexample :
    ∃ b cond store,
      createBackendRef crossNsRef "test" noGrants
          [({ Namespace := "service-ns", Name := "service" },
            { Namespace := "service-ns", Name := "service",
              Spec := { Ports := [{ Port := 80 }] } })]
          "spec.rules[0].backendRefs[0]" [] = some (b, some cond, store) ∧
      cond.Reason = staticConds.RouteReasonRefNotPermitted ∧
      b.SvcNsName ≠ { Namespace := "service-ns", Name := "service" } :=
  ⟨_, _, _, rfl, rfl, by decide⟩

/-- Claim C33 as amended, witness: the ref `crossNsRef` of a route in `test`, in
a cluster without any ReferenceGrant. -/
theorem createBackendRef_not_permitted_witness :
    ∃ b cond,
      createBackendRef crossNsRef "test" noGrants [] "spec.rules[0].backendRefs[0]" [] =
        some (b, some cond, []) ∧
      b.Valid = false ∧ b.SvcNsName = { Namespace := "", Name := "" } := by
  obtain ⟨b, cond, h, hv, hk, _⟩ := createBackendRef_not_permitted crossNsRef "test" noGrants []
    "spec.rules[0].backendRefs[0]" [] "service-ns" rfl (by decide) rfl rfl (Or.inl rfl)
    (Or.inl rfl)
  exact ⟨b, cond, h, hv, hk⟩

/-- Claim C34, failing input: the policy `overflowedPolicy` has 16 ancestors of
another controller and is valid otherwise; `processBackendTLSPolicies` leaves
it not valid, ignored and without a condition, and the lookup of the policy
for a backendRef to its Service reads `Conditions[0]` of the empty list: the
lookup and `createBackendRef` do not return. -/
theorem findBackendTLSPolicyForService_overflowed :
    processBackendTLSPolicies emptyExternals
        [({ Namespace := "test", Name := "btp" }, overflowedPolicy)] {} "my.controller"
        (some testGateway) =
      some (some [({ Namespace := "test", Name := "btp" }, processedOverflowedPolicy)], {}) ∧
    processedOverflowedPolicy.Valid = false ∧ processedOverflowedPolicy.Conditions = [] ∧
    findBackendTLSPolicyForService
        [({ Namespace := "test", Name := "btp" }, processedOverflowedPolicy)] sameNsRef "test" =
      none ∧
    createBackendRef sameNsRef "test" noGrants testServices "spec.rules[0].backendRefs[0]"
        [({ Namespace := "test", Name := "btp" }, processedOverflowedPolicy)] = none := by
  refine ⟨by decide, rfl, rfl, by decide, by decide⟩

/-! ## The selection of the policy of a Service -/

theorem selectPolicyStep_not_targets (refName refNs : String)
    (cur : Option (types.NamespacedName × BackendTLSPolicy))
    (entry : types.NamespacedName × BackendTLSPolicy)
    (h : policyTargets refName refNs entry.2 = false) :
    selectPolicyStep refName refNs cur entry = cur := by
  unfold selectPolicyStep
  unfold policyTargets at h
  have hc : (entry.2.Source.Spec.TargetRef.Name == refName &&
      (match entry.2.Source.Spec.TargetRef.Namespace with
        | some n => n
        | none => entry.2.Source.Namespace) == refNs) = false := by
    cases hn : entry.2.Source.Spec.TargetRef.Namespace <;> rw [hn] at h <;> exact h
  exact if_neg (fun hpos => Bool.false_ne_true (hc.symm.trans hpos))

theorem selectPolicyStep_targets (refName refNs : String)
    (cur : Option (types.NamespacedName × BackendTLSPolicy))
    (entry : types.NamespacedName × BackendTLSPolicy)
    (h : policyTargets refName refNs entry.2 = true) :
    selectPolicyStep refName refNs cur entry =
      match cur with
      | some c =>
        if sort.LessObjectMeta entry.2.Source.toObjectMeta c.2.Source.toObjectMeta then some entry
        else cur
      | none => some entry := by
  unfold selectPolicyStep
  unfold policyTargets at h
  have hc : (entry.2.Source.Spec.TargetRef.Name == refName &&
      (match entry.2.Source.Spec.TargetRef.Namespace with
        | some n => n
        | none => entry.2.Source.Namespace) == refNs) = true := by
    cases hn : entry.2.Source.Spec.TargetRef.Namespace <;> rw [hn] at h <;> exact h
  exact if_pos hc

/-- The loop of `findBackendTLSPolicyForService` over policies with pairwise
distinct namespace and name selects nothing when no policy targets the
Service, and otherwise a targeting policy that is less than every other
targeting policy. -/
theorem selectPolicy_fold (refName refNs : String) (l : PolicyStore)
    (hl : ∀ e ∈ l, ∀ e1 ∈ l, e ≠ e1 →
      ¬(e.2.Source.Namespace = e1.2.Source.Namespace ∧ e.2.Source.Name = e1.2.Source.Name)) :
    (l.foldl (selectPolicyStep refName refNs) none = none ∧
      ∀ e ∈ l, policyTargets refName refNs e.2 = false) ∨
    ∃ e, l.foldl (selectPolicyStep refName refNs) none = some e ∧ e ∈ l ∧
      policyTargets refName refNs e.2 = true ∧
      ∀ e1 ∈ l, policyTargets refName refNs e1.2 = true →
        e1 = e ∨ sort.LessObjectMeta e.2.Source.toObjectMeta e1.2.Source.toObjectMeta = true := by
  induction l using List.reverseRecOn with
  | nil => exact Or.inl ⟨rfl, fun e he => by cases he⟩
  | append_singleton l x ih =>
    have hl1 : ∀ e ∈ l, ∀ e1 ∈ l, e ≠ e1 →
        ¬(e.2.Source.Namespace = e1.2.Source.Namespace ∧
          e.2.Source.Name = e1.2.Source.Name) :=
      fun e he e1 he1 => hl e (List.mem_append_left _ he) e1 (List.mem_append_left _ he1)
    have hx : x ∈ l ++ [x] := List.mem_append_right _ (List.mem_singleton_self x)
    rw [List.foldl_append]
    simp only [List.foldl_cons, List.foldl_nil]
    cases ht : policyTargets refName refNs x.2 with
    | false =>
      rw [selectPolicyStep_not_targets refName refNs _ x ht]
      rcases ih hl1 with ⟨hnone, hall⟩ | ⟨e, hsome, hmem, hte, hleast⟩
      · refine Or.inl ⟨hnone, ?_⟩
        intro e he
        rw [List.mem_append, List.mem_singleton] at he
        rcases he with he | he
        · exact hall e he
        · rw [he]; exact ht
      · refine Or.inr ⟨e, hsome, List.mem_append_left _ hmem, hte, ?_⟩
        intro e1 he1 ht1
        rw [List.mem_append, List.mem_singleton] at he1
        rcases he1 with he1 | he1
        · exact hleast e1 he1 ht1
        · rw [he1, ht] at ht1; cases ht1
    | true =>
      rw [selectPolicyStep_targets refName refNs _ x ht]
      rcases ih hl1 with ⟨hnone, hall⟩ | ⟨e, hsome, hmem, hte, hleast⟩
      · rw [hnone]
        refine Or.inr ⟨x, rfl, hx, ht, ?_⟩
        intro e1 he1 ht1
        rw [List.mem_append, List.mem_singleton] at he1
        rcases he1 with he1 | he1
        · rw [hall e1 he1] at ht1; cases ht1
        · exact Or.inl he1
      · rw [hsome]
        simp only
        cases hless : sort.LessObjectMeta x.2.Source.toObjectMeta e.2.Source.toObjectMeta with
        | true =>
          simp only [if_true]
          refine Or.inr ⟨x, rfl, hx, ht, ?_⟩
          intro e1 he1 ht1
          rw [List.mem_append, List.mem_singleton] at he1
          rcases he1 with he1 | he1
          · rcases hleast e1 he1 ht1 with heq | hlt
            · rw [heq]; exact Or.inr hless
            · exact Or.inr (sort.LessObjectMeta_trans _ _ _ hless hlt)
          · exact Or.inl he1
        | false =>
          simp only [Bool.false_eq_true, if_false]
          refine Or.inr ⟨e, rfl, List.mem_append_left _ hmem, hte, ?_⟩
          intro e1 he1 ht1
          rw [List.mem_append, List.mem_singleton] at he1
          rcases he1 with he1 | he1
          · exact hleast e1 he1 ht1
          · rw [he1]
            by_cases hxe : x = e
            · exact Or.inl hxe
            · right
              rcases sort.LessObjectMeta_total x.2.Source.toObjectMeta e.2.Source.toObjectMeta
                (hl x hx e (List.mem_append_left _ hmem) hxe) with h1 | h1
              · rw [hless] at h1; cases h1
              · exact h1

/-- Two targeting policies that are each less than or equal to every targeting
policy of the list are the same entry. -/
theorem least_policy_unique (refName refNs : String) (l : PolicyStore)
    (e e2 : types.NamespacedName × BackendTLSPolicy)
    (he : e ∈ l) (hte : policyTargets refName refNs e.2 = true)
    (hle : ∀ e1 ∈ l, policyTargets refName refNs e1.2 = true →
      e1 = e ∨ sort.LessObjectMeta e.2.Source.toObjectMeta e1.2.Source.toObjectMeta = true)
    (he2 : e2 ∈ l) (hte2 : policyTargets refName refNs e2.2 = true)
    (hle2 : ∀ e1 ∈ l, policyTargets refName refNs e1.2 = true →
      e1 = e2 ∨ sort.LessObjectMeta e2.2.Source.toObjectMeta e1.2.Source.toObjectMeta = true) :
    e2 = e := by
  rcases hle e2 he2 hte2 with h1 | h1
  · exact h1
  · rcases hle2 e he hte with h2 | h2
    · exact h2.symm
    · rw [sort.LessObjectMeta_asymm _ _ h1] at h2
      cases h2

theorem distinct_names_of_nodup (l : PolicyStore)
    (hnames : (l.map (fun e => (e.2.Source.Namespace, e.2.Source.Name))).Nodup) :
    ∀ e ∈ l, ∀ e1 ∈ l, e ≠ e1 →
      ¬(e.2.Source.Namespace = e1.2.Source.Namespace ∧ e.2.Source.Name = e1.2.Source.Name) := by
  intro e he e1 he1 hne hh
  apply hne
  apply List.inj_on_of_nodup_map hnames he he1
  simp only [Prod.mk.injEq]
  exact hh

/-- The policy that the loop of `findBackendTLSPolicyForService` selects does
not depend on the order of the visit. -/
theorem selectPolicy_fold_perm (refName refNs : String) (l l1 : PolicyStore)
    (hnames : (l.map (fun e => (e.2.Source.Namespace, e.2.Source.Name))).Nodup)
    (hperm : l.Perm l1) :
    l1.foldl (selectPolicyStep refName refNs) none =
      l.foldl (selectPolicyStep refName refNs) none := by
  have hnames1 : (l1.map (fun e => (e.2.Source.Namespace, e.2.Source.Name))).Nodup :=
    (List.Perm.nodup_iff (hperm.map _)).mp hnames
  rcases selectPolicy_fold refName refNs l (distinct_names_of_nodup l hnames) with
    ⟨hnone, hall⟩ | ⟨e, hsome, hmem, hte, hleast⟩
  · rcases selectPolicy_fold refName refNs l1 (distinct_names_of_nodup l1 hnames1) with
      ⟨hnone1, _⟩ | ⟨e1, _, hmem1, hte1, _⟩
    · rw [hnone, hnone1]
    · rw [hall e1 (hperm.mem_iff.mpr hmem1)] at hte1
      cases hte1
  · rcases selectPolicy_fold refName refNs l1 (distinct_names_of_nodup l1 hnames1) with
      ⟨_, hall1⟩ | ⟨e1, hsome1, hmem1, hte1, hleast1⟩
    · rw [hall1 e (hperm.mem_iff.mp hmem)] at hte
      cases hte
    · rw [hsome, hsome1]
      have := least_policy_unique refName refNs l e e1 hmem hte hleast
        (hperm.mem_iff.mpr hmem1) hte1
        (fun e2 he2 ht2 => hleast1 e2 (hperm.mem_iff.mp he2) ht2)
      rw [this]

theorem findBackendTLSPolicyForService_none (backendTLSPolicies : PolicyStore)
    (ref : gatewayv1.HTTPBackendRef) (routeNamespace : String)
    (h : backendTLSPolicies.foldl
      (selectPolicyStep ref.Name (ref.Namespace.getD routeNamespace)) none = none) :
    findBackendTLSPolicyForService backendTLSPolicies ref routeNamespace =
      some (none, none, backendTLSPolicies) := by
  unfold findBackendTLSPolicyForService
  cases hn : ref.Namespace <;> rw [hn] at h <;> simp only [Option.getD] at h <;>
    simp only [h]

theorem findBackendTLSPolicyForService_some (backendTLSPolicies : PolicyStore)
    (ref : gatewayv1.HTTPBackendRef) (routeNamespace : String) (key : types.NamespacedName)
    (p : BackendTLSPolicy)
    (h : backendTLSPolicies.foldl
      (selectPolicyStep ref.Name (ref.Namespace.getD routeNamespace)) none = some (key, p)) :
    findBackendTLSPolicyForService backendTLSPolicies ref routeNamespace =
      if !p.Valid then
        match p.Conditions with
        | [] => none
        | c :: _ =>
          some (some { p with IsReferenced := true },
            some ("The backend TLS policy is invalid: " ++ c.Message),
            storeSet backendTLSPolicies key { p with IsReferenced := true })
      else
        some (some { p with
                IsReferenced := true
                Conditions := p.Conditions ++ [staticConds.NewBackendTLSPolicyAccepted] },
          none,
          storeSet backendTLSPolicies key { p with
            IsReferenced := true
            Conditions := p.Conditions ++ [staticConds.NewBackendTLSPolicyAccepted] }) := by
  unfold findBackendTLSPolicyForService
  cases hn : ref.Namespace <;> rw [hn] at h <;> simp only [Option.getD] at h <;>
    simp only [h]

/-- Claim C35: `findBackendTLSPolicyForService` is deterministic. For a policy
map whose policies have pairwise distinct namespace and name and for every
backendRef: when no policy targets the Service of the ref (same name, and
target namespace, defaulting to the namespace of the policy, equal to the
namespace of the ref, defaulting to that of the route) it returns nil, no error
and the map unchanged; otherwise exactly one targeting policy is least under
`sort.LessObjectMeta`, and the result is that policy marked as referenced
(with the Accepted condition when it is valid, with the error of its first
condition when it is not, and no result at all when it is invalid and has no
condition); and for every other order of iteration of the map the returned
policy and error are the same and the maps afterwards hold the same entries. -/
theorem findBackendTLSPolicyForService_deterministic (backendTLSPolicies : PolicyStore)
    (ref : gatewayv1.HTTPBackendRef) (routeNamespace : String)
    (hnames : (backendTLSPolicies.map
      (fun e => (e.2.Source.Namespace, e.2.Source.Name))).Nodup) :
    ((∀ e ∈ backendTLSPolicies,
        policyTargets ref.Name (ref.Namespace.getD routeNamespace) e.2 = false) →
      findBackendTLSPolicyForService backendTLSPolicies ref routeNamespace =
        some (none, none, backendTLSPolicies)) ∧
    ((∃ e ∈ backendTLSPolicies,
        policyTargets ref.Name (ref.Namespace.getD routeNamespace) e.2 = true) →
      ∃ key p, (key, p) ∈ backendTLSPolicies ∧
        policyTargets ref.Name (ref.Namespace.getD routeNamespace) p = true ∧
        (∀ e ∈ backendTLSPolicies,
          policyTargets ref.Name (ref.Namespace.getD routeNamespace) e.2 = true →
          e = (key, p) ∨
          sort.LessObjectMeta p.Source.toObjectMeta e.2.Source.toObjectMeta = true) ∧
        (∀ e ∈ backendTLSPolicies,
          policyTargets ref.Name (ref.Namespace.getD routeNamespace) e.2 = true →
          (∀ e1 ∈ backendTLSPolicies,
            policyTargets ref.Name (ref.Namespace.getD routeNamespace) e1.2 = true →
            e1 = e ∨
            sort.LessObjectMeta e.2.Source.toObjectMeta e1.2.Source.toObjectMeta = true) →
          e = (key, p)) ∧
        (p.Valid = true →
          findBackendTLSPolicyForService backendTLSPolicies ref routeNamespace =
            some (some { p with
                    IsReferenced := true
                    Conditions := p.Conditions ++ [staticConds.NewBackendTLSPolicyAccepted] },
              none,
              storeSet backendTLSPolicies key { p with
                IsReferenced := true
                Conditions := p.Conditions ++ [staticConds.NewBackendTLSPolicyAccepted] })) ∧
        (p.Valid = false → ∀ c cs, p.Conditions = c :: cs →
          findBackendTLSPolicyForService backendTLSPolicies ref routeNamespace =
            some (some { p with IsReferenced := true },
              some ("The backend TLS policy is invalid: " ++ c.Message),
              storeSet backendTLSPolicies key { p with IsReferenced := true })) ∧
        (p.Valid = false → p.Conditions = [] →
          findBackendTLSPolicyForService backendTLSPolicies ref routeNamespace = none)) ∧
    (∀ reordered : PolicyStore, backendTLSPolicies.Perm reordered →
      (findBackendTLSPolicyForService reordered ref routeNamespace).map
          (fun r => (r.1, r.2.1)) =
        (findBackendTLSPolicyForService backendTLSPolicies ref routeNamespace).map
          (fun r => (r.1, r.2.1)) ∧
      ∀ r r1, findBackendTLSPolicyForService backendTLSPolicies ref routeNamespace = some r →
        findBackendTLSPolicyForService reordered ref routeNamespace = some r1 →
        r.2.2.Perm r1.2.2) := by
  have hfold := selectPolicy_fold ref.Name (ref.Namespace.getD routeNamespace)
    backendTLSPolicies (distinct_names_of_nodup backendTLSPolicies hnames)
  refine ⟨?_, ?_, ?_⟩
  · intro hall
    rcases hfold with ⟨hnone, _⟩ | ⟨e, _, hmem, hte, _⟩
    · exact findBackendTLSPolicyForService_none _ _ _ hnone
    · rw [hall e hmem] at hte
      cases hte
  · rintro ⟨e0, he0, hte0⟩
    rcases hfold with ⟨_, hall⟩ | ⟨e, hsome, hmem, hte, hleast⟩
    · rw [hall e0 he0] at hte0
      cases hte0
    · obtain ⟨key, p⟩ := e
      have hres := findBackendTLSPolicyForService_some _ _ _ key p hsome
      refine ⟨key, p, hmem, hte, hleast, ?_, ?_, ?_, ?_⟩
      · intro e2 he2 hte2 hle2
        exact least_policy_unique _ _ backendTLSPolicies (key, p) e2 hmem hte hleast he2 hte2
          hle2
      · intro hv
        rw [hres, hv]
        rfl
      · intro hv c cs hc
        rw [hres, hv, hc]
        rfl
      · intro hv hc
        rw [hres, hv, hc]
        rfl
  · intro reordered hperm
    have hsame := selectPolicy_fold_perm ref.Name (ref.Namespace.getD routeNamespace)
      backendTLSPolicies reordered hnames hperm
    cases hf : backendTLSPolicies.foldl
        (selectPolicyStep ref.Name (ref.Namespace.getD routeNamespace)) none with
    | none =>
      rw [hf] at hsame
      rw [findBackendTLSPolicyForService_none _ _ _ hf,
        findBackendTLSPolicyForService_none _ _ _ hsame]
      refine ⟨rfl, ?_⟩
      intro r r1 hr hr1
      injection hr with hr
      injection hr1 with hr1
      rw [← hr, ← hr1]
      exact hperm
    | some e =>
      obtain ⟨key, p⟩ := e
      rw [hf] at hsame
      rw [findBackendTLSPolicyForService_some _ _ _ key p hf,
        findBackendTLSPolicyForService_some _ _ _ key p hsame]
      cases hv : p.Valid with
      | true =>
        simp only [Bool.not_true, Bool.false_eq_true, if_false, Option.map_some']
        refine ⟨trivial, ?_⟩
        intro r r1 hr hr1
        injection hr with hr
        injection hr1 with hr1
        rw [← hr, ← hr1]
        exact hperm.map _
      | false =>
        cases hc : p.Conditions with
        | nil =>
          simp only [Bool.not_false, if_true]
          refine ⟨trivial, ?_⟩
          intro r r1 hr
          cases hr
        | cons c cs =>
          simp only [Bool.not_false, if_true, Option.map_some']
          refine ⟨trivial, ?_⟩
          intro r r1 hr hr1
          injection hr with hr
          injection hr1 with hr1
          rw [← hr, ← hr1]
          exact hperm.map _

theorem findBackendTLSPolicyForService_deterministic_witness :
    (twoPolicies.map (fun e => (e.2.Source.Namespace, e.2.Source.Name))).Nodup ∧
    twoPolicies.Perm twoPolicies.reverse ∧
    (findBackendTLSPolicyForService twoPolicies.reverse sameNsRef "test").map
        (fun r => (r.1, r.2.1)) =
      (findBackendTLSPolicyForService twoPolicies sameNsRef "test").map
        (fun r => (r.1, r.2.1)) ∧
    ∀ r r1, findBackendTLSPolicyForService twoPolicies sameNsRef "test" = some r →
      findBackendTLSPolicyForService twoPolicies.reverse sameNsRef "test" = some r1 →
      r.2.2.Perm r1.2.2 :=
  ⟨by decide, (List.reverse_perm twoPolicies).symm,
    (findBackendTLSPolicyForService_deterministic twoPolicies sameNsRef "test" (by decide)).2.2
      twoPolicies.reverse (List.reverse_perm twoPolicies).symm⟩

/-- Both orders of `twoPolicies` select the older policy `test/btp-old`. -/
theorem findBackendTLSPolicyForService_oldest :
    (findBackendTLSPolicyForService twoPolicies sameNsRef "test").map (fun r => (r.1, r.2.1)) =
      some (some { olderPolicy with
              IsReferenced := true,
              Conditions := [staticConds.NewBackendTLSPolicyAccepted] }, none) ∧
    (findBackendTLSPolicyForService twoPolicies.reverse sameNsRef "test").map
        (fun r => (r.1, r.2.1)) =
      some (some { olderPolicy with
              IsReferenced := true,
              Conditions := [staticConds.NewBackendTLSPolicyAccepted] }, none) := by
  constructor <;> decide

/-! ## The policy store keeps the source and the Ignored flag of every policy -/

theorem selectPolicy_fold_mem (refName refNs : String) :
    ∀ (l : PolicyStore) (cur : Option (types.NamespacedName × BackendTLSPolicy))
      (e : types.NamespacedName × BackendTLSPolicy),
      l.foldl (selectPolicyStep refName refNs) cur = some e → cur = some e ∨ e ∈ l := by
  intro l
  induction l with
  | nil =>
    intro cur e h
    exact Or.inl h
  | cons x rest ih =>
    intro cur e h
    rw [List.foldl_cons] at h
    rcases ih _ e h with h1 | h1
    · cases ht : policyTargets refName refNs x.2 with
      | false =>
        rw [selectPolicyStep_not_targets refName refNs cur x ht] at h1
        exact Or.inl h1
      | true =>
        rw [selectPolicyStep_targets refName refNs cur x ht] at h1
        cases cur with
        | none =>
          simp only [Option.some.injEq] at h1
          exact Or.inr (by rw [← h1]; exact List.mem_cons_self _ _)
        | some c =>
          simp only at h1
          split at h1
          · simp only [Option.some.injEq] at h1
            exact Or.inr (by rw [← h1]; exact List.mem_cons_self _ _)
          · exact Or.inl h1
    · exact Or.inr (List.mem_cons_of_mem _ h1)

theorem storeSet_forall (Q : BackendTLSPolicy → Prop) (store : PolicyStore)
    (key : types.NamespacedName) (p1 : BackendTLSPolicy)
    (hstore : ∀ e ∈ store, Q e.2) (hp1 : Q p1) :
    ∀ e ∈ storeSet store key p1, Q e.2 := by
  intro e he
  unfold storeSet at he
  rw [List.mem_map] at he
  obtain ⟨e0, he0, heq⟩ := he
  by_cases hk : e0.1 = key
  · rw [if_pos hk] at heq
    rw [← heq]
    exact hp1
  · rw [if_neg hk] at heq
    rw [← heq]
    exact hstore e0 he0

/-- The lookup `findBackendTLSPolicyForService` writes only IsReferenced and
Conditions of the policy it selects: a property of the source and the Ignored
flag of every policy of the store holds of the store afterwards. -/
theorem findBackendTLSPolicyForService_keeps (Q : BackendTLSPolicy → Prop)
    (hQ : ∀ p p1 : BackendTLSPolicy, p1.Source = p.Source → p1.Ignored = p.Ignored →
      Q p → Q p1)
    (store : PolicyStore) (ref : gatewayv1.HTTPBackendRef) (routeNamespace : String)
    (pol : Option BackendTLSPolicy) (err : Option String) (st : PolicyStore)
    (h : findBackendTLSPolicyForService store ref routeNamespace = some (pol, err, st))
    (hstore : ∀ e ∈ store, Q e.2) :
    ∀ e ∈ st, Q e.2 := by
  cases hf : store.foldl (selectPolicyStep ref.Name (ref.Namespace.getD routeNamespace))
      none with
  | none =>
    rw [findBackendTLSPolicyForService_none _ _ _ hf] at h
    simp only [Option.some.injEq, Prod.mk.injEq] at h
    rw [← h.2.2]
    exact hstore
  | some e0 =>
    obtain ⟨key, p⟩ := e0
    have hmem : (key, p) ∈ store := by
      rcases selectPolicy_fold_mem _ _ store none (key, p) hf with h1 | h1
      · cases h1
      · exact h1
    have hp : Q p := hstore (key, p) hmem
    rw [findBackendTLSPolicyForService_some _ _ _ key p hf] at h
    cases hv : p.Valid with
    | true =>
      rw [hv] at h
      simp only [Bool.not_true, Bool.false_eq_true, if_false, Option.some.injEq,
        Prod.mk.injEq] at h
      rw [← h.2.2]
      exact storeSet_forall Q store key _ hstore (hQ p _ rfl rfl hp)
    | false =>
      rw [hv] at h
      cases hc : p.Conditions with
      | nil =>
        rw [hc] at h
        simp at h
      | cons c cs =>
        rw [hc] at h
        simp only [Bool.not_false, if_true, Option.some.injEq, Prod.mk.injEq] at h
        rw [← h.2.2]
        exact storeSet_forall Q store key _ hstore (hQ p _ rfl rfl hp)

theorem createBackendRef_keeps (Q : BackendTLSPolicy → Prop)
    (hQ : ∀ p p1 : BackendTLSPolicy, p1.Source = p.Source → p1.Ignored = p.Ignored →
      Q p → Q p1)
    (ref : gatewayv1.HTTPBackendRef) (ns : String) (res : referenceGrantResolver)
    (svcs : GoMap corev1.Service) (path : String) (store : PolicyStore) (b : BackendRef)
    (cond : Option Condition) (st : PolicyStore)
    (h : createBackendRef ref ns res svcs path store = some (b, cond, st))
    (hstore : ∀ e ∈ store, Q e.2) :
    ∀ e ∈ st, Q e.2 := by
  rcases createBackendRef_cases ref ns res svcs path store b cond st h with
    ⟨_, _, _, _, hst⟩ | ⟨_, _, _, _, _, _, _, hst⟩ | ⟨_, _, _, pol, err, _, hfind, _, _⟩ |
    ⟨_, _, _, pol, _, hfind, _, _⟩
  · rw [hst]; exact hstore
  · rw [hst]; exact hstore
  · exact findBackendTLSPolicyForService_keeps Q hQ store ref ns pol (some err) st hfind hstore
  · exact findBackendTLSPolicyForService_keeps Q hQ store ref ns pol none st hfind hstore

theorem createBackendRefs_keeps (Q : BackendTLSPolicy → Prop)
    (hQ : ∀ p p1 : BackendTLSPolicy, p1.Source = p.Source → p1.Ignored = p.Ignored →
      Q p → Q p1)
    (ns : String) (res : referenceGrantResolver) (svcs : GoMap corev1.Service) (idx : Nat) :
    ∀ (refs : List gatewayv1.HTTPBackendRef) (refIdx : Nat) (store : PolicyStore)
      (bs : List BackendRef) (conds : List Condition) (st : PolicyStore),
      createBackendRefs ns res svcs idx refs refIdx store = some (bs, conds, st) →
      (∀ e ∈ store, Q e.2) → ∀ e ∈ st, Q e.2 := by
  intro refs
  induction refs with
  | nil =>
    intro refIdx store bs conds st h hstore
    unfold createBackendRefs at h
    simp only [Option.some.injEq, Prod.mk.injEq] at h
    rw [← h.2.2]
    exact hstore
  | cons ref rest ih =>
    intro refIdx store bs conds st h hstore
    unfold createBackendRefs at h
    simp only at h
    cases hc : createBackendRef ref ns res svcs
        (field.Index (field.Child (field.Index (field.Child "spec" "rules") idx) "backendRefs")
          refIdx) store with
    | none => rw [hc] at h; cases h
    | some r =>
      obtain ⟨b, cond, store1⟩ := r
      rw [hc] at h
      simp only at h
      cases hr : createBackendRefs ns res svcs idx rest (refIdx + 1) store1 with
      | none => rw [hr] at h; cases h
      | some r2 =>
        obtain ⟨bs2, conds2, store2⟩ := r2
        rw [hr] at h
        simp only [Option.some.injEq, Prod.mk.injEq] at h
        rw [← h.2.2]
        exact ih (refIdx + 1) store1 bs2 conds2 store2 hr
          (createBackendRef_keeps Q hQ ref ns res svcs _ store b cond store1 hc hstore)

theorem addBackendRefsLoop_keeps (Q : BackendTLSPolicy → Prop)
    (hQ : ∀ p p1 : BackendTLSPolicy, p1.Source = p.Source → p1.Ignored = p.Ignored →
      Q p → Q p1)
    (ns : String) (res : referenceGrantResolver) (svcs : GoMap corev1.Service) :
    ∀ (srcRules : List gatewayv1.HTTPRouteRule) (idx : Nat) (rules : List Rule)
      (store : PolicyStore) (rules1 : List Rule) (cs : List Condition) (st : PolicyStore),
      addBackendRefsLoop ns res svcs srcRules idx rules store = some (rules1, cs, st) →
      (∀ e ∈ store, Q e.2) → ∀ e ∈ st, Q e.2 := by
  intro srcRules
  induction srcRules with
  | nil =>
    intro idx rules store rules1 cs st h hstore
    unfold addBackendRefsLoop at h
    simp only [Option.some.injEq, Prod.mk.injEq] at h
    rw [← h.2.2]
    exact hstore
  | cons rule srcRest ih =>
    intro idx rules store rules1 cs st h hstore
    cases rules with
    | nil => unfold addBackendRefsLoop at h; cases h
    | cons r0 rs =>
      unfold addBackendRefsLoop at h
      have skip : ∀ (hh : (addBackendRefsLoop ns res svcs srcRest (idx + 1) rs store).map
            (fun res => (r0 :: res.1, res.2.1, res.2.2)) = some (rules1, cs, st)),
          ∀ e ∈ st, Q e.2 := by
        intro hh
        cases hr : addBackendRefsLoop ns res svcs srcRest (idx + 1) rs store with
        | none => rw [hr] at hh; cases hh
        | some r2 =>
          rw [hr] at hh
          simp only [Option.map_some', Option.some.injEq, Prod.mk.injEq] at hh
          rw [← hh.2.2]
          exact ih (idx + 1) rs store r2.1 r2.2.1 r2.2.2 hr hstore
      split at h
      · exact skip h
      · split at h
        · exact skip h
        · split at h
          · exact skip h
          · cases hc : createBackendRefs ns res svcs idx rule.BackendRefs 0 store with
            | none => rw [hc] at h; cases h
            | some r1 =>
              obtain ⟨bs, conds, store1⟩ := r1
              rw [hc] at h
              simp only at h
              cases hr : addBackendRefsLoop ns res svcs srcRest (idx + 1) rs store1 with
              | none => rw [hr] at h; cases h
              | some r2 =>
                rw [hr] at h
                simp only [Option.map_some', Option.some.injEq, Prod.mk.injEq] at h
                rw [← h.2.2]
                exact ih (idx + 1) rs store1 r2.1 r2.2.1 r2.2.2 hr
                  (createBackendRefs_keeps Q hQ ns res svcs idx rule.BackendRefs 0 store bs
                    conds store1 hc hstore)

theorem addBackendRefsToRules_keeps (Q : BackendTLSPolicy → Prop)
    (hQ : ∀ p p1 : BackendTLSPolicy, p1.Source = p.Source → p1.Ignored = p.Ignored →
      Q p → Q p1)
    (route route1 : Route) (res : referenceGrantResolver) (svcs : GoMap corev1.Service)
    (store st : PolicyStore)
    (h : addBackendRefsToRules route res svcs store = some (route1, st))
    (hstore : ∀ e ∈ store, Q e.2) :
    ∀ e ∈ st, Q e.2 := by
  unfold addBackendRefsToRules at h
  split at h
  · simp only [Option.some.injEq, Prod.mk.injEq] at h
    rw [← h.2]
    exact hstore
  · cases hl : addBackendRefsLoop route.Source.Namespace res svcs route.Source.Spec.Rules 0
        route.Rules store with
    | none => rw [hl] at h; cases h
    | some r =>
      obtain ⟨rules, cs, st1⟩ := r
      rw [hl] at h
      simp only [Option.some.injEq, Prod.mk.injEq] at h
      rw [← h.2]
      exact addBackendRefsLoop_keeps Q hQ _ res svcs _ 0 _ store rules cs st1 hl hstore

/-- The policies after `addBackendRefsToRouteRules`: the lookups of the
backendRefs write IsReferenced and Conditions only, so a property of the source
and the Ignored flag of every processed policy still holds. -/
theorem addBackendRefsToRouteRules_keeps (Q : BackendTLSPolicy → Prop)
    (hQ : ∀ p p1 : BackendTLSPolicy, p1.Source = p.Source → p1.Ignored = p.Ignored →
      Q p → Q p1)
    (res : referenceGrantResolver) (svcs : GoMap corev1.Service) :
    ∀ (routes : GoMap Route) (store : PolicyStore) (routes1 : GoMap Route) (st : PolicyStore),
      addBackendRefsToRouteRules routes res svcs store = some (routes1, st) →
      (∀ e ∈ store, Q e.2) → ∀ e ∈ st, Q e.2 := by
  intro routes
  induction routes with
  | nil =>
    intro store routes1 st h hstore
    unfold addBackendRefsToRouteRules at h
    simp only [Option.some.injEq, Prod.mk.injEq] at h
    rw [← h.2]
    exact hstore
  | cons x rest ih =>
    intro store routes1 st h hstore
    obtain ⟨nsname, r⟩ := x
    unfold addBackendRefsToRouteRules at h
    cases hr : addBackendRefsToRules r res svcs store with
    | none => rw [hr] at h; cases h
    | some r1 =>
      obtain ⟨route1, store1⟩ := r1
      rw [hr] at h
      simp only at h
      cases hrest : addBackendRefsToRouteRules rest res svcs store1 with
      | none => rw [hrest] at h; cases h
      | some r2 =>
        rw [hrest] at h
        simp only [Option.map_some', Option.some.injEq, Prod.mk.injEq] at h
        rw [← h.2]
        exact ih store1 r2.1 r2.2 hrest
          (addBackendRefsToRules_keeps Q hQ r route1 res svcs store store1 hr hstore)

/-! ## Conditions and frame of addBackendRefsToRules -/

/-- The condition that `createBackendRef` returns: nil exactly for a valid
BackendRef, and otherwise of type ResolvedRefs with status False. -/
theorem createBackendRef_cond (ref : gatewayv1.HTTPBackendRef) (ns : String)
    (res : referenceGrantResolver) (svcs : GoMap corev1.Service) (path : String)
    (store : PolicyStore) (b : BackendRef) (cond : Option Condition) (st : PolicyStore)
    (h : createBackendRef ref ns res svcs path store = some (b, cond, st)) :
    (cond = none ↔ b.Valid = true) ∧
    (∀ c, cond = some c → c.Type_ = "ResolvedRefs" ∧ c.Status = "False") := by
  rcases createBackendRef_cases ref ns res svcs path store b cond st h with
    ⟨c, hval, hb, hc, _⟩ | ⟨_, k, sp, err, _, hb, hc, _⟩ | ⟨_, k, sp, pol, err, _, _, hb, hc⟩ |
    ⟨_, k, sp, pol, _, _, hb, hc⟩
  · have hinv := validateHTTPBackendRef_invalid_cond ref ns res path (by rw [hval])
    rw [hval] at hinv
    rw [hb, hc]
    refine ⟨⟨fun hh => (by cases hh), fun hh => (by cases hh)⟩, ?_⟩
    intro c1 hc1
    injection hc1 with hc1
    rw [← hc1]
    exact hinv
  · rw [hb, hc]
    refine ⟨⟨fun hh => (by cases hh), fun hh => (by cases hh)⟩, ?_⟩
    intro c1 hc1
    injection hc1 with hc1
    rw [← hc1]
    exact ⟨rfl, rfl⟩
  · rw [hb, hc]
    refine ⟨⟨fun hh => (by cases hh), fun hh => (by cases hh)⟩, ?_⟩
    intro c1 hc1
    injection hc1 with hc1
    rw [← hc1]
    exact ⟨rfl, rfl⟩
  · rw [hb, hc]
    exact ⟨⟨fun _ => rfl, fun _ => rfl⟩, fun c1 hc1 => by cases hc1⟩

/-- Claim C36: `createBackendRef` returns a nil condition if and only if the
returned BackendRef is Valid, and every non-nil condition it returns has type
ResolvedRefs and status False. Consequently, after `addBackendRefsToRules`, a
route whose rules held no BackendRef before and contain an invalid BackendRef
afterwards has at least one ResolvedRefs=False condition. -/
theorem createBackendRef_condition_iff_invalid (refGrantResolver : referenceGrantResolver)
    (services : GoMap corev1.Service) :
    (∀ (ref : gatewayv1.HTTPBackendRef) (sourceNamespace refPath : String)
        (backendTLSPolicies : PolicyStore) (b : BackendRef) (cond : Option Condition)
        (store : PolicyStore),
      createBackendRef ref sourceNamespace refGrantResolver services refPath
          backendTLSPolicies = some (b, cond, store) →
      (cond = none ↔ b.Valid = true) ∧
      (∀ c, cond = some c → c.Type_ = "ResolvedRefs" ∧ c.Status = "False")) ∧
    (∀ (route route1 : Route) (backendTLSPolicies store : PolicyStore),
      addBackendRefsToRules route refGrantResolver services backendTLSPolicies =
        some (route1, store) →
      (∀ r ∈ route.Rules, r.BackendRefs = []) →
      (∃ r ∈ route1.Rules, ∃ b ∈ r.BackendRefs, b.Valid = false) →
      ∃ c ∈ route1.Conditions, c.Type_ = "ResolvedRefs" ∧ c.Status = "False") := by
  refine ⟨fun ref ns path store b cond st h =>
    createBackendRef_cond ref ns refGrantResolver services path store b cond st h, ?_⟩
  intro route route1 store0 store h hempty hinv
  unfold addBackendRefsToRules at h
  by_cases hvalid : route.Valid = true
  · rw [hvalid] at h
    simp only [Bool.not_true, Bool.false_eq_true, if_false] at h
    cases hloop : addBackendRefsLoop route.Source.Namespace refGrantResolver services
        route.Source.Spec.Rules 0 route.Rules store0 with
    | none => rw [hloop] at h; cases h
    | some res =>
      obtain ⟨rules, cs, st⟩ := res
      rw [hloop] at h
      simp only [Option.some.injEq, Prod.mk.injEq] at h
      obtain ⟨hroute, _⟩ := h
      obtain ⟨_, hspec⟩ := addBackendRefsLoop_spec route.Source.Namespace refGrantResolver
        services route.Source.Spec.Rules 0 route.Rules store0 rules cs st hloop
      obtain ⟨r1, hr1, b, hb, hbv⟩ := hinv
      rw [← hroute] at hr1
      simp only at hr1
      obtain ⟨i, hi⟩ := List.getElem?_of_mem hr1
      have hlen : i < route.Rules.length := by
        have hl := (addBackendRefsLoop_spec route.Source.Namespace refGrantResolver
          services route.Source.Spec.Rules 0 route.Rules store0 rules cs st hloop).1
        have := (List.getElem?_eq_some_iff.mp hi).1
        omega
      have hri : route.Rules[i]? = some (route.Rules[i]) := List.getElem?_eq_getElem hlen
      have hre : (route.Rules[i]).BackendRefs = [] := hempty _ (List.getElem_mem hlen)
      obtain ⟨r2, hr2, hnosrc, hsrc⟩ := hspec i _ hri
      rw [hi] at hr2
      injection hr2 with hr2
      subst hr2
      have hne : r1 ≠ route.Rules[i] := by
        intro heq
        rw [heq, hre] at hb
        cases hb
      cases hs : route.Source.Spec.Rules[i]? with
      | none => exact absurd (hnosrc hs) hne
      | some src =>
        obtain ⟨hskip, hproc⟩ := hsrc src hs
        have hm : (route.Rules[i]).ValidMatches = true := by
          cases hv : (route.Rules[i]).ValidMatches with
          | true => rfl
          | false => exact absurd (hskip (Or.inl hv)) hne
        have hfl : (route.Rules[i]).ValidFilters = true := by
          cases hv : (route.Rules[i]).ValidFilters with
          | true => rfl
          | false => exact absurd (hskip (Or.inr (Or.inl hv))) hne
        have hrefs : src.BackendRefs ≠ [] := fun hv => hne (hskip (Or.inr (Or.inr hv)))
        obtain ⟨st0, bs, conds, st1, pre, post, hcreate, hr1eq, hcs⟩ := hproc hm hfl hrefs
        rw [hr1eq] at hb
        simp only at hb
        rw [← hroute]
        simp only
        rw [hcs]
        cases hmm : (markMismatch bs).2 with
        | cons c0 rest =>
          have hc0 : c0 = staticConds.NewRouteBackendRefUnsupportedValue
              "Backend TLS policies do not match for all backends" := by
            unfold markMismatch at hmm
            split at hmm
            · cases hv : validateBackendTLSPolicyMatchingAllBackends bs with
              | none => rw [hv] at hmm; cases hmm
              | some c1 =>
                rw [hv] at hmm
                simp only [List.cons.injEq] at hmm
                rw [← hmm.1]
                exact validateBackendTLSPolicyMatchingAllBackends_cond bs c1 hv
            · cases hmm
          refine ⟨c0, ?_, ?_⟩
          · simp
          · rw [hc0]
            exact ⟨rfl, rfl⟩
        | nil =>
          have hsame : (markMismatch bs).1 = bs := by
            unfold markMismatch at hmm ⊢
            split
            · rename_i hgt
              rw [if_pos hgt] at hmm
              cases hv : validateBackendTLSPolicyMatchingAllBackends bs with
              | none => rfl
              | some c0 => rw [hv] at hmm; cases hmm
            · rfl
          rw [hsame] at hb
          obtain ⟨j, hj⟩ := List.getElem?_of_mem hb
          obtain ⟨hlenbs, hrefsspec⟩ := createBackendRefs_spec route.Source.Namespace
            refGrantResolver services (0 + i) src.BackendRefs 0 st0 bs conds st1 hcreate
          have hjlt : j < src.BackendRefs.length := by
            have := (List.getElem?_eq_some_iff.mp hj).1
            omega
          obtain ⟨b1, path, s0, cond, s1, hb1, hcb, hcond⟩ := hrefsspec j _
            (List.getElem?_eq_getElem hjlt)
          rw [hj] at hb1
          injection hb1 with hb1
          subst hb1
          obtain ⟨hiff, htype⟩ := createBackendRef_cond _ _ _ _ _ _ _ _ _ hcb
          cases hc : cond with
          | none =>
            have := hiff.mp hc
            rw [hbv] at this
            cases this
          | some c =>
            refine ⟨c, ?_, htype c hc⟩
            have := hcond c hc
            simp [this]
  · have hf : route.Valid = false := by simpa using hvalid
    rw [hf] at h
    simp only [Bool.not_false, if_true, Option.some.injEq, Prod.mk.injEq] at h
    obtain ⟨r1, hr1, b, hb, _⟩ := hinv
    rw [← h.1] at hr1
    rw [hempty r1 hr1] at hb
    cases hb

theorem createBackendRef_condition_iff_invalid_witness :
    (∃ r ∈ mismatchRouteResult.Rules, ∃ b ∈ r.BackendRefs, b.Valid = false) ∧
    ∃ c ∈ mismatchRouteResult.Conditions, c.Type_ = "ResolvedRefs" ∧ c.Status = "False" :=
  ⟨by decide,
    (createBackendRef_condition_iff_invalid noGrants testServices).2 mismatchRoute
      mismatchRouteResult testPolicyStore
      [({ Namespace := "test", Name := "btp" }, referencedTestPolicy)]
      (by decide) (by decide) (by decide)⟩

/-- Claim C37: `addBackendRefsToRules` changes only the BackendRefs of rules and
the route's Conditions. The source, the parent refs, the validity flags and the
number of rules are kept and the conditions only grow; an invalid route (and
the policy store with it) is left unchanged; a rule with invalid matches,
invalid filters, zero source backendRefs or no source rule is kept as it is;
every other rule keeps its flags and receives exactly one BackendRef per source
backendRef, at the same position: the one `createBackendRef` computes for that
backendRef, valid or not, or that one marked invalid by the policy check. -/
theorem addBackendRefsToRules_frame (route route1 : Route)
    (refGrantResolver : referenceGrantResolver) (services : GoMap corev1.Service)
    (backendTLSPolicies store : PolicyStore)
    (h : addBackendRefsToRules route refGrantResolver services backendTLSPolicies =
      some (route1, store)) :
    route1.Source = route.Source ∧ route1.ParentRefs = route.ParentRefs ∧
    route1.Valid = route.Valid ∧ route1.Attachable = route.Attachable ∧
    (∃ conds, route1.Conditions = route.Conditions ++ conds) ∧
    route1.Rules.length = route.Rules.length ∧
    (route.Valid = false → route1 = route ∧ store = backendTLSPolicies) ∧
    ∀ (i : Nat) (r : Rule), route.Rules[i]? = some r →
      ∃ r1, route1.Rules[i]? = some r1 ∧
        r1.ValidMatches = r.ValidMatches ∧ r1.ValidFilters = r.ValidFilters ∧
        (route.Source.Spec.Rules[i]? = none → r1 = r) ∧
        ∀ src, route.Source.Spec.Rules[i]? = some src →
          (r.ValidMatches = false ∨ r.ValidFilters = false ∨ src.BackendRefs = [] → r1 = r) ∧
          (route.Valid = true → r.ValidMatches = true → r.ValidFilters = true →
            src.BackendRefs ≠ [] →
            r1.BackendRefs.length = src.BackendRefs.length ∧
            ∀ (j : Nat) (ref : gatewayv1.HTTPBackendRef), src.BackendRefs[j]? = some ref →
              ∃ b b0 refPath st0 cond st1, r1.BackendRefs[j]? = some b ∧
                createBackendRef ref route.Source.Namespace refGrantResolver services refPath
                  st0 = some (b0, cond, st1) ∧
                (b = b0 ∨ b = { b0 with Valid := false })) := by
  unfold addBackendRefsToRules at h
  by_cases hvalid : route.Valid = true
  · rw [hvalid] at h
    simp only [Bool.not_true, Bool.false_eq_true, if_false] at h
    cases hloop : addBackendRefsLoop route.Source.Namespace refGrantResolver services
        route.Source.Spec.Rules 0 route.Rules backendTLSPolicies with
    | none => rw [hloop] at h; cases h
    | some res =>
      obtain ⟨rules, cs, st⟩ := res
      rw [hloop] at h
      simp only [Option.some.injEq, Prod.mk.injEq] at h
      obtain ⟨hroute, _⟩ := h
      obtain ⟨hlen, hspec⟩ := addBackendRefsLoop_spec route.Source.Namespace refGrantResolver
        services route.Source.Spec.Rules 0 route.Rules backendTLSPolicies rules cs st hloop
      subst hroute
      refine ⟨rfl, rfl, hvalid.symm, rfl, ⟨cs, rfl⟩, hlen, ?_, ?_⟩
      · intro hf
        rw [hvalid] at hf
        cases hf
      · intro i r hr
        obtain ⟨r1, hr1, hnosrc, hsrc⟩ := hspec i r hr
        have hflags : r1.ValidMatches = r.ValidMatches ∧ r1.ValidFilters = r.ValidFilters := by
          cases hs : route.Source.Spec.Rules[i]? with
          | none => rw [hnosrc hs]; exact ⟨rfl, rfl⟩
          | some src =>
            obtain ⟨hskip, hproc⟩ := hsrc src hs
            by_cases hm : r.ValidMatches = true
            · by_cases hfl : r.ValidFilters = true
              · by_cases hrefs : src.BackendRefs = []
                · rw [hskip (Or.inr (Or.inr hrefs))]; exact ⟨rfl, rfl⟩
                · obtain ⟨_, bs, _, _, _, _, _, hr1eq, _⟩ := hproc hm hfl hrefs
                  rw [hr1eq]
                  exact ⟨rfl, rfl⟩
              · have hfl0 : r.ValidFilters = false := by simpa using hfl
                rw [hskip (Or.inr (Or.inl hfl0))]; exact ⟨rfl, rfl⟩
            · have hm0 : r.ValidMatches = false := by simpa using hm
              rw [hskip (Or.inl hm0)]; exact ⟨rfl, rfl⟩
        refine ⟨r1, hr1, hflags.1, hflags.2, hnosrc, ?_⟩
        intro src hs
        obtain ⟨hskip, hproc⟩ := hsrc src hs
        refine ⟨hskip, ?_⟩
        intro _ hm hfl hrefs
        obtain ⟨st0, bs, conds, st1, _, _, hcreate, hr1eq, _⟩ := hproc hm hfl hrefs
        obtain ⟨hlenbs, hrefsspec⟩ := createBackendRefs_spec route.Source.Namespace
          refGrantResolver services (0 + i) src.BackendRefs 0 st0 bs conds st1 hcreate
        rw [hr1eq]
        simp only
        refine ⟨by rw [markMismatch_length, hlenbs], ?_⟩
        intro j ref href
        obtain ⟨b0, path, s0, cond, s1, hb0, hcb, _⟩ := hrefsspec j ref href
        have hjlt : j < (markMismatch bs).1.length := by
          rw [markMismatch_length]
          exact (List.getElem?_eq_some_iff.mp hb0).1
        obtain ⟨b2, hb2, hor⟩ := markMismatch_getElem bs j _ (List.getElem?_eq_getElem hjlt)
        rw [hb0] at hb2
        injection hb2 with hb2
        subst hb2
        exact ⟨_, b0, path, s0, cond, s1, List.getElem?_eq_getElem hjlt, hcb, hor⟩
  · have hf : route.Valid = false := by simpa using hvalid
    rw [hf] at h
    simp only [Bool.not_false, if_true, Option.some.injEq, Prod.mk.injEq] at h
    obtain ⟨h1, h2⟩ := h
    subst h1
    subst h2
    refine ⟨rfl, rfl, rfl, rfl, ⟨[], by simp⟩, rfl, fun _ => ⟨rfl, rfl⟩, ?_⟩
    intro i r hr
    refine ⟨r, hr, rfl, rfl, fun _ => rfl, fun src _ => ⟨fun _ => rfl, ?_⟩⟩
    intro hv
    rw [hf] at hv
    cases hv

theorem addBackendRefsToRules_frame_witness :
    mismatchRouteResult.Source = mismatchRoute.Source ∧
    mismatchRouteResult.ParentRefs = mismatchRoute.ParentRefs ∧
    mismatchRouteResult.Valid = mismatchRoute.Valid ∧
    mismatchRouteResult.Attachable = mismatchRoute.Attachable ∧
    (∃ conds, mismatchRouteResult.Conditions = mismatchRoute.Conditions ++ conds) ∧
    mismatchRouteResult.Rules.length = mismatchRoute.Rules.length ∧
    (mismatchRoute.Valid = false →
      mismatchRouteResult = mismatchRoute ∧
      [({ Namespace := "test", Name := "btp" }, referencedTestPolicy)] = testPolicyStore) ∧
    ∀ (i : Nat) (r : Rule), mismatchRoute.Rules[i]? = some r →
      ∃ r1, mismatchRouteResult.Rules[i]? = some r1 ∧
        r1.ValidMatches = r.ValidMatches ∧ r1.ValidFilters = r.ValidFilters ∧
        (mismatchRoute.Source.Spec.Rules[i]? = none → r1 = r) ∧
        ∀ src, mismatchRoute.Source.Spec.Rules[i]? = some src →
          (r.ValidMatches = false ∨ r.ValidFilters = false ∨ src.BackendRefs = [] → r1 = r) ∧
          (mismatchRoute.Valid = true → r.ValidMatches = true → r.ValidFilters = true →
            src.BackendRefs ≠ [] →
            r1.BackendRefs.length = src.BackendRefs.length ∧
            ∀ (j : Nat) (ref : gatewayv1.HTTPBackendRef), src.BackendRefs[j]? = some ref →
              ∃ b b0 refPath st0 cond st1, r1.BackendRefs[j]? = some b ∧
                createBackendRef ref mismatchRoute.Source.Namespace noGrants testServices refPath
                  st0 = some (b0, cond, st1) ∧
                (b = b0 ∨ b = { b0 with Valid := false })) :=
  addBackendRefsToRules_frame mismatchRoute mismatchRouteResult noGrants testServices
    testPolicyStore [({ Namespace := "test", Name := "btp" }, referencedTestPolicy)]
    (by decide)

/-! ## Invariants of processBackendTLSPolicies -/

theorem processBackendTLSPoliciesLoop_total (ext : Externals) (ctlrName : String)
    (gateway : Gateway) :
    ∀ (policies : GoMap v1alpha2.BackendTLSPolicy) (resolver : configMapResolver),
      ∃ processed resolver1,
        processBackendTLSPoliciesLoop ext ctlrName gateway policies resolver =
          some (processed, resolver1) ∧
        List.Forall₂ (processedFrom gateway) policies processed := by
  intro policies
  induction policies with
  | nil =>
    intro resolver
    exact ⟨[], resolver, rfl, List.Forall₂.nil⟩
  | cons p rest ih =>
    intro resolver
    obtain ⟨nsname, btp⟩ := p
    obtain ⟨valid, conds, r1, hval, hiff, _, hign⟩ :=
      validateBackendTLSPolicy_result ext btp resolver ctlrName gateway
    obtain ⟨processed, r2, hrest, hall⟩ := ih r1
    unfold processBackendTLSPoliciesLoop
    rw [hval]
    simp only
    by_cases hcond : (valid && !(validateAncestorMaxCount btp ctlrName gateway).isSome &&
        btp.Spec.TLS.CACertRefs.isSome) = true
    · rw [if_pos hcond]
      simp only [Bool.and_eq_true, Bool.not_eq_true', Option.isSome_iff_exists] at hcond
      obtain ⟨⟨hv, hanc⟩, refs, hrefs⟩ := hcond
      have hone : ∃ ref0, btp.Spec.TLS.CACertRefs = some [ref0] := by
        rcases (hiff.mp hv).2.2 with ⟨_, ref, href, _⟩ | ⟨hnone, _⟩
        · exact ⟨ref, href⟩
        · rw [hnone] at hrefs; cases hrefs
      obtain ⟨ref0, href0⟩ := hone
      rw [href0]
      simp only [Option.getD_some, hrest, Option.map_some']
      refine ⟨_, r2, rfl, List.Forall₂.cons ?_ hall⟩
      refine ⟨rfl, rfl, rfl, ?_, ?_, ?_⟩
      · intro hi
        exact hign hi
      · intro _
        exact ⟨hv, by rw [href0]; rfl⟩
      · intro _ _
        exact ⟨ref0, [], href0, rfl⟩
    · rw [if_neg hcond]
      simp only [hrest, Option.map_some']
      refine ⟨_, r2, rfl, List.Forall₂.cons ?_ hall⟩
      refine ⟨rfl, rfl, rfl, ?_, ?_, ?_⟩
      · intro hi
        exact hign hi
      · intro hne
        exact absurd rfl hne
      · intro hv hca
        exfalso
        apply hcond
        have hv1 : valid = true := hv
        have hanc : (validateAncestorMaxCount btp ctlrName gateway).isSome = false := by
          cases hh : (validateAncestorMaxCount btp ctlrName gateway).isSome with
          | false => rfl
          | true => rw [hign hh] at hv1; cases hv1
        have hca1 : btp.Spec.TLS.CACertRefs.isSome = true := hca
        rw [hv1, hanc, hca1]
        rfl

/-- Claim C38: for a winning Gateway and a non-empty policy map,
`processBackendTLSPolicies` returns a map with exactly the keys of the input,
entry by entry: each entry has the key and the source of the input entry,
Gateway equal to the namespace and name of the winning Gateway, Ignored only
with Valid=false, a CaCertRef that differs from the empty key only if the
policy is Valid and has CACertRefs, and for a Valid policy with CACertRefs the
CaCertRef (policy namespace, name of the first CACertRef). It returns nil when
there is no policy or no Gateway. -/
theorem processBackendTLSPolicies_invariants (ext : Externals)
    (backendTLSPolicies : GoMap v1alpha2.BackendTLSPolicy) (resolver : configMapResolver)
    (ctlrName : String) :
    (∀ gateway : Gateway, backendTLSPolicies ≠ [] →
      ∃ processed resolver1,
        processBackendTLSPolicies ext backendTLSPolicies resolver ctlrName (some gateway) =
          some (some processed, resolver1) ∧
        processed.map Prod.fst = backendTLSPolicies.map Prod.fst ∧
        List.Forall₂ (processedFrom gateway) backendTLSPolicies processed ∧
        ∀ e ∈ processed,
          e.2.Gateway = { Namespace := gateway.Source.Namespace, Name := gateway.Source.Name } ∧
          (e.2.Ignored = true → e.2.Valid = false) ∧
          (e.2.CaCertRef ≠ {} →
            e.2.Valid = true ∧
            ∃ ref0 rest, e.2.Source.Spec.TLS.CACertRefs = some (ref0 :: rest) ∧
              e.2.CaCertRef = { Namespace := e.2.Source.Namespace, Name := ref0.Name })) ∧
    processBackendTLSPolicies ext backendTLSPolicies resolver ctlrName none =
      some (none, resolver) ∧
    (∀ gateway : Option Gateway,
      processBackendTLSPolicies ext [] resolver ctlrName gateway = some (none, resolver)) := by
  refine ⟨?_, rfl, ?_⟩
  · intro gateway hne
    obtain ⟨processed, r1, hloop, hall⟩ :=
      processBackendTLSPoliciesLoop_total ext ctlrName gateway backendTLSPolicies resolver
    refine ⟨processed, r1, ?_, ?_, hall, ?_⟩
    · unfold processBackendTLSPolicies
      have hlen : (backendTLSPolicies.length == 0) = false := by
        cases backendTLSPolicies with
        | nil => exact absurd rfl hne
        | cons _ _ => rfl
      simp only [hlen, Bool.false_eq_true, if_false, hloop, Option.map_some']
    · clear hloop hne
      induction hall with
      | nil => rfl
      | cons hhead _ ih =>
        simp only [List.map_cons, List.cons.injEq]
        exact ⟨hhead.1, ih⟩
    · clear hloop hne
      induction hall with
      | nil => intro e he; cases he
      | cons hhead _ ih =>
        intro e he
        rw [List.mem_cons] at he
        rcases he with he | he
        · subst he
          obtain ⟨_, hsrc, hgw, hign, hca, hfirst⟩ := hhead
          refine ⟨hgw, hign, ?_⟩
          intro hne
          obtain ⟨hv, hsome⟩ := hca hne
          rw [hsrc]
          exact ⟨hv, hfirst hv hsome⟩
        · exact ih e he
  · intro gateway
    cases gateway <;> rfl

theorem processBackendTLSPolicies_invariants_witness :
    ([({ Namespace := "test", Name := "btp-ca" }, caPolicy),
      ({ Namespace := "test", Name := "btp" }, overflowedPolicy)] :
        GoMap v1alpha2.BackendTLSPolicy) ≠ [] ∧
    ∃ processed resolver1,
      processBackendTLSPolicies emptyExternals
          [({ Namespace := "test", Name := "btp-ca" }, caPolicy),
           ({ Namespace := "test", Name := "btp" }, overflowedPolicy)] {} "my.controller"
          (some testGateway) = some (some processed, resolver1) ∧
      processed.map Prod.fst =
        [{ Namespace := "test", Name := "btp-ca" }, { Namespace := "test", Name := "btp" }] ∧
      List.Forall₂ (processedFrom testGateway)
        [({ Namespace := "test", Name := "btp-ca" }, caPolicy),
         ({ Namespace := "test", Name := "btp" }, overflowedPolicy)] processed ∧
      ∀ e ∈ processed,
        e.2.Gateway = { Namespace := "test", Name := "gateway" } ∧
        (e.2.Ignored = true → e.2.Valid = false) ∧
        (e.2.CaCertRef ≠ {} →
          e.2.Valid = true ∧
          ∃ ref0 rest, e.2.Source.Spec.TLS.CACertRefs = some (ref0 :: rest) ∧
            e.2.CaCertRef = { Namespace := e.2.Source.Namespace, Name := ref0.Name }) :=
  ⟨by decide,
    (processBackendTLSPolicies_invariants emptyExternals
      [({ Namespace := "test", Name := "btp-ca" }, caPolicy),
       ({ Namespace := "test", Name := "btp" }, overflowedPolicy)] {} "my.controller").1
      testGateway (by decide)⟩

/-- The policies of the witness are processed to a valid entry with the
CaCertRef `test/ca` and an ignored one. -/
theorem processBackendTLSPolicies_example :
    processBackendTLSPolicies emptyExternals
        [({ Namespace := "test", Name := "btp-ca" }, caPolicy),
         ({ Namespace := "test", Name := "btp" }, overflowedPolicy)] {} "my.controller"
        (some testGateway) =
      some (some [({ Namespace := "test", Name := "btp-ca" },
                    { Source := caPolicy, Gateway := { Namespace := "test", Name := "gateway" },
                      CaCertRef := { Namespace := "test", Name := "ca" }, Valid := true }),
                  ({ Namespace := "test", Name := "btp" }, processedOverflowedPolicy)], {}) := by
  decide

end graph

/-! ## Properties of the condition helpers -/

namespace conditions

theorem getLast?_cons_of_ne_nil {A : Type} (a : A) (l : List A) (h : l ≠ []) :
    (a :: l).getLast? = l.getLast? := by
  cases l with
  | nil => exact absurd rfl h
  | cons b l => simp [List.getLast?_cons_cons]

theorem DeduplicateConditions_keepsLast : KeepsLastOfEachType DeduplicateConditions := by
  intro conds t
  induction conds with
  | nil => simp [DeduplicateConditions]
  | cons c rest ih =>
    unfold DeduplicateConditions
    by_cases hany : rest.any (fun d => d.Type_ == c.Type_) = true
    · rw [if_pos hany, ih]
      by_cases hc : c.Type_ = t
      · have hne : rest.filter (fun c => c.Type_ == t) ≠ [] := by
          rw [List.any_eq_true] at hany
          obtain ⟨d, hd, hdt⟩ := hany
          intro hnil
          have hmem : d ∈ rest.filter (fun c => c.Type_ == t) := by
            rw [List.mem_filter]
            refine ⟨hd, ?_⟩
            rw [← hc]
            exact hdt
          rw [hnil] at hmem
          cases hmem
        rw [List.filter_cons, if_pos (by simp [hc]), getLast?_cons_of_ne_nil _ _ hne]
      · rw [List.filter_cons, if_neg (by simp [hc])]
    · rw [if_neg hany]
      by_cases hc : c.Type_ = t
      · have hnil : rest.filter (fun c => c.Type_ == t) = [] := by
          rw [List.filter_eq_nil_iff]
          intro d hd hdt
          apply hany
          rw [List.any_eq_true]
          refine ⟨d, hd, ?_⟩
          rw [hc]
          exact hdt
        rw [List.filter_cons, if_pos (by simp [hc]), ih, hnil,
          List.filter_cons, if_pos (by simp [hc]), hnil]
        simp
      · rw [List.filter_cons, if_neg (by simp [hc]), ih, List.filter_cons, if_neg (by simp [hc])]

theorem ConvertConditions_convertsEach : ConvertsEachCondition ConvertConditions := by
  intro conds observedGeneration transitionTime
  rfl

theorem filter_toAPICondition (g tt : Int) (t : String) (l : List Condition) :
    (l.map (toAPICondition g tt)).filter (fun c => c.Type_ == t) =
      (l.filter (fun c => c.Type_ == t)).map (toAPICondition g tt) := by
  induction l with
  | nil => rfl
  | cons c l ih =>
    by_cases hc : c.Type_ = t
    · simp [List.filter_cons, toAPICondition, hc, ← ih]
    · simp [List.filter_cons, toAPICondition, hc, ← ih]

/-- The conditions of one type in a converted, deduplicated list: the last
condition of that type of the input, converted. -/
theorem filter_convert_dedup
    (dedup : List Condition → List Condition)
    (convert : List Condition → Int → Int → List metav1.Condition)
    (hdedup : KeepsLastOfEachType dedup) (hconvert : ConvertsEachCondition convert)
    (conds : List Condition) (g tt : Int) (t : String) :
    (convert (dedup conds) g tt).filter (fun c => c.Type_ == t) =
      (((conds.filter (fun c => c.Type_ == t)).getLast?).map (toAPICondition g tt)).toList := by
  rw [hconvert, filter_toAPICondition, hdedup]
  cases (conds.filter (fun c => c.Type_ == t)).getLast? <;> rfl

theorem perm_of_filter_type {l1 l2 : List Condition}
    (h : ∀ t, l1.filter (fun c => c.Type_ == t) = l2.filter (fun c => c.Type_ == t)) :
    l1.Perm l2 := by
  rw [List.perm_iff_count]
  intro a
  have h1 : List.count a (l1.filter (fun c => c.Type_ == a.Type_)) = List.count a l1 :=
    List.count_filter (by simp)
  have h2 : List.count a (l2.filter (fun c => c.Type_ == a.Type_)) = List.count a l2 :=
    List.count_filter (by simp)
  rw [← h1, ← h2, h a.Type_]

/-- Under its contract the deduplication returns the conditions of the model,
in some order. -/
theorem dedup_perm (dedup : List Condition → List Condition)
    (hdedup : KeepsLastOfEachType dedup) (conds : List Condition) :
    (dedup conds).Perm (DeduplicateConditions conds) := by
  apply perm_of_filter_type
  intro t
  rw [hdedup, DeduplicateConditions_keepsLast]

/-- Under the contracts the converted, deduplicated conditions are the
converted conditions of the model, in some order. -/
theorem convert_dedup_perm (dedup : List Condition → List Condition)
    (convert : List Condition → Int → Int → List metav1.Condition)
    (hdedup : KeepsLastOfEachType dedup) (hconvert : ConvertsEachCondition convert)
    (conds : List Condition) (g tt : Int) :
    (convert (dedup conds) g tt).Perm
      ((DeduplicateConditions conds).map (toAPICondition g tt)) := by
  rw [hconvert]
  exact (dedup_perm dedup hdedup conds).map _

end conditions

/-! ## Properties of status_setters.go -/

namespace status

theorem EqualFunc_iff {A B : Type} (eq : A → B → Bool) :
    ∀ (s1 : List A) (s2 : List B),
      slices.EqualFunc s1 s2 eq = true ↔
        (s1.length = s2.length ∧
          ∀ (i : Nat) (a : A) (b : B), s1[i]? = some a → s2[i]? = some b → eq a b = true) := by
  intro s1
  induction s1 with
  | nil =>
    intro s2
    cases s2 with
    | nil => simp [slices.EqualFunc]
    | cons b s2 => simp [slices.EqualFunc]
  | cons a s1 ih =>
    intro s2
    cases s2 with
    | nil => simp [slices.EqualFunc]
    | cons b s2 =>
      unfold slices.EqualFunc
      by_cases h : eq a b = true
      · simp only [h, Bool.not_true, Bool.false_eq_true, if_false]
        rw [ih s2]
        constructor
        · rintro ⟨hl, hall⟩
          refine ⟨by simp [hl], fun i x y hx hy => ?_⟩
          cases i with
          | zero =>
            simp at hx hy
            subst hx hy
            exact h
          | succ j =>
            simp at hx hy
            exact hall j x y hx hy
        · rintro ⟨hl, hall⟩
          refine ⟨by simpa using hl, fun i x y hx hy => ?_⟩
          exact hall (i + 1) x y (by simpa using hx) (by simpa using hy)
      · have hf : eq a b = false := by simpa using h
        simp only [hf, Bool.not_false, if_true]
        constructor
        · intro hh; cases hh
        · rintro ⟨_, hall⟩
          have := hall 0 a b (by simp) (by simp)
          rw [hf] at this
          cases this

theorem ContainsFunc_eq_any {A : Type} (f : A → Bool) :
    ∀ s : List A, slices.ContainsFunc s f = s.any f := by
  intro s
  induction s with
  | nil => rfl
  | cons a s ih =>
    unfold slices.ContainsFunc
    by_cases h : f a = true
    · simp [h]
    · have hf : f a = false := by simpa using h
      simp [hf, ih]

theorem equalPointers_iff_getD {T : Type} [DecidableEq T] [Inhabited T] (p1 p2 : Option T) :
    equalPointers p1 p2 = true ↔ p1.getD default = p2.getD default := by
  unfold equalPointers
  cases p1 <;> cases p2 <;> simp

theorem equalPointers_refl {T : Type} [DecidableEq T] [Inhabited T] (p : Option T) :
    equalPointers p p = true :=
  (equalPointers_iff_getD p p).2 rfl

/-- Claim C19: `equalPointers(p1, p2)` is true exactly when both pointers are
nil, or one is nil and the other points to the zero value, or both are non-nil
and point to equal values; equivalently, when the two values obtained by
reading nil as the zero value are equal. -/
theorem equalPointers_spec {T : Type} [DecidableEq T] [Inhabited T] (p1 p2 : Option T) :
    (equalPointers p1 p2 = true ↔
      ((p1 = none ∧ p2 = none) ∨ (p1 = none ∧ p2 = some default) ∨
        (p1 = some default ∧ p2 = none) ∨ ∃ v, p1 = some v ∧ p2 = some v)) ∧
    (equalPointers p1 p2 = true ↔ p1.getD default = p2.getD default) := by
  refine ⟨?_, equalPointers_iff_getD p1 p2⟩
  rw [equalPointers_iff_getD]
  cases p1 with
  | none =>
    cases p2 with
    | none => simp
    | some b =>
      constructor
      · intro h
        right; left
        refine ⟨rfl, ?_⟩
        have h2 : default = b := h
        rw [h2]
      · rintro (⟨_, h⟩ | ⟨_, h⟩ | ⟨h, _⟩ | ⟨v, h, _⟩)
        · cases h
        · injection h with h
          show default = b
          exact h.symm
        · cases h
        · cases h
  | some a =>
    cases p2 with
    | none =>
      constructor
      · intro h
        right; right; left
        refine ⟨?_, rfl⟩
        have h2 : a = default := h
        rw [h2]
      · rintro (⟨h, _⟩ | ⟨h, _⟩ | ⟨h, _⟩ | ⟨v, _, h⟩)
        · cases h
        · cases h
        · injection h
        · cases h
    | some b =>
      constructor
      · intro h
        right; right; right
        have h2 : a = b := h
        exact ⟨a, rfl, by rw [h2]⟩
      · rintro (⟨h, _⟩ | ⟨h, _⟩ | ⟨_, h⟩ | ⟨v, h1, h2⟩)
        · cases h
        · cases h
        · cases h
        · injection h1 with h1
          injection h2 with h2
          show a = b
          rw [h1, h2]


theorem addressEqual_iff (a1 a2 : gatewayv1.GatewayStatusAddress) :
    addressEqual a1 a2 = true ↔ (a1.Value = a2.Value ∧ equalPointers a1.Type_ a2.Type_ = true) := by
  unfold addressEqual
  by_cases h : equalPointers a1.Type_ a2.Type_ = true
  · simp [h]
  · have hf : equalPointers a1.Type_ a2.Type_ = false := by simpa using h
    simp [hf]

theorem routeGroupKindEqual_iff (k1 k2 : gatewayv1.RouteGroupKind) :
    routeGroupKindEqual k1 k2 = true ↔
      (k1.Kind = k2.Kind ∧ equalPointers k1.Group k2.Group = true) := by
  unfold routeGroupKindEqual
  by_cases h : k1.Kind = k2.Kind
  · simp [h]
  · simp [h]

theorem listenerStatusEqual_iff
    (ce : List metav1.Condition → List metav1.Condition → Bool)
    (s1 s2 : gatewayv1.ListenerStatus) :
    listenerStatusEqual ce s1 s2 = true ↔
      (s1.Name = s2.Name ∧ s1.AttachedRoutes = s2.AttachedRoutes ∧
        ce s1.Conditions s2.Conditions = true ∧
        slices.EqualFunc s1.SupportedKinds s2.SupportedKinds routeGroupKindEqual = true) := by
  unfold listenerStatusEqual
  by_cases h1 : s1.Name = s2.Name
  · by_cases h2 : s1.AttachedRoutes = s2.AttachedRoutes
    · by_cases h3 : ce s1.Conditions s2.Conditions = true
      · simp [h1, h2, h3]
      · have hf : ce s1.Conditions s2.Conditions = false := by simpa using h3
        simp [h1, h2, hf]
    · simp [h1, h2]
  · simp [h1]

theorem gwStatusEqual_iff (ce : List metav1.Condition → List metav1.Condition → Bool)
    (prev cur : gatewayv1.GatewayStatus) :
    gwStatusEqual ce prev cur = true ↔
      (slices.EqualFunc prev.Addresses cur.Addresses addressEqual = true ∧
        ce prev.Conditions cur.Conditions = true ∧
        slices.EqualFunc prev.Listeners cur.Listeners (listenerStatusEqual ce) = true) := by
  unfold gwStatusEqual
  by_cases h1 : slices.EqualFunc prev.Addresses cur.Addresses addressEqual = true
  · by_cases h2 : ce prev.Conditions cur.Conditions = true
    · simp [h1, h2]
    · have hf : ce prev.Conditions cur.Conditions = false := by simpa using h2
      simp [h1, hf]
  · have hf : slices.EqualFunc prev.Addresses cur.Addresses addressEqual = false := by
      simpa using h1
    simp [hf]

/-- Claim C18: `gwStatusEqual(prev, cur)` is true exactly when the two statuses
have the same number of addresses and the addresses at the same position have
equal Value and Type equal under `equalPointers`, their Conditions are equal
under `ConditionsEqual`, and they have the same number of listener statuses,
those at the same position agreeing on Name, AttachedRoutes, Conditions
(`ConditionsEqual`) and SupportedKinds (same length, and position by position
the same Kind and Group equal under `equalPointers`). -/
theorem gwStatusEqual_spec (ConditionsEqual : List metav1.Condition → List metav1.Condition → Bool)
    (prev cur : gatewayv1.GatewayStatus) :
    gwStatusEqual ConditionsEqual prev cur = true ↔
      ((prev.Addresses.length = cur.Addresses.length ∧
          ∀ (i : Nat) (a1 a2 : gatewayv1.GatewayStatusAddress),
            prev.Addresses[i]? = some a1 → cur.Addresses[i]? = some a2 →
            (a1.Value = a2.Value ∧ equalPointers a1.Type_ a2.Type_ = true)) ∧
        ConditionsEqual prev.Conditions cur.Conditions = true ∧
        (prev.Listeners.length = cur.Listeners.length ∧
          ∀ (i : Nat) (s1 s2 : gatewayv1.ListenerStatus),
            prev.Listeners[i]? = some s1 → cur.Listeners[i]? = some s2 →
            (s1.Name = s2.Name ∧ s1.AttachedRoutes = s2.AttachedRoutes ∧
              ConditionsEqual s1.Conditions s2.Conditions = true ∧
              s1.SupportedKinds.length = s2.SupportedKinds.length ∧
              ∀ (j : Nat) (k1 k2 : gatewayv1.RouteGroupKind),
                s1.SupportedKinds[j]? = some k1 → s2.SupportedKinds[j]? = some k2 →
                (k1.Kind = k2.Kind ∧ equalPointers k1.Group k2.Group = true)))) := by
  rw [gwStatusEqual_iff, EqualFunc_iff, EqualFunc_iff]
  constructor
  · rintro ⟨⟨hal, ha⟩, hc, hll, hl⟩
    refine ⟨⟨hal, fun i a1 a2 h1 h2 => (addressEqual_iff a1 a2).1 (ha i a1 a2 h1 h2)⟩, hc, hll,
      fun i s1 s2 h1 h2 => ?_⟩
    obtain ⟨hn, hr, hcs, hk⟩ := (listenerStatusEqual_iff ConditionsEqual s1 s2).1 (hl i s1 s2 h1 h2)
    rw [EqualFunc_iff] at hk
    exact ⟨hn, hr, hcs, hk.1,
      fun j k1 k2 hk1 hk2 => (routeGroupKindEqual_iff k1 k2).1 (hk.2 j k1 k2 hk1 hk2)⟩
  · rintro ⟨⟨hal, ha⟩, hc, hll, hl⟩
    refine ⟨⟨hal, fun i a1 a2 h1 h2 => (addressEqual_iff a1 a2).2 (ha i a1 a2 h1 h2)⟩, hc, hll,
      fun i s1 s2 h1 h2 => ?_⟩
    obtain ⟨hn, hr, hcs, hkl, hk⟩ := hl i s1 s2 h1 h2
    rw [listenerStatusEqual_iff, EqualFunc_iff]
    exact ⟨hn, hr, hcs, hkl,
      fun j k1 k2 hk1 hk2 => (routeGroupKindEqual_iff k1 k2).2 (hk j k1 k2 hk1 hk2)⟩

theorem EqualFunc_refl {A : Type} (eq : A → A → Bool) (s : List A)
    (h : ∀ a ∈ s, eq a a = true) : slices.EqualFunc s s eq = true := by
  rw [EqualFunc_iff]
  refine ⟨rfl, fun i a b ha hb => ?_⟩
  rw [ha] at hb
  injection hb with hb
  subst hb
  exact h a (List.getElem?_mem ha)

theorem gwStatusEqual_refl (ce : List metav1.Condition → List metav1.Condition → Bool)
    (hrefl : ∀ cs, ce cs cs = true) (st : gatewayv1.GatewayStatus) :
    gwStatusEqual ce st st = true := by
  rw [gwStatusEqual_iff]
  refine ⟨EqualFunc_refl _ _ (fun a _ => ?_), hrefl _, EqualFunc_refl _ _ (fun s _ => ?_)⟩
  · exact (addressEqual_iff a a).2 ⟨rfl, equalPointers_refl _⟩
  · rw [listenerStatusEqual_iff]
    exact ⟨rfl, rfl, hrefl _, EqualFunc_refl _ _
      (fun k _ => (routeGroupKindEqual_iff k k).2 ⟨rfl, equalPointers_refl _⟩)⟩

/-- Claim C20: `newGatewayStatusSetter(status)` applied to a Gateway returns
false and leaves the object unchanged exactly when
`gwStatusEqual(object.Status, status)` holds; otherwise it returns true and the
object's Status becomes exactly `status`. In both cases the status of the
object is `gwStatusEqual` to `status` afterwards, so a second application
returns false and changes nothing (`ConditionsEqual` being reflexive). -/
theorem newGatewayStatusSetter_spec
    (ConditionsEqual : List metav1.Condition → List metav1.Condition → Bool)
    (hrefl : ∀ cs, ConditionsEqual cs cs = true)
    (status : gatewayv1.GatewayStatus) (gw : gatewayv1.Gateway) :
    (gwStatusEqual ConditionsEqual gw.Status status = true →
      newGatewayStatusSetter ConditionsEqual status gw = (false, gw)) ∧
    (gwStatusEqual ConditionsEqual gw.Status status = false →
      newGatewayStatusSetter ConditionsEqual status gw = (true, { gw with Status := status })) ∧
    ((newGatewayStatusSetter ConditionsEqual status gw).1 = false ↔
      gwStatusEqual ConditionsEqual gw.Status status = true) ∧
    gwStatusEqual ConditionsEqual (newGatewayStatusSetter ConditionsEqual status gw).2.Status
      status = true ∧
    newGatewayStatusSetter ConditionsEqual status
        (newGatewayStatusSetter ConditionsEqual status gw).2 =
      (false, (newGatewayStatusSetter ConditionsEqual status gw).2) := by
  unfold newGatewayStatusSetter
  by_cases h : gwStatusEqual ConditionsEqual gw.Status status = true
  · simp [h]
  · have hf : gwStatusEqual ConditionsEqual gw.Status status = false := by simpa using h
    have hr := gwStatusEqual_refl ConditionsEqual hrefl status
    simp [hf, hr]

theorem hrStatusEqualPrevLoop_iff (ce : List metav1.Condition → List metav1.Condition → Bool)
    (c : String) (cur : gatewayv1.HTTPRouteStatus) :
    ∀ l : List gatewayv1.RouteParentStatus,
      hrStatusEqualPrevLoop ce c cur l = true ↔
        ∀ pp ∈ l, pp.ControllerName = c →
          ∃ cp ∈ cur.Parents, routeParentStatusEqual ce pp cp = true := by
  intro l
  induction l with
  | nil => simp [hrStatusEqualPrevLoop]
  | cons p l ih =>
    unfold hrStatusEqualPrevLoop
    by_cases h1 : p.ControllerName = c
    · have hb : (p.ControllerName != c) = false := by simp [h1]
      rw [if_neg (by rw [hb]; simp)]
      rw [ContainsFunc_eq_any]
      by_cases h2 : (cur.Parents.any fun curParent => routeParentStatusEqual ce p curParent) = true
      · rw [if_neg (by rw [h2]; simp), ih]
        constructor
        · intro hall pp hpp hc
          rw [List.mem_cons] at hpp
          rcases hpp with hpp | hpp
          · subst hpp
            simpa using h2
          · exact hall pp hpp hc
        · intro hall pp hpp hc
          exact hall pp (List.mem_cons_of_mem _ hpp) hc
      · have hf : (cur.Parents.any fun curParent => routeParentStatusEqual ce p curParent) =
            false := by simpa using h2
        rw [if_pos (by rw [hf]; rfl)]
        constructor
        · intro hh; cases hh
        · intro hall
          exfalso
          obtain ⟨cp, hcp, he⟩ := hall p (List.mem_cons_self _ _) h1
          apply h2
          rw [List.any_eq_true]
          exact ⟨cp, hcp, he⟩
    · have hb : (p.ControllerName != c) = true := by simp [h1]
      rw [if_pos hb, ih]
      constructor
      · intro hall pp hpp hc
        rw [List.mem_cons] at hpp
        rcases hpp with hpp | hpp
        · subst hpp
          exact absurd hc h1
        · exact hall pp hpp hc
      · intro hall pp hpp hc
        exact hall pp (List.mem_cons_of_mem _ hpp) hc

theorem hrStatusEqualCurLoop_iff (ce : List metav1.Condition → List metav1.Condition → Bool)
    (prev : gatewayv1.HTTPRouteStatus) :
    ∀ l : List gatewayv1.RouteParentStatus,
      hrStatusEqualCurLoop ce prev l = true ↔
        ∀ cp ∈ l, ∃ pp ∈ prev.Parents, routeParentStatusEqual ce cp pp = true := by
  intro l
  induction l with
  | nil => simp [hrStatusEqualCurLoop]
  | cons p l ih =>
    unfold hrStatusEqualCurLoop
    rw [ContainsFunc_eq_any]
    by_cases h2 : (prev.Parents.any fun prevParent => routeParentStatusEqual ce p prevParent) = true
    · rw [if_neg (by rw [h2]; simp), ih]
      constructor
      · intro hall cp hcp
        rw [List.mem_cons] at hcp
        rcases hcp with hcp | hcp
        · subst hcp
          simpa using h2
        · exact hall cp hcp
      · intro hall cp hcp
        exact hall cp (List.mem_cons_of_mem _ hcp)
    · have hf : (prev.Parents.any fun prevParent => routeParentStatusEqual ce p prevParent) =
          false := by simpa using h2
      rw [if_pos (by rw [hf]; rfl)]
      constructor
      · intro hh; cases hh
      · intro hall
        exfalso
        obtain ⟨pp, hpp, he⟩ := hall p (List.mem_cons_self _ _)
        apply h2
        rw [List.any_eq_true]
        exact ⟨pp, hpp, he⟩

theorem hrStatusEqual_iff (ce : List metav1.Condition → List metav1.Condition → Bool)
    (c : String) (prev cur : gatewayv1.HTTPRouteStatus) :
    hrStatusEqual ce c prev cur = true ↔
      ((∀ pp ∈ prev.Parents, pp.ControllerName = c →
          ∃ cp ∈ cur.Parents, routeParentStatusEqual ce pp cp = true) ∧
        (∀ cp ∈ cur.Parents, ∃ pp ∈ prev.Parents, routeParentStatusEqual ce cp pp = true)) := by
  unfold hrStatusEqual
  rw [← hrStatusEqualPrevLoop_iff, ← hrStatusEqualCurLoop_iff]
  by_cases h : hrStatusEqualPrevLoop ce c cur prev.Parents = true
  · simp [h]
  · have hf : hrStatusEqualPrevLoop ce c cur prev.Parents = false := by simpa using h
    simp [hf]

theorem routeParentStatusEqual_refl (ce : List metav1.Condition → List metav1.Condition → Bool)
    (hrefl : ∀ cs, ce cs cs = true) (p : gatewayv1.RouteParentStatus) :
    routeParentStatusEqual ce p p = true := by
  unfold routeParentStatusEqual
  simp [equalPointers_refl, hrefl]

theorem routeParentStatusEqual_controller
    (ce : List metav1.Condition → List metav1.Condition → Bool)
    (p1 p2 : gatewayv1.RouteParentStatus) (h : routeParentStatusEqual ce p1 p2 = true) :
    p1.ControllerName = p2.ControllerName := by
  unfold routeParentStatusEqual at h
  by_cases hc : p1.ControllerName = p2.ControllerName
  · exact hc
  · simp [hc] at h

theorem keepOtherControllers_eq (c : String) :
    ∀ (l parents : List gatewayv1.RouteParentStatus),
      keepOtherControllers c parents l =
        parents ++ l.filter (fun os => decide (os.ControllerName ≠ c)) := by
  intro l
  induction l with
  | nil => intro parents; simp [keepOtherControllers]
  | cons os l ih =>
    intro parents
    unfold keepOtherControllers
    by_cases h : os.ControllerName = c
    · have hb : (os.ControllerName != c) = false := by simp [h]
      rw [if_neg (by rw [hb]; simp), ih]
      simp [List.filter_cons, h]
    · have hb : (os.ControllerName != c) = true := by simp [h]
      rw [if_pos hb, ih]
      simp [List.filter_cons, h]

theorem newHTTPRouteStatusSetter_eq
    (ce : List metav1.Condition → List metav1.Condition → Bool)
    (status : gatewayv1.HTTPRouteStatus) (c : String) (hr : gatewayv1.HTTPRoute) :
    newHTTPRouteStatusSetter ce status c hr =
      if hrStatusEqual ce c hr.Status
          { Parents := status.Parents ++
              hr.Status.Parents.filter (fun os => decide (os.ControllerName ≠ c)) } = true then
        (false, hr,
          { Parents := status.Parents ++
              hr.Status.Parents.filter (fun os => decide (os.ControllerName ≠ c)) })
      else
        (true,
          { hr with Status := { Parents := status.Parents ++
              hr.Status.Parents.filter (fun os => decide (os.ControllerName ≠ c)) } },
          { Parents := status.Parents ++
              hr.Status.Parents.filter (fun os => decide (os.ControllerName ≠ c)) }) := by
  unfold newHTTPRouteStatusSetter
  simp only [keepOtherControllers_eq]

/-- Claim C14: when `newHTTPRouteStatusSetter` writes (returns true), the
object's Status.Parents is the parents of the new status followed by exactly
the previous parent statuses whose ControllerName differs from
`gatewayCtlrName`, unmodified and in their previous order, the previous
entries of this controller being dropped, and nothing else of the object
changes. When it returns false the object is unchanged. -/
theorem newHTTPRouteStatusSetter_frame
    (ConditionsEqual : List metav1.Condition → List metav1.Condition → Bool)
    (status : gatewayv1.HTTPRouteStatus) (gatewayCtlrName : String) (hr : gatewayv1.HTTPRoute) :
    ((newHTTPRouteStatusSetter ConditionsEqual status gatewayCtlrName hr).1 = true →
      (newHTTPRouteStatusSetter ConditionsEqual status gatewayCtlrName hr).2.1 =
        { hr with Status := { Parents := status.Parents ++
            hr.Status.Parents.filter (fun os => decide (os.ControllerName ≠ gatewayCtlrName)) } }) ∧
    ((newHTTPRouteStatusSetter ConditionsEqual status gatewayCtlrName hr).1 = false →
      (newHTTPRouteStatusSetter ConditionsEqual status gatewayCtlrName hr).2.1 = hr) := by
  rw [newHTTPRouteStatusSetter_eq]
  by_cases h : hrStatusEqual ConditionsEqual gatewayCtlrName hr.Status
      { Parents := status.Parents ++
          hr.Status.Parents.filter (fun os => decide (os.ControllerName ≠ gatewayCtlrName)) } = true
  · rw [if_pos h]
    exact ⟨fun hh => (by cases hh), fun _ => rfl⟩
  · rw [if_neg h]
    exact ⟨fun _ => rfl, fun hh => by cases hh⟩

theorem newHTTPRouteStatusSetter_stable
    (ce : List metav1.Condition → List metav1.Condition → Bool)
    (hrefl : ∀ cs, ce cs cs = true)
    (status : gatewayv1.HTTPRouteStatus) (c : String) (hr : gatewayv1.HTTPRoute)
    (others : List gatewayv1.RouteParentStatus)
    (hothers : ∀ o ∈ others, o.ControllerName ≠ c)
    (hst : hr.Status.Parents = status.Parents ++ others) :
    (newHTTPRouteStatusSetter ce status c hr).1 = false ∧
    (newHTTPRouteStatusSetter ce status c hr).2.1 = hr := by
  rw [newHTTPRouteStatusSetter_eq]
  have heq : hrStatusEqual ce c hr.Status
      { Parents := status.Parents ++
          hr.Status.Parents.filter (fun os => decide (os.ControllerName ≠ c)) } = true := by
    rw [hrStatusEqual_iff]
    simp only
    rw [hst]
    constructor
    · intro pp hpp _
      refine ⟨pp, ?_, routeParentStatusEqual_refl ce hrefl pp⟩
      rw [List.mem_append] at hpp ⊢
      rcases hpp with hpp | hpp
      · exact Or.inl hpp
      · right
        rw [List.mem_filter]
        exact ⟨List.mem_append_right _ hpp, by simpa using hothers pp hpp⟩
    · intro cp hcp
      refine ⟨cp, ?_, routeParentStatusEqual_refl ce hrefl cp⟩
      rw [List.mem_append] at hcp
      rcases hcp with hcp | hcp
      · exact List.mem_append_left _ hcp
      · exact (List.mem_filter.mp hcp).1
  rw [if_pos heq]
  exact ⟨rfl, rfl⟩

/-- Claim C13: a no-op reconcile issues no write for an HTTPRoute: after a
setter built by `newHTTPRouteStatusSetter(status, ctlr)` was applied to an
object, a setter built from the same status and controller name, applied to
the resulting object, returns wasSet=false and leaves the object unchanged
(`ConditionsEqual` being reflexive). -/
theorem newHTTPRouteStatusSetter_idempotent
    (ConditionsEqual : List metav1.Condition → List metav1.Condition → Bool)
    (hrefl : ∀ cs, ConditionsEqual cs cs = true)
    (status : gatewayv1.HTTPRouteStatus) (gatewayCtlrName : String) (hr : gatewayv1.HTTPRoute) :
    (newHTTPRouteStatusSetter ConditionsEqual status gatewayCtlrName
      (newHTTPRouteStatusSetter ConditionsEqual status gatewayCtlrName hr).2.1).1 = false ∧
    (newHTTPRouteStatusSetter ConditionsEqual status gatewayCtlrName
      (newHTTPRouteStatusSetter ConditionsEqual status gatewayCtlrName hr).2.1).2.1 =
      (newHTTPRouteStatusSetter ConditionsEqual status gatewayCtlrName hr).2.1 := by
  by_cases h : hrStatusEqual ConditionsEqual gatewayCtlrName hr.Status
      { Parents := status.Parents ++
          hr.Status.Parents.filter (fun os => decide (os.ControllerName ≠ gatewayCtlrName)) } = true
  · -- the first application did not write: the second sees the same object
    have h1 : newHTTPRouteStatusSetter ConditionsEqual status gatewayCtlrName hr =
        (false, hr, { Parents := status.Parents ++
          hr.Status.Parents.filter (fun os => decide (os.ControllerName ≠ gatewayCtlrName)) }) := by
      rw [newHTTPRouteStatusSetter_eq, if_pos h]
    rw [h1]
    simp only
    rw [h1]
    exact ⟨rfl, rfl⟩
  · have h1 : (newHTTPRouteStatusSetter ConditionsEqual status gatewayCtlrName hr).2.1 =
        { hr with Status := { Parents := status.Parents ++
          hr.Status.Parents.filter (fun os => decide (os.ControllerName ≠ gatewayCtlrName)) } } := by
      rw [newHTTPRouteStatusSetter_eq, if_neg h]
    rw [h1]
    exact newHTTPRouteStatusSetter_stable ConditionsEqual hrefl status gatewayCtlrName _
      (hr.Status.Parents.filter (fun os => decide (os.ControllerName ≠ gatewayCtlrName)))
      (fun o ho => by simpa using (List.mem_filter.mp ho).2) rfl

theorem hrStatusEqual_perm (ce : List metav1.Condition → List metav1.Condition → Bool)
    (c : String) (prev cur prev' cur' : gatewayv1.HTTPRouteStatus)
    (hp : prev.Parents.Perm prev'.Parents) (hc : cur.Parents.Perm cur'.Parents) :
    hrStatusEqual ce c prev cur = hrStatusEqual ce c prev' cur' := by
  rw [Bool.eq_iff_iff, hrStatusEqual_iff, hrStatusEqual_iff]
  constructor
  · rintro ⟨h1, h2⟩
    refine ⟨fun pp hpp hcn => ?_, fun cp hcp => ?_⟩
    · obtain ⟨cp, hcp, he⟩ := h1 pp (hp.mem_iff.mpr hpp) hcn
      exact ⟨cp, hc.mem_iff.mp hcp, he⟩
    · obtain ⟨pp, hpp, he⟩ := h2 cp (hc.mem_iff.mpr hcp)
      exact ⟨pp, hp.mem_iff.mp hpp, he⟩
  · rintro ⟨h1, h2⟩
    refine ⟨fun pp hpp hcn => ?_, fun cp hcp => ?_⟩
    · obtain ⟨cp, hcp, he⟩ := h1 pp (hp.mem_iff.mp hpp) hcn
      exact ⟨cp, hc.mem_iff.mpr hcp, he⟩
    · obtain ⟨pp, hpp, he⟩ := h2 cp (hc.mem_iff.mp hcp)
      exact ⟨pp, hp.mem_iff.mpr hpp, he⟩

/-- Claim C15: `hrStatusEqual` is order-independent: permuting `prev.Parents`
and/or `cur.Parents` does not change its result. -/
theorem hrStatusEqual_order_independent
    (ConditionsEqual : List metav1.Condition → List metav1.Condition → Bool)
    (gatewayCtlrName : String) (prev cur prev' cur' : gatewayv1.HTTPRouteStatus)
    (hprev : prev.Parents.Perm prev'.Parents) (hcur : cur.Parents.Perm cur'.Parents) :
    hrStatusEqual ConditionsEqual gatewayCtlrName prev cur =
      hrStatusEqual ConditionsEqual gatewayCtlrName prev' cur' :=
  hrStatusEqual_perm ConditionsEqual gatewayCtlrName prev cur prev' cur' hprev hcur

/-- What `hrStatusEqual` does with the parent statuses of other controllers: it
ignores them in `prev` but not in `cur`. Adding to or removing from
`prev.Parents` an entry whose ControllerName differs from `c` does not change
`hrStatusEqual(c, prev, cur)` when every entry of `cur.Parents` has
ControllerName `c`; adding such an entry to `cur.Parents` adds the requirement
that `prev.Parents` holds an equal entry. -/
theorem hrStatusEqual_other_controllers
    (ConditionsEqual : List metav1.Condition → List metav1.Condition → Bool)
    (c : String) (x : gatewayv1.RouteParentStatus) (hx : x.ControllerName ≠ c)
    (pre post others : List gatewayv1.RouteParentStatus) :
    ((∀ cp ∈ others, cp.ControllerName = c) →
      hrStatusEqual ConditionsEqual c { Parents := pre ++ x :: post } { Parents := others } =
        hrStatusEqual ConditionsEqual c { Parents := pre ++ post } { Parents := others }) ∧
    hrStatusEqual ConditionsEqual c { Parents := others } { Parents := pre ++ x :: post } =
      (hrStatusEqual ConditionsEqual c { Parents := others } { Parents := pre ++ post } &&
        others.any (fun pp => routeParentStatusEqual ConditionsEqual x pp)) := by
  constructor
  · intro hcur
    rw [Bool.eq_iff_iff, hrStatusEqual_iff, hrStatusEqual_iff]
    simp only
    constructor
    · rintro ⟨h1, h2⟩
      refine ⟨fun pp hpp hcn => h1 pp ?_ hcn, fun cp hcp => ?_⟩
      · rw [List.mem_append] at hpp ⊢
        rcases hpp with hpp | hpp
        · exact Or.inl hpp
        · exact Or.inr (List.mem_cons_of_mem _ hpp)
      · obtain ⟨pp, hpp, he⟩ := h2 cp hcp
        refine ⟨pp, ?_, he⟩
        rw [List.mem_append, List.mem_cons] at hpp
        rcases hpp with hpp | hpp | hpp
        · exact List.mem_append_left _ hpp
        · exfalso
          have := routeParentStatusEqual_controller ConditionsEqual cp pp he
          rw [hpp, hcur cp hcp] at this
          exact hx this.symm
        · exact List.mem_append_right _ hpp
    · rintro ⟨h1, h2⟩
      refine ⟨fun pp hpp hcn => ?_, fun cp hcp => ?_⟩
      · rw [List.mem_append, List.mem_cons] at hpp
        rcases hpp with hpp | hpp | hpp
        · exact h1 pp (List.mem_append_left _ hpp) hcn
        · rw [hpp] at hcn; exact absurd hcn hx
        · exact h1 pp (List.mem_append_right _ hpp) hcn
      · obtain ⟨pp, hpp, he⟩ := h2 cp hcp
        refine ⟨pp, ?_, he⟩
        rw [List.mem_append] at hpp ⊢
        rcases hpp with hpp | hpp
        · exact Or.inl hpp
        · exact Or.inr (List.mem_cons_of_mem _ hpp)
  · rw [Bool.eq_iff_iff, Bool.and_eq_true, hrStatusEqual_iff, hrStatusEqual_iff,
      List.any_eq_true]
    simp only
    constructor
    · rintro ⟨h1, h2⟩
      refine ⟨⟨fun pp hpp hcn => ?_, fun cp hcp => h2 cp ?_⟩, h2 x (by simp)⟩
      · obtain ⟨cp, hcp, he⟩ := h1 pp hpp hcn
        refine ⟨cp, ?_, he⟩
        rw [List.mem_append, List.mem_cons] at hcp
        rcases hcp with hcp | hcp | hcp
        · exact List.mem_append_left _ hcp
        · exfalso
          have := routeParentStatusEqual_controller ConditionsEqual pp cp he
          rw [hcp, hcn] at this
          exact hx this.symm
        · exact List.mem_append_right _ hcp
      · rw [List.mem_append] at hcp ⊢
        rcases hcp with hcp | hcp
        · exact Or.inl hcp
        · exact Or.inr (List.mem_cons_of_mem _ hcp)
    · rintro ⟨⟨h1, h2⟩, h3⟩
      refine ⟨fun pp hpp hcn => ?_, fun cp hcp => ?_⟩
      · obtain ⟨cp, hcp, he⟩ := h1 pp hpp hcn
        refine ⟨cp, ?_, he⟩
        rw [List.mem_append] at hcp ⊢
        rcases hcp with hcp | hcp
        · exact Or.inl hcp
        · exact Or.inr (List.mem_cons_of_mem _ hcp)
      · rw [List.mem_append, List.mem_cons] at hcp
        rcases hcp with hcp | hcp | hcp
        · exact h2 cp (List.mem_append_left _ hcp)
        · rw [hcp]; exact h3
        · exact h2 cp (List.mem_append_right _ hcp)

theorem routeGroupKindEqual_iff_key (k1 k2 : gatewayv1.RouteGroupKind) :
    routeGroupKindEqual k1 k2 = true ↔
      (k1.Kind, k1.Group.getD default) = (k2.Kind, k2.Group.getD default) := by
  rw [routeGroupKindEqual_iff, equalPointers_iff_getD]
  simp

theorem EqualFunc_kinds_iff_map :
    ∀ (ks1 ks2 : List gatewayv1.RouteGroupKind),
      slices.EqualFunc ks1 ks2 routeGroupKindEqual = true ↔
        ks1.map (fun k => (k.Kind, k.Group.getD default)) =
          ks2.map (fun k => (k.Kind, k.Group.getD default)) := by
  intro ks1
  induction ks1 with
  | nil =>
    intro ks2
    cases ks2 <;> simp [slices.EqualFunc]
  | cons k ks1 ih =>
    intro ks2
    cases ks2 with
    | nil => simp [slices.EqualFunc]
    | cons k2 ks2 =>
      unfold slices.EqualFunc
      by_cases h : routeGroupKindEqual k k2 = true
      · have hk := (routeGroupKindEqual_iff_key k k2).1 h
        simp only [h, Bool.not_true, Bool.false_eq_true, if_false, List.map_cons,
          List.cons.injEq]
        rw [ih ks2]
        exact ⟨fun hh => ⟨hk, hh⟩, fun hh => hh.2⟩
      · have hf : routeGroupKindEqual k k2 = false := by simpa using h
        simp only [hf, Bool.not_false, if_true, List.map_cons, List.cons.injEq]
        constructor
        · intro hh; cases hh
        · rintro ⟨hk, _⟩
          exact absurd ((routeGroupKindEqual_iff_key k k2).2 hk) h

theorem listenerStatusEqual_kinds (ce : List metav1.Condition → List metav1.Condition → Bool)
    (l : gatewayv1.ListenerStatus) (kinds : List gatewayv1.RouteGroupKind)
    (hk : slices.EqualFunc l.SupportedKinds kinds routeGroupKindEqual = true)
    (s : gatewayv1.ListenerStatus) :
    listenerStatusEqual ce { l with SupportedKinds := kinds } s = listenerStatusEqual ce l s ∧
    listenerStatusEqual ce s { l with SupportedKinds := kinds } = listenerStatusEqual ce s l := by
  rw [EqualFunc_kinds_iff_map] at hk
  constructor
  · rw [Bool.eq_iff_iff, listenerStatusEqual_iff, listenerStatusEqual_iff,
      EqualFunc_kinds_iff_map, EqualFunc_kinds_iff_map]
    simp only
    rw [hk]
  · rw [Bool.eq_iff_iff, listenerStatusEqual_iff, listenerStatusEqual_iff,
      EqualFunc_kinds_iff_map, EqualFunc_kinds_iff_map]
    simp only
    rw [hk]

theorem EqualFunc_congr_left {A B : Type} (eq : A → B → Bool) (a a' : A)
    (h : ∀ b, eq a' b = eq a b) (post : List A) :
    ∀ (pre : List A) (s2 : List B),
      slices.EqualFunc (pre ++ a' :: post) s2 eq = slices.EqualFunc (pre ++ a :: post) s2 eq := by
  intro pre
  induction pre with
  | nil =>
    intro s2
    cases s2 with
    | nil => simp [slices.EqualFunc]
    | cons b s2 => simp [slices.EqualFunc, h b]
  | cons p pre ih =>
    intro s2
    cases s2 with
    | nil => simp [slices.EqualFunc]
    | cons b s2 => simp [slices.EqualFunc, ih s2]

theorem EqualFunc_congr_right {A B : Type} (eq : A → B → Bool) (b b' : B)
    (h : ∀ a, eq a b' = eq a b) (post : List B) :
    ∀ (pre : List B) (s1 : List A),
      slices.EqualFunc s1 (pre ++ b' :: post) eq = slices.EqualFunc s1 (pre ++ b :: post) eq := by
  intro pre
  induction pre with
  | nil =>
    intro s1
    cases s1 with
    | nil => simp [slices.EqualFunc]
    | cons a s1 => simp [slices.EqualFunc, h a]
  | cons p pre ih =>
    intro s1
    cases s1 with
    | nil => simp [slices.EqualFunc]
    | cons a s1 => simp [slices.EqualFunc, ih s1]

/-- Claim C17, amended: `gwStatusEqual` compares the SupportedKinds of a
listener status as a sequence, not as a set: replacing the SupportedKinds of a
listener status, in either argument, by a list that agrees with it position by
position (same length, same Kind, Group equal under `equalPointers`) does not
change the result of `gwStatusEqual`. -/
theorem gwStatusEqual_supportedKinds
    (ConditionsEqual : List metav1.Condition → List metav1.Condition → Bool)
    (st other : gatewayv1.GatewayStatus) (pre post : List gatewayv1.ListenerStatus)
    (l : gatewayv1.ListenerStatus) (kinds : List gatewayv1.RouteGroupKind)
    (hkinds : slices.EqualFunc l.SupportedKinds kinds routeGroupKindEqual = true) :
    gwStatusEqual ConditionsEqual
        { st with Listeners := pre ++ { l with SupportedKinds := kinds } :: post } other =
      gwStatusEqual ConditionsEqual { st with Listeners := pre ++ l :: post } other ∧
    gwStatusEqual ConditionsEqual other
        { st with Listeners := pre ++ { l with SupportedKinds := kinds } :: post } =
      gwStatusEqual ConditionsEqual other { st with Listeners := pre ++ l :: post } := by
  constructor
  · unfold gwStatusEqual
    simp only
    rw [EqualFunc_congr_left (listenerStatusEqual ConditionsEqual) l
      { l with SupportedKinds := kinds }
      (fun s => (listenerStatusEqual_kinds ConditionsEqual l kinds hkinds s).1) post pre]
  · unfold gwStatusEqual
    simp only
    rw [EqualFunc_congr_right (listenerStatusEqual ConditionsEqual) l
      { l with SupportedKinds := kinds }
      (fun s => (listenerStatusEqual_kinds ConditionsEqual l kinds hkinds s).2) post pre]

theorem frameworkStatus_ConditionsEqual_refl (cs : List metav1.Condition) :
    frameworkStatus.ConditionsEqual cs cs = true := by
  unfold frameworkStatus.ConditionsEqual
  exact decide_eq_true (List.Perm.refl _)

/-- Claim C13, witness: the new status of `ours` is written over an old one,
next to the status of another controller. -/
theorem newHTTPRouteStatusSetter_idempotent_witness :
    (newHTTPRouteStatusSetter frameworkStatus.ConditionsEqual oursStatus "ours"
      (newHTTPRouteStatusSetter frameworkStatus.ConditionsEqual oursStatus "ours"
        routeWithOldStatus).2.1).1 = false ∧
    (newHTTPRouteStatusSetter frameworkStatus.ConditionsEqual oursStatus "ours"
      (newHTTPRouteStatusSetter frameworkStatus.ConditionsEqual oursStatus "ours"
        routeWithOldStatus).2.1).2.1 =
      (newHTTPRouteStatusSetter frameworkStatus.ConditionsEqual oursStatus "ours"
        routeWithOldStatus).2.1 :=
  newHTTPRouteStatusSetter_idempotent frameworkStatus.ConditionsEqual
    frameworkStatus_ConditionsEqual_refl oursStatus "ours" routeWithOldStatus

/-- Claim C14, witness: the setter writes, drops the old status of `ours` and
keeps the status of the other controller after the new one. -/
theorem newHTTPRouteStatusSetter_frame_witness :
    newHTTPRouteStatusSetter frameworkStatus.ConditionsEqual oursStatus "ours"
        routeWithOldStatus =
      (true, { routeWithOldStatus with Status := { Parents := [oursParent, notOursParent] } },
        { Parents := [oursParent, notOursParent] }) ∧
    ((newHTTPRouteStatusSetter frameworkStatus.ConditionsEqual oursStatus "ours"
        routeWithOldStatus).1 = true →
      (newHTTPRouteStatusSetter frameworkStatus.ConditionsEqual oursStatus "ours"
        routeWithOldStatus).2.1 =
        { routeWithOldStatus with Status := { Parents := oursStatus.Parents ++
            routeWithOldStatus.Status.Parents.filter (fun os => decide (os.ControllerName ≠ "ours")) } }) :=
  ⟨by decide,
    (newHTTPRouteStatusSetter_frame frameworkStatus.ConditionsEqual oursStatus
      "ours" routeWithOldStatus).1⟩

/-- Claim C15, witness: the two entries of `prev` swapped. -/
theorem hrStatusEqual_order_independent_witness :
    hrStatusEqual frameworkStatus.ConditionsEqual "ours"
        { Parents := [oursParent, notOursParent] } { Parents := [oursParent] } =
      hrStatusEqual frameworkStatus.ConditionsEqual "ours"
        { Parents := [notOursParent, oursParent] } { Parents := [oursParent] } :=
  hrStatusEqual_order_independent frameworkStatus.ConditionsEqual "ours"
    { Parents := [oursParent, notOursParent] } { Parents := [oursParent] }
    { Parents := [notOursParent, oursParent] } { Parents := [oursParent] }
    (List.Perm.swap _ _ _) (List.Perm.refl _)

/-- Claim C16, failing input: `prev` and `cur` hold the same parent status of
the controller `ours` and compare equal; a parent status of another controller
added to `cur.Parents` turns the result from true to false, although the
statuses of other controllers are to be ignored. -/
theorem hrStatusEqual_other_controllers_counterexample :
    notOursParent.ControllerName ≠ "ours" ∧
    hrStatusEqual frameworkStatus.ConditionsEqual "ours" { Parents := [oursParent] }
      { Parents := [oursParent] } = true ∧
    hrStatusEqual frameworkStatus.ConditionsEqual "ours" { Parents := [oursParent] }
      { Parents := [oursParent, notOursParent] } = false := by
  refine ⟨by decide, by decide, by decide⟩

/-- The status of another controller next to the status of `ours`, added to
`prev.Parents` and to `cur.Parents`. -/
theorem hrStatusEqual_other_controllers_example :
    ((∀ cp ∈ [oursParent], cp.ControllerName = "ours") →
      hrStatusEqual frameworkStatus.ConditionsEqual "ours"
          { Parents := [oursParent] ++ notOursParent :: [] } { Parents := [oursParent] } =
        hrStatusEqual frameworkStatus.ConditionsEqual "ours"
          { Parents := [oursParent] ++ [] } { Parents := [oursParent] }) ∧
    hrStatusEqual frameworkStatus.ConditionsEqual "ours" { Parents := [oursParent] }
        { Parents := [oursParent] ++ notOursParent :: [] } =
      (hrStatusEqual frameworkStatus.ConditionsEqual "ours" { Parents := [oursParent] }
          { Parents := [oursParent] ++ [] } &&
        [oursParent].any
          (fun pp => routeParentStatusEqual frameworkStatus.ConditionsEqual notOursParent pp)) :=
  hrStatusEqual_other_controllers frameworkStatus.ConditionsEqual "ours" notOursParent
    (by decide) [oursParent] [] [oursParent]

/-- Claim C17, counterexample: the two supported kinds of a listener status in
the other order make the statuses unequal. -/
theorem gwStatusEqual_supportedKinds_counterexample :
    listenerTCPFirst.SupportedKinds.Perm listenerHTTPFirst.SupportedKinds ∧
    gwStatusEqual frameworkStatus.ConditionsEqual { Listeners := [listenerHTTPFirst] }
      { Listeners := [listenerHTTPFirst] } = true ∧
    gwStatusEqual frameworkStatus.ConditionsEqual { Listeners := [listenerTCPFirst] }
      { Listeners := [listenerHTTPFirst] } = false := by
  refine ⟨List.Perm.swap _ _ _, by decide, by decide⟩

/-- Claim C17 as amended, witness: a nil group and the empty group agree under
`equalPointers`. -/
theorem gwStatusEqual_supportedKinds_witness :
    gwStatusEqual frameworkStatus.ConditionsEqual
        { newGatewayStatus with Listeners := [] ++
            { listenerCoreGroups with
              SupportedKinds := [{ Group := none, Kind := "Service" },
                                 { Group := some "", Kind := "Pod" }] } :: [] }
        newGatewayStatus =
      gwStatusEqual frameworkStatus.ConditionsEqual
        { newGatewayStatus with Listeners := [] ++ listenerCoreGroups :: [] } newGatewayStatus ∧
    gwStatusEqual frameworkStatus.ConditionsEqual newGatewayStatus
        { newGatewayStatus with Listeners := [] ++
            { listenerCoreGroups with
              SupportedKinds := [{ Group := none, Kind := "Service" },
                                 { Group := some "", Kind := "Pod" }] } :: [] } =
      gwStatusEqual frameworkStatus.ConditionsEqual newGatewayStatus
        { newGatewayStatus with Listeners := [] ++ listenerCoreGroups :: [] } :=
  gwStatusEqual_supportedKinds frameworkStatus.ConditionsEqual newGatewayStatus newGatewayStatus
    [] [] listenerCoreGroups
    [{ Group := none, Kind := "Service" }, { Group := some "", Kind := "Pod" }] (by decide)

/-- Claim C20, witness: a Gateway with an old status. -/
theorem newGatewayStatusSetter_spec_witness :
    newGatewayStatusSetter frameworkStatus.ConditionsEqual newGatewayStatus gatewayWithOldStatus =
      (true, { gatewayWithOldStatus with Status := newGatewayStatus }) ∧
    newGatewayStatusSetter frameworkStatus.ConditionsEqual newGatewayStatus
        (newGatewayStatusSetter frameworkStatus.ConditionsEqual newGatewayStatus
          gatewayWithOldStatus).2 =
      (false, (newGatewayStatusSetter frameworkStatus.ConditionsEqual newGatewayStatus
        gatewayWithOldStatus).2) :=
  ⟨by decide,
    (newGatewayStatusSetter_spec frameworkStatus.ConditionsEqual
      frameworkStatus_ConditionsEqual_refl newGatewayStatus gatewayWithOldStatus).2.2.2.2⟩

/-! ## The BackendTLSPolicy status setter -/

theorem btpStatusEqualPrevLoop_iff (ce : List metav1.Condition → List metav1.Condition → Bool)
    (c : String) (cur : v1alpha2.PolicyStatus) :
    ∀ l : List v1alpha2.PolicyAncestorStatus,
      btpStatusEqualPrevLoop ce c cur l = true ↔
        ∀ pa ∈ l, pa.ControllerName = c →
          ∃ ca ∈ cur.Ancestors, btpAncestorStatusEqual ce pa ca = true := by
  intro l
  induction l with
  | nil => simp [btpStatusEqualPrevLoop]
  | cons p l ih =>
    unfold btpStatusEqualPrevLoop
    by_cases h1 : p.ControllerName = c
    · have hb : (p.ControllerName != c) = false := by simp [h1]
      rw [if_neg (by rw [hb]; simp)]
      rw [ContainsFunc_eq_any]
      by_cases h2 : (cur.Ancestors.any fun curAncestor =>
          btpAncestorStatusEqual ce p curAncestor) = true
      · rw [if_neg (by rw [h2]; simp), ih]
        constructor
        · intro hall pa hpa hc
          rw [List.mem_cons] at hpa
          rcases hpa with hpa | hpa
          · subst hpa
            simpa using h2
          · exact hall pa hpa hc
        · intro hall pa hpa hc
          exact hall pa (List.mem_cons_of_mem _ hpa) hc
      · have hf : (cur.Ancestors.any fun curAncestor =>
            btpAncestorStatusEqual ce p curAncestor) = false := by simpa using h2
        rw [if_pos (by rw [hf]; rfl)]
        constructor
        · intro hh; cases hh
        · intro hall
          exfalso
          obtain ⟨ca, hca, he⟩ := hall p (List.mem_cons_self _ _) h1
          apply h2
          rw [List.any_eq_true]
          exact ⟨ca, hca, he⟩
    · have hb : (p.ControllerName != c) = true := by simp [h1]
      rw [if_pos hb, ih]
      constructor
      · intro hall pa hpa hc
        rw [List.mem_cons] at hpa
        rcases hpa with hpa | hpa
        · subst hpa
          exact absurd hc h1
        · exact hall pa hpa hc
      · intro hall pa hpa hc
        exact hall pa (List.mem_cons_of_mem _ hpa) hc

theorem btpStatusEqualCurLoop_iff (ce : List metav1.Condition → List metav1.Condition → Bool)
    (prev : v1alpha2.PolicyStatus) :
    ∀ l : List v1alpha2.PolicyAncestorStatus,
      btpStatusEqualCurLoop ce prev l = true ↔
        ∀ ca ∈ l, ∃ pa ∈ prev.Ancestors, btpAncestorStatusEqual ce ca pa = true := by
  intro l
  induction l with
  | nil => simp [btpStatusEqualCurLoop]
  | cons p l ih =>
    unfold btpStatusEqualCurLoop
    rw [ContainsFunc_eq_any]
    by_cases h2 : (prev.Ancestors.any fun prevAncestor =>
        btpAncestorStatusEqual ce p prevAncestor) = true
    · rw [if_neg (by rw [h2]; simp), ih]
      constructor
      · intro hall ca hca
        rw [List.mem_cons] at hca
        rcases hca with hca | hca
        · subst hca
          simpa using h2
        · exact hall ca hca
      · intro hall ca hca
        exact hall ca (List.mem_cons_of_mem _ hca)
    · have hf : (prev.Ancestors.any fun prevAncestor =>
          btpAncestorStatusEqual ce p prevAncestor) = false := by simpa using h2
      rw [if_pos (by rw [hf]; rfl)]
      constructor
      · intro hh; cases hh
      · intro hall
        exfalso
        obtain ⟨pa, hpa, he⟩ := hall p (List.mem_cons_self _ _)
        apply h2
        rw [List.any_eq_true]
        exact ⟨pa, hpa, he⟩

theorem btpStatusEqual_iff (ce : List metav1.Condition → List metav1.Condition → Bool)
    (c : String) (prev cur : v1alpha2.PolicyStatus) :
    btpStatusEqual ce c prev cur = true ↔
      ((∀ pa ∈ prev.Ancestors, pa.ControllerName = c →
          ∃ ca ∈ cur.Ancestors, btpAncestorStatusEqual ce pa ca = true) ∧
        (∀ ca ∈ cur.Ancestors, ∃ pa ∈ prev.Ancestors, btpAncestorStatusEqual ce ca pa = true)) := by
  unfold btpStatusEqual
  rw [← btpStatusEqualPrevLoop_iff, ← btpStatusEqualCurLoop_iff]
  by_cases h : btpStatusEqualPrevLoop ce c cur prev.Ancestors = true
  · simp [h]
  · have hf : btpStatusEqualPrevLoop ce c cur prev.Ancestors = false := by simpa using h
    simp [hf]

theorem btpAncestorStatusEqual_iff (ce : List metav1.Condition → List metav1.Condition → Bool)
    (p1 p2 : v1alpha2.PolicyAncestorStatus) :
    btpAncestorStatusEqual ce p1 p2 = true ↔
      (p1.ControllerName = p2.ControllerName ∧ p1.AncestorRef.Name = p2.AncestorRef.Name ∧
        equalPointers p1.AncestorRef.Namespace p2.AncestorRef.Namespace = true ∧
        ce p1.Conditions p2.Conditions = true) := by
  unfold btpAncestorStatusEqual
  by_cases h1 : p1.ControllerName = p2.ControllerName
  · by_cases h2 : p1.AncestorRef.Name = p2.AncestorRef.Name
    · by_cases h3 : equalPointers p1.AncestorRef.Namespace p2.AncestorRef.Namespace = true
      · simp [h1, h2, h3]
      · simp [h1, h2, h3]
    · simp [h1, h2]
  · simp [h1]

/-- Claim C23: `btpStatusEqual(ctlr, prev, cur)` is true exactly when every
ancestor status of `prev` whose ControllerName is `ctlr` has an equal entry in
`cur` and every ancestor status of `cur`, whatever its controller, has an equal
entry in `prev`; two entries are equal (`btpAncestorStatusEqual`) exactly when
ControllerName and AncestorRef.Name are the same, AncestorRef.Namespace agrees
under `equalPointers` and the Conditions agree under ConditionsEqual. So a
`cur` that holds, in the place of an ancestor of another controller, an
ancestor that has no equal entry in `prev` is not equal to `prev`. -/
theorem btpStatusEqual_spec
    (ConditionsEqual : List metav1.Condition → List metav1.Condition → Bool)
    (gatewayCtlrName : String) (prev cur : v1alpha2.PolicyStatus) :
    (btpStatusEqual ConditionsEqual gatewayCtlrName prev cur = true ↔
      ((∀ pa ∈ prev.Ancestors, pa.ControllerName = gatewayCtlrName →
          ∃ ca ∈ cur.Ancestors, btpAncestorStatusEqual ConditionsEqual pa ca = true) ∧
        (∀ ca ∈ cur.Ancestors,
          ∃ pa ∈ prev.Ancestors, btpAncestorStatusEqual ConditionsEqual ca pa = true))) ∧
    (∀ p1 p2 : v1alpha2.PolicyAncestorStatus,
      btpAncestorStatusEqual ConditionsEqual p1 p2 = true ↔
        (p1.ControllerName = p2.ControllerName ∧ p1.AncestorRef.Name = p2.AncestorRef.Name ∧
          equalPointers p1.AncestorRef.Namespace p2.AncestorRef.Namespace = true ∧
          ConditionsEqual p1.Conditions p2.Conditions = true)) ∧
    (∀ (before after : List v1alpha2.PolicyAncestorStatus)
        (replaced other : v1alpha2.PolicyAncestorStatus),
      cur.Ancestors = before ++ replaced :: after →
      other.ControllerName ≠ gatewayCtlrName →
      (∀ pa ∈ prev.Ancestors, btpAncestorStatusEqual ConditionsEqual other pa = false) →
      btpStatusEqual ConditionsEqual gatewayCtlrName prev
        { cur with Ancestors := before ++ other :: after } = false) := by
  refine ⟨btpStatusEqual_iff _ _ _ _, btpAncestorStatusEqual_iff _, ?_⟩
  intro before after replaced other _ _ hno
  cases hb : btpStatusEqual ConditionsEqual gatewayCtlrName prev
      { cur with Ancestors := before ++ other :: after } with
  | false => rfl
  | true =>
    exfalso
    rw [btpStatusEqual_iff] at hb
    obtain ⟨pa, hpa, he⟩ := hb.2 other (by simp)
    rw [hno pa hpa] at he
    cases he

theorem keepOtherAncestors_eq (c : String) :
    ∀ (l ancestors : List v1alpha2.PolicyAncestorStatus),
      keepOtherAncestors c ancestors l =
        ancestors ++ l.filter (fun os => decide (os.ControllerName ≠ c)) := by
  intro l
  induction l with
  | nil => intro ancestors; simp [keepOtherAncestors]
  | cons os l ih =>
    intro ancestors
    unfold keepOtherAncestors
    by_cases h : os.ControllerName = c
    · have hb : (os.ControllerName != c) = false := by simp [h]
      rw [if_neg (by rw [hb]; simp), ih]
      simp [List.filter_cons, h]
    · have hb : (os.ControllerName != c) = true := by simp [h]
      rw [if_pos hb, ih]
      simp [List.filter_cons, h]

theorem newBackendTLSPolicyStatusSetter_eq
    (ce : List metav1.Condition → List metav1.Condition → Bool)
    (status : v1alpha2.PolicyStatus) (c : String) (btp : v1alpha2.BackendTLSPolicy) :
    newBackendTLSPolicyStatusSetter ce status c btp =
      if btpStatusEqual ce c btp.Status
          { Ancestors := btp.Status.Ancestors.filter (fun os => decide (os.ControllerName ≠ c)) ++
              status.Ancestors } = true then
        (false, btp,
          { Ancestors := btp.Status.Ancestors.filter (fun os => decide (os.ControllerName ≠ c)) ++
              status.Ancestors })
      else
        (true,
          { btp with Status := { Ancestors :=
              btp.Status.Ancestors.filter (fun os => decide (os.ControllerName ≠ c)) ++
                status.Ancestors } },
          { Ancestors := btp.Status.Ancestors.filter (fun os => decide (os.ControllerName ≠ c)) ++
              status.Ancestors }) := by
  unfold newBackendTLSPolicyStatusSetter
  simp only [keepOtherAncestors_eq, List.nil_append]

/-- Claim C21: when `newBackendTLSPolicyStatusSetter(status, ctlr)` writes
(returns true), the policy's Status.Ancestors is exactly the previous ancestor
statuses whose ControllerName differs from `ctlr`, unmodified and in their
previous order, followed by `status.Ancestors`; the previous ancestors of
`ctlr` are dropped and nothing else of the object changes. When it returns
false the object is unchanged. -/
theorem newBackendTLSPolicyStatusSetter_frame
    (ConditionsEqual : List metav1.Condition → List metav1.Condition → Bool)
    (status : v1alpha2.PolicyStatus) (gatewayCtlrName : String)
    (btp : v1alpha2.BackendTLSPolicy) :
    ((newBackendTLSPolicyStatusSetter ConditionsEqual status gatewayCtlrName btp).1 = true →
      (newBackendTLSPolicyStatusSetter ConditionsEqual status gatewayCtlrName btp).2.1 =
        { btp with Status := { Ancestors :=
            btp.Status.Ancestors.filter (fun os => decide (os.ControllerName ≠ gatewayCtlrName)) ++
              status.Ancestors } }) ∧
    ((newBackendTLSPolicyStatusSetter ConditionsEqual status gatewayCtlrName btp).1 = false →
      (newBackendTLSPolicyStatusSetter ConditionsEqual status gatewayCtlrName btp).2.1 = btp) := by
  rw [newBackendTLSPolicyStatusSetter_eq]
  by_cases h : btpStatusEqual ConditionsEqual gatewayCtlrName btp.Status
      { Ancestors :=
          btp.Status.Ancestors.filter (fun os => decide (os.ControllerName ≠ gatewayCtlrName)) ++
            status.Ancestors } = true
  · rw [if_pos h]
    exact ⟨fun hh => (by cases hh), fun _ => rfl⟩
  · rw [if_neg h]
    exact ⟨fun _ => rfl, fun hh => (by cases hh)⟩

/-! ## Properties of prepare_requests.go -/

theorem prepareBackendTLSPolicyRequestsLoop_eq
    (dedup : List conditions.Condition → List conditions.Condition)
    (convert : List conditions.Condition → Int → Int → List metav1.Condition)
    (tt : Int) (c : String) :
    ∀ (policies : GoMap graph.BackendTLSPolicy) (reqs : List frameworkStatus.UpdateRequest),
      prepareBackendTLSPolicyRequestsLoop dedup convert tt c policies reqs =
        reqs ++ (policies.filter (fun e => e.2.IsReferenced && !e.2.Ignored)).map (fun e =>
          { NsName := e.1,
            ResourceType := frameworkStatus.ResourceType.BackendTLSPolicy,
            Setter := frameworkStatus.Setter.BackendTLSPolicyStatusSetter
              (backendTLSPolicyStatus dedup convert tt c e.2) c }) := by
  intro policies
  induction policies with
  | nil => intro reqs; simp [prepareBackendTLSPolicyRequestsLoop]
  | cons e rest ih =>
    intro reqs
    obtain ⟨nsname, pol⟩ := e
    unfold prepareBackendTLSPolicyRequestsLoop
    by_cases h : (!pol.IsReferenced || pol.Ignored) = true
    · rw [if_pos h, ih]
      have hf : (pol.IsReferenced && !pol.Ignored) = false := by
        cases h1 : pol.IsReferenced <;> cases h2 : pol.Ignored <;> simp [h1, h2] at h ⊢
      simp [List.filter_cons, hf]
    · rw [if_neg h]
      simp only
      rw [ih]
      have ht : (pol.IsReferenced && !pol.Ignored) = true := by
        cases h1 : pol.IsReferenced <;> cases h2 : pol.Ignored <;> simp [h1, h2] at h ⊢
      simp [List.filter_cons, ht]

theorem PrepareBackendTLSPolicyRequests_eq
    (dedup : List conditions.Condition → List conditions.Condition)
    (convert : List conditions.Condition → Int → Int → List metav1.Condition)
    (policies : GoMap graph.BackendTLSPolicy) (tt : Int) (c : String) :
    PrepareBackendTLSPolicyRequests dedup convert policies tt c =
      (policies.filter (fun e => e.2.IsReferenced && !e.2.Ignored)).map (fun e =>
        { NsName := e.1,
          ResourceType := frameworkStatus.ResourceType.BackendTLSPolicy,
          Setter := frameworkStatus.Setter.BackendTLSPolicyStatusSetter
            (backendTLSPolicyStatus dedup convert tt c e.2) c }) := by
  unfold PrepareBackendTLSPolicyRequests
  rw [prepareBackendTLSPolicyRequestsLoop_eq]
  rfl

/-- The ancestor statuses of other controllers in a status for which
`validateAncestorMaxCount` succeeds number at most 15, when the status holds
at most 16. -/
theorem others_length_le_15 (btp : v1alpha2.BackendTLSPolicy) (c : String)
    (gateway : graph.Gateway) (hlen : btp.Status.Ancestors.length ≤ 16)
    (hok : graph.validateAncestorMaxCount btp c gateway = none) :
    (btp.Status.Ancestors.filter (fun os => decide (os.ControllerName ≠ c))).length ≤ 15 := by
  by_cases h16 : btp.Status.Ancestors.length = 16
  · have hns : ¬ ((graph.validateAncestorMaxCount btp c gateway).isSome = true) := by
      rw [hok]; simp
    rw [graph.validateAncestorMaxCount_isSome_iff] at hns
    have hex : ∃ a ∈ btp.Status.Ancestors,
        a.ControllerName = c ∧ a.AncestorRef.Name = gateway.Source.Name ∧
          a.AncestorRef.Namespace = some gateway.Source.Namespace := by
      by_contra hcon
      exact hns ⟨by omega, hcon⟩
    obtain ⟨a, ha, hac, _⟩ := hex
    have hlt : (btp.Status.Ancestors.filter (fun os => decide (os.ControllerName ≠ c))).length <
        btp.Status.Ancestors.length := by
      apply List.length_filter_lt_length_iff_exists.mpr
      exact ⟨a, ha, by simp [hac]⟩
    omega
  · have hle := List.length_filter_le (fun os : v1alpha2.PolicyAncestorStatus =>
      decide (os.ControllerName ≠ c)) btp.Status.Ancestors
    omega

/-- Claim C22: at most 16 ancestors are retained. For every BackendTLSPolicy
whose status holds at most 16 ancestors and for which
`validateAncestorMaxCount` succeeds for this controller and Gateway, every
setter built by `PrepareBackendTLSPolicyRequests` carries one new ancestor, of
this controller, and its application leaves the policy with at most 16
ancestor statuses. -/
theorem PrepareBackendTLSPolicyRequests_ancestors_le_16
    (ConditionsEqual : List metav1.Condition → List metav1.Condition → Bool)
    (DeduplicateConditions : List conditions.Condition → List conditions.Condition)
    (ConvertConditions : List conditions.Condition → Int → Int → List metav1.Condition)
    (policies : GoMap graph.BackendTLSPolicy) (transitionTime : Int) (gatewayCtlrName : String)
    (gateway : graph.Gateway) (btp : v1alpha2.BackendTLSPolicy)
    (hlen : btp.Status.Ancestors.length ≤ 16)
    (hok : graph.validateAncestorMaxCount btp gatewayCtlrName gateway = none) :
    ∀ req ∈ PrepareBackendTLSPolicyRequests DeduplicateConditions ConvertConditions policies
        transitionTime gatewayCtlrName,
      ∃ status : v1alpha2.PolicyStatus,
        req.Setter =
          frameworkStatus.Setter.BackendTLSPolicyStatusSetter status gatewayCtlrName ∧
        status.Ancestors.length = 1 ∧
        (∀ a ∈ status.Ancestors, a.ControllerName = gatewayCtlrName) ∧
        (newBackendTLSPolicyStatusSetter ConditionsEqual status gatewayCtlrName
          btp).2.1.Status.Ancestors.length ≤ 16 := by
  intro req hreq
  rw [PrepareBackendTLSPolicyRequests_eq, List.mem_map] at hreq
  obtain ⟨e, _, hreqe⟩ := hreq
  refine ⟨backendTLSPolicyStatus DeduplicateConditions ConvertConditions transitionTime
    gatewayCtlrName e.2, ?_, rfl, ?_, ?_⟩
  · rw [← hreqe]
  · intro a ha
    simp only [backendTLSPolicyStatus, List.mem_singleton] at ha
    rw [ha]
  · rw [newBackendTLSPolicyStatusSetter_eq]
    have h15 := others_length_le_15 btp gatewayCtlrName gateway hlen hok
    split
    · exact hlen
    · simp only [List.length_append]
      have h1 : (backendTLSPolicyStatus DeduplicateConditions ConvertConditions transitionTime
        gatewayCtlrName e.2).Ancestors.length = 1 := rfl
      omega

theorem routeParentStatus_some
    (dedup : List conditions.Condition → List conditions.Condition)
    (convert : List conditions.Condition → Int → Int → List metav1.Condition)
    (r : graph.Route) (tt : Int) (res : NginxReloadResult) (c : String) (ref : graph.ParentRef)
    (hidx : ref.Idx < r.Source.Spec.ParentRefs.length) :
    ∃ ps, routeParentStatus dedup convert r tt res c ref = some ps ∧
      ps.ControllerName = c ∧
      ps.ParentRef.Namespace = some ref.Gateway.Namespace ∧
      ps.ParentRef.Name = ref.Gateway.Name ∧
      ps.Conditions = convert (dedup (routeAllConds r res ref)) r.Source.Generation tt := by
  unfold routeParentStatus
  have hsome : r.Source.Spec.ParentRefs[ref.Idx]? = some (r.Source.Spec.ParentRefs[ref.Idx]) :=
    List.getElem?_eq_getElem hidx
  rw [hsome]
  exact ⟨_, rfl, rfl, rfl, rfl, rfl⟩

theorem routeParentStatuses_spec
    (dedup : List conditions.Condition → List conditions.Condition)
    (convert : List conditions.Condition → Int → Int → List metav1.Condition)
    (r : graph.Route) (tt : Int) (res : NginxReloadResult) (c : String) :
    ∀ (refs : List graph.ParentRef) (parents : List gatewayv1.RouteParentStatus),
      (∀ ref ∈ refs, ref.Idx < r.Source.Spec.ParentRefs.length) →
      ∃ built, routeParentStatuses dedup convert r tt res c refs parents =
          some (parents ++ built) ∧
        List.Forall₂ (fun ref ps => routeParentStatus dedup convert r tt res c ref = some ps)
          refs built := by
  intro refs
  induction refs with
  | nil =>
    intro parents _
    exact ⟨[], by simp [routeParentStatuses], List.Forall₂.nil⟩
  | cons ref rest ih =>
    intro parents hidx
    obtain ⟨ps, hps, _⟩ := routeParentStatus_some dedup convert r tt res c ref
      (hidx ref (List.mem_cons_self _ _))
    obtain ⟨built, hbuilt, hall⟩ := ih (parents ++ [ps])
      (fun ref1 h1 => hidx ref1 (List.mem_cons_of_mem _ h1))
    refine ⟨ps :: built, ?_, List.Forall₂.cons hps hall⟩
    unfold routeParentStatuses
    rw [hps]
    simp only
    rw [hbuilt]
    simp

theorem prepareRouteRequestsLoop_spec
    (dedup : List conditions.Condition → List conditions.Condition)
    (convert : List conditions.Condition → Int → Int → List metav1.Condition)
    (tt : Int) (res : NginxReloadResult) (c : String) :
    ∀ (routes : GoMap graph.Route) (reqs : List frameworkStatus.UpdateRequest),
      (∀ e ∈ routes, ∀ ref ∈ e.2.ParentRefs, ref.Idx < e.2.Source.Spec.ParentRefs.length) →
      ∃ built, prepareRouteRequestsLoop dedup convert tt res c routes reqs =
          some (reqs ++ built) ∧
        List.Forall₂ (fun (e : types.NamespacedName × graph.Route) req =>
          ∃ parents,
            req = { NsName := e.1,
                    ResourceType := frameworkStatus.ResourceType.HTTPRoute,
                    Setter := frameworkStatus.Setter.HTTPRouteStatusSetter
                      { Parents := parents } c } ∧
            List.Forall₂
              (fun ref ps => routeParentStatus dedup convert e.2 tt res c ref = some ps)
              e.2.ParentRefs parents)
          routes built := by
  intro routes
  induction routes with
  | nil =>
    intro reqs _
    exact ⟨[], by simp [prepareRouteRequestsLoop], List.Forall₂.nil⟩
  | cons e rest ih =>
    intro reqs hidx
    obtain ⟨nsname, r⟩ := e
    obtain ⟨parents, hparents, hall⟩ := routeParentStatuses_spec dedup convert r tt res c
      r.ParentRefs [] (hidx (nsname, r) (List.mem_cons_self _ _))
    rw [List.nil_append] at hparents
    obtain ⟨built, hbuilt, hrest⟩ := ih
      (reqs ++ [{ NsName := nsname,
                  ResourceType := frameworkStatus.ResourceType.HTTPRoute,
                  Setter := frameworkStatus.Setter.HTTPRouteStatusSetter
                    { Parents := parents } c }])
      (fun e1 h1 => hidx e1 (List.mem_cons_of_mem _ h1))
    refine ⟨_ :: built, ?_, List.Forall₂.cons ⟨parents, rfl, hall⟩ hrest⟩
    unfold prepareRouteRequestsLoop
    rw [hparents]
    simp only
    rw [hbuilt]
    simp

/-- The requests of `PrepareRouteRequests`: one per route, in the order of the
visit, each with one parent status per parent ref, in their order. -/
theorem PrepareRouteRequests_spec
    (dedup : List conditions.Condition → List conditions.Condition)
    (convert : List conditions.Condition → Int → Int → List metav1.Condition)
    (routes : GoMap graph.Route) (tt : Int) (res : NginxReloadResult) (c : String)
    (hidx : ∀ e ∈ routes, ∀ ref ∈ e.2.ParentRefs,
      ref.Idx < e.2.Source.Spec.ParentRefs.length) :
    ∃ reqs, PrepareRouteRequests dedup convert routes tt res c = some reqs ∧
      List.Forall₂ (fun (e : types.NamespacedName × graph.Route) req =>
        ∃ parents,
          req = { NsName := e.1,
                  ResourceType := frameworkStatus.ResourceType.HTTPRoute,
                  Setter := frameworkStatus.Setter.HTTPRouteStatusSetter
                    { Parents := parents } c } ∧
          List.Forall₂
            (fun ref ps => routeParentStatus dedup convert e.2 tt res c ref = some ps)
            e.2.ParentRefs parents)
        routes reqs := by
  obtain ⟨built, hbuilt, hall⟩ := prepareRouteRequestsLoop_spec dedup convert tt res c routes []
    hidx
  rw [List.nil_append] at hbuilt
  exact ⟨built, hbuilt, hall⟩

theorem routeAllConds_eq (r : graph.Route) (res : NginxReloadResult) (ref : graph.ParentRef) :
    routeAllConds r res ref =
      staticConds.NewDefaultRouteConditions ++ r.Conditions ++
        (match ref.Attachment with
          | some attachment => if attachment.Attached then [] else [attachment.FailedCondition]
          | none => []) ++
        (if res.Error.isSome then
          [staticConds.NewRouteGatewayNotProgrammed staticConds.RouteMessageFailedNginxReload]
        else []) := by
  unfold routeAllConds
  cases hatt : ref.Attachment with
  | none => cases res.Error <;> simp
  | some a => cases ha : a.Attached <;> cases res.Error <;> simp [ha]

theorem routeParentStatus_conditions
    (dedup : List conditions.Condition → List conditions.Condition)
    (convert : List conditions.Condition → Int → Int → List metav1.Condition)
    (r : graph.Route) (tt : Int) (res : NginxReloadResult) (c : String) (ref : graph.ParentRef)
    (ps : gatewayv1.RouteParentStatus)
    (h : routeParentStatus dedup convert r tt res c ref = some ps) :
    ps.Conditions = convert (dedup (routeAllConds r res ref)) r.Source.Generation tt := by
  unfold routeParentStatus at h
  cases hget : r.Source.Spec.ParentRefs[ref.Idx]? with
  | none => rw [hget] at h; cases h
  | some v =>
    rw [hget] at h
    simp only [Option.some.injEq] at h
    rw [← h]

/-- Claim C24: if `NginxReloadResult.Error` is non-nil, then `PrepareRouteRequests`
returns one request per route and, for every route and every one of its
parent refs, the RouteParentStatus built contains exactly one Accepted
condition: status False, reason GatewayNotProgrammed and message
`RouteMessageFailedNginxReload`, whatever the default, route-level and
failed-attachment Accepted conditions are. The deduplication and the conversion
of conditions are parameters that meet their contracts; the index of every
parent ref is within the parent refs of the source. -/
theorem PrepareRouteRequests_reload_error
    (DeduplicateConditions : List conditions.Condition → List conditions.Condition)
    (ConvertConditions : List conditions.Condition → Int → Int → List metav1.Condition)
    (hdedup : conditions.KeepsLastOfEachType DeduplicateConditions)
    (hconvert : conditions.ConvertsEachCondition ConvertConditions)
    (routes : GoMap graph.Route) (transitionTime : Int) (nginxReloadRes : NginxReloadResult)
    (gatewayCtlrName : String)
    (hidx : ∀ e ∈ routes, ∀ ref ∈ e.2.ParentRefs,
      ref.Idx < e.2.Source.Spec.ParentRefs.length)
    (herr : nginxReloadRes.Error ≠ none) :
    ∃ reqs, PrepareRouteRequests DeduplicateConditions ConvertConditions routes transitionTime
        nginxReloadRes gatewayCtlrName = some reqs ∧
      List.Forall₂ (fun (e : types.NamespacedName × graph.Route) req =>
        req.NsName = e.1 ∧
        ∃ status, req.Setter =
            frameworkStatus.Setter.HTTPRouteStatusSetter status gatewayCtlrName ∧
          List.Forall₂ (fun (_ : graph.ParentRef) (ps : gatewayv1.RouteParentStatus) =>
            ps.Conditions.filter (fun cond => cond.Type_ == "Accepted") =
              [{ Type_ := "Accepted", Status := "False",
                 ObservedGeneration := e.2.Source.Generation,
                 LastTransitionTime := transitionTime,
                 Reason := "GatewayNotProgrammed",
                 Message := staticConds.RouteMessageFailedNginxReload }])
            e.2.ParentRefs status.Parents)
        routes reqs := by
  obtain ⟨reqs, hreqs, hall⟩ := PrepareRouteRequests_spec DeduplicateConditions
    ConvertConditions routes transitionTime nginxReloadRes gatewayCtlrName hidx
  refine ⟨reqs, hreqs, hall.imp ?_⟩
  intro e req hreq
  obtain ⟨parents, hreq, hparents⟩ := hreq
  refine ⟨by rw [hreq], { Parents := parents }, by rw [hreq], ?_⟩
  have hmem : ∀ (ref : graph.ParentRef) (ps : gatewayv1.RouteParentStatus),
      routeParentStatus DeduplicateConditions ConvertConditions e.2 transitionTime
        nginxReloadRes gatewayCtlrName ref = some ps →
      ps.Conditions.filter (fun cond => cond.Type_ == "Accepted") =
        [{ Type_ := "Accepted", Status := "False",
           ObservedGeneration := e.2.Source.Generation,
           LastTransitionTime := transitionTime,
           Reason := "GatewayNotProgrammed",
           Message := staticConds.RouteMessageFailedNginxReload }] := by
    intro ref ps hps
    rw [routeParentStatus_conditions _ _ _ _ _ _ _ _ hps,
      conditions.filter_convert_dedup _ _ hdedup hconvert, routeAllConds_eq]
    have hsome : nginxReloadRes.Error.isSome = true := by
      cases h : nginxReloadRes.Error with
      | none => exact absurd h herr
      | some _ => rfl
    rw [if_pos hsome, List.filter_append]
    have hlast : List.filter (fun c : conditions.Condition => c.Type_ == "Accepted")
        [staticConds.NewRouteGatewayNotProgrammed staticConds.RouteMessageFailedNginxReload] =
        [staticConds.NewRouteGatewayNotProgrammed staticConds.RouteMessageFailedNginxReload] := by
      simp [staticConds.NewRouteGatewayNotProgrammed]
    rw [hlast, List.getLast?_append]
    rfl
  exact hparents.imp hmem

/-- Claim C27: for every route and parent ref, the conditions of the
RouteParentStatus built by `PrepareRouteRequests` are, per condition Type, the
last condition of that Type, converted, in the sequence: the default route
conditions (Accepted=True, ResolvedRefs=True), then the route's Conditions,
then the FailedCondition of the parent ref if its attachment exists and is not
attached, then the GatewayNotProgrammed condition if the reload failed. So with
no route conditions, no failed attachment and no reload error the status
holds exactly Accepted=True and ResolvedRefs=True. The deduplication and the
conversion of conditions are parameters that meet their contracts; the index
of every parent ref is within the parent refs of the source. -/
theorem PrepareRouteRequests_conditions
    (DeduplicateConditions : List conditions.Condition → List conditions.Condition)
    (ConvertConditions : List conditions.Condition → Int → Int → List metav1.Condition)
    (hdedup : conditions.KeepsLastOfEachType DeduplicateConditions)
    (hconvert : conditions.ConvertsEachCondition ConvertConditions)
    (routes : GoMap graph.Route) (transitionTime : Int) (nginxReloadRes : NginxReloadResult)
    (gatewayCtlrName : String)
    (hidx : ∀ e ∈ routes, ∀ ref ∈ e.2.ParentRefs,
      ref.Idx < e.2.Source.Spec.ParentRefs.length) :
    ∃ reqs, PrepareRouteRequests DeduplicateConditions ConvertConditions routes transitionTime
        nginxReloadRes gatewayCtlrName = some reqs ∧
      List.Forall₂ (fun (e : types.NamespacedName × graph.Route) req =>
        req.NsName = e.1 ∧
        ∃ status, req.Setter =
            frameworkStatus.Setter.HTTPRouteStatusSetter status gatewayCtlrName ∧
          List.Forall₂ (fun (ref : graph.ParentRef) (ps : gatewayv1.RouteParentStatus) =>
            (∀ t : String,
              ps.Conditions.filter (fun cond => cond.Type_ == t) =
                ((((staticConds.NewDefaultRouteConditions ++ e.2.Conditions ++
                    (match ref.Attachment with
                      | some attachment =>
                        if attachment.Attached then [] else [attachment.FailedCondition]
                      | none => []) ++
                    (if nginxReloadRes.Error.isSome then
                      [staticConds.NewRouteGatewayNotProgrammed
                        staticConds.RouteMessageFailedNginxReload]
                    else [])).filter (fun cond => cond.Type_ == t)).getLast?).map
                  (conditions.toAPICondition e.2.Source.Generation transitionTime)).toList) ∧
            (e.2.Conditions = [] →
              (∀ attachment, ref.Attachment = some attachment → attachment.Attached = true) →
              nginxReloadRes.Error = none →
              ps.Conditions.Perm
                [{ Type_ := "Accepted", Status := "True",
                   ObservedGeneration := e.2.Source.Generation,
                   LastTransitionTime := transitionTime,
                   Reason := "Accepted", Message := "The route is accepted" },
                 { Type_ := "ResolvedRefs", Status := "True",
                   ObservedGeneration := e.2.Source.Generation,
                   LastTransitionTime := transitionTime,
                   Reason := "ResolvedRefs", Message := "All references are resolved" }]))
            e.2.ParentRefs status.Parents)
        routes reqs := by
  obtain ⟨reqs, hreqs, hall⟩ := PrepareRouteRequests_spec DeduplicateConditions
    ConvertConditions routes transitionTime nginxReloadRes gatewayCtlrName hidx
  refine ⟨reqs, hreqs, hall.imp ?_⟩
  intro e req hreq
  obtain ⟨parents, hreq, hparents⟩ := hreq
  refine ⟨by rw [hreq], { Parents := parents }, by rw [hreq], hparents.imp ?_⟩
  intro ref ps hps
  have hconds := routeParentStatus_conditions _ _ _ _ _ _ _ _ hps
  constructor
  · intro t
    rw [hconds, conditions.filter_convert_dedup _ _ hdedup hconvert, routeAllConds_eq]
  · intro hnone hatt herr
    rw [hconds]
    have hseq : routeAllConds e.2 nginxReloadRes ref = staticConds.NewDefaultRouteConditions := by
      rw [routeAllConds_eq, hnone, herr]
      cases ha : ref.Attachment with
      | none => simp
      | some a => simp [hatt a ha]
    rw [hseq]
    exact conditions.convert_dedup_perm _ _ hdedup hconvert _ _ _

theorem prepareListenerStatuses_eq
    (dedup : List conditions.Condition → List conditions.Condition)
    (convert : List conditions.Condition → Int → Int → List metav1.Condition)
    (gateway : graph.Gateway) (tt : Int) (res : NginxReloadResult) :
    ∀ (ls : List graph.Listener) (acc : List gatewayv1.ListenerStatus) (n : Nat),
      prepareListenerStatuses dedup convert gateway tt res ls acc n =
        (acc ++ ls.map (listenerStatus dedup convert gateway tt res),
          n + (ls.filter (fun l => l.Valid)).length) := by
  intro ls
  induction ls with
  | nil => intro acc n; simp [prepareListenerStatuses]
  | cons l rest ih =>
    intro acc n
    unfold prepareListenerStatuses
    simp only
    rw [ih]
    cases hv : l.Valid
    · simp [List.filter_cons, hv]
    · simp [List.filter_cons, hv]
      omega

theorem prepareGatewayRequest_valid
    (dedup : List conditions.Condition → List conditions.Condition)
    (convert : List conditions.Condition → Int → Int → List metav1.Condition)
    (gateway : graph.Gateway) (tt : Int) (addrs : List gatewayv1.GatewayStatusAddress)
    (res : NginxReloadResult) (hvalid : gateway.Valid = true) :
    prepareGatewayRequest dedup convert gateway tt addrs res =
      { NsName := ObjectKeyFromObject gateway.Source.toObjectMeta,
        ResourceType := frameworkStatus.ResourceType.Gateway,
        Setter := frameworkStatus.Setter.GatewayStatusSetter
          { Listeners := gateway.Listeners.map (listenerStatus dedup convert gateway tt res),
            Conditions := convert
              (dedup (gatewayConds (gateway.Listeners.filter (fun l => l.Valid)).length
                gateway.Listeners.length res))
              gateway.Source.Generation tt,
            Addresses := addrs } } := by
  unfold prepareGatewayRequest
  rw [hvalid]
  simp [prepareListenerStatuses_eq]

theorem prepareGatewayRequest_invalid
    (dedup : List conditions.Condition → List conditions.Condition)
    (convert : List conditions.Condition → Int → Int → List metav1.Condition)
    (gateway : graph.Gateway) (tt : Int) (addrs : List gatewayv1.GatewayStatusAddress)
    (res : NginxReloadResult) (hinvalid : gateway.Valid = false) :
    prepareGatewayRequest dedup convert gateway tt addrs res =
      { NsName := ObjectKeyFromObject gateway.Source.toObjectMeta,
        ResourceType := frameworkStatus.ResourceType.Gateway,
        Setter := frameworkStatus.Setter.GatewayStatusSetter
          { Conditions := convert (dedup gateway.Conditions) gateway.Source.Generation tt } } := by
  unfold prepareGatewayRequest
  rw [hinvalid]
  simp

theorem prepareIgnoredGatewayRequests_eq
    (convert : List conditions.Condition → Int → Int → List metav1.Condition) (tt : Int) :
    ∀ (ignored : GoMap gatewayv1.Gateway) (reqs : List frameworkStatus.UpdateRequest),
      prepareIgnoredGatewayRequests convert tt ignored reqs =
        reqs ++ ignored.map (fun e =>
          { NsName := e.1,
            ResourceType := frameworkStatus.ResourceType.Gateway,
            Setter := frameworkStatus.Setter.GatewayStatusSetter
              { Conditions := convert staticConds.NewGatewayConflict e.2.Generation tt } }) := by
  intro ignored
  induction ignored with
  | nil => intro reqs; simp [prepareIgnoredGatewayRequests]
  | cons e rest ih =>
    intro reqs
    obtain ⟨nsname, gw⟩ := e
    unfold prepareIgnoredGatewayRequests
    simp only
    rw [ih]
    simp

theorem PrepareGatewayRequests_eq
    (dedup : List conditions.Condition → List conditions.Condition)
    (convert : List conditions.Condition → Int → Int → List metav1.Condition)
    (gateway : Option graph.Gateway) (ignored : GoMap gatewayv1.Gateway) (tt : Int)
    (addrs : List gatewayv1.GatewayStatusAddress) (res : NginxReloadResult) :
    PrepareGatewayRequests dedup convert gateway ignored tt addrs res =
      (match gateway with
        | some gw => [prepareGatewayRequest dedup convert gw tt addrs res]
        | none => []) ++
      ignored.map (fun e =>
        { NsName := e.1,
          ResourceType := frameworkStatus.ResourceType.Gateway,
          Setter := frameworkStatus.Setter.GatewayStatusSetter
            { Conditions := convert staticConds.NewGatewayConflict e.2.Generation tt } }) := by
  unfold PrepareGatewayRequests
  simp only [prepareIgnoredGatewayRequests_eq]
  cases gateway <;> rfl

theorem listenerConds_eq (res : NginxReloadResult) (l : graph.Listener) :
    listenerConds res l =
      (if l.Valid then staticConds.NewDefaultListenerConditions else l.Conditions) ++
        (if res.Error.isSome then
          [staticConds.NewListenerNotProgrammedInvalid
            staticConds.ListenerMessageFailedNginxReload]
        else []) := by
  unfold listenerConds
  cases res.Error <;> simp

theorem gatewayConds_eq (validListenerCount listenerCount : Nat) (res : NginxReloadResult) :
    gatewayConds validListenerCount listenerCount res =
      (if validListenerCount = 0 then
          staticConds.NewDefaultGatewayConditions ++
            staticConds.NewGatewayNotAcceptedListenersNotValid
        else if validListenerCount < listenerCount then
          staticConds.NewDefaultGatewayConditions ++
            [staticConds.NewGatewayAcceptedListenersNotValid]
        else staticConds.NewDefaultGatewayConditions) ++
        (if res.Error.isSome then
          [staticConds.NewGatewayNotProgrammedInvalid
            staticConds.GatewayMessageFailedNginxReload]
        else []) := by
  unfold gatewayConds
  cases res.Error <;> simp

/-- The last condition of a type in a list that ends with a condition of that
type. -/
theorem getLast?_filter_append_singleton (conds : List conditions.Condition)
    (c : conditions.Condition) (t : String) (hc : c.Type_ = t) :
    ((conds ++ [c]).filter (fun d => d.Type_ == t)).getLast? = some c := by
  rw [List.filter_append]
  have hlast : List.filter (fun d : conditions.Condition => d.Type_ == t) [c] = [c] := by
    simp [hc]
  rw [hlast, List.getLast?_append]
  rfl

/-- Claim C25, amended: if `NginxReloadResult.Error` is non-nil, the status
that `PrepareGatewayRequests` prepares for a valid winning Gateway has exactly
one Programmed condition, with status False and reason Invalid, and there is
one listener status per listener of that Gateway, each with exactly one
Programmed condition, with status False and reason Invalid. For an invalid
winning Gateway the status holds the Gateway's own conditions only,
deduplicated, and no listener status. The deduplication and the conversion of
conditions are parameters that meet their contracts. -/
theorem PrepareGatewayRequests_reload_error
    (DeduplicateConditions : List conditions.Condition → List conditions.Condition)
    (ConvertConditions : List conditions.Condition → Int → Int → List metav1.Condition)
    (hdedup : conditions.KeepsLastOfEachType DeduplicateConditions)
    (hconvert : conditions.ConvertsEachCondition ConvertConditions)
    (gateway : graph.Gateway) (ignoredGateways : GoMap gatewayv1.Gateway)
    (transitionTime : Int) (gwAddresses : List gatewayv1.GatewayStatusAddress)
    (nginxReloadRes : NginxReloadResult)
    (herr : nginxReloadRes.Error ≠ none) :
    ∃ status rest,
      PrepareGatewayRequests DeduplicateConditions ConvertConditions (some gateway)
          ignoredGateways transitionTime gwAddresses nginxReloadRes =
        { NsName := { Namespace := gateway.Source.Namespace, Name := gateway.Source.Name },
          ResourceType := frameworkStatus.ResourceType.Gateway,
          Setter := frameworkStatus.Setter.GatewayStatusSetter status } :: rest ∧
      (gateway.Valid = true →
        status.Conditions.filter (fun cond => cond.Type_ == "Programmed") =
          [{ Type_ := "Programmed", Status := "False",
             ObservedGeneration := gateway.Source.Generation,
             LastTransitionTime := transitionTime,
             Reason := "Invalid",
             Message := staticConds.GatewayMessageFailedNginxReload }] ∧
        List.Forall₂ (fun (l : graph.Listener) (ls : gatewayv1.ListenerStatus) =>
          ls.Name = l.Name ∧
          ls.Conditions.filter (fun cond => cond.Type_ == "Programmed") =
            [{ Type_ := "Programmed", Status := "False",
               ObservedGeneration := gateway.Source.Generation,
               LastTransitionTime := transitionTime,
               Reason := "Invalid",
               Message := staticConds.ListenerMessageFailedNginxReload }])
          gateway.Listeners status.Listeners) ∧
      (gateway.Valid = false →
        status =
          { Conditions := (DeduplicateConditions gateway.Conditions).map
              (conditions.toAPICondition gateway.Source.Generation transitionTime) }) := by
  have hsome : nginxReloadRes.Error.isSome = true := by
    cases h : nginxReloadRes.Error with
    | none => exact absurd h herr
    | some _ => rfl
  rw [PrepareGatewayRequests_eq]
  dsimp only
  cases hv : gateway.Valid with
  | false =>
    rw [prepareGatewayRequest_invalid _ _ _ _ _ _ hv]
    refine ⟨_, _, rfl, fun hh => (by cases hh), fun _ => ?_⟩
    rw [hconvert]
  | true =>
    rw [prepareGatewayRequest_valid _ _ _ _ _ _ hv]
    refine ⟨_, _, rfl, fun _ => ⟨?_, ?_⟩, fun hh => (by cases hh)⟩
    · simp only
      rw [conditions.filter_convert_dedup _ _ hdedup hconvert, gatewayConds_eq, if_pos hsome,
        getLast?_filter_append_singleton _
          (staticConds.NewGatewayNotProgrammedInvalid staticConds.GatewayMessageFailedNginxReload)
          "Programmed" rfl]
      rfl
    · simp only
      rw [List.forall₂_map_right_iff]
      apply List.forall₂_same.mpr
      intro l _
      refine ⟨rfl, ?_⟩
      simp only [listenerStatus]
      rw [conditions.filter_convert_dedup _ _ hdedup hconvert, listenerConds_eq, if_pos hsome,
        getLast?_filter_append_singleton _
          (staticConds.NewListenerNotProgrammedInvalid
            staticConds.ListenerMessageFailedNginxReload)
          "Programmed" rfl]
      rfl

/-- Claim C25, counterexample: the reload failed and the winning Gateway is
invalid because of an unsupported value; the status prepared for it holds no
Programmed condition with status False and reason Invalid. -/
theorem PrepareGatewayRequests_reload_error_counterexample :
    ∃ status,
      PrepareGatewayRequests conditions.DeduplicateConditions conditions.ConvertConditions
          (some invalidGateway) [] 0 [] failedReload =
        [{ NsName := { Namespace := "test", Name := "gateway" },
           ResourceType := frameworkStatus.ResourceType.Gateway,
           Setter := frameworkStatus.Setter.GatewayStatusSetter status }] ∧
      ¬ ∃ cond ∈ status.Conditions,
        cond.Type_ = "Programmed" ∧ cond.Status = "False" ∧ cond.Reason = "Invalid" :=
  ⟨_, rfl, by decide⟩

/-- Claim C26, amended: every listener status prepared for a valid winning
Gateway holds, per condition type, the last condition of that type, converted,
in the sequence: the default conditions (Accepted=True, Programmed=True,
ResolvedRefs=True, Conflicted=False) if the listener is valid, the listener's
own conditions if it is not; then Programmed=False with reason Invalid if the
reload failed. So, with no reload error, the status of a valid listener holds
exactly the four default conditions, whatever the listener's own conditions
are, and the status of an invalid listener holds its own conditions only,
deduplicated, without the defaults. The deduplication and the conversion of
conditions are parameters that meet their contracts. -/
theorem prepareGatewayRequest_listener_conditions
    (DeduplicateConditions : List conditions.Condition → List conditions.Condition)
    (ConvertConditions : List conditions.Condition → Int → Int → List metav1.Condition)
    (hdedup : conditions.KeepsLastOfEachType DeduplicateConditions)
    (hconvert : conditions.ConvertsEachCondition ConvertConditions)
    (gateway : graph.Gateway) (transitionTime : Int)
    (gwAddresses : List gatewayv1.GatewayStatusAddress) (nginxReloadRes : NginxReloadResult)
    (hvalid : gateway.Valid = true) :
    ∃ status,
      prepareGatewayRequest DeduplicateConditions ConvertConditions gateway transitionTime
          gwAddresses nginxReloadRes =
        { NsName := { Namespace := gateway.Source.Namespace, Name := gateway.Source.Name },
          ResourceType := frameworkStatus.ResourceType.Gateway,
          Setter := frameworkStatus.Setter.GatewayStatusSetter status } ∧
      List.Forall₂ (fun (l : graph.Listener) (ls : gatewayv1.ListenerStatus) =>
        ls.Name = l.Name ∧
        (∀ t : String,
          ls.Conditions.filter (fun cond => cond.Type_ == t) =
            (((((if l.Valid then staticConds.NewDefaultListenerConditions else l.Conditions) ++
                (if nginxReloadRes.Error.isSome then
                  [staticConds.NewListenerNotProgrammedInvalid
                    staticConds.ListenerMessageFailedNginxReload]
                else [])).filter (fun cond => cond.Type_ == t)).getLast?).map
              (conditions.toAPICondition gateway.Source.Generation transitionTime)).toList) ∧
        (l.Valid = true → nginxReloadRes.Error = none →
          ls.Conditions.Perm
            [{ Type_ := "Accepted", Status := "True",
               ObservedGeneration := gateway.Source.Generation,
               LastTransitionTime := transitionTime,
               Reason := "Accepted", Message := "Listener is accepted" },
             { Type_ := "Programmed", Status := "True",
               ObservedGeneration := gateway.Source.Generation,
               LastTransitionTime := transitionTime,
               Reason := "Programmed", Message := "Listener is programmed" },
             { Type_ := "ResolvedRefs", Status := "True",
               ObservedGeneration := gateway.Source.Generation,
               LastTransitionTime := transitionTime,
               Reason := "ResolvedRefs", Message := "All references are resolved" },
             { Type_ := "Conflicted", Status := "False",
               ObservedGeneration := gateway.Source.Generation,
               LastTransitionTime := transitionTime,
               Reason := "NoConflicts", Message := "No conflicts" }]) ∧
        (l.Valid = false → nginxReloadRes.Error = none →
          ls.Conditions.Perm
            ((conditions.DeduplicateConditions l.Conditions).map
              (conditions.toAPICondition gateway.Source.Generation transitionTime))))
        gateway.Listeners status.Listeners := by
  rw [prepareGatewayRequest_valid _ _ _ _ _ _ hvalid]
  refine ⟨_, rfl, ?_⟩
  simp only
  rw [List.forall₂_map_right_iff]
  apply List.forall₂_same.mpr
  intro l _
  have hconds : (listenerStatus DeduplicateConditions ConvertConditions gateway transitionTime
      nginxReloadRes l).Conditions =
      ConvertConditions (DeduplicateConditions (listenerConds nginxReloadRes l))
        gateway.Source.Generation transitionTime := rfl
  refine ⟨rfl, ?_, ?_, ?_⟩
  · intro t
    rw [hconds, conditions.filter_convert_dedup _ _ hdedup hconvert, listenerConds_eq]
  · intro hl herr
    rw [hconds, listenerConds_eq, hl, herr]
    exact conditions.convert_dedup_perm _ _ hdedup hconvert _ _ _
  · intro hl herr
    rw [hconds, listenerConds_eq, hl, herr]
    simp only [Bool.false_eq_true, if_false, Option.isSome_none, List.append_nil]
    exact conditions.convert_dedup_perm _ _ hdedup hconvert _ _ _

/-- Claim C26, counterexample: the status prepared for the invalid listener of
`preparedGateway` holds the two conditions of the listener and no condition
of type ResolvedRefs or Conflicted. -/
theorem prepareGatewayRequest_listener_conditions_counterexample :
    ∃ status ls,
      (prepareGatewayRequest conditions.DeduplicateConditions conditions.ConvertConditions
          preparedGateway 0 [] {}).Setter =
        frameworkStatus.Setter.GatewayStatusSetter status ∧
      status.Listeners[1]? = some ls ∧ ls.Name = invalidListener.Name ∧
      ls.Conditions.length = 2 ∧
      ls.Conditions.filter (fun cond => cond.Type_ == "ResolvedRefs") = [] ∧
      ls.Conditions.filter (fun cond => cond.Type_ == "Conflicted") = [] :=
  ⟨_, _, rfl, rfl, rfl, rfl, rfl, rfl⟩

theorem filter_valid_length_eq_zero_iff (ls : List graph.Listener) :
    (ls.filter (fun l => l.Valid)).length = 0 ↔ ∀ l ∈ ls, l.Valid = false := by
  rw [List.length_eq_zero, List.filter_eq_nil_iff]
  constructor
  · intro h l hl
    cases hv : l.Valid with
    | false => rfl
    | true => exact absurd hv (h l hl)
  · intro h l hl hv
    rw [h l hl] at hv
    cases hv

theorem filter_valid_length_lt_iff (ls : List graph.Listener) :
    (ls.filter (fun l => l.Valid)).length < ls.length ↔ ∃ l ∈ ls, l.Valid = false := by
  rw [List.length_filter_lt_length_iff_exists]
  constructor
  · rintro ⟨l, hl, hv⟩
    refine ⟨l, hl, ?_⟩
    cases h : l.Valid with
    | false => rfl
    | true => exact absurd h hv
  · rintro ⟨l, hl, hv⟩
    exact ⟨l, hl, by rw [hv]; simp⟩

/-- Claim C28: for a valid winning Gateway and no reload error, the Gateway
status that `prepareGatewayRequest` prepares has exactly two conditions,
Accepted and Programmed. If no listener is valid (also when the Gateway has
no listener) they are Accepted=False with reason ListenersNotValid and
Programmed=False with reason Invalid; if some but not all listeners are valid
they are Accepted=True with reason ListenersNotValid and the default
Programmed=True; if there are listeners and all are valid they are the
defaults, Accepted=True with reason Accepted and Programmed=True with reason
Programmed. The deduplication and the conversion of conditions are parameters
that meet their contracts. -/
theorem prepareGatewayRequest_gateway_conditions
    (DeduplicateConditions : List conditions.Condition → List conditions.Condition)
    (ConvertConditions : List conditions.Condition → Int → Int → List metav1.Condition)
    (hdedup : conditions.KeepsLastOfEachType DeduplicateConditions)
    (hconvert : conditions.ConvertsEachCondition ConvertConditions)
    (gateway : graph.Gateway) (transitionTime : Int)
    (gwAddresses : List gatewayv1.GatewayStatusAddress) (nginxReloadRes : NginxReloadResult)
    (hvalid : gateway.Valid = true) (herr : nginxReloadRes.Error = none) :
    ∃ status,
      prepareGatewayRequest DeduplicateConditions ConvertConditions gateway transitionTime
          gwAddresses nginxReloadRes =
        { NsName := { Namespace := gateway.Source.Namespace, Name := gateway.Source.Name },
          ResourceType := frameworkStatus.ResourceType.Gateway,
          Setter := frameworkStatus.Setter.GatewayStatusSetter status } ∧
      ((∀ l ∈ gateway.Listeners, l.Valid = false) →
        status.Conditions.Perm
          [{ Type_ := "Accepted", Status := "False",
             ObservedGeneration := gateway.Source.Generation,
             LastTransitionTime := transitionTime,
             Reason := "ListenersNotValid", Message := "Gateway has no valid listeners" },
           { Type_ := "Programmed", Status := "False",
             ObservedGeneration := gateway.Source.Generation,
             LastTransitionTime := transitionTime,
             Reason := "Invalid", Message := "Gateway has no valid listeners" }]) ∧
      ((∃ l ∈ gateway.Listeners, l.Valid = true) → (∃ l ∈ gateway.Listeners, l.Valid = false) →
        status.Conditions.Perm
          [{ Type_ := "Accepted", Status := "True",
             ObservedGeneration := gateway.Source.Generation,
             LastTransitionTime := transitionTime,
             Reason := "ListenersNotValid",
             Message := "Gateway has at least one valid listener" },
           { Type_ := "Programmed", Status := "True",
             ObservedGeneration := gateway.Source.Generation,
             LastTransitionTime := transitionTime,
             Reason := "Programmed", Message := "Gateway is programmed" }]) ∧
      (gateway.Listeners ≠ [] → (∀ l ∈ gateway.Listeners, l.Valid = true) →
        status.Conditions.Perm
          [{ Type_ := "Accepted", Status := "True",
             ObservedGeneration := gateway.Source.Generation,
             LastTransitionTime := transitionTime,
             Reason := "Accepted", Message := "Gateway is accepted" },
           { Type_ := "Programmed", Status := "True",
             ObservedGeneration := gateway.Source.Generation,
             LastTransitionTime := transitionTime,
             Reason := "Programmed", Message := "Gateway is programmed" }]) := by
  rw [prepareGatewayRequest_valid _ _ _ _ _ _ hvalid]
  refine ⟨_, rfl, ?_, ?_, ?_⟩
  · intro hnone
    have h0 := (filter_valid_length_eq_zero_iff gateway.Listeners).mpr hnone
    simp only
    rw [gatewayConds_eq, if_pos h0, herr]
    exact conditions.convert_dedup_perm _ _ hdedup hconvert _ _ _
  · intro hsome hnot
    have h0 : ¬ (gateway.Listeners.filter (fun l => l.Valid)).length = 0 := by
      rw [filter_valid_length_eq_zero_iff]
      intro hall
      obtain ⟨l, hl, hv⟩ := hsome
      rw [hall l hl] at hv
      cases hv
    have hlt := (filter_valid_length_lt_iff gateway.Listeners).mpr hnot
    simp only
    rw [gatewayConds_eq, if_neg h0, if_pos hlt, herr]
    exact (conditions.convert_dedup_perm _ _ hdedup hconvert _ _ _).trans
      (List.Perm.swap _ _ _)
  · intro hne hall
    have hlen : (gateway.Listeners.filter (fun l => l.Valid)).length =
        gateway.Listeners.length := by
      rw [List.filter_eq_self.mpr (fun l hl => hall l hl)]
    have h0 : ¬ (gateway.Listeners.filter (fun l => l.Valid)).length = 0 := by
      rw [hlen, List.length_eq_zero]
      exact hne
    have hlt : ¬ (gateway.Listeners.filter (fun l => l.Valid)).length <
        gateway.Listeners.length := by
      omega
    simp only
    rw [gatewayConds_eq, if_neg h0, if_neg hlt, herr]
    exact conditions.convert_dedup_perm _ _ hdedup hconvert _ _ _

/-- Claim C29: `PrepareGatewayRequests` emits the request for the winning
Gateway when it is not nil, followed by one request per ignored Gateway, in
the order of the visit; the status set for every ignored Gateway consists of
exactly the conditions Accepted=False and Programmed=False, both with reason
GatewayConflict, with no listener statuses and no addresses. The conversion of
conditions is a parameter that meets its contract. -/
theorem PrepareGatewayRequests_ignored
    (DeduplicateConditions : List conditions.Condition → List conditions.Condition)
    (ConvertConditions : List conditions.Condition → Int → Int → List metav1.Condition)
    (hconvert : conditions.ConvertsEachCondition ConvertConditions)
    (gateway : Option graph.Gateway) (ignoredGateways : GoMap gatewayv1.Gateway)
    (transitionTime : Int) (gwAddresses : List gatewayv1.GatewayStatusAddress)
    (nginxReloadRes : NginxReloadResult) :
    (PrepareGatewayRequests DeduplicateConditions ConvertConditions gateway ignoredGateways
        transitionTime gwAddresses nginxReloadRes).length =
      (if gateway.isSome then 1 else 0) + ignoredGateways.length ∧
    ∃ rest,
      PrepareGatewayRequests DeduplicateConditions ConvertConditions gateway ignoredGateways
          transitionTime gwAddresses nginxReloadRes =
        (match gateway with
          | some gw =>
            [prepareGatewayRequest DeduplicateConditions ConvertConditions gw transitionTime
              gwAddresses nginxReloadRes]
          | none => []) ++ rest ∧
      List.Forall₂ (fun (e : types.NamespacedName × gatewayv1.Gateway) req =>
        req =
          { NsName := e.1,
            ResourceType := frameworkStatus.ResourceType.Gateway,
            Setter := frameworkStatus.Setter.GatewayStatusSetter
              { Conditions :=
                  [{ Type_ := "Accepted", Status := "False",
                     ObservedGeneration := e.2.Generation,
                     LastTransitionTime := transitionTime,
                     Reason := "GatewayConflict",
                     Message := staticConds.GatewayMessageGatewayConflict },
                   { Type_ := "Programmed", Status := "False",
                     ObservedGeneration := e.2.Generation,
                     LastTransitionTime := transitionTime,
                     Reason := "GatewayConflict",
                     Message := staticConds.GatewayMessageGatewayConflict }],
                Listeners := [],
                Addresses := [] } })
        ignoredGateways rest := by
  rw [PrepareGatewayRequests_eq]
  constructor
  · cases gateway
    · simp
    · simp
      omega
  · refine ⟨_, rfl, ?_⟩
    rw [List.forall₂_map_right_iff]
    apply List.forall₂_same.mpr
    intro e _
    rw [hconvert]
    rfl

/-- Claim C30: `PrepareBackendTLSPolicyRequests` emits a status update request
for a policy if and only if the policy is referenced by a backendRef
(IsReferenced) and not Ignored: the requests are those of the referenced, not
ignored policies, in the order of the visit, and a policy that is ignored or
not referenced contributes nothing. Each emitted status has exactly one
ancestor, which names the Gateway of the policy and this controller. When the
policies are those that `processBackendTLSPolicies` stored for the winning
Gateway, after the lookups of `addBackendRefsToRouteRules` marked the
referenced ones, every policy is Ignored exactly when it overflowed the
ancestor cap, so a policy over the cap is not among the policies that get a
request, referenced or not, and every request is for a referenced policy for
which `validateAncestorMaxCount` succeeded. -/
theorem PrepareBackendTLSPolicyRequests_spec
    (DeduplicateConditions : List conditions.Condition → List conditions.Condition)
    (ConvertConditions : List conditions.Condition → Int → Int → List metav1.Condition)
    (policies : GoMap graph.BackendTLSPolicy) (transitionTime : Int)
    (gatewayCtlrName : String) :
    (∀ nsname : types.NamespacedName,
      (∃ req ∈ PrepareBackendTLSPolicyRequests DeduplicateConditions ConvertConditions policies
          transitionTime gatewayCtlrName, req.NsName = nsname) ↔
        ∃ pol, (nsname, pol) ∈ policies ∧ pol.IsReferenced = true ∧ pol.Ignored = false) ∧
    List.Forall₂ (fun (e : types.NamespacedName × graph.BackendTLSPolicy) req =>
      req.NsName = e.1 ∧
      req.ResourceType = frameworkStatus.ResourceType.BackendTLSPolicy ∧
      ∃ conds, req.Setter =
        frameworkStatus.Setter.BackendTLSPolicyStatusSetter
          { Ancestors :=
              [{ AncestorRef :=
                   { Namespace := some e.2.Gateway.Namespace, Name := e.2.Gateway.Name },
                 ControllerName := gatewayCtlrName,
                 Conditions := conds }] }
          gatewayCtlrName)
      (policies.filter (fun e => e.2.IsReferenced && !e.2.Ignored))
      (PrepareBackendTLSPolicyRequests DeduplicateConditions ConvertConditions policies
        transitionTime gatewayCtlrName) ∧
    (∀ (before after : GoMap graph.BackendTLSPolicy) (nsname : types.NamespacedName)
        (pol : graph.BackendTLSPolicy),
      policies = before ++ (nsname, pol) :: after →
      (pol.IsReferenced = false ∨ pol.Ignored = true) →
      PrepareBackendTLSPolicyRequests DeduplicateConditions ConvertConditions policies
          transitionTime gatewayCtlrName =
        PrepareBackendTLSPolicyRequests DeduplicateConditions ConvertConditions
          (before ++ after) transitionTime gatewayCtlrName) ∧
    (∀ (ext : graph.Externals) (gateway : graph.Gateway)
        (sources : GoMap v1alpha2.BackendTLSPolicy) (resolver : graph.configMapResolver)
        (processed : GoMap graph.BackendTLSPolicy) (routes : GoMap graph.Route)
        (refGrantResolver : graph.referenceGrantResolver) (services : GoMap corev1.Service),
      (graph.processBackendTLSPolicies ext sources resolver gatewayCtlrName
        (some gateway)).map Prod.fst = some (some processed) →
      (graph.addBackendRefsToRouteRules routes refGrantResolver services processed).map
        Prod.snd = some policies →
      (∀ e ∈ policies,
        e.2.Ignored =
          (graph.validateAncestorMaxCount e.2.Source gatewayCtlrName gateway).isSome) ∧
      (∀ e ∈ policies,
        (graph.validateAncestorMaxCount e.2.Source gatewayCtlrName gateway).isSome = true →
        e ∉ policies.filter (fun e => e.2.IsReferenced && !e.2.Ignored)) ∧
      ∀ req ∈ PrepareBackendTLSPolicyRequests DeduplicateConditions ConvertConditions policies
          transitionTime gatewayCtlrName,
        ∃ pol, (req.NsName, pol) ∈ policies ∧ pol.IsReferenced = true ∧
          graph.validateAncestorMaxCount pol.Source gatewayCtlrName gateway = none) := by
  have hflag : ∀ pol : graph.BackendTLSPolicy,
      (pol.IsReferenced && !pol.Ignored) = true ↔
        (pol.IsReferenced = true ∧ pol.Ignored = false) := by
    intro pol
    cases pol.IsReferenced <;> cases pol.Ignored <;> simp
  refine ⟨?_, ?_, ?_, ?_⟩
  · intro nsname
    rw [PrepareBackendTLSPolicyRequests_eq]
    constructor
    · rintro ⟨req, hreq, hns⟩
      rw [List.mem_map] at hreq
      obtain ⟨e, he, hreqe⟩ := hreq
      rw [List.mem_filter] at he
      refine ⟨e.2, ?_, (hflag e.2).mp he.2⟩
      rw [← hns, ← hreqe]
      exact he.1
    · rintro ⟨pol, hmem, hflags⟩
      refine ⟨_, List.mem_map.mpr ⟨(nsname, pol), ?_, rfl⟩, rfl⟩
      rw [List.mem_filter]
      exact ⟨hmem, (hflag pol).mpr hflags⟩
  · rw [PrepareBackendTLSPolicyRequests_eq, List.forall₂_map_right_iff]
    apply List.forall₂_same.mpr
    intro e _
    exact ⟨rfl, rfl, _, rfl⟩
  · intro before after nsname pol hpol hskip
    rw [PrepareBackendTLSPolicyRequests_eq, PrepareBackendTLSPolicyRequests_eq, hpol]
    have hf : (pol.IsReferenced && !pol.Ignored) = false := by
      rcases hskip with h | h <;> simp [h]
    simp [List.filter_append, List.filter_cons, hf]
  · intro ext gateway sources resolver processed routes refGrantResolver services hproc hrefs
    have hprocessed : ∀ e ∈ processed,
        e.2.Ignored =
          (graph.validateAncestorMaxCount e.2.Source gatewayCtlrName gateway).isSome := by
      unfold graph.processBackendTLSPolicies at hproc
      simp only at hproc
      split at hproc
      · simp at hproc
      · cases hloop : graph.processBackendTLSPoliciesLoop ext gatewayCtlrName gateway sources
            resolver with
        | none => rw [hloop] at hproc; simp at hproc
        | some r =>
          rw [hloop] at hproc
          simp only [Option.map_some', Option.some.injEq] at hproc
          rw [← hproc]
          exact graph.processBackendTLSPoliciesLoop_ignored ext gatewayCtlrName gateway
            sources resolver r.1 r.2 hloop
    have hpolicies : ∀ e ∈ policies,
        e.2.Ignored =
          (graph.validateAncestorMaxCount e.2.Source gatewayCtlrName gateway).isSome := by
      cases hr : graph.addBackendRefsToRouteRules routes refGrantResolver services
          processed with
      | none => rw [hr] at hrefs; simp at hrefs
      | some r =>
        rw [hr] at hrefs
        simp only [Option.map_some', Option.some.injEq] at hrefs
        rw [← hrefs]
        exact graph.addBackendRefsToRouteRules_keeps
          (fun p => p.Ignored =
            (graph.validateAncestorMaxCount p.Source gatewayCtlrName gateway).isSome)
          (fun p p1 hs hi hp => by simp only [hi, hs]; exact hp)
          refGrantResolver services routes processed r.1 r.2 hr hprocessed
    refine ⟨hpolicies, ?_, ?_⟩
    · intro e he hover hmem
      rw [List.mem_filter] at hmem
      have hni := ((hflag e.2).mp hmem.2).2
      rw [hpolicies e he, hover] at hni
      cases hni
    · intro req hreq
      rw [PrepareBackendTLSPolicyRequests_eq, List.mem_map] at hreq
      obtain ⟨e, he, hreqe⟩ := hreq
      rw [List.mem_filter] at he
      refine ⟨e.2, ?_, ((hflag e.2).mp he.2).1, ?_⟩
      · rw [← hreqe]
        exact he.1
      · have hni := ((hflag e.2).mp he.2).2
        rw [hpolicies e he.1] at hni
        cases hv : graph.validateAncestorMaxCount e.2.Source gatewayCtlrName gateway with
        | none => rfl
        | some _ => rw [hv] at hni; cases hni

/-- Claim C22, witness: the policy `test/btp` holds 16 ancestors, one of them
of this controller for the winning Gateway; the setter prepared for it leaves
it with 16 ancestors. -/
theorem PrepareBackendTLSPolicyRequests_ancestors_le_16_witness :
    (policyWithSixteenAncestors.Status.Ancestors.length ≤ 16 ∧
      graph.validateAncestorMaxCount policyWithSixteenAncestors "my.controller"
        preparedGateway = none) ∧
    ∀ req ∈ PrepareBackendTLSPolicyRequests conditions.DeduplicateConditions
        conditions.ConvertConditions processedPolicies 0 "my.controller",
      ∃ status : v1alpha2.PolicyStatus,
        req.Setter =
          frameworkStatus.Setter.BackendTLSPolicyStatusSetter status "my.controller" ∧
        status.Ancestors.length = 1 ∧
        (∀ a ∈ status.Ancestors, a.ControllerName = "my.controller") ∧
        (newBackendTLSPolicyStatusSetter frameworkStatus.ConditionsEqual status "my.controller"
          policyWithSixteenAncestors).2.1.Status.Ancestors.length ≤ 16 :=
  ⟨⟨by decide, by decide⟩,
    PrepareBackendTLSPolicyRequests_ancestors_le_16 frameworkStatus.ConditionsEqual
      conditions.DeduplicateConditions conditions.ConvertConditions processedPolicies 0
      "my.controller" preparedGateway policyWithSixteenAncestors (by decide) (by decide)⟩

/-- Claim C24, witness: the two routes of `preparedRoutes` after a failed
reload. -/
theorem PrepareRouteRequests_reload_error_witness :
    (∀ e ∈ preparedRoutes, ∀ ref ∈ e.2.ParentRefs,
      ref.Idx < e.2.Source.Spec.ParentRefs.length) ∧
    failedReload.Error ≠ none ∧
    ∃ reqs, PrepareRouteRequests conditions.DeduplicateConditions conditions.ConvertConditions
        preparedRoutes 0 failedReload "my.controller" = some reqs ∧
      List.Forall₂ (fun (e : types.NamespacedName × graph.Route) req =>
        req.NsName = e.1 ∧
        ∃ status, req.Setter =
            frameworkStatus.Setter.HTTPRouteStatusSetter status "my.controller" ∧
          List.Forall₂ (fun (_ : graph.ParentRef) (ps : gatewayv1.RouteParentStatus) =>
            ps.Conditions.filter (fun cond => cond.Type_ == "Accepted") =
              [{ Type_ := "Accepted", Status := "False",
                 ObservedGeneration := e.2.Source.Generation,
                 LastTransitionTime := 0,
                 Reason := "GatewayNotProgrammed",
                 Message := staticConds.RouteMessageFailedNginxReload }])
            e.2.ParentRefs status.Parents)
        preparedRoutes reqs :=
  ⟨by decide, by decide,
    PrepareRouteRequests_reload_error conditions.DeduplicateConditions
      conditions.ConvertConditions conditions.DeduplicateConditions_keepsLast
      conditions.ConvertConditions_convertsEach preparedRoutes 0 failedReload "my.controller"
      (by decide) (by decide)⟩

/-- Claim C25 as amended, witness: the valid Gateway `preparedGateway` after
a failed reload. -/
theorem PrepareGatewayRequests_reload_error_witness :
    failedReload.Error ≠ none ∧ preparedGateway.Valid = true ∧
    ∃ status rest,
      PrepareGatewayRequests conditions.DeduplicateConditions conditions.ConvertConditions
          (some preparedGateway) ignoredGateways 0 [] failedReload =
        { NsName := { Namespace := "test", Name := "gateway" },
          ResourceType := frameworkStatus.ResourceType.Gateway,
          Setter := frameworkStatus.Setter.GatewayStatusSetter status } :: rest ∧
      status.Conditions.filter (fun cond => cond.Type_ == "Programmed") =
        [{ Type_ := "Programmed", Status := "False", ObservedGeneration := 2,
           LastTransitionTime := 0, Reason := "Invalid",
           Message := staticConds.GatewayMessageFailedNginxReload }] := by
  refine ⟨by decide, rfl, ?_⟩
  obtain ⟨status, rest, hreqs, hvalid, _⟩ :=
    PrepareGatewayRequests_reload_error conditions.DeduplicateConditions
      conditions.ConvertConditions conditions.DeduplicateConditions_keepsLast
      conditions.ConvertConditions_convertsEach preparedGateway ignoredGateways 0 []
      failedReload (by decide)
  exact ⟨status, rest, hreqs, (hvalid rfl).1⟩

/-- Claim C26 as amended, witness: the listeners of the valid Gateway
`preparedGateway`. -/
theorem prepareGatewayRequest_listener_conditions_witness :
    preparedGateway.Valid = true ∧
    ∃ status,
      prepareGatewayRequest conditions.DeduplicateConditions conditions.ConvertConditions
          preparedGateway 0 [] {} =
        { NsName := { Namespace := "test", Name := "gateway" },
          ResourceType := frameworkStatus.ResourceType.Gateway,
          Setter := frameworkStatus.Setter.GatewayStatusSetter status } ∧
      status.Listeners.length = preparedGateway.Listeners.length := by
  refine ⟨rfl, ?_⟩
  obtain ⟨status, hreq, hall⟩ :=
    prepareGatewayRequest_listener_conditions conditions.DeduplicateConditions
      conditions.ConvertConditions conditions.DeduplicateConditions_keepsLast
      conditions.ConvertConditions_convertsEach preparedGateway 0 [] {} rfl
  exact ⟨status, hreq, hall.length_eq.symm⟩

/-- Claim C27, witness: the two routes of `preparedRoutes`, no reload error. -/
theorem PrepareRouteRequests_conditions_witness :
    (∀ e ∈ preparedRoutes, ∀ ref ∈ e.2.ParentRefs,
      ref.Idx < e.2.Source.Spec.ParentRefs.length) ∧
    ∃ reqs, PrepareRouteRequests conditions.DeduplicateConditions conditions.ConvertConditions
        preparedRoutes 0 {} "my.controller" = some reqs ∧
      reqs.length = preparedRoutes.length := by
  refine ⟨by decide, ?_⟩
  obtain ⟨reqs, hreqs, hall⟩ :=
    PrepareRouteRequests_conditions conditions.DeduplicateConditions
      conditions.ConvertConditions conditions.DeduplicateConditions_keepsLast
      conditions.ConvertConditions_convertsEach preparedRoutes 0 {} "my.controller" (by decide)
  exact ⟨reqs, hreqs, hall.length_eq.symm⟩

/-- Claim C28, witness: `preparedGateway` has a valid and an invalid listener;
its status is Accepted=True with reason ListenersNotValid and Programmed=True. -/
theorem prepareGatewayRequest_gateway_conditions_witness :
    (preparedGateway.Valid = true ∧ ({} : NginxReloadResult).Error = none) ∧
    ∃ status,
      prepareGatewayRequest conditions.DeduplicateConditions conditions.ConvertConditions
          preparedGateway 0 [] {} =
        { NsName := { Namespace := "test", Name := "gateway" },
          ResourceType := frameworkStatus.ResourceType.Gateway,
          Setter := frameworkStatus.Setter.GatewayStatusSetter status } ∧
      status.Conditions.Perm
        [{ Type_ := "Accepted", Status := "True", ObservedGeneration := 2,
           LastTransitionTime := 0, Reason := "ListenersNotValid",
           Message := "Gateway has at least one valid listener" },
         { Type_ := "Programmed", Status := "True", ObservedGeneration := 2,
           LastTransitionTime := 0, Reason := "Programmed",
           Message := "Gateway is programmed" }] := by
  refine ⟨⟨rfl, rfl⟩, ?_⟩
  obtain ⟨status, hreq, _, hsome, _⟩ :=
    prepareGatewayRequest_gateway_conditions conditions.DeduplicateConditions
      conditions.ConvertConditions conditions.DeduplicateConditions_keepsLast
      conditions.ConvertConditions_convertsEach preparedGateway 0 [] {} rfl rfl
  exact ⟨status, hreq,
    hsome ⟨validListener, by decide, rfl⟩ ⟨invalidListener, by decide, rfl⟩⟩

/-- Claim C29, witness: the winning Gateway and one ignored Gateway give two
requests. -/
theorem PrepareGatewayRequests_ignored_witness :
    (PrepareGatewayRequests conditions.DeduplicateConditions conditions.ConvertConditions
        (some preparedGateway) ignoredGateways 0 [] {}).length = 2 :=
  (PrepareGatewayRequests_ignored conditions.DeduplicateConditions conditions.ConvertConditions
    conditions.ConvertConditions_convertsEach (some preparedGateway) ignoredGateways 0 [] {}).1

/-- Claim C21, witness: the setter writes, drops the old ancestor status of
`my.controller` and puts the new one after the status of the other
controller. -/
theorem newBackendTLSPolicyStatusSetter_frame_witness :
    (newBackendTLSPolicyStatusSetter frameworkStatus.ConditionsEqual
      { Ancestors := [oursNewAncestor] } "my.controller" policyWithOldStatus).1 = true ∧
    (newBackendTLSPolicyStatusSetter frameworkStatus.ConditionsEqual
      { Ancestors := [oursNewAncestor] } "my.controller" policyWithOldStatus).2.1 =
      { policyWithOldStatus with Status := { Ancestors := [theirAncestor, oursNewAncestor] } } :=
  ⟨by decide,
    (newBackendTLSPolicyStatusSetter_frame frameworkStatus.ConditionsEqual
      { Ancestors := [oursNewAncestor] } "my.controller" policyWithOldStatus).1 (by decide)⟩

/-- Claim C23, witness: `prev` holds an ancestor of `ctlr1` and one of `ctlr2`;
with the ancestor of `ctlr2` replaced by another one, `cur` is not equal to
`prev` for `ctlr1`. -/
theorem btpStatusEqual_spec_witness :
    btpStatusEqual frameworkStatus.ConditionsEqual "ctlr1"
      { Ancestors := [ancestor1, ancestor2] } { Ancestors := [ancestor1, ancestor3] } = false :=
  (btpStatusEqual_spec frameworkStatus.ConditionsEqual "ctlr1"
    { Ancestors := [ancestor1, ancestor2] } { Ancestors := [ancestor1, ancestor2] }).2.2
    [ancestor1] [] ancestor2 ancestor3 rfl (by decide) (by decide)

/-- Claim C30, witness: of the three processed policies only `test/btp` gets
a request. In the cluster of `cappedSources` the backendRefs of the route
select both policies; `test/btp-over` is over the ancestor cap, referenced and
ignored, and the one request is for `test/btp`. -/
theorem PrepareBackendTLSPolicyRequests_spec_witness :
    ((∃ req ∈ PrepareBackendTLSPolicyRequests conditions.DeduplicateConditions
        conditions.ConvertConditions processedPolicies 0 "my.controller",
      req.NsName = { Namespace := "test", Name := "btp" }) ∧
    ¬ (∃ req ∈ PrepareBackendTLSPolicyRequests conditions.DeduplicateConditions
        conditions.ConvertConditions processedPolicies 0 "my.controller",
      req.NsName = { Namespace := "test", Name := "btp-ignored" })) ∧
    ((graph.processBackendTLSPolicies graph.emptyExternals graph.cappedSources {}
        "my.controller" (some graph.testGateway)).map Prod.fst =
      some (some graph.cappedProcessed) ∧
    (graph.addBackendRefsToRouteRules graph.cappedRoutes graph.noGrants graph.testServices
        graph.cappedProcessed).map Prod.snd = some graph.cappedPolicies ∧
    (graph.validateAncestorMaxCount graph.cappedPolicy "my.controller"
        graph.testGateway).isSome = true ∧
    (PrepareBackendTLSPolicyRequests conditions.DeduplicateConditions
        conditions.ConvertConditions graph.cappedPolicies 0 "my.controller").length = 1) ∧
    ((∀ e ∈ graph.cappedPolicies,
        e.2.Ignored =
          (graph.validateAncestorMaxCount e.2.Source "my.controller"
            graph.testGateway).isSome) ∧
      (∀ e ∈ graph.cappedPolicies,
        (graph.validateAncestorMaxCount e.2.Source "my.controller"
          graph.testGateway).isSome = true →
        e ∉ graph.cappedPolicies.filter (fun e => e.2.IsReferenced && !e.2.Ignored)) ∧
      ∀ req ∈ PrepareBackendTLSPolicyRequests conditions.DeduplicateConditions
          conditions.ConvertConditions graph.cappedPolicies 0 "my.controller",
        ∃ pol, (req.NsName, pol) ∈ graph.cappedPolicies ∧ pol.IsReferenced = true ∧
          graph.validateAncestorMaxCount pol.Source "my.controller" graph.testGateway =
            none) :=
  ⟨⟨((PrepareBackendTLSPolicyRequests_spec conditions.DeduplicateConditions
      conditions.ConvertConditions processedPolicies 0 "my.controller").1
        { Namespace := "test", Name := "btp" }).mpr ⟨_, List.mem_cons_self _ _, rfl, rfl⟩,
    by decide⟩,
    ⟨by decide, by decide, by decide, by decide⟩,
    (PrepareBackendTLSPolicyRequests_spec conditions.DeduplicateConditions
      conditions.ConvertConditions graph.cappedPolicies 0 "my.controller").2.2.2
        graph.emptyExternals graph.testGateway graph.cappedSources {} graph.cappedProcessed
        graph.cappedRoutes graph.noGrants graph.testServices (by decide) (by decide)⟩

/-! ## Listener statuses of the Gateway request -/

theorem int32_of_length (n : Nat) (h : n < 2147483648) : int32 (n : Int) = (n : Int) := by
  unfold int32
  omega

/-- Claim C39: for a valid winning Gateway, `prepareGatewayRequest` emits exactly
one ListenerStatus per listener, in the listeners' order, with Name equal to
the listener's name, SupportedKinds equal to the listener's and AttachedRoutes
equal to the number of routes attached to the listener, and sets the addresses
passed in; for an invalid Gateway it emits only the Gateway's own
deduplicated conditions, with no listener statuses and no addresses. The
number of routes of a listener is below 2^31, the range of AttachedRoutes. -/
theorem prepareGatewayRequest_listener_statuses
    (DeduplicateConditions : List conditions.Condition → List conditions.Condition)
    (ConvertConditions : List conditions.Condition → Int → Int → List metav1.Condition)
    (gateway : graph.Gateway) (transitionTime : Int)
    (gwAddresses : List gatewayv1.GatewayStatusAddress) (nginxReloadRes : NginxReloadResult)
    (hroutes : ∀ l ∈ gateway.Listeners, l.Routes.length < 2147483648) :
    (gateway.Valid = true →
      ∃ status,
        prepareGatewayRequest DeduplicateConditions ConvertConditions gateway transitionTime
            gwAddresses nginxReloadRes =
          { NsName := { Namespace := gateway.Source.Namespace, Name := gateway.Source.Name },
            ResourceType := frameworkStatus.ResourceType.Gateway,
            Setter := frameworkStatus.Setter.GatewayStatusSetter status } ∧
        status.Addresses = gwAddresses ∧
        status.Listeners.length = gateway.Listeners.length ∧
        List.Forall₂ (fun (l : graph.Listener) (ls : gatewayv1.ListenerStatus) =>
          ls.Name = l.Name ∧ ls.SupportedKinds = l.SupportedKinds ∧
          ls.AttachedRoutes = (l.Routes.length : Int))
          gateway.Listeners status.Listeners) ∧
    (gateway.Valid = false →
      prepareGatewayRequest DeduplicateConditions ConvertConditions gateway transitionTime
          gwAddresses nginxReloadRes =
        { NsName := { Namespace := gateway.Source.Namespace, Name := gateway.Source.Name },
          ResourceType := frameworkStatus.ResourceType.Gateway,
          Setter := frameworkStatus.Setter.GatewayStatusSetter
            { Conditions := ConvertConditions (DeduplicateConditions gateway.Conditions)
                gateway.Source.Generation transitionTime,
              Listeners := [],
              Addresses := [] } }) := by
  constructor
  · intro hvalid
    rw [prepareGatewayRequest_valid _ _ _ _ _ _ hvalid]
    refine ⟨_, rfl, rfl, by simp, ?_⟩
    simp only
    rw [List.forall₂_map_right_iff]
    apply List.forall₂_same.mpr
    intro l hl
    exact ⟨rfl, rfl, int32_of_length _ (hroutes l hl)⟩
  · intro hinvalid
    rw [prepareGatewayRequest_invalid _ _ _ _ _ _ hinvalid]
    rfl

/-- Claim C39, witness: the two listeners of `preparedGateway`. -/
theorem prepareGatewayRequest_listener_statuses_witness :
    (∀ l ∈ preparedGateway.Listeners, l.Routes.length < 2147483648) ∧
    ∃ status,
      prepareGatewayRequest conditions.DeduplicateConditions conditions.ConvertConditions
          preparedGateway 0 [{ Value := "10.0.0.1" }] {} =
        { NsName := { Namespace := "test", Name := "gateway" },
          ResourceType := frameworkStatus.ResourceType.Gateway,
          Setter := frameworkStatus.Setter.GatewayStatusSetter status } ∧
      status.Addresses = [{ Value := "10.0.0.1" }] ∧
      status.Listeners.length = preparedGateway.Listeners.length ∧
      List.Forall₂ (fun (l : graph.Listener) (ls : gatewayv1.ListenerStatus) =>
        ls.Name = l.Name ∧ ls.SupportedKinds = l.SupportedKinds ∧
        ls.AttachedRoutes = (l.Routes.length : Int))
        preparedGateway.Listeners status.Listeners :=
  ⟨by decide,
    (prepareGatewayRequest_listener_statuses conditions.DeduplicateConditions
      conditions.ConvertConditions preparedGateway 0 [{ Value := "10.0.0.1" }] {}
      (by decide)).1 rfl⟩

end status

end NGF
